import Mathlib

/-!
OSDP command/reply codec of `subsys/mgmt/osdp`

A shallow embedding of the Control Panel (CP) and Peripheral Device (PD) halves of
the OSDP core (`osdp_cp.c`, `osdp_pd.c`) and theorems about their message codec.

Conventions of the embedding

* C integers are `Nat` / `Int`; a store into the `uint8_t` packet buffer keeps the
  low eight bits (`% 256`), wider unsigned fields wrap with an explicit `% 2 ^ w`.
* A packet buffer handed to a decoder is a `List Nat` read with `rd`; the bytes that
  an encoder writes at `buf + data_off` are returned as a list, the `len++` cursor
  being the length of that list.
* The build with `CONFIG_OSDP_SC_ENABLED` defined is the one embedded.
* `struct osdp_cmd` holds a C union; its members are kept side by side, so that
  reading a member never depends on the bytes of another one.
* Calls of application callbacks and of CP notifiers are recorded, in order, in a
  log that is part of the result.
-/

namespace Osdp

/-! ## Constants of `osdp_common.h` and `osdp.h` -/

/-- Modelled from the spec: command identifiers declared in `osdp_common.h`, which is
not under `src/`. The scenarios of the spec fix POLL = 0x60 and ID = 0x61; the other
values are the ones of the OSDP wire protocol. -/
@[simp] def CMD_POLL : Nat := 0x60
@[simp] def CMD_ID : Nat := 0x61
@[simp] def CMD_CAP : Nat := 0x62
@[simp] def CMD_DIAG : Nat := 0x63
@[simp] def CMD_LSTAT : Nat := 0x64
@[simp] def CMD_ISTAT : Nat := 0x65
@[simp] def CMD_OSTAT : Nat := 0x66
@[simp] def CMD_RSTAT : Nat := 0x67
@[simp] def CMD_OUT : Nat := 0x68
@[simp] def CMD_LED : Nat := 0x69
@[simp] def CMD_BUZ : Nat := 0x6A
@[simp] def CMD_TEXT : Nat := 0x6B
@[simp] def CMD_COMSET : Nat := 0x6E
@[simp] def CMD_KEYSET : Nat := 0x75
@[simp] def CMD_CHLNG : Nat := 0x76
@[simp] def CMD_SCRYPT : Nat := 0x77

/-- Modelled from the spec: reply identifiers declared in `osdp_common.h`, which is
not under `src/`. The scenarios of the spec fix ACK = 0x40, PDID = 0x45 and
COM = 0x54; the other values are the ones of the OSDP wire protocol. -/
@[simp] def REPLY_ACK : Nat := 0x40
@[simp] def REPLY_NAK : Nat := 0x41
@[simp] def REPLY_PDID : Nat := 0x45
@[simp] def REPLY_PDCAP : Nat := 0x46
@[simp] def REPLY_LSTATR : Nat := 0x48
@[simp] def REPLY_ISTATR : Nat := 0x49
@[simp] def REPLY_OSTATR : Nat := 0x4A
@[simp] def REPLY_RSTATR : Nat := 0x4B
@[simp] def REPLY_RAW : Nat := 0x50
@[simp] def REPLY_FMT : Nat := 0x51
@[simp] def REPLY_KEYPPAD : Nat := 0x53
@[simp] def REPLY_COM : Nat := 0x54
@[simp] def REPLY_CCRYPT : Nat := 0x76
@[simp] def REPLY_RMAC_I : Nat := 0x78
@[simp] def REPLY_BUSY : Nat := 0x79

/-- Modelled from the spec: NAK reason codes (`enum osdp_pd_nak_code_e` of
`osdp_common.h`, not under `src/`), numbered in the order of the OSDP protocol. -/
@[simp] def OSDP_PD_NAK_NONE : Nat := 0
@[simp] def OSDP_PD_NAK_MSG_CHK : Nat := 1
@[simp] def OSDP_PD_NAK_CMD_LEN : Nat := 2
@[simp] def OSDP_PD_NAK_CMD_UNKNOWN : Nat := 3
@[simp] def OSDP_PD_NAK_SEQ_NUM : Nat := 4
@[simp] def OSDP_PD_NAK_SC_UNSUP : Nat := 5
@[simp] def OSDP_PD_NAK_SC_COND : Nat := 6
@[simp] def OSDP_PD_NAK_RECORD : Nat := 9

/-- Modelled from the spec: capability function codes (`enum
osdp_pd_cap_function_code_e` of `osdp.h`, not under `src/`). The capability table
`pd->cap` has `OSDP_PD_CAP_SENTINEL` entries. -/
@[simp] def OSDP_PD_CAP_CONTACT_STATUS_MONITORING : Nat := 1
@[simp] def OSDP_PD_CAP_OUTPUT_CONTROL : Nat := 2
@[simp] def OSDP_PD_CAP_CARD_DATA_FORMAT : Nat := 3
@[simp] def OSDP_PD_CAP_READER_LED_CONTROL : Nat := 4
@[simp] def OSDP_PD_CAP_READER_AUDIBLE_OUTPUT : Nat := 5
@[simp] def OSDP_PD_CAP_READER_TEXT_OUTPUT : Nat := 6
@[simp] def OSDP_PD_CAP_TIME_KEEPING : Nat := 7
@[simp] def OSDP_PD_CAP_CHECK_CHARACTER_SUPPORT : Nat := 8
@[simp] def OSDP_PD_CAP_COMMUNICATION_SECURITY : Nat := 9
@[simp] def OSDP_PD_CAP_SENTINEL : Nat := 15

/-- Modelled from the spec: application command kinds (`enum osdp_cmd_e` of `osdp.h`,
not under `src/`): the tags of the command object of section 3. -/
@[simp] def OSDP_CMD_OUTPUT : Nat := 1
@[simp] def OSDP_CMD_LED : Nat := 2
@[simp] def OSDP_CMD_BUZZER : Nat := 3
@[simp] def OSDP_CMD_TEXT : Nat := 4
@[simp] def OSDP_CMD_KEYSET : Nat := 5
@[simp] def OSDP_CMD_COMSET : Nat := 6

/-- Modelled from the spec: card formats of a CARDREAD event (`osdp.h`, not under
`src/`): RAW_UNSPECIFIED, RAW_WIEGAND, ASCII. -/
@[simp] def OSDP_CARD_FMT_RAW_UNSPECIFIED : Nat := 0
@[simp] def OSDP_CARD_FMT_RAW_WIEGAND : Nat := 1
@[simp] def OSDP_CARD_FMT_ASCII : Nat := 2

/-- Modelled from the spec: the configured maximum length of a TEXT payload
(`OSDP_CMD_TEXT_MAX_LEN` of `osdp.h`, not under `src/`), "e.g. 32 bytes". -/
@[simp] def OSDP_CMD_TEXT_MAX_LEN : Nat := 32

/-- Modelled from the spec: secure-block tags `SCS_11` .. `SCS_18` of
`osdp_common.h` (not under `src/`), section 4.3. -/
@[simp] def SCS_11 : Nat := 0x11
@[simp] def SCS_12 : Nat := 0x12
@[simp] def SCS_13 : Nat := 0x13
@[simp] def SCS_14 : Nat := 0x14
@[simp] def SCS_15 : Nat := 0x15
@[simp] def SCS_16 : Nat := 0x16
@[simp] def SCS_17 : Nat := 0x17
@[simp] def SCS_18 : Nat := 0x18

/-- Modelled from the spec: the session states of the CP (`enum osdp_cp_state_e` of
`osdp_common.h`, not under `src/`), numbered in the order of section 4.5. -/
@[simp] def OSDP_CP_STATE_INIT : Nat := 0
@[simp] def OSDP_CP_STATE_IDREQ : Nat := 1
@[simp] def OSDP_CP_STATE_CAPDET : Nat := 2
@[simp] def OSDP_CP_STATE_SC_INIT : Nat := 3
@[simp] def OSDP_CP_STATE_SC_CHLNG : Nat := 4
@[simp] def OSDP_CP_STATE_SC_SCRYPT : Nat := 5
@[simp] def OSDP_CP_STATE_SET_SCBK : Nat := 6
@[simp] def OSDP_CP_STATE_ONLINE : Nat := 7
@[simp] def OSDP_CP_STATE_OFFLINE : Nat := 8

/-- Modelled from the spec: the phy states of the CP (`enum osdp_cp_phy_state_e` of
`osdp_common.h`, not under `src/`), section 4.4. `state_update` resets the phy
with `pd->phy_state = 0`, so IDLE is 0. -/
@[simp] def OSDP_CP_PHY_STATE_IDLE : Nat := 0
@[simp] def OSDP_CP_PHY_STATE_SEND_CMD : Nat := 1
@[simp] def OSDP_CP_PHY_STATE_REPLY_WAIT : Nat := 2
@[simp] def OSDP_CP_PHY_STATE_WAIT : Nat := 3
@[simp] def OSDP_CP_PHY_STATE_ERR : Nat := 4
@[simp] def OSDP_CP_PHY_STATE_ERR_WAIT : Nat := 5
@[simp] def OSDP_CP_PHY_STATE_CLEANUP : Nat := 6

/-- Modelled from the spec: the session states of the PD (`enum osdp_pd_state_e` of
`osdp_common.h`, not under `src/`), section 4.6. -/
@[simp] def OSDP_PD_STATE_IDLE : Nat := 0
@[simp] def OSDP_PD_STATE_SEND_REPLY : Nat := 1
@[simp] def OSDP_PD_STATE_ERR : Nat := 2

/-- Modelled from the spec: the tags of the event object of section 3 (`osdp.h`, not
under `src/`). -/
@[simp] def OSDP_EVENT_CARDREAD : Nat := 1
@[simp] def OSDP_EVENT_KEYPRESS : Nat := 2

/-- Modelled from the spec: the size of the receive buffer `pd->rx_buf`
(`osdp_common.h`, not under `src/`), "fixed size, typically 256 B". -/
@[simp] def OSDP_PACKET_BUF_SIZE : Int := 256

/-- Modelled from the spec: the response timeout `OSDP_RESP_TOUT_MS`
(`osdp_common.h`, not under `src/`), "default 200 ms". -/
@[simp] def OSDP_RESP_TOUT_MS : Nat := 200

/-- Modelled from the spec: the BUSY backoff that `cp_phy_state_update` names
`cp_cmd_RETRY_WAIT_MS`, an identifier that `src/` does not define; the spec documents
it as `CMD_RETRY_WAIT_MS`, "default 300 ms". -/
@[simp] def cp_cmd_RETRY_WAIT_MS : Nat := 300

/-! Lengths defined at the top of `osdp_cp.c`. -/

@[simp] def CMD_POLL_LEN : Int := 1
@[simp] def CMD_LSTAT_LEN : Int := 1
@[simp] def CMD_ISTAT_LEN : Int := 1
@[simp] def CMD_OSTAT_LEN : Int := 1
@[simp] def CMD_RSTAT_LEN : Int := 1
@[simp] def CMD_ID_LEN : Int := 2
@[simp] def CMD_CAP_LEN : Int := 2
@[simp] def CMD_DIAG_LEN : Int := 2
@[simp] def CMD_OUT_LEN : Int := 5
@[simp] def CMD_LED_LEN : Int := 15
@[simp] def CMD_BUZ_LEN : Int := 6
@[simp] def CMD_TEXT_LEN : Int := 7
@[simp] def CMD_COMSET_LEN : Int := 6
@[simp] def CMD_KEYSET_LEN : Int := 19
@[simp] def CMD_CHLNG_LEN : Int := 9
@[simp] def CMD_SCRYPT_LEN : Int := 17

@[simp] def REPLY_ACK_DATA_LEN : Int := 0
@[simp] def REPLY_PDID_DATA_LEN : Int := 12
@[simp] def REPLY_PDCAP_ENTITY_LEN : Int := 3
@[simp] def REPLY_LSTATR_DATA_LEN : Int := 2
@[simp] def REPLY_RSTATR_DATA_LEN : Int := 1
@[simp] def REPLY_COM_DATA_LEN : Int := 5
@[simp] def REPLY_NAK_DATA_LEN : Int := 1
@[simp] def REPLY_CCRYPT_DATA_LEN : Int := 32
@[simp] def REPLY_RMAC_I_DATA_LEN : Int := 16
@[simp] def REPLY_KEYPPAD_DATA_LEN : Int := 2
@[simp] def REPLY_RAW_DATA_LEN : Int := 4
@[simp] def REPLY_FMT_DATA_LEN : Int := 3
@[simp] def REPLY_BUSY_DATA_LEN : Int := 0

@[simp] def OSDP_CP_ERR_NONE : Int := 0
@[simp] def OSDP_CP_ERR_GENERIC : Int := -1
@[simp] def OSDP_CP_ERR_NO_DATA : Int := 1
@[simp] def OSDP_CP_ERR_RETRY_CMD : Int := 2
@[simp] def OSDP_CP_ERR_CAN_YIELD : Int := 3
@[simp] def OSDP_CP_ERR_INPROG : Int := 4

/-! Lengths defined at the top of `osdp_pd.c`. -/

@[simp] def CMD_POLL_DATA_LEN : Int := 0
@[simp] def CMD_LSTAT_DATA_LEN : Int := 0
@[simp] def CMD_ISTAT_DATA_LEN : Int := 0
@[simp] def CMD_OSTAT_DATA_LEN : Int := 0
@[simp] def CMD_RSTAT_DATA_LEN : Int := 0
@[simp] def CMD_ID_DATA_LEN : Int := 1
@[simp] def CMD_CAP_DATA_LEN : Int := 1
@[simp] def CMD_OUT_DATA_LEN : Int := 4
@[simp] def CMD_LED_DATA_LEN : Int := 14
@[simp] def CMD_BUZ_DATA_LEN : Int := 5
@[simp] def CMD_TEXT_DATA_LEN : Int := 6
@[simp] def CMD_COMSET_DATA_LEN : Int := 5
@[simp] def CMD_KEYSET_DATA_LEN : Int := 18
@[simp] def CMD_CHLNG_DATA_LEN : Int := 8
@[simp] def CMD_SCRYPT_DATA_LEN : Int := 16

@[simp] def REPLY_ACK_LEN : Int := 1
@[simp] def REPLY_PDID_LEN : Int := 13
@[simp] def REPLY_PDCAP_LEN : Int := 1
@[simp] def REPLY_LSTATR_LEN : Int := 3
@[simp] def REPLY_RSTATR_LEN : Int := 2
@[simp] def REPLY_COM_LEN : Int := 6
@[simp] def REPLY_NAK_LEN : Int := 2
@[simp] def REPLY_CCRYPT_LEN : Int := 33
@[simp] def REPLY_RMAC_I_LEN : Int := 17

@[simp] def OSDP_PD_ERR_NONE : Int := 0
@[simp] def OSDP_PD_ERR_NO_DATA : Int := 1
@[simp] def OSDP_PD_ERR_GENERIC : Int := -1
@[simp] def OSDP_PD_ERR_REPLY : Int := -2

/-! ## Byte helpers -/

/-- Modelled from the spec: the macro `BYTE_0` of `osdp_common.h` (not under `src/`),
the least significant byte of a word ("byte 0 = least significant"). -/
def BYTE_0 (x : Nat) : Nat := (x >>> 0) &&& 0xFF

/-- Modelled from the spec: the macro `BYTE_1` of `osdp_common.h`, bits 15..8. -/
def BYTE_1 (x : Nat) : Nat := (x >>> 8) &&& 0xFF

/-- Modelled from the spec: the macro `BYTE_2` of `osdp_common.h`, bits 23..16. -/
def BYTE_2 (x : Nat) : Nat := (x >>> 16) &&& 0xFF

/-- Modelled from the spec: the macro `BYTE_3` of `osdp_common.h`, bits 31..24. -/
def BYTE_3 (x : Nat) : Nat := (x >>> 24) &&& 0xFF

/-- A store of `x` into the `uint8_t` packet buffer. -/
def u8 (x : Nat) : Nat := x % 256

/-- A store of `x` into a `uint16_t` field. -/
def u16 (x : Nat) : Nat := x % 65536

/-- A store of `x` into a `uint32_t` field. -/
def u32 (x : Nat) : Nat := x % 4294967296

/-- The read `buf[i]` of a packet buffer. -/
def rd (buf : List Nat) (i : Nat) : Nat := buf.getD i 0

/-- The reads `buf[pos], .., buf[pos + n - 1]` of a copy loop. -/
def rd_n (buf : List Nat) (pos n : Nat) : List Nat :=
  (List.range n).map (fun i => rd buf (pos + i))

/-! ## Data model -/

/-- The identity of a PD, `struct osdp_pd_id`. -/
structure osdp_pd_id where
  version : Nat := 0
  model : Nat := 0
  vendor_code : Nat := 0
  serial_number : Nat := 0
  firmware_version : Nat := 0
deriving DecidableEq, Repr

/-- An entry of the capability table, `struct osdp_pd_cap`. -/
structure osdp_pd_cap where
  function_code : Nat := 0
  compliance_level : Nat := 0
  num_items : Nat := 0
deriving DecidableEq, Repr

/-- The payload of an OUTPUT command, `struct osdp_cmd_output`. -/
structure osdp_cmd_output where
  output_no : Nat := 0
  control_code : Nat := 0
  timer_count : Nat := 0
deriving DecidableEq, Repr

/-- One parameter block of a LED command, `struct osdp_cmd_led_params`. -/
structure osdp_cmd_led_params where
  control_code : Nat := 0
  on_count : Nat := 0
  off_count : Nat := 0
  on_color : Nat := 0
  off_color : Nat := 0
  timer_count : Nat := 0
deriving DecidableEq, Repr

/-- The payload of a LED command, `struct osdp_cmd_led`. -/
structure osdp_cmd_led where
  reader : Nat := 0
  led_number : Nat := 0
  temporary : osdp_cmd_led_params := {}
  permanent : osdp_cmd_led_params := {}
deriving DecidableEq, Repr

/-- The payload of a BUZZER command, `struct osdp_cmd_buzzer`. -/
structure osdp_cmd_buzzer where
  reader : Nat := 0
  control_code : Nat := 0
  on_count : Nat := 0
  off_count : Nat := 0
  rep_count : Nat := 0
deriving DecidableEq, Repr

/-- The payload of a TEXT command, `struct osdp_cmd_text`; `data` is the array
`data[OSDP_CMD_TEXT_MAX_LEN]`, read with `rd`. -/
structure osdp_cmd_text where
  reader : Nat := 0
  control_code : Nat := 0
  temp_time : Nat := 0
  offset_row : Nat := 0
  offset_col : Nat := 0
  length : Nat := 0
  data : List Nat := []
deriving DecidableEq, Repr

/-- The payload of a COMSET command, `struct osdp_cmd_comset`: a `uint8_t` address
and a `uint32_t` baud rate. -/
structure osdp_cmd_comset where
  address : Nat := 0
  baud_rate : Nat := 0
deriving DecidableEq, Repr

/-- The payload of a KEYSET command, `struct osdp_cmd_keyset`. -/
structure osdp_cmd_keyset where
  type : Nat := 0
  length : Nat := 0
  data : List Nat := []
deriving DecidableEq, Repr

/-- The command object `struct osdp_cmd`: the tag `id` and the members of its union,
kept side by side. -/
structure osdp_cmd where
  id : Nat := 0
  output : osdp_cmd_output := {}
  led : osdp_cmd_led := {}
  buzzer : osdp_cmd_buzzer := {}
  text : osdp_cmd_text := {}
  comset : osdp_cmd_comset := {}
  keyset : osdp_cmd_keyset := {}
deriving DecidableEq, Repr

/-- The session flags of a PD context. The C code keeps them as bits of `pd->flags`
and reads them with `ISSET_FLAG`, which yields 0 or 1. -/
structure osdp_pd_flags where
  PD_MODE : Bool := false
  SC_CAPABLE : Bool := false
  SC_ACTIVE : Bool := false
  SC_USE_SCBKD : Bool := false
  SC_SCBKD_DONE : Bool := false
  INSTALL_MODE : Bool := false
  AWAIT_RESP : Bool := false
  TAMPER : Bool := false
  POWER : Bool := false
  R_TAMPER : Bool := false
deriving DecidableEq, Repr

/-- The value of `ISSET_FLAG(pd, f)` as an integer. -/
def flag_val (b : Bool) : Nat := if b then 1 else 0

/-- The secure channel substate `pd->sc`. -/
structure osdp_sc where
  cp_random : List Nat := []
  pd_random : List Nat := []
  pd_client_uid : List Nat := []
  cp_cryptogram : List Nat := []
  pd_cryptogram : List Nat := []
  r_mac : List Nat := []
  s_enc : List Nat := []
  s_mac1 : List Nat := []
  s_mac2 : List Nat := []
  scbk : List Nat := []
deriving DecidableEq, Repr

/-- Modelled from the spec: the CARDREAD member of the event object of section 3
(`osdp.h`, not under `src/`): a format tag, a length and data. -/
structure osdp_event_cardread where
  format : Nat := 0
  length : Nat := 0
  data : List Nat := []
deriving DecidableEq, Repr

/-- Modelled from the spec: the KEYPRESS member of the event object of section 3
(`osdp.h`, not under `src/`). -/
structure osdp_event_keypress where
  length : Nat := 0
  data : List Nat := []
deriving DecidableEq, Repr

/-- Modelled from the spec: the event object of section 3 (`struct osdp_event` of
`osdp.h`, not under `src/`), a tag and the members of its union, kept side by
side. -/
structure osdp_event where
  type : Nat := 0
  cardread : osdp_event_cardread := {}
  keypress : osdp_event_keypress := {}
deriving DecidableEq, Repr

/-- The PD context `struct osdp_pd`, as far as the core reads and writes it.

* `cap` is the table `pd->cap[]` indexed by function code. The C array has
  `OSDP_PD_CAP_SENTINEL` entries; a store at a larger index is kept in the map, so
  that it stays observable.
* `cmd_data` is the staged command (`pd->cmd_data` read as a `struct osdp_cmd`) and
  `cmd_data_0` the byte `pd->cmd_data[0]` that carries a NAK reason; the overlap of
  the two views in memory is not part of the model.
* `ephemeral_data_0` is the byte `pd->ephemeral_data[0]`.
* `cmd_queue` is the command queue `pd->cmd.queue`, head first.
* `command_callback` is the application callback (`none` for a NULL pointer). It is
  taken to return its result without changing the command it is handed;
  `cb_log` lists the commands it was called with, oldest first.
* `state` is the session state (a CP state on the CP, a PD state on the PD) and
  `phy_state` the phy state of the CP.
* `rx_buf` is the receive buffer and `rx_buf_len` its fill length.
* `cmd_slab_free` is the number of free blocks of the pool `pd->cmd.slab` that backs
  the command queue; `event_queue` is the event queue `pd->event.queue`, head
  first.
* `tstamp`, `phy_tstamp` and `sc_tstamp` are the three timers and `seq_number` the
  sequence number of the packet layer. -/
structure osdp_pd where
  offset : Nat := 0
  address : Nat := 0
  baud_rate : Nat := 0
  flags : osdp_pd_flags := {}
  id : osdp_pd_id := {}
  cap : Nat → osdp_pd_cap := fun _ => {}
  cmd_id : Nat := 0
  reply_id : Nat := 0
  cmd_data : osdp_cmd := {}
  cmd_data_0 : Nat := 0
  ephemeral_data_0 : Nat := 0
  cmd_queue : List osdp_cmd := []
  sc : osdp_sc := {}
  command_callback : Option (osdp_cmd → Int) := none
  cb_log : List osdp_cmd := []
  state : Nat := 0
  phy_state : Nat := 0
  tstamp : Nat := 0
  phy_tstamp : Nat := 0
  rx_buf : List Nat := []
  rx_buf_len : Nat := 0
  cmd_slab_free : Nat := 0
  event_queue : List osdp_event := []
  sc_tstamp : Nat := 0
  seq_number : Int := 0

/-- The secure block of a packet, the three bytes `smb[0]`, `smb[1]`, `smb[2]`. -/
structure osdp_smb where
  b0 : Nat := 0
  b1 : Nat := 0
  b2 : Nat := 0
deriving DecidableEq, Repr

/-- The secure-channel helper of section 4.3 of the spec, an external collaborator
of the core: every operation reads the PD context and returns what it computes. -/
structure osdp_sc_ops where
  osdp_sc_init : osdp_pd → osdp_sc
  osdp_fill_random : Nat → List Nat
  osdp_compute_scbk : osdp_pd → List Nat
  osdp_compute_session_keys : osdp_pd → osdp_sc
  osdp_compute_cp_cryptogram : osdp_pd → osdp_sc
  osdp_verify_pd_cryptogram : osdp_pd → Int
  osdp_compute_pd_cryptogram : osdp_pd → osdp_sc
  osdp_verify_cp_cryptogram : osdp_pd → Int
  osdp_compute_rmac_i : osdp_pd → osdp_sc

/-- The notifier table `cp->notifier` of the CP context: whether a key-press and a
card-read notifier are registered (a NULL pointer otherwise). -/
structure osdp_cp where
  keypress : Bool := false
  cardread : Bool := false
deriving DecidableEq, Repr

/-- A call of a CP notifier: `keypress(address, key)` or
`cardread(address, format, data, len)`, `data` being the `len` bytes at the pointer
the notifier is handed. -/
inductive cp_notification where
  | keypress (address : Nat) (key : Nat)
  | cardread (address : Nat) (format : Nat) (data : List Nat) (len : Nat)
deriving DecidableEq, Repr

/-- What an encoder leaves behind: its return value, the bytes written from
`buf + data_off` on, the secure block and the PD context. -/
structure build_result where
  ret : Int
  out : List Nat
  smb : Option osdp_smb
  pd : osdp_pd

/-- What `cp_decode_response` leaves behind: its return value, the PD context and the
notifier calls it made, oldest first. -/
structure cp_decode_result where
  ret : Int
  pd : osdp_pd
  notified : List cp_notification

/-- What `pd_decode_command` leaves behind: its return value, the PD context and the
read cursor `pos` at exit. -/
structure pd_decode_result where
  ret : Int
  pd : osdp_pd
  pos : Nat

/-- How control leaves the `switch` of a codec function: by `return` (the function
is over) or by `break` (the code after the switch still runs). -/
inductive flow (α : Type) where
  | returned : α → flow α
  | broke : α → flow α

/-! ## PD side: `pd_build_reply` (`osdp_pd.c`) -/

/-- Modelled from the spec: `osdp_cmd_get_last` (declared in `osdp_common.h`, not
under `src/`), the `peek_tail` of the command queue of section 4.1: the command at
the tail of the queue, NULL (`none`) when the queue is empty. -/
def osdp_cmd_get_last (pd : osdp_pd) : Option osdp_cmd := pd.cmd_queue.getLast?

/-- The running state of an encoder inside its `switch`: `ret`, the bytes written so
far (`len` is their number), the secure block and the PD context. -/
structure build_state where
  ret : Int
  out : List Nat
  smb : Option osdp_smb
  pd : osdp_pd

/-- The loop of the `REPLY_PDCAP` case over the function codes `is`: an entry whose
`function_code` is not its index is skipped, the loop stops when `max_len` is below
one entity, and each entity written lowers `max_len` by three. -/
def pd_build_reply_pdcap (cap : Nat → osdp_pd_cap) :
    List Nat → Int → List Nat → List Nat
  | [], _, out => out
  | i :: is, max_len, out =>
    if (cap i).function_code ≠ i then pd_build_reply_pdcap cap is max_len out
    else if max_len < REPLY_PDCAP_ENTITY_LEN then out
    else pd_build_reply_pdcap cap is (max_len - REPLY_PDCAP_ENTITY_LEN)
      (out ++ [u8 i, u8 (cap i).compliance_level, u8 (cap i).num_items])

/-- The `switch (pd->reply_id)` of `pd_build_reply`; `max_len` is the room left
after the header. `returned` stands for the `return OSDP_PD_ERR_GENERIC` of
`ASSERT_BUF_LEN`. -/
def pd_build_reply_switch (ops : osdp_sc_ops) (pd : osdp_pd) (smb : Option osdp_smb)
    (max_len : Int) : flow build_state :=
  let st : build_state := { ret := -1, out := [], smb := smb, pd := pd }
  if pd.reply_id = REPLY_ACK then
    if max_len < REPLY_ACK_LEN then .returned st
    else .broke { st with out := [u8 pd.reply_id], ret := OSDP_PD_ERR_NONE }
  else if pd.reply_id = REPLY_PDID then
    if max_len < REPLY_PDID_LEN then .returned st
    else .broke { st with
      out := [u8 pd.reply_id,
              BYTE_0 pd.id.vendor_code, BYTE_1 pd.id.vendor_code, BYTE_2 pd.id.vendor_code,
              u8 pd.id.model, u8 pd.id.version,
              BYTE_0 pd.id.serial_number, BYTE_1 pd.id.serial_number,
              BYTE_2 pd.id.serial_number, BYTE_3 pd.id.serial_number,
              BYTE_3 pd.id.firmware_version, BYTE_2 pd.id.firmware_version,
              BYTE_1 pd.id.firmware_version],
      ret := OSDP_PD_ERR_NONE }
  else if pd.reply_id = REPLY_PDCAP then
    if max_len < REPLY_PDCAP_LEN then .returned st
    else .broke { st with
      out := pd_build_reply_pdcap pd.cap (List.range OSDP_PD_CAP_SENTINEL) max_len
        [u8 pd.reply_id],
      ret := OSDP_PD_ERR_NONE }
  else if pd.reply_id = REPLY_LSTATR then
    if max_len < REPLY_LSTATR_LEN then .returned st
    else .broke { st with
      out := [u8 pd.reply_id, flag_val pd.flags.TAMPER, flag_val pd.flags.POWER],
      ret := OSDP_PD_ERR_NONE }
  else if pd.reply_id = REPLY_RSTATR then
    if max_len < REPLY_RSTATR_LEN then .returned st
    else .broke { st with
      out := [u8 pd.reply_id, flag_val pd.flags.R_TAMPER],
      ret := OSDP_PD_ERR_NONE }
  else if pd.reply_id = REPLY_COM then
    if max_len < REPLY_COM_LEN then .returned st
    else
      match osdp_cmd_get_last pd with
      | none => .broke st
      | some cmd =>
        if cmd.id ≠ OSDP_CMD_COMSET then .broke st
        else .broke { st with
          out := [u8 pd.reply_id, u8 cmd.comset.address,
                  BYTE_0 cmd.comset.baud_rate, BYTE_1 cmd.comset.baud_rate,
                  BYTE_2 cmd.comset.baud_rate, BYTE_3 cmd.comset.baud_rate],
          pd := { pd with address := cmd.comset.address, baud_rate := cmd.comset.baud_rate },
          ret := OSDP_PD_ERR_NONE }
  else if pd.reply_id = REPLY_NAK then
    if max_len < REPLY_NAK_LEN then .returned st
    else .broke { st with out := [u8 pd.reply_id, u8 pd.cmd_data_0], ret := OSDP_PD_ERR_NONE }
  else if pd.reply_id = REPLY_CCRYPT then
    match smb with
    | none => .broke st
    | some _ =>
      if max_len < REPLY_CCRYPT_LEN then .returned st
      else
        let pd1 := { pd with sc := { pd.sc with pd_random := ops.osdp_fill_random 8 } }
        let pd2 := { pd1 with sc := ops.osdp_compute_session_keys pd1 }
        let pd3 := { pd2 with sc := ops.osdp_compute_pd_cryptogram pd2 }
        .broke { st with
          out := [u8 pd3.reply_id] ++ (rd_n pd3.sc.pd_client_uid 0 8).map u8
            ++ (rd_n pd3.sc.pd_random 0 8).map u8 ++ (rd_n pd3.sc.pd_cryptogram 0 16).map u8,
          smb := some { b0 := 3, b1 := SCS_12, b2 := if pd3.flags.SC_USE_SCBKD then 0 else 1 },
          pd := pd3,
          ret := OSDP_PD_ERR_NONE }
  else if pd.reply_id = REPLY_RMAC_I then
    match smb with
    | none => .broke st
    | some _ =>
      if max_len < REPLY_RMAC_I_LEN then .returned st
      else
        let pd1 := { pd with sc := ops.osdp_compute_rmac_i pd }
        let ok : Bool := ops.osdp_verify_cp_cryptogram pd1 = 0
        .broke { st with
          out := [u8 pd1.reply_id] ++ (rd_n pd1.sc.r_mac 0 16).map u8,
          smb := some { b0 := 3, b1 := SCS_14, b2 := if ok then 1 else 0 },
          pd := if ok then { pd1 with flags := { pd1.flags with SC_ACTIVE := true } } else pd1,
          ret := OSDP_PD_ERR_NONE }
  else .broke st

/-- The secure-block rewrite after the `switch` of `pd_build_reply`: with SC active
and a tag above `SCS_14` the block becomes `SCS_18` (data bytes) or `SCS_16`. -/
def pd_build_reply_smb (st : build_state) : Option osdp_smb :=
  match st.smb with
  | none => none
  | some s =>
    if s.b1 > SCS_14 ∧ st.pd.flags.SC_ACTIVE = true then
      some { s with b0 := 2, b1 := if (st.out.length : Int) > 1 then SCS_18 else SCS_16 }
    else some s

/-- The function `pd_build_reply(pd, buf, max_len)`. `data_off` and `smb` are what
the packet layer answers to `osdp_phy_packet_get_data_offset` and
`osdp_phy_packet_get_smb`. The return value is the length of the reply or a negative
error. -/
def pd_build_reply (ops : osdp_sc_ops) (pd : osdp_pd) (data_off : Int)
    (smb : Option osdp_smb) (max_len : Int) : build_result :=
  let max_len := max_len - data_off
  match pd_build_reply_switch ops pd smb max_len with
  | .returned st => { ret := OSDP_PD_ERR_GENERIC, out := st.out, smb := st.smb, pd := st.pd }
  | .broke st =>
    let smb1 := pd_build_reply_smb st
    if st.ret ≠ 0 then
      if max_len < REPLY_NAK_LEN then
        { ret := OSDP_PD_ERR_GENERIC, out := st.out, smb := smb1, pd := st.pd }
      else
        { ret := 2, out := [REPLY_NAK, OSDP_PD_NAK_RECORD], smb := smb1, pd := st.pd }
    else { ret := st.out.length, out := st.out, smb := smb1, pd := st.pd }

/-! ## CP side: `cp_decode_response` (`osdp_cp.c`) -/

/-- The `while (pos < len)` loop of the `REPLY_PDCAP` case. Every turn reads the
function code `t1`, leaves the loop when `t1 > OSDP_PD_CAP_SENTINEL`, and otherwise
stores the triple at `cap[t1]`. A turn moves `pos` forward, so `fuel` turns are
enough as soon as `fuel` is at least `len - pos`. -/
def cp_decode_pdcap (buf : List Nat) (len : Int) :
    Nat → Nat → (Nat → osdp_pd_cap) → (Nat → osdp_pd_cap)
  | 0, _, cap => cap
  | fuel + 1, pos, cap =>
    if (pos : Int) < len then
      let t1 := rd buf pos
      if t1 > OSDP_PD_CAP_SENTINEL then cap
      else
        cp_decode_pdcap buf len fuel (pos + 3)
          (fun fc => if fc = t1 then
            { function_code := t1, compliance_level := rd buf (pos + 1),
              num_items := rd buf (pos + 2) }
          else cap fc)
    else cap

/-- The `switch (pd->reply_id)` of `cp_decode_response`, entered with `pos = 1` and
with `len` already lowered by one. `returned` stands for a `return` inside the
switch, `broke` for falling out of it with the value of `ret`. -/
def cp_decode_response_switch (ops : osdp_sc_ops) (cp : osdp_cp) (pd : osdp_pd)
    (buf : List Nat) (len : Int) : flow cp_decode_result :=
  let pos : Nat := 1
  let err : cp_decode_result := { ret := OSDP_CP_ERR_GENERIC, pd := pd, notified := [] }
  let ok : cp_decode_result := { ret := OSDP_CP_ERR_NONE, pd := pd, notified := [] }
  if pd.reply_id = REPLY_ACK then
    if len ≠ REPLY_ACK_DATA_LEN then .returned err else .broke ok
  else if pd.reply_id = REPLY_NAK then
    if len ≠ REPLY_NAK_DATA_LEN then .returned err else .broke ok
  else if pd.reply_id = REPLY_PDID then
    if len ≠ REPLY_PDID_DATA_LEN then .returned err
    else
      let vendor_code :=
        u32 (u32 (u32 (rd buf pos) ||| (rd buf (pos + 1) <<< 8)) ||| (rd buf (pos + 2) <<< 16))
      let serial_number :=
        u32 (u32 (u32 (u32 (rd buf (pos + 5)) ||| (rd buf (pos + 6) <<< 8))
          ||| (rd buf (pos + 7) <<< 16)) ||| (rd buf (pos + 8) <<< 24))
      let firmware_version :=
        u32 (u32 (u32 (rd buf (pos + 9) <<< 16) ||| (rd buf (pos + 10) <<< 8))
          ||| rd buf (pos + 11))
      .broke { ok with pd := { pd with id :=
        { vendor_code := vendor_code, model := rd buf (pos + 3), version := rd buf (pos + 4),
          serial_number := serial_number, firmware_version := firmware_version } } }
  else if pd.reply_id = REPLY_PDCAP then
    if len % REPLY_PDCAP_ENTITY_LEN ≠ 0 then .returned err
    else
      let cap := cp_decode_pdcap buf len len.toNat pos pd.cap
      let t2 := OSDP_PD_CAP_COMMUNICATION_SECURITY
      let sc_capable : Bool := (cap t2).compliance_level &&& 0x01 ≠ 0
      .broke { ok with pd := { pd with
        cap := cap,
        flags := { pd.flags with SC_CAPABLE := sc_capable } } }
  else if pd.reply_id = REPLY_LSTATR then
    if len ≠ REPLY_LSTATR_DATA_LEN then .returned err
    else
      let tamper : Bool := rd buf pos ≠ 0
      let power : Bool := rd buf (pos + 1) ≠ 0
      .broke { ok with pd := { pd with flags := { pd.flags with TAMPER := tamper, POWER := power } } }
  else if pd.reply_id = REPLY_RSTATR then
    if len ≠ REPLY_RSTATR_DATA_LEN then .returned err
    else
      let r_tamper : Bool := rd buf pos ≠ 0
      .broke { ok with pd := { pd with flags := { pd.flags with R_TAMPER := r_tamper } } }
  else if pd.reply_id = REPLY_COM then
    if len ≠ REPLY_COM_DATA_LEN then .returned err
    else
      let t1 := rd buf pos
      let temp32 :=
        u32 (u32 (u32 (u32 (rd buf (pos + 1)) ||| (rd buf (pos + 2) <<< 8))
          ||| (rd buf (pos + 3) <<< 16)) ||| (rd buf (pos + 4) <<< 24))
      .broke { ok with pd := { pd with address := t1, baud_rate := temp32 } }
  else if pd.reply_id = REPLY_KEYPPAD then
    if len < REPLY_KEYPPAD_DATA_LEN then .broke err
    else
      let t1 := rd buf (pos + 1)
      if len - REPLY_KEYPPAD_DATA_LEN ≠ (t1 : Int) then .broke err
      else
        .broke { ok with notified :=
          if cp.keypress then
            (List.range t1).map (fun i => cp_notification.keypress pd.offset (rd buf (pos + 2 + i)))
          else [] }
  else if pd.reply_id = REPLY_RAW then
    if len < REPLY_RAW_DATA_LEN then .broke err
    else
      let t1 := rd buf (pos + 1)
      let t2 := rd buf (pos + 2) ||| (rd buf (pos + 3) <<< 8)
      if len - REPLY_RAW_DATA_LEN ≠ (t2 : Int) then .broke err
      else
        .broke { ok with notified :=
          if cp.cardread then
            [cp_notification.cardread pd.offset t1 ((buf.drop (pos + 4)).take t2) t2]
          else [] }
  else if pd.reply_id = REPLY_FMT then
    if len < REPLY_FMT_DATA_LEN then .broke err
    else
      let t1 := rd buf (pos + 2)
      if len - REPLY_FMT_DATA_LEN ≠ (t1 : Int) then .broke err
      else
        .broke { ok with notified :=
          if cp.cardread then
            [cp_notification.cardread pd.offset OSDP_CARD_FMT_ASCII
              ((buf.drop (pos + 3)).take t1) t1]
          else [] }
  else if pd.reply_id = REPLY_BUSY then
    if len ≠ REPLY_BUSY_DATA_LEN then .returned err
    else .broke { ok with ret := OSDP_CP_ERR_RETRY_CMD }
  else if pd.reply_id = REPLY_CCRYPT then
    if len ≠ REPLY_CCRYPT_DATA_LEN then .broke err
    else
      let pd1 := { pd with sc := { pd.sc with
        pd_client_uid := rd_n buf pos 8,
        pd_random := rd_n buf (pos + 8) 8,
        pd_cryptogram := rd_n buf (pos + 16) 16 } }
      let pd2 := { pd1 with sc := ops.osdp_compute_session_keys pd1 }
      if ops.osdp_verify_pd_cryptogram pd2 ≠ 0 then .returned { err with pd := pd2 }
      else .broke { ok with pd := pd2 }
  else if pd.reply_id = REPLY_RMAC_I then
    if len ≠ REPLY_RMAC_I_DATA_LEN then .returned err
    else
      .broke { ok with pd := { pd with
        sc := { pd.sc with r_mac := rd_n buf pos 16 },
        flags := { pd.flags with SC_ACTIVE := true } } }
  else .returned err

/-- The function `cp_decode_response(pd, buf, len)`; `cp` is the CP context reached
through `TO_CTX(pd)->cp`. It returns `OSDP_CP_ERR_NONE`, `OSDP_CP_ERR_RETRY_CMD` or
`OSDP_CP_ERR_GENERIC`. -/
def cp_decode_response (ops : osdp_sc_ops) (cp : osdp_cp) (pd : osdp_pd)
    (buf : List Nat) (len : Int) : cp_decode_result :=
  let pd := { pd with reply_id := rd buf 0 }
  let len := len - 1
  match cp_decode_response_switch ops cp pd buf len with
  | .returned r => r
  | .broke r =>
    if r.ret = OSDP_CP_ERR_GENERIC then { r with ret := OSDP_CP_ERR_GENERIC }
    else r

/-! ## CP side: `cp_build_command` (`osdp_cp.c`) -/

/-- The `switch (pd->cmd_id)` of `cp_build_command`; `max_len` is the room left after
the header and `cmd` the staged command `pd->cmd_data`. `returned` stands for a
`return` of a negative error inside the switch (`ASSERT_BUF_LEN`, KEYSET without
SC, the `default` case). -/
def cp_build_command_switch (ops : osdp_sc_ops) (pd : osdp_pd) (smb : Option osdp_smb)
    (max_len : Int) : flow build_state :=
  let st : build_state := { ret := -1, out := [], smb := smb, pd := pd }
  let cmd := pd.cmd_data
  if pd.cmd_id = CMD_POLL then
    if max_len < CMD_POLL_LEN then .returned st
    else .broke { st with out := [u8 pd.cmd_id], ret := 0 }
  else if pd.cmd_id = CMD_LSTAT then
    if max_len < CMD_LSTAT_LEN then .returned st
    else .broke { st with out := [u8 pd.cmd_id], ret := 0 }
  else if pd.cmd_id = CMD_ISTAT then
    if max_len < CMD_ISTAT_LEN then .returned st
    else .broke { st with out := [u8 pd.cmd_id], ret := 0 }
  else if pd.cmd_id = CMD_OSTAT then
    if max_len < CMD_OSTAT_LEN then .returned st
    else .broke { st with out := [u8 pd.cmd_id], ret := 0 }
  else if pd.cmd_id = CMD_RSTAT then
    if max_len < CMD_RSTAT_LEN then .returned st
    else .broke { st with out := [u8 pd.cmd_id], ret := 0 }
  else if pd.cmd_id = CMD_ID then
    if max_len < CMD_ID_LEN then .returned st
    else .broke { st with out := [u8 pd.cmd_id, 0x00], ret := 0 }
  else if pd.cmd_id = CMD_CAP then
    if max_len < CMD_CAP_LEN then .returned st
    else .broke { st with out := [u8 pd.cmd_id, 0x00], ret := 0 }
  else if pd.cmd_id = CMD_DIAG then
    if max_len < CMD_DIAG_LEN then .returned st
    else .broke { st with out := [u8 pd.cmd_id, 0x00], ret := 0 }
  else if pd.cmd_id = CMD_OUT then
    if max_len < CMD_OUT_LEN then .returned st
    else .broke { st with
      out := [u8 pd.cmd_id, u8 cmd.output.output_no, u8 cmd.output.control_code,
              BYTE_0 cmd.output.timer_count, BYTE_1 cmd.output.timer_count],
      ret := 0 }
  else if pd.cmd_id = CMD_LED then
    if max_len < CMD_LED_LEN then .returned st
    else .broke { st with
      out := [u8 pd.cmd_id, u8 cmd.led.reader, u8 cmd.led.led_number,
              u8 cmd.led.temporary.control_code, u8 cmd.led.temporary.on_count,
              u8 cmd.led.temporary.off_count, u8 cmd.led.temporary.on_color,
              u8 cmd.led.temporary.off_color,
              BYTE_0 cmd.led.temporary.timer_count, BYTE_1 cmd.led.temporary.timer_count,
              u8 cmd.led.permanent.control_code, u8 cmd.led.permanent.on_count,
              u8 cmd.led.permanent.off_count, u8 cmd.led.permanent.on_color,
              u8 cmd.led.permanent.off_color],
      ret := 0 }
  else if pd.cmd_id = CMD_BUZ then
    if max_len < CMD_BUZ_LEN then .returned st
    else .broke { st with
      out := [u8 pd.cmd_id, u8 cmd.buzzer.reader, u8 cmd.buzzer.control_code,
              u8 cmd.buzzer.on_count, u8 cmd.buzzer.off_count, u8 cmd.buzzer.rep_count],
      ret := 0 }
  else if pd.cmd_id = CMD_TEXT then
    if max_len < CMD_TEXT_LEN + (cmd.text.length : Int) then .returned st
    else .broke { st with
      out := [u8 pd.cmd_id, u8 cmd.text.reader, u8 cmd.text.control_code,
              u8 cmd.text.temp_time, u8 cmd.text.offset_row, u8 cmd.text.offset_col,
              u8 cmd.text.length] ++ (rd_n cmd.text.data 0 cmd.text.length).map u8,
      ret := 0 }
  else if pd.cmd_id = CMD_COMSET then
    if max_len < CMD_COMSET_LEN then .returned st
    else .broke { st with
      out := [u8 pd.cmd_id, u8 cmd.comset.address,
              BYTE_0 cmd.comset.baud_rate, BYTE_1 cmd.comset.baud_rate,
              BYTE_2 cmd.comset.baud_rate, BYTE_3 cmd.comset.baud_rate],
      ret := 0 }
  else if pd.cmd_id = CMD_KEYSET then
    if pd.flags.SC_ACTIVE = false then .returned st
    else if max_len < CMD_KEYSET_LEN then .returned st
    else .broke { st with
      out := [u8 pd.cmd_id, 1, 16] ++ (rd_n (ops.osdp_compute_scbk pd) 0 16).map u8,
      ret := 0 }
  else if pd.cmd_id = CMD_CHLNG then
    if max_len < CMD_CHLNG_LEN then .returned st
    else
      match smb with
      | none => .broke st
      | some _ =>
        let pd1 := { pd with sc := { pd.sc with cp_random := ops.osdp_fill_random 8 } }
        .broke { st with
          out := [u8 pd1.cmd_id] ++ (rd_n pd1.sc.cp_random 0 8).map u8,
          smb := some { b0 := 3, b1 := SCS_11, b2 := if pd1.flags.SC_USE_SCBKD then 0 else 1 },
          pd := pd1,
          ret := 0 }
  else if pd.cmd_id = CMD_SCRYPT then
    if max_len < CMD_SCRYPT_LEN then .returned st
    else
      match smb with
      | none => .broke st
      | some _ =>
        let pd1 := { pd with sc := ops.osdp_compute_cp_cryptogram pd }
        .broke { st with
          out := [u8 pd1.cmd_id] ++ (rd_n pd1.sc.cp_cryptogram 0 16).map u8,
          smb := some { b0 := 3, b1 := SCS_13, b2 := if pd1.flags.SC_USE_SCBKD then 0 else 1 },
          pd := pd1,
          ret := 0 }
  else .returned st

/-- The secure-block rewrite after the `switch` of `cp_build_command`: with SC active
and a tag above `SCS_14` the block becomes `SCS_17` (data bytes) or `SCS_15`. -/
def cp_build_command_smb (st : build_state) : Option osdp_smb :=
  match st.smb with
  | none => none
  | some s =>
    if s.b1 > SCS_14 ∧ st.pd.flags.SC_ACTIVE = true then
      some { s with b0 := 2, b1 := if (st.out.length : Int) > 1 then SCS_17 else SCS_15 }
    else some s

/-- The function `cp_build_command(pd, buf, max_len)`. `data_off` and `smb` are what
the packet layer answers to `osdp_phy_packet_get_data_offset` and
`osdp_phy_packet_get_smb`. The return value is the length of the command or
`OSDP_CP_ERR_GENERIC`. -/
def cp_build_command (ops : osdp_sc_ops) (pd : osdp_pd) (data_off : Int)
    (smb : Option osdp_smb) (max_len : Int) : build_result :=
  let max_len := max_len - data_off
  match cp_build_command_switch ops pd smb max_len with
  | .returned st => { ret := OSDP_CP_ERR_GENERIC, out := st.out, smb := st.smb, pd := st.pd }
  | .broke st =>
    let smb1 := cp_build_command_smb st
    if st.ret < 0 then { ret := OSDP_CP_ERR_GENERIC, out := st.out, smb := smb1, pd := st.pd }
    else { ret := st.out.length, out := st.out, smb := smb1, pd := st.pd }

/-! ## PD side: `pd_cmd_cap_ok` and `pd_decode_command` (`osdp_pd.c`) -/

/-- The function `pd_cmd_cap_ok(pd, cmd)`: its return value and the PD context it
leaves. A NULL `cmd` is passed only for command ids whose case does not read it;
the callers of the model pass the empty command there. -/
def pd_cmd_cap_ok (pd : osdp_pd) (cmd : osdp_cmd) : Int × osdp_pd :=
  let unknown : Int × osdp_pd :=
    (0, { pd with reply_id := REPLY_NAK, ephemeral_data_0 := OSDP_PD_NAK_CMD_UNKNOWN })
  if pd.cmd_id = CMD_ISTAT then
    let cap := pd.cap OSDP_PD_CAP_CONTACT_STATUS_MONITORING
    if cap.num_items = 0 ∨ cap.compliance_level = 0 then unknown else (0, pd)
  else if pd.cmd_id = CMD_OSTAT then
    let cap := pd.cap OSDP_PD_CAP_OUTPUT_CONTROL
    if cap.num_items = 0 ∨ cap.compliance_level = 0 then unknown else (0, pd)
  else if pd.cmd_id = CMD_OUT then
    let cap := pd.cap OSDP_PD_CAP_OUTPUT_CONTROL
    if cmd.output.output_no + 1 > cap.num_items then unknown
    else if cap.compliance_level = 0 then unknown
    else (1, pd)
  else if pd.cmd_id = CMD_LED then
    let cap := pd.cap OSDP_PD_CAP_READER_LED_CONTROL
    if cmd.led.led_number + 1 > cap.num_items then unknown
    else if cap.compliance_level = 0 then unknown
    else (1, pd)
  else if pd.cmd_id = CMD_BUZ then
    let cap := pd.cap OSDP_PD_CAP_READER_AUDIBLE_OUTPUT
    if cap.num_items = 0 ∨ cap.compliance_level = 0 then unknown else (1, pd)
  else if pd.cmd_id = CMD_TEXT then
    let cap := pd.cap OSDP_PD_CAP_READER_TEXT_OUTPUT
    if cap.num_items = 0 ∨ cap.compliance_level = 0 then unknown else (1, pd)
  else if pd.cmd_id = CMD_CHLNG ∨ pd.cmd_id = CMD_SCRYPT ∨ pd.cmd_id = CMD_KEYSET then
    let cap := pd.cap OSDP_PD_CAP_COMMUNICATION_SECURITY
    if cap.compliance_level = 0 then
      (0, { pd with reply_id := REPLY_NAK, ephemeral_data_0 := OSDP_PD_NAK_SC_UNSUP })
    else (1, pd)
  else unknown

/-- The call `pd->command_callback(pd->command_callback_arg, &cmd)`: the value the
callback returns and the PD context with the call logged; `none` when the pointer
is NULL and the call cannot be made. -/
def pd_command_callback (pd : osdp_pd) (cmd : osdp_cmd) : Option (Int × osdp_pd) :=
  match pd.command_callback with
  | none => none
  | some cb => some (cb cmd, { pd with cb_log := pd.cb_log ++ [cmd] })

/-- The lines shared by the OUT, LED, BUZ, TEXT and COMSET cases once the callback
has returned a non-zero value: reply NAK with reason RECORD, `ret` set to
`OSDP_PD_ERR_REPLY`, `break`. -/
def pd_nak_record (pd : osdp_pd) (pos : Nat) : flow pd_decode_result :=
  .broke { ret := OSDP_PD_ERR_REPLY,
           pd := { pd with reply_id := REPLY_NAK, cmd_data_0 := OSDP_PD_NAK_RECORD },
           pos := pos }

/-- Modelled from the spec: `osdp_cmd_enqueue` (declared in `osdp_common.h`, not under
`src/`), the `enqueue(tail)` of the command queue of section 4.1. -/
def osdp_cmd_enqueue (pd : osdp_pd) (cmd : osdp_cmd) : osdp_pd :=
  { pd with cmd_queue := pd.cmd_queue ++ [cmd] }

/-- The cases TEXT, COMSET, KEYSET, CHLNG, SCRYPT and `default` of the
`switch (pd->cmd_id)` of `pd_decode_command` (see `pd_decode_command_switch`).

In the TEXT case the source, after the callback has accepted the command, copies
`length` bytes a second time from the cursor where the first copy stopped (it
writes `cmd->text.data[i] = buf[pos++]` on the local `cmd`) and enqueues the
command. -/
def pd_decode_command_switch_tail (ops : osdp_sc_ops) (pd : osdp_pd) (buf : List Nat)
    (len : Int) : Option (flow pd_decode_result) :=
  let pos : Nat := 1
  let bad : Option (flow pd_decode_result) :=
    some (.returned { ret := OSDP_PD_ERR_GENERIC, pd := pd, pos := pos })
  if pd.cmd_id = CMD_TEXT then
    if len < CMD_TEXT_DATA_LEN then
      some (.broke { ret := OSDP_PD_ERR_GENERIC, pd := pd, pos := pos })
    else
      let length := rd buf (pos + 5)
      if length > OSDP_CMD_TEXT_MAX_LEN ∨ len - CMD_TEXT_DATA_LEN < (length : Int)
          ∨ length > OSDP_CMD_TEXT_MAX_LEN then
        some (.broke { ret := OSDP_PD_ERR_GENERIC, pd := pd, pos := pos + 6 })
      else
        let cmd : osdp_cmd := { id := OSDP_CMD_TEXT, text :=
          { reader := rd buf pos, control_code := rd buf (pos + 1), temp_time := rd buf (pos + 2),
            offset_row := rd buf (pos + 3), offset_col := rd buf (pos + 4), length := length,
            data := rd_n buf (pos + 6) length } }
        let pos1 := pos + 6 + length
        let r := pd_cmd_cap_ok pd cmd
        if r.1 = 0 then some (.broke { ret := OSDP_PD_ERR_REPLY, pd := r.2, pos := pos1 })
        else
          match pd_command_callback r.2 cmd with
          | none => none
          | some (ret, pd1) =>
            if ret ≠ 0 then some (pd_nak_record pd1 pos1)
            else
              let cmd2 : osdp_cmd := { cmd with text :=
                { cmd.text with data := rd_n buf pos1 cmd.text.length } }
              let pd2 := osdp_cmd_enqueue pd1 cmd2
              some (.broke { ret := OSDP_PD_ERR_NONE, pd := { pd2 with reply_id := REPLY_ACK },
                             pos := pos1 + cmd.text.length })
  else if pd.cmd_id = CMD_COMSET then
    if len ≠ CMD_COMSET_DATA_LEN then bad
    else
      let address := rd buf pos
      let baud_rate :=
        u32 (u32 (u32 (u32 (rd buf (pos + 1)) ||| (rd buf (pos + 2) <<< 8))
          ||| (rd buf (pos + 3) <<< 16)) ||| (rd buf (pos + 4) <<< 24))
      let comset : osdp_cmd_comset :=
        if address ≥ 0x7F ∨ (baud_rate ≠ 9600 ∧ baud_rate ≠ 38400 ∧ baud_rate ≠ 115200) then
          { address := u8 pd.address, baud_rate := u32 pd.baud_rate }
        else { address := address, baud_rate := baud_rate }
      let cmd : osdp_cmd := { id := OSDP_CMD_COMSET, comset := comset }
      match pd_command_callback pd cmd with
      | none => none
      | some (ret, pd1) =>
        if ret ≠ 0 then some (pd_nak_record pd1 (pos + 5))
        else some (.broke { ret := OSDP_PD_ERR_NONE,
                            pd := { pd1 with cmd_data := cmd, reply_id := REPLY_COM },
                            pos := pos + 5 })
  else if pd.cmd_id = CMD_KEYSET then
    let r := pd_cmd_cap_ok pd {}
    if r.1 = 0 then some (.broke { ret := OSDP_PD_ERR_REPLY, pd := r.2, pos := pos })
    else
      let pd := r.2
      if len ≠ CMD_KEYSET_DATA_LEN then
        some (.returned { ret := OSDP_PD_ERR_GENERIC, pd := pd, pos := pos })
      else if pd.flags.SC_ACTIVE = false then
        some (.broke { ret := OSDP_PD_ERR_GENERIC,
                       pd := { pd with reply_id := REPLY_NAK, cmd_data_0 := OSDP_PD_NAK_SC_COND },
                       pos := pos })
      else if rd buf pos ≠ 1 ∨ rd buf (pos + 1) ≠ 16 then
        some (.broke { ret := OSDP_PD_ERR_GENERIC, pd := pd, pos := pos })
      else
        let cmd : osdp_cmd := { id := OSDP_CMD_KEYSET, keyset :=
          { type := rd buf pos, length := rd buf (pos + 1), data := rd_n buf (pos + 2) 16 } }
        let pd1 := { pd with sc := { pd.sc with scbk := rd_n buf (pos + 2) 16 } }
        let called : Int × osdp_pd :=
          match pd_command_callback pd1 cmd with
          | none => (OSDP_PD_ERR_NONE, pd1)
          | some r => r
        if called.1 ≠ 0 then some (pd_nak_record called.2 (pos + 2))
        else
          some (.broke { ret := OSDP_PD_ERR_NONE,
                         pd := { called.2 with
                           flags := { called.2.flags with SC_USE_SCBKD := false, INSTALL_MODE := false },
                           reply_id := REPLY_ACK },
                         pos := pos + 2 })
  else if pd.cmd_id = CMD_CHLNG then
    let r := pd_cmd_cap_ok pd {}
    if r.1 = 0 then some (.broke { ret := OSDP_PD_ERR_REPLY, pd := r.2, pos := pos })
    else
      let pd := r.2
      if len ≠ CMD_CHLNG_DATA_LEN then
        some (.returned { ret := OSDP_PD_ERR_GENERIC, pd := pd, pos := pos })
      else
        let pd1 := { pd with sc := ops.osdp_sc_init pd }
        let pd2 := { pd1 with flags := { pd1.flags with SC_ACTIVE := false } }
        some (.broke { ret := OSDP_PD_ERR_NONE,
                       pd := { pd2 with sc := { pd2.sc with cp_random := rd_n buf pos 8 },
                                        reply_id := REPLY_CCRYPT },
                       pos := pos + 8 })
  else if pd.cmd_id = CMD_SCRYPT then
    let r := pd_cmd_cap_ok pd {}
    if r.1 = 0 then some (.broke { ret := OSDP_PD_ERR_REPLY, pd := r.2, pos := pos })
    else
      let pd := r.2
      if len ≠ CMD_SCRYPT_DATA_LEN then
        some (.returned { ret := OSDP_PD_ERR_GENERIC, pd := pd, pos := pos })
      else
        some (.broke { ret := OSDP_PD_ERR_NONE,
                       pd := { pd with sc := { pd.sc with cp_cryptogram := rd_n buf pos 16 },
                                       reply_id := REPLY_RMAC_I },
                       pos := pos + 16 })
  else
    some (.broke { ret := OSDP_PD_ERR_NONE,
                   pd := { pd with reply_id := REPLY_NAK, cmd_data_0 := OSDP_PD_NAK_CMD_UNKNOWN },
                   pos := pos })

/-- The `switch (pd->cmd_id)` of `pd_decode_command`, entered with `pos = 1` and with
`len` already lowered by one. `returned` stands for the `return OSDP_PD_ERR_GENERIC`
of `ASSERT_LENGTH`, `broke` for leaving the switch with the value of `ret`. The
result is `none` when the code calls `pd->command_callback` while it is NULL. -/
def pd_decode_command_switch (ops : osdp_sc_ops) (pd : osdp_pd) (buf : List Nat)
    (len : Int) : Option (flow pd_decode_result) :=
  let pos : Nat := 1
  let bad : Option (flow pd_decode_result) :=
    some (.returned { ret := OSDP_PD_ERR_GENERIC, pd := pd, pos := pos })
  if pd.cmd_id = CMD_POLL then
    if len ≠ CMD_POLL_DATA_LEN then bad
    else some (.broke { ret := OSDP_PD_ERR_NONE, pd := { pd with reply_id := REPLY_ACK }, pos := pos })
  else if pd.cmd_id = CMD_LSTAT then
    if len ≠ CMD_LSTAT_DATA_LEN then bad
    else some (.broke { ret := OSDP_PD_ERR_NONE, pd := { pd with reply_id := REPLY_LSTATR }, pos := pos })
  else if pd.cmd_id = CMD_ISTAT then
    if len ≠ CMD_ISTAT_DATA_LEN then bad
    else
      let r := pd_cmd_cap_ok pd {}
      if r.1 = 0 then some (.broke { ret := OSDP_PD_ERR_REPLY, pd := r.2, pos := pos })
      else some (.broke { ret := OSDP_PD_ERR_NONE, pd := { r.2 with reply_id := REPLY_ISTATR }, pos := pos })
  else if pd.cmd_id = CMD_OSTAT then
    if len ≠ CMD_OSTAT_DATA_LEN then bad
    else
      let r := pd_cmd_cap_ok pd {}
      if r.1 = 0 then some (.broke { ret := OSDP_PD_ERR_REPLY, pd := r.2, pos := pos })
      else some (.broke { ret := OSDP_PD_ERR_NONE, pd := { r.2 with reply_id := REPLY_OSTATR }, pos := pos })
  else if pd.cmd_id = CMD_RSTAT then
    if len ≠ CMD_RSTAT_DATA_LEN then bad
    else some (.broke { ret := OSDP_PD_ERR_NONE, pd := { pd with reply_id := REPLY_RSTATR }, pos := pos })
  else if pd.cmd_id = CMD_ID then
    if len ≠ CMD_ID_DATA_LEN then bad
    else some (.broke { ret := OSDP_PD_ERR_NONE, pd := { pd with reply_id := REPLY_PDID }, pos := pos + 1 })
  else if pd.cmd_id = CMD_CAP then
    if len ≠ CMD_CAP_DATA_LEN then bad
    else some (.broke { ret := OSDP_PD_ERR_NONE, pd := { pd with reply_id := REPLY_PDCAP }, pos := pos + 1 })
  else if pd.cmd_id = CMD_OUT then
    if len ≠ CMD_OUT_DATA_LEN then bad
    else
      let cmd : osdp_cmd := { id := OSDP_CMD_OUTPUT, output :=
        { output_no := rd buf pos, control_code := rd buf (pos + 1),
          timer_count := u16 (u16 (rd buf (pos + 2)) ||| (rd buf (pos + 3) <<< 8)) } }
      let r := pd_cmd_cap_ok pd cmd
      if r.1 = 0 then some (.broke { ret := OSDP_PD_ERR_REPLY, pd := r.2, pos := pos + 4 })
      else
        match pd_command_callback r.2 cmd with
        | none => none
        | some (ret, pd1) =>
          if ret ≠ 0 then some (pd_nak_record pd1 (pos + 4))
          else some (.broke { ret := OSDP_PD_ERR_NONE, pd := { pd1 with reply_id := REPLY_ACK },
                              pos := pos + 4 })
  else if pd.cmd_id = CMD_LED then
    if len ≠ CMD_LED_DATA_LEN then bad
    else
      let cmd : osdp_cmd := { id := OSDP_CMD_LED, led :=
        { reader := rd buf pos, led_number := rd buf (pos + 1),
          temporary :=
            { control_code := rd buf (pos + 2), on_count := rd buf (pos + 3),
              off_count := rd buf (pos + 4), on_color := rd buf (pos + 5),
              off_color := rd buf (pos + 6),
              timer_count := u16 (u16 (rd buf (pos + 7)) ||| (rd buf (pos + 8) <<< 8)) },
          permanent :=
            { control_code := rd buf (pos + 9), on_count := rd buf (pos + 10),
              off_count := rd buf (pos + 11), on_color := rd buf (pos + 12),
              off_color := rd buf (pos + 13) } } }
      let r := pd_cmd_cap_ok pd cmd
      if r.1 = 0 then some (.broke { ret := OSDP_PD_ERR_REPLY, pd := r.2, pos := pos + 14 })
      else
        match pd_command_callback r.2 cmd with
        | none => none
        | some (ret, pd1) =>
          if ret ≠ 0 then some (pd_nak_record pd1 (pos + 14))
          else some (.broke { ret := OSDP_PD_ERR_NONE, pd := { pd1 with reply_id := REPLY_ACK },
                              pos := pos + 14 })
  else if pd.cmd_id = CMD_BUZ then
    if len ≠ CMD_BUZ_DATA_LEN then bad
    else
      let cmd : osdp_cmd := { id := OSDP_CMD_BUZZER, buzzer :=
        { reader := rd buf pos, control_code := rd buf (pos + 1), on_count := rd buf (pos + 2),
          off_count := rd buf (pos + 3), rep_count := rd buf (pos + 4) } }
      let r := pd_cmd_cap_ok pd cmd
      if r.1 = 0 then some (.broke { ret := OSDP_PD_ERR_REPLY, pd := r.2, pos := pos + 5 })
      else
        match pd_command_callback r.2 cmd with
        | none => none
        | some (ret, pd1) =>
          if ret ≠ 0 then some (pd_nak_record pd1 (pos + 5))
          else some (.broke { ret := OSDP_PD_ERR_NONE, pd := { pd1 with reply_id := REPLY_ACK },
                              pos := pos + 5 })
  else pd_decode_command_switch_tail ops pd buf len

/-- The function `pd_decode_command(pd, buf, len)`: it returns `OSDP_PD_ERR_NONE`,
`OSDP_PD_ERR_REPLY` (a NAK is to be sent) or `OSDP_PD_ERR_GENERIC`. The result is
`none` when the code calls `pd->command_callback` while it is NULL. -/
def pd_decode_command (ops : osdp_sc_ops) (pd : osdp_pd) (buf : List Nat) (len : Int) :
    Option pd_decode_result :=
  let pd := { pd with reply_id := 0, cmd_id := rd buf 0 }
  let len := len - 1
  match pd_decode_command_switch ops pd buf len with
  | none => none
  | some (.returned r) => some r
  | some (.broke r) =>
    if r.ret ≠ 0 ∧ r.ret ≠ OSDP_PD_ERR_REPLY then
      some { r with
        ret := OSDP_PD_ERR_REPLY,
        pd := { r.pd with reply_id := REPLY_NAK, cmd_data_0 := OSDP_PD_NAK_CMD_LEN } }
    else some r

/-! ## Concrete collaborators used to run the code on examples -/

/-- A secure-channel helper that computes nothing: every operation leaves the
secure channel substate as it is, random bytes and the SCBK are zero, and both
verifications succeed. -/
def sc_ops_null : osdp_sc_ops where
  osdp_sc_init := fun pd => pd.sc
  osdp_fill_random := fun n => List.replicate n 0
  osdp_compute_scbk := fun _ => List.replicate 16 0
  osdp_compute_session_keys := fun pd => pd.sc
  osdp_compute_cp_cryptogram := fun pd => pd.sc
  osdp_verify_pd_cryptogram := fun _ => 0
  osdp_compute_pd_cryptogram := fun pd => pd.sc
  osdp_verify_cp_cryptogram := fun _ => 0
  osdp_compute_rmac_i := fun pd => pd.sc

/-- The PD identity of scenario S2 of the spec. -/
def pd_id_s2 : osdp_pd_id :=
  { vendor_code := 0xA1B2C3, model := 0x04, version := 0x05, serial_number := 0x11223344,
    firmware_version := 0x010203 }

/-! ## Value ranges of the C types

The fields of a command are `uint8_t`, the timer counts `uint16_t` and the baud rate
`uint32_t`; a command object of the C program always satisfies these bounds. -/

/-- The value range of an OUTPUT payload. -/
abbrev osdp_cmd_output.in_range (o : osdp_cmd_output) : Prop :=
  o.output_no < 256 ∧ o.control_code < 256 ∧ o.timer_count < 65536

/-- The value range of a LED parameter block. -/
abbrev osdp_cmd_led_params.in_range (p : osdp_cmd_led_params) : Prop :=
  p.control_code < 256 ∧ p.on_count < 256 ∧ p.off_count < 256 ∧ p.on_color < 256 ∧
    p.off_color < 256 ∧ p.timer_count < 65536

/-- The value range of a LED payload. -/
abbrev osdp_cmd_led.in_range (l : osdp_cmd_led) : Prop :=
  l.reader < 256 ∧ l.led_number < 256 ∧ l.temporary.in_range ∧ l.permanent.in_range

/-- The value range of a BUZZER payload. -/
abbrev osdp_cmd_buzzer.in_range (b : osdp_cmd_buzzer) : Prop :=
  b.reader < 256 ∧ b.control_code < 256 ∧ b.on_count < 256 ∧ b.off_count < 256 ∧
    b.rep_count < 256

/-- The value range of a COMSET payload. -/
abbrev osdp_cmd_comset.in_range (c : osdp_cmd_comset) : Prop :=
  c.address < 256 ∧ c.baud_rate < 4294967296

/-! ## Vocabulary of the statements -/

/-- An encoder result that is a message of `n` bytes led by the byte `id`: the
encoder returned `n`, wrote `n` bytes, and the first of them is `id`. -/
def build_result.is_message (r : build_result) (id n : Nat) : Prop :=
  r.ret = n ∧ r.out.length = n ∧ r.out.head? = some id

/-- The payload of a PDCAP reply that carries the triples `ts` (function code,
compliance level, number of items) in order. -/
def pdcap_payload : List (Nat × Nat × Nat) → List Nat
  | [] => []
  | t :: ts => t.1 :: t.2.1 :: t.2.2 :: pdcap_payload ts

/-- The capability map `cap` after the triples `ts` have been recorded in order, each
at its function code: a later triple replaces an earlier one with the same code. -/
def record_caps (cap : Nat → osdp_pd_cap) : List (Nat × Nat × Nat) → (Nat → osdp_pd_cap)
  | [] => cap
  | t :: ts =>
    record_caps
      (fun fc => if fc = t.1 then
        { function_code := t.1, compliance_level := t.2.1, num_items := t.2.2 }
      else cap fc) ts

/-- The reply ids of the reply table of section 4.2 of the spec, which are the
`case` labels of the switch of `cp_decode_response`. -/
def spec_reply_ids : List Nat :=
  [REPLY_ACK, REPLY_NAK, REPLY_PDID, REPLY_PDCAP, REPLY_LSTATR, REPLY_RSTATR, REPLY_COM,
   REPLY_KEYPPAD, REPLY_RAW, REPLY_FMT, REPLY_BUSY, REPLY_CCRYPT, REPLY_RMAC_I]

/-- The S3 scenario of the spec: LED command for reader 0, led 1,
temp(ctrl=2,on=5,off=5,onC=1,offC=0,timer=500), perm(ctrl=1,on=10,off=0,onC=2,offC=0). -/
def cmd_led_s3 : osdp_cmd :=
  { id := CMD_LED,
    led := { reader := 0, led_number := 1,
             temporary := { control_code := 2, on_count := 5, off_count := 5, on_color := 1,
                            off_color := 0, timer_count := 500 },
             permanent := { control_code := 1, on_count := 10, off_count := 0, on_color := 2,
                            off_color := 0 } } }

/-- The LED command of scenario S3 with the timer count 300 in its permanent block, a
field that `struct osdp_cmd_led_params` has for both blocks. -/
def cmd_led_s3_perm_timer : osdp_cmd :=
  { cmd_led_s3 with
    led := { cmd_led_s3.led with
      permanent := { cmd_led_s3.led.permanent with timer_count := 300 } } }

/-- A PD that advertises four outputs, two LEDs, one buzzer and one text display,
with an application callback that accepts every command. -/
def pd_example : osdp_pd :=
  { address := 1, baud_rate := 9600,
    cap := fun fc =>
      if fc = OSDP_PD_CAP_OUTPUT_CONTROL then { function_code := fc, compliance_level := 1, num_items := 4 }
      else if fc = OSDP_PD_CAP_READER_LED_CONTROL then
        { function_code := fc, compliance_level := 1, num_items := 2 }
      else if fc = OSDP_PD_CAP_READER_AUDIBLE_OUTPUT then
        { function_code := fc, compliance_level := 1, num_items := 1 }
      else if fc = OSDP_PD_CAP_READER_TEXT_OUTPUT then
        { function_code := fc, compliance_level := 1, num_items := 1 }
      else {},
    command_callback := some (fun _ => 0) }

/-! ## The collaborators of a tick: packet layer, channel, clock -/

/-- What `osdp_phy_decode_packet` answers for the bytes in the receive buffer:
`OSDP_ERR_PKT_FMT` (with the reply id and the NAK reason that the packet layer stored
in `pd->reply_id` and `pd->cmd_data[0]`, `none` when it stored nothing),
`OSDP_ERR_PKT_WAIT`, `OSDP_ERR_PKT_SKIP`, or the payload of a complete frame, which
it leaves at the start of the buffer and whose length it returns. -/
inductive phy_decoded where
  | fmt_err (nak : Option (Nat × Nat))
  | wait
  | skip
  | payload (data : List Nat)
deriving DecidableEq, Repr

/-- The collaborators of the core during one tick (section 6 of the spec): the
secure-channel helper, the packet layer, the channel and the clock.

* `osdp_phy_packet_init` is the header length or a negative error;
  `osdp_phy_packet_finalize pd smb data` is the finished frame for the data bytes
  `data` and the secure block `smb`, `none` when the packet layer fails.
* `osdp_phy_state_reset pd` is the PD context after the packet layer has reset its
  phy.
* `recv` are the bytes the channel has for the one `recv` call of the tick (none when
  it would block) and `send frame` is what the channel returns for `send`.
* `has_flush` tells whether the channel has a `flush` operation.
* `millis_now` is the value of `osdp_millis_now()`. -/
structure osdp_env where
  sc_ops : osdp_sc_ops
  osdp_phy_packet_init : osdp_pd → Int
  osdp_phy_packet_get_data_offset : osdp_pd → Int
  osdp_phy_packet_get_smb : osdp_pd → Option osdp_smb
  osdp_phy_packet_finalize : osdp_pd → Option osdp_smb → List Nat → Option (List Nat)
  osdp_phy_decode_packet : osdp_pd → phy_decoded
  osdp_phy_state_reset : osdp_pd → osdp_pd
  recv : List Nat
  send : List Nat → Int
  has_flush : Bool
  millis_now : Nat

/-- The helper `osdp_millis_since(t)`: the time elapsed since `t`. -/
def osdp_millis_since (env : osdp_env) (t : Nat) : Nat := env.millis_now - t

/-- What a send or receive routine leaves behind: its return value, the PD context,
the frames it handed to `channel.send` and the number of `channel.flush` calls. -/
structure io_result where
  ret : Int
  pd : osdp_pd
  sent : List (List Nat) := []
  flushes : Nat := 0

/-- The guarded call `if (pd->channel.flush) pd->channel.flush(...)`. -/
def channel_flush (env : osdp_env) : Nat := if env.has_flush then 1 else 0

/-! ## PD side: events (`osdp_pd.c`) -/

/-- The function `pd_event_dequeue(pd, &event)`: the event at the head of the event
queue and the PD context without it; `none` stands for the return value -1 of an
empty queue. -/
def pd_event_dequeue (pd : osdp_pd) : Option (osdp_event × osdp_pd) :=
  match pd.event_queue with
  | [] => none
  | e :: rest => some (e, { pd with event_queue := rest })

/-- The function `pd_translate_event(event, data)`: the reply code it returns and the
event it copies to `data` (`none` when it returns before the `memcpy`). -/
def pd_translate_event (event : osdp_event) : Nat × Option osdp_event :=
  let reply_code : Nat :=
    if event.type = OSDP_EVENT_CARDREAD then
      if event.cardread.format = OSDP_CARD_FMT_RAW_UNSPECIFIED ∨
          event.cardread.format = OSDP_CARD_FMT_RAW_WIEGAND then REPLY_RAW
      else if event.cardread.format = OSDP_CARD_FMT_ASCII then REPLY_FMT
      else 0
    else if event.type = OSDP_EVENT_KEYPRESS then REPLY_KEYPPAD
    else 0
  if reply_code = 0 then (REPLY_ACK, none)
  else (reply_code, some event)

/-! ## PD side: `pd_send_reply`, `pd_receve_packet`, `osdp_update` (`osdp_pd.c`) -/

/-- The function `pd_send_reply(pd)`: 0 on success, -1 on failure. The reply is built
in `pd->rx_buf`; the model stores the finished frame there and does not track the
bytes of a frame that was not finished. -/
def pd_send_reply (env : osdp_env) (pd : osdp_pd) : io_result :=
  let len := env.osdp_phy_packet_init pd
  if len < 0 then { ret := OSDP_PD_ERR_GENERIC, pd := pd }
  else
    let r := pd_build_reply env.sc_ops pd (env.osdp_phy_packet_get_data_offset pd)
      (env.osdp_phy_packet_get_smb pd) OSDP_PACKET_BUF_SIZE
    if r.ret ≤ 0 then { ret := OSDP_PD_ERR_GENERIC, pd := r.pd }
    else
      match env.osdp_phy_packet_finalize r.pd r.smb r.out with
      | none => { ret := OSDP_PD_ERR_GENERIC, pd := r.pd }
      | some frame =>
        let pd1 := { r.pd with rx_buf := frame }
        if env.send frame ≠ (frame.length : Int) then
          { ret := OSDP_PD_ERR_GENERIC, pd := pd1, sent := [frame] }
        else { ret := OSDP_PD_ERR_NONE, pd := pd1, sent := [frame] }

/-- The function `pd_receve_packet(pd)`: 0 for a complete command, 1 when there is
nothing to do yet, -2 when a NAK is to be sent, -1 for a fatal error. -/
def pd_receve_packet (env : osdp_env) (pd : osdp_pd) : io_result :=
  let was_empty : Bool := pd.rx_buf_len = 0
  let max_len : Int := OSDP_PACKET_BUF_SIZE - pd.rx_buf_len
  let received := env.recv.take max_len.toNat
  if received.length = 0 then { ret := 1, pd := pd }
  else
    let pd1 := if was_empty then { pd with tstamp := env.millis_now } else pd
    let pd2 := { pd1 with
      rx_buf := pd1.rx_buf.take pd1.rx_buf_len ++ received,
      rx_buf_len := pd1.rx_buf_len + received.length }
    let pd3 := { pd2 with reply_id := 0, cmd_data_0 := 0 }
    match env.osdp_phy_decode_packet pd3 with
    | .fmt_err nak =>
      let pd4 :=
        match nak with
        | none => pd3
        | some (reply_id, nak_reason) =>
          { pd3 with reply_id := reply_id, cmd_data_0 := nak_reason }
      if pd4.reply_id ≠ 0 then { ret := -2, pd := pd4 } else { ret := -1, pd := pd4 }
    | .wait => { ret := 1, pd := pd3 }
    | .skip => { ret := 1, pd := { pd3 with rx_buf_len := 0 }, flushes := channel_flush env }
    | .payload data =>
      { ret := 0, pd := { pd3 with rx_buf := data, rx_buf_len := data.length } }

/-- What a tick leaves behind: the PD context, the frames handed to `channel.send`
and the number of `channel.flush` calls. -/
structure update_result where
  pd : osdp_pd
  sent : List (List Nat) := []
  flushes : Nat := 0

/-- The case `OSDP_PD_STATE_SEND_REPLY` of `osdp_update`. -/
def osdp_update_send_reply (env : osdp_env) (pd : osdp_pd) (flushes : Nat) : update_result :=
  let s := pd_send_reply env pd
  if s.ret = -1 then
    { pd := { s.pd with state := OSDP_PD_STATE_ERR }, sent := s.sent, flushes := flushes }
  else
    { pd := { s.pd with rx_buf_len := 0, state := OSDP_PD_STATE_IDLE }, sent := s.sent,
      flushes := flushes }

/-- The function `osdp_update(ctx)` of the PD, one tick of the PD state machine on the
PD context `TO_PD(ctx, 0)`. The result is `none` when the code calls
`pd->command_callback` while it is NULL. -/
def osdp_update (env : osdp_env) (pd : osdp_pd) : Option update_result :=
  if pd.state = OSDP_PD_STATE_IDLE then
    let r := pd_receve_packet env pd
    if r.ret = -1 ∨ ((r.pd.rx_buf_len > 0 ∨ r.pd.flags.SC_ACTIVE = true) ∧
        osdp_millis_since env r.pd.tstamp > OSDP_RESP_TOUT_MS) then
      some { pd := { r.pd with state := OSDP_PD_STATE_ERR }, flushes := r.flushes }
    else if r.ret = 1 then some { pd := r.pd, flushes := r.flushes }
    else if r.ret = 0 then
      match pd_decode_command env.sc_ops r.pd r.pd.rx_buf r.pd.rx_buf_len with
      | none => none
      | some d =>
        some (osdp_update_send_reply env { d.pd with state := OSDP_PD_STATE_SEND_REPLY } r.flushes)
    else some (osdp_update_send_reply env { r.pd with state := OSDP_PD_STATE_SEND_REPLY } r.flushes)
  else if pd.state = OSDP_PD_STATE_SEND_REPLY then
    some (osdp_update_send_reply env pd 0)
  else if pd.state = OSDP_PD_STATE_ERR then
    some { pd := { pd with
             flags := { pd.flags with SC_ACTIVE := false },
             rx_buf_len := 0,
             state := OSDP_PD_STATE_IDLE },
           flushes := channel_flush env }
  else some { pd := pd }

/-! ## CP side: the command queue (`osdp_cp.c`) -/

/-- The function `cp_cmd_alloc(pd)`: one block taken from the pool `pd->cmd.slab`;
`none` stands for NULL, returned when the pool has no free block. The allocator does
not clear the block; the model hands it out with the contents of the empty command,
which matters only for the fields a caller leaves unwritten. -/
def cp_cmd_alloc (pd : osdp_pd) : Option (osdp_cmd × osdp_pd) :=
  if pd.cmd_slab_free = 0 then none
  else some ({}, { pd with cmd_slab_free := pd.cmd_slab_free - 1 })

/-- The function `cp_cmd_free(pd, cmd)`: the block goes back to the pool. -/
def cp_cmd_free (pd : osdp_pd) : osdp_pd :=
  { pd with cmd_slab_free := pd.cmd_slab_free + 1 }

/-- The function `cp_cmd_enqueue(pd, cmd)`: `cmd` is appended at the tail. -/
def cp_cmd_enqueue (pd : osdp_pd) (cmd : osdp_cmd) : osdp_pd :=
  { pd with cmd_queue := pd.cmd_queue ++ [cmd] }

/-- The function `cp_cmd_dequeue(pd, &cmd)`: the command at the head of the queue and
the PD context without it; `none` stands for the return value -1 of an empty
queue. -/
def cp_cmd_dequeue (pd : osdp_pd) : Option (osdp_cmd × osdp_pd) :=
  match pd.cmd_queue with
  | [] => none
  | c :: rest => some (c, { pd with cmd_queue := rest })

/-- The function `cp_flush_command_queue(pd)`: every queued command is dequeued and
freed. -/
def cp_flush_command_queue (pd : osdp_pd) : osdp_pd :=
  { pd with cmd_queue := [], cmd_slab_free := pd.cmd_slab_free + pd.cmd_queue.length }

/-! ## CP side: `osdp_cp_send_command` (`osdp_cp.c`) -/

/-- The context `struct osdp` of the CP: the PD contexts in order and the notifier
table. `NUM_PD(ctx)` is the length of `pd` and `TO_PD(ctx, i)` its entry `i`. -/
structure osdp where
  pd : List osdp_pd := []
  cp : osdp_cp := {}

/-- Modelled from the spec: the test `osdp_get_sc_status_mask() == PD_MASK(ctx)` of
`osdp_cp_send_command_keyset` (both helpers are declared in `osdp_common.h`, not
under `src/`): it holds when every PD is ONLINE and SC_ACTIVE. -/
def sc_status_is_pd_mask (ctx : osdp) : Bool :=
  ctx.pd.all (fun pd => pd.state = OSDP_CP_STATE_ONLINE ∧ pd.flags.SC_ACTIVE = true)

/-- The loop of `osdp_cp_send_command_keyset` over the PD contexts: for each PD a
block is allocated, made a KEYSET command and enqueued; the loop returns -1 at the
first PD whose pool is empty, leaving the earlier PDs with their new command.

The source fills the payload with `memcpy(&p->keyset, &cmd, sizeof(struct
osdp_cmd_keyset))`, where `cmd` is the pointer parameter: the bytes copied are those
at the address of the pointer variable, not those of the command it points to.
`ptr_image` is what these bytes read as. -/
def osdp_cp_send_command_keyset_loop (ptr_image : osdp_cmd_keyset) :
    List osdp_pd → Int × List osdp_pd
  | [] => (0, [])
  | pd :: rest =>
    match cp_cmd_alloc pd with
    | none => (-1, pd :: rest)
    | some (p, pd1) =>
      let p1 : osdp_cmd := { p with id := CMD_KEYSET, keyset := ptr_image }
      let r := osdp_cp_send_command_keyset_loop ptr_image rest
      (r.1, cp_cmd_enqueue pd1 p1 :: r.2)

/-- The function `osdp_cp_send_command_keyset(cmd)`; see
`osdp_cp_send_command_keyset_loop` for `ptr_image`. -/
def osdp_cp_send_command_keyset (ctx : osdp) (ptr_image : osdp_cmd_keyset) : Int × osdp :=
  if sc_status_is_pd_mask ctx = false then (1, ctx)
  else
    let r := osdp_cp_send_command_keyset_loop ptr_image ctx.pd
    (r.1, { ctx with pd := r.2 })

/-- The function `osdp_cp_send_command(pd, cmd)` on the context `ctx`; `ptr_image` is
used by the KEYSET branch only (see `osdp_cp_send_command_keyset_loop`). The
`default` case logs `p->id` before `p` is assigned; the model does not follow the
log. -/
def osdp_cp_send_command (ctx : osdp) (ptr_image : osdp_cmd_keyset) (pd : Int)
    (cmd : osdp_cmd) : Int × osdp :=
  if pd < 0 ∨ pd ≥ (ctx.pd.length : Int) then (-1, ctx)
  else
    match ctx.pd.get? pd.toNat with
    | none => (-1, ctx)
    | some target =>
      if target.state ≠ OSDP_CP_STATE_ONLINE then (-1, ctx)
      else
        let enqueue (cmd_id : Nat) : Int × osdp :=
          match cp_cmd_alloc target with
          | none => (-1, ctx)
          | some (_, target1) =>
            let p : osdp_cmd := { cmd with id := cmd_id }
            (0, { ctx with pd := ctx.pd.set pd.toNat (cp_cmd_enqueue target1 p) })
        if cmd.id = OSDP_CMD_OUTPUT then enqueue CMD_OUT
        else if cmd.id = OSDP_CMD_LED then enqueue CMD_LED
        else if cmd.id = OSDP_CMD_BUZZER then enqueue CMD_BUZ
        else if cmd.id = OSDP_CMD_TEXT then enqueue CMD_TEXT
        else if cmd.id = OSDP_CMD_COMSET then enqueue CMD_COMSET
        else if cmd.id = OSDP_CMD_KEYSET then osdp_cp_send_command_keyset ctx ptr_image
        else (-1, ctx)

/-! ## CP side: `cp_send_command`, `cp_process_reply`, `cp_phy_state_update` -/

/-- The function `cp_reset_channel(pd)`. -/
def cp_reset_channel (env : osdp_env) (pd : osdp_pd) : osdp_pd × Nat :=
  ({ pd with rx_buf_len := 0 }, channel_flush env)

/-- The function `cp_send_command(pd)`: `OSDP_CP_ERR_NONE` on success,
`OSDP_CP_ERR_GENERIC` on failure. The command is built in `pd->rx_buf`; the model
stores the finished frame there and does not track the bytes of a frame that was not
finished. -/
def cp_send_command (env : osdp_env) (pd : osdp_pd) : io_result :=
  let len := env.osdp_phy_packet_init pd
  if len < 0 then { ret := OSDP_CP_ERR_GENERIC, pd := pd }
  else
    let r := cp_build_command env.sc_ops pd (env.osdp_phy_packet_get_data_offset pd)
      (env.osdp_phy_packet_get_smb pd) OSDP_PACKET_BUF_SIZE
    if r.ret < 0 then { ret := OSDP_CP_ERR_GENERIC, pd := r.pd }
    else
      match env.osdp_phy_packet_finalize r.pd r.smb r.out with
      | none => { ret := OSDP_CP_ERR_GENERIC, pd := r.pd }
      | some frame =>
        let pd1 := { r.pd with rx_buf := frame }
        if env.send frame ≠ (frame.length : Int) then
          { ret := OSDP_CP_ERR_GENERIC, pd := pd1, sent := [frame], flushes := channel_flush env }
        else
          { ret := OSDP_CP_ERR_NONE, pd := pd1, sent := [frame], flushes := channel_flush env }

/-- What `cp_process_reply` leaves behind: its return value, the PD context, the
notifier calls of the decoder and the number of `channel.flush` calls. -/
structure cp_reply_result where
  ret : Int
  pd : osdp_pd
  notified : List cp_notification := []
  flushes : Nat := 0

/-- The function `cp_process_reply(pd)`; `cp` is the CP context of the decoder. -/
def cp_process_reply (env : osdp_env) (cp : osdp_cp) (pd : osdp_pd) : cp_reply_result :=
  let max_len : Int := OSDP_PACKET_BUF_SIZE - pd.rx_buf_len
  let received := env.recv.take max_len.toNat
  if received.length = 0 then { ret := OSDP_CP_ERR_NO_DATA, pd := pd }
  else
    let pd1 := { pd with
      rx_buf := pd.rx_buf.take pd.rx_buf_len ++ received,
      rx_buf_len := pd.rx_buf_len + received.length }
    match env.osdp_phy_decode_packet pd1 with
    | .fmt_err nak =>
      { ret := -1,
        pd := match nak with
          | none => pd1
          | some (reply_id, nak_reason) =>
            { pd1 with reply_id := reply_id, cmd_data_0 := nak_reason } }
    | .wait => { ret := OSDP_CP_ERR_NO_DATA, pd := pd1 }
    | .skip =>
      { ret := OSDP_CP_ERR_NO_DATA, pd := { pd1 with rx_buf_len := 0 },
        flushes := channel_flush env }
    | .payload data =>
      let pd2 := { pd1 with rx_buf := data, rx_buf_len := data.length }
      let d := cp_decode_response env.sc_ops cp pd2 pd2.rx_buf pd2.rx_buf_len
      { ret := d.ret, pd := d.pd, notified := d.notified }

/-- What a step of the CP phy leaves behind: its return value, the PD context, the
frames handed to `channel.send`, the notifier calls and the number of
`channel.flush` calls. -/
structure cp_phy_result where
  ret : Int
  pd : osdp_pd
  sent : List (List Nat) := []
  notified : List cp_notification := []
  flushes : Nat := 0

/-- The case `OSDP_CP_PHY_STATE_SEND_CMD` of `cp_phy_state_update`, entered with
`ret = OSDP_CP_ERR_INPROG`; `flushes` counts the flush calls made before it. -/
def cp_phy_send_cmd (env : osdp_env) (pd : osdp_pd) (flushes : Nat) : cp_phy_result :=
  let s := cp_send_command env pd
  if s.ret < 0 then
    { ret := OSDP_CP_ERR_GENERIC, pd := { s.pd with phy_state := OSDP_CP_PHY_STATE_ERR },
      sent := s.sent, flushes := flushes + s.flushes }
  else
    { ret := OSDP_CP_ERR_INPROG,
      pd := { s.pd with
        phy_state := OSDP_CP_PHY_STATE_REPLY_WAIT,
        rx_buf_len := 0,
        phy_tstamp := env.millis_now },
      sent := s.sent, flushes := flushes + s.flushes }

/-- The function `cp_phy_state_update(pd)`, one step of the phy state machine of
section 4.4; `cp` is the CP context of the decoder. -/
def cp_phy_state_update (env : osdp_env) (cp : osdp_cp) (pd : osdp_pd) : cp_phy_result :=
  if pd.phy_state = OSDP_CP_PHY_STATE_ERR_WAIT then
    { ret := OSDP_CP_ERR_GENERIC, pd := pd }
  else if pd.phy_state = OSDP_CP_PHY_STATE_IDLE then
    match cp_cmd_dequeue pd with
    | none => { ret := 0, pd := pd }
    | some (cmd, pd1) =>
      let pd2 := { pd1 with cmd_id := cmd.id, cmd_data := cmd }
      let pd3 := cp_cmd_free pd2
      let rc := cp_reset_channel env pd3
      cp_phy_send_cmd env rc.1 rc.2
  else if pd.phy_state = OSDP_CP_PHY_STATE_SEND_CMD then
    cp_phy_send_cmd env pd 0
  else if pd.phy_state = OSDP_CP_PHY_STATE_REPLY_WAIT then
    let r := cp_process_reply env cp pd
    if r.ret = 0 then
      { ret := OSDP_CP_ERR_INPROG, pd := { r.pd with phy_state := OSDP_CP_PHY_STATE_CLEANUP },
        notified := r.notified, flushes := r.flushes }
    else if r.ret = OSDP_CP_ERR_RETRY_CMD then
      { ret := 2,
        pd := { r.pd with phy_tstamp := env.millis_now, phy_state := OSDP_CP_PHY_STATE_WAIT },
        notified := r.notified, flushes := r.flushes }
    else if r.ret = OSDP_CP_ERR_GENERIC then
      { ret := OSDP_CP_ERR_INPROG, pd := { r.pd with phy_state := OSDP_CP_PHY_STATE_ERR },
        notified := r.notified, flushes := r.flushes }
    else if osdp_millis_since env r.pd.phy_tstamp > OSDP_RESP_TOUT_MS then
      { ret := OSDP_CP_ERR_INPROG, pd := { r.pd with phy_state := OSDP_CP_PHY_STATE_ERR },
        notified := r.notified, flushes := r.flushes }
    else
      { ret := OSDP_CP_ERR_INPROG, pd := r.pd, notified := r.notified, flushes := r.flushes }
  else if pd.phy_state = OSDP_CP_PHY_STATE_WAIT then
    if osdp_millis_since env pd.phy_tstamp < cp_cmd_RETRY_WAIT_MS then
      { ret := OSDP_CP_ERR_INPROG, pd := pd }
    else { ret := OSDP_CP_ERR_INPROG, pd := { pd with phy_state := OSDP_CP_PHY_STATE_IDLE } }
  else if pd.phy_state = OSDP_CP_PHY_STATE_ERR then
    let rc := cp_reset_channel env pd
    let pd1 := cp_flush_command_queue rc.1
    { ret := OSDP_CP_ERR_GENERIC, pd := { pd1 with phy_state := OSDP_CP_PHY_STATE_ERR_WAIT },
      flushes := rc.2 }
  else if pd.phy_state = OSDP_CP_PHY_STATE_CLEANUP then
    { ret := OSDP_CP_ERR_CAN_YIELD, pd := { pd with phy_state := OSDP_CP_PHY_STATE_IDLE } }
  else { ret := OSDP_CP_ERR_INPROG, pd := pd }

/-! ## Vocabulary of the statements about the state machines -/

/-- A packet layer without framing and a channel that takes every frame: the frame of
a message is its data bytes, the bytes in the receive buffer are a complete payload,
and `send` reports the whole frame as sent. `recv` are the bytes the channel
delivers and `now` the time of the tick. The phy reset returns the phy to IDLE with
an empty receive buffer and no sequence number. -/
def env_plain (recv : List Nat) (now : Nat) : osdp_env where
  sc_ops := sc_ops_null
  osdp_phy_packet_init := fun _ => 0
  osdp_phy_packet_get_data_offset := fun _ => 0
  osdp_phy_packet_get_smb := fun _ => none
  osdp_phy_packet_finalize := fun _ _ data => some data
  osdp_phy_decode_packet := fun pd => .payload (pd.rx_buf.take pd.rx_buf_len)
  osdp_phy_state_reset := fun pd =>
    { pd with phy_state := OSDP_CP_PHY_STATE_IDLE, rx_buf_len := 0, seq_number := -1 }
  recv := recv
  send := fun frame => frame.length
  has_flush := true
  millis_now := now

/-- A key-press event with the single key 0x35. -/
def event_key_5 : osdp_event :=
  { type := OSDP_EVENT_KEYPRESS, keypress := { length := 1, data := [0x35] } }

/-- What the PD does with a command that `pd_cmd_cap_ok` refuses: the decoder returns
without calling the application callback, with reply NAK selected and the reason
CMD_UNKNOWN stored in `pd->ephemeral_data[0]`, while `pd->cmd_data[0]` keeps its
value; the reply built is NAK followed by the byte `pd->cmd_data[0]`. -/
def pd_refuses_command (ops : osdp_sc_ops) (pd : osdp_pd) (buf : List Nat) (len : Int)
    (data_off : Int) (smb : Option osdp_smb) (max_len : Int) : Prop :=
  ∃ d, pd_decode_command ops pd buf len = some d ∧
    d.pd.cb_log = pd.cb_log ∧ d.pd.reply_id = REPLY_NAK ∧
    d.pd.ephemeral_data_0 = OSDP_PD_NAK_CMD_UNKNOWN ∧ d.pd.cmd_data_0 = pd.cmd_data_0 ∧
    (pd_build_reply ops d.pd data_off smb max_len).out = [REPLY_NAK, u8 pd.cmd_data_0]

/-- A PD that supports the secure channel (compliance level 1), has it active, stores
the SCBK AA .. AA, and whose application callback refuses every command. -/
def pd_example_sc : osdp_pd :=
  { address := 1, baud_rate := 9600,
    flags := { PD_MODE := true, SC_CAPABLE := true, SC_ACTIVE := true, SC_USE_SCBKD := true,
               INSTALL_MODE := true },
    cap := fun fc =>
      if fc = OSDP_PD_CAP_COMMUNICATION_SECURITY then
        { function_code := fc, compliance_level := 1, num_items := 1 }
      else {},
    sc := { scbk := List.replicate 16 0xAA },
    command_callback := some (fun _ => 1) }

/-- The key 01 02 .. 10 of the examples. -/
def key_example : List Nat := [1, 2, 3, 4, 5, 6, 7, 8, 9, 10, 11, 12, 13, 14, 15, 16]

/-- A buzzer command already translated to the wire id: reader 0, tone 2, on 1, off 1,
one repetition. -/
def cmd_buz_example : osdp_cmd :=
  { id := CMD_BUZ,
    buzzer := { reader := 0, control_code := 2, on_count := 1, off_count := 1, rep_count := 1 } }

/-- A PD context of the CP that is ONLINE and waits for the reply to the staged LED
command of scenario S3, sent at time 1000, with `queue` as its command queue. -/
def pd_cp_waiting (queue : List osdp_cmd) : osdp_pd :=
  { address := 1, baud_rate := 9600,
    state := OSDP_CP_STATE_ONLINE,
    phy_state := OSDP_CP_PHY_STATE_REPLY_WAIT,
    phy_tstamp := 1000,
    cmd_id := CMD_LED,
    cmd_data := cmd_led_s3,
    cmd_queue := queue }

/-- A PD context of the CP that is ONLINE with the secure channel active, has four
free blocks in its command pool, an empty queue and an idle phy. -/
def pd_cp_sc_online : osdp_pd :=
  { pd_example_sc with state := OSDP_CP_STATE_ONLINE, cmd_slab_free := 4 }

/-- The KEYSET command an application submits with the key 01 02 .. 10. -/
def cmd_keyset_example : osdp_cmd :=
  { id := OSDP_CMD_KEYSET, keyset := { type := 1, length := 16, data := key_example } }

/-! ## Runs of the CP on one PD -/

/-- The value a `flow` carries, whichever way control left the `switch`. -/
def flow.val {α : Type} : flow α → α
  | .returned a => a
  | .broke a => a

/-- Whether control left the `switch` by `break`. -/
def flow.is_broke {α : Type} : flow α → Bool
  | .returned _ => false
  | .broke _ => true

/-- What `osdp_cp_send_command` puts in the queue for the command `cmd` when it
returns 0: for KEYSET the block that `osdp_cp_send_command_keyset` fills (the wire id
and the image of the pointer, see `osdp_cp_send_command_keyset_loop`), for the other
ids the copy of `cmd` with its id translated to the wire id. -/
def cp_queued_form (ptr_image : osdp_cmd_keyset) (cmd : osdp_cmd) : osdp_cmd :=
  if cmd.id = OSDP_CMD_KEYSET then { id := CMD_KEYSET, keyset := ptr_image }
  else if cmd.id = OSDP_CMD_OUTPUT then { cmd with id := CMD_OUT }
  else if cmd.id = OSDP_CMD_LED then { cmd with id := CMD_LED }
  else if cmd.id = OSDP_CMD_BUZZER then { cmd with id := CMD_BUZ }
  else if cmd.id = OSDP_CMD_TEXT then { cmd with id := CMD_TEXT }
  else { cmd with id := CMD_COMSET }

/-- One operation of a run of the CP on the PD with index `i`: the application calls
`osdp_cp_send_command(i, cmd)`, or the phy of that PD makes one step
(`cp_phy_state_update`) with the collaborators `env`. -/
inductive cp_op where
  | send_command (cmd : osdp_cmd)
  | phy_step (env : osdp_env)

/-- What a run has done so far: the context, the commands submitted in the order of
the calls, the pairs `(pd->cmd_id, pd->cmd_data)` found staged after each phy step
that left IDLE with a command, in order, and whether the run is clean: every
`osdp_cp_send_command` returned 0 and no phy step was made in phy state ERR (the
state that flushes the queue). -/
structure cp_run_state where
  ctx : osdp
  submitted : List osdp_cmd := []
  staged : List (Nat × osdp_cmd) := []
  clean : Bool := true

/-- One operation of a run on the PD with index `i`. -/
def cp_run_step (ptr_image : osdp_cmd_keyset) (i : Nat) (s : cp_run_state) :
    cp_op → cp_run_state
  | .send_command cmd =>
    let r := osdp_cp_send_command s.ctx ptr_image (i : Int) cmd
    { s with
      ctx := r.2,
      submitted := s.submitted ++ [cmd],
      clean := s.clean && decide (r.1 = 0) }
  | .phy_step env =>
    match s.ctx.pd.get? i with
    | none => { s with clean := false }
    | some pd =>
      let r := cp_phy_state_update env s.ctx.cp pd
      { s with
        ctx := { s.ctx with pd := s.ctx.pd.set i r.pd },
        staged :=
          if pd.phy_state = OSDP_CP_PHY_STATE_IDLE ∧ pd.cmd_queue ≠ [] then
            s.staged ++ [(r.pd.cmd_id, r.pd.cmd_data)]
          else s.staged,
        clean := s.clean && decide (pd.phy_state ≠ OSDP_CP_PHY_STATE_ERR) }

/-- A run: the operations `ops` one after the other, from the state `s`. -/
def cp_run (ptr_image : osdp_cmd_keyset) (i : Nat) (ops : List cp_op) (s : cp_run_state) :
    cp_run_state :=
  ops.foldl (cp_run_step ptr_image i) s

/-! ## CP side: the build configuration (`osdp_cp.c`) -/

/-- The Kconfig values that `osdp_cp.c` reads: the poll rate, the two retry waits in
seconds, the number of connected PDs and the address list (the characters of the
string, without the terminating NUL). -/
structure osdp_kconfig where
  CONFIG_OSDP_PD_POLL_RATE : Nat
  CONFIG_OSDP_CMD_RETRY_WAIT_SEC : Nat
  CONFIG_OSDP_SC_RETRY_WAIT_SEC : Nat
  CONFIG_OSDP_NUM_CONNECTED_PD : Nat
  CONFIG_OSDP_PD_ADDRESS_LIST : List Char

/-- The macro `OSDP_PD_POLL_TIMEOUT_MS`. -/
def OSDP_PD_POLL_TIMEOUT_MS (cfg : osdp_kconfig) : Nat := 1000 / cfg.CONFIG_OSDP_PD_POLL_RATE

/-- The macro `OSDP_CMD_RETRY_WAIT_MS`. -/
def OSDP_CMD_RETRY_WAIT_MS (cfg : osdp_kconfig) : Nat := cfg.CONFIG_OSDP_CMD_RETRY_WAIT_SEC * 1000

/-- The macro `OSDP_PD_SC_RETRY_MS`. -/
def OSDP_PD_SC_RETRY_MS (cfg : osdp_kconfig) : Nat := cfg.CONFIG_OSDP_SC_RETRY_WAIT_SEC * 1000

/-! ## CP side: the session state machine (`osdp_cp.c`) -/

/-- The function `cp_set_offline(pd)`. -/
def cp_set_offline (env : osdp_env) (pd : osdp_pd) : osdp_pd :=
  { pd with
    flags := { pd.flags with SC_ACTIVE := false },
    state := OSDP_CP_STATE_OFFLINE,
    tstamp := env.millis_now }

/-- The function `cp_reset_state(pd)`. -/
def cp_reset_state (env : osdp_env) (pd : osdp_pd) : osdp_pd :=
  env.osdp_phy_state_reset { pd with state := OSDP_CP_STATE_INIT }

/-- The function `cp_set_state(pd, state)`. -/
def cp_set_state (pd : osdp_pd) (state : Nat) : osdp_pd :=
  { pd with state := state, flags := { pd.flags with AWAIT_RESP := false } }

/-- The function `cp_cmd_dispatcher(pd, cmd)`: its return value and the PD context.
With AWAIT_RESP set it clears the flag and returns `OSDP_CP_ERR_NONE`; otherwise it
enqueues a block with the id `cmd`, sets AWAIT_RESP and returns
`OSDP_CP_ERR_INPROG`, or returns `OSDP_CP_ERR_GENERIC` when the pool is empty. -/
def cp_cmd_dispatcher (pd : osdp_pd) (cmd : Nat) : Int × osdp_pd :=
  if pd.flags.AWAIT_RESP = true then
    (OSDP_CP_ERR_NONE, { pd with flags := { pd.flags with AWAIT_RESP := false } })
  else
    match cp_cmd_alloc pd with
    | none => (OSDP_CP_ERR_GENERIC, pd)
    | some (c, pd1) =>
      let pd2 := cp_cmd_enqueue pd1 { c with id := cmd }
      (OSDP_CP_ERR_INPROG, { pd2 with flags := { pd2.flags with AWAIT_RESP := true } })

/-- The case `OSDP_CP_STATE_ONLINE` of `state_update`. -/
def state_update_online (cfg : osdp_kconfig) (env : osdp_env) (pd : osdp_pd) : osdp_pd :=
  if pd.flags.SC_ACTIVE = false ∧ pd.flags.SC_CAPABLE = true ∧
      osdp_millis_since env pd.sc_tstamp > OSDP_PD_SC_RETRY_MS cfg then
    cp_set_state pd OSDP_CP_STATE_SC_INIT
  else if osdp_millis_since env pd.tstamp < OSDP_PD_POLL_TIMEOUT_MS cfg then pd
  else
    let d := cp_cmd_dispatcher pd CMD_POLL
    if d.1 = 0 then { d.2 with tstamp := env.millis_now } else d.2

/-- The case `OSDP_CP_STATE_OFFLINE` of `state_update`. -/
def state_update_offline (cfg : osdp_kconfig) (env : osdp_env) (pd : osdp_pd) : osdp_pd :=
  if osdp_millis_since env pd.tstamp > OSDP_CMD_RETRY_WAIT_MS cfg then cp_reset_state env pd
  else pd

/-- The case `OSDP_CP_STATE_CAPDET` of `state_update`, also reached by falling through
from IDREQ. A reply other than PDCAP calls `cp_set_offline`, after which the code goes
on to set the next state. -/
def state_update_capdet (env : osdp_env) (pd : osdp_pd) : osdp_pd :=
  let d := cp_cmd_dispatcher pd CMD_CAP
  if d.1 ≠ 0 then d.2
  else
    let pd1 := if d.2.reply_id ≠ REPLY_PDCAP then cp_set_offline env d.2 else d.2
    if pd1.flags.SC_CAPABLE = true then
      cp_set_state
        { pd1 with flags := { pd1.flags with SC_SCBKD_DONE := false, SC_USE_SCBKD := false } }
        OSDP_CP_STATE_SC_INIT
    else cp_set_state pd1 OSDP_CP_STATE_ONLINE

/-- The case `OSDP_CP_STATE_IDREQ` of `state_update`, also reached by falling through
from INIT; it falls through to CAPDET. A reply other than PDID calls
`cp_set_offline`, after which the code goes on to set the state CAPDET. -/
def state_update_idreq (env : osdp_env) (pd : osdp_pd) : osdp_pd :=
  let d := cp_cmd_dispatcher pd CMD_ID
  if d.1 ≠ 0 then d.2
  else
    let pd1 := if d.2.reply_id ≠ REPLY_PDID then cp_set_offline env d.2 else d.2
    state_update_capdet env (cp_set_state pd1 OSDP_CP_STATE_CAPDET)

/-- The case `OSDP_CP_STATE_SC_SCRYPT` of `state_update`, also reached by falling
through from SC_CHLNG. -/
def state_update_sc_scrypt (env : osdp_env) (pd : osdp_pd) : osdp_pd :=
  let d := cp_cmd_dispatcher pd CMD_SCRYPT
  if d.1 ≠ 0 then d.2
  else if d.2.reply_id ≠ REPLY_RMAC_I then
    cp_set_state { d.2 with sc_tstamp := env.millis_now } OSDP_CP_STATE_ONLINE
  else if d.2.flags.SC_USE_SCBKD = true then cp_set_state d.2 OSDP_CP_STATE_SET_SCBK
  else cp_set_state { d.2 with sc_tstamp := env.millis_now } OSDP_CP_STATE_ONLINE

/-- The case `OSDP_CP_STATE_SC_CHLNG` of `state_update`, also reached by falling
through from SC_INIT; `phy_state` is the value `cp_phy_state_update` returned. -/
def state_update_sc_chlng (env : osdp_env) (phy_state : Int) (pd : osdp_pd) : osdp_pd :=
  let d := cp_cmd_dispatcher pd CMD_CHLNG
  if d.1 ≠ 0 then d.2
  else if phy_state < 0 then
    if d.2.flags.SC_SCBKD_DONE = true then
      cp_set_state { d.2 with sc_tstamp := env.millis_now } OSDP_CP_STATE_ONLINE
    else
      let pd1 := { d.2 with
        flags := { d.2.flags with SC_USE_SCBKD := true, SC_SCBKD_DONE := true } }
      { cp_set_state pd1 OSDP_CP_STATE_SC_INIT with phy_state := 0 }
  else if d.2.reply_id ≠ REPLY_CCRYPT then
    cp_set_state { d.2 with sc_tstamp := env.millis_now } OSDP_CP_STATE_ONLINE
  else state_update_sc_scrypt env (cp_set_state d.2 OSDP_CP_STATE_SC_SCRYPT)

/-- The case `OSDP_CP_STATE_SET_SCBK` of `state_update`. -/
def state_update_set_scbk (pd : osdp_pd) : osdp_pd :=
  let d := cp_cmd_dispatcher pd CMD_KEYSET
  if d.1 ≠ 0 then d.2
  else if d.2.reply_id = REPLY_NAK then cp_set_state d.2 OSDP_CP_STATE_ONLINE
  else
    let pd1 := { d.2 with
      flags := { d.2.flags with SC_USE_SCBKD := false, SC_ACTIVE := false } }
    { cp_set_state pd1 OSDP_CP_STATE_SC_INIT with seq_number := -1 }

/-- The `switch (pd->state)` of `state_update`; `phy_state` is the value
`cp_phy_state_update` returned. -/
def state_update_switch (cfg : osdp_kconfig) (env : osdp_env) (phy_state : Int)
    (pd : osdp_pd) : osdp_pd :=
  if pd.state = OSDP_CP_STATE_ONLINE then state_update_online cfg env pd
  else if pd.state = OSDP_CP_STATE_OFFLINE then state_update_offline cfg env pd
  else if pd.state = OSDP_CP_STATE_INIT then
    state_update_idreq env (cp_set_state pd OSDP_CP_STATE_IDREQ)
  else if pd.state = OSDP_CP_STATE_IDREQ then state_update_idreq env pd
  else if pd.state = OSDP_CP_STATE_CAPDET then state_update_capdet env pd
  else if pd.state = OSDP_CP_STATE_SC_INIT then
    state_update_sc_chlng env phy_state
      (cp_set_state { pd with sc := env.sc_ops.osdp_sc_init pd } OSDP_CP_STATE_SC_CHLNG)
  else if pd.state = OSDP_CP_STATE_SC_CHLNG then state_update_sc_chlng env phy_state pd
  else if pd.state = OSDP_CP_STATE_SC_SCRYPT then state_update_sc_scrypt env pd
  else if pd.state = OSDP_CP_STATE_SET_SCBK then state_update_set_scbk pd
  else pd

/-- The lines of `state_update` after the step of the phy, whose result is `r`: the
early return while the phy is in progress or can yield, then the error policy (a phy
error takes the PD offline unless the session is in SC_CHLNG or already OFFLINE) and
the `switch (pd->state)`. -/
def state_update_session (cfg : osdp_kconfig) (env : osdp_env) (r : cp_phy_result) :
    cp_phy_result :=
  if r.ret = OSDP_CP_ERR_INPROG ∨ r.ret = OSDP_CP_ERR_CAN_YIELD then
    { r with ret := OSDP_CP_ERR_GENERIC }
  else
    let soft_fail : Bool := r.pd.state = OSDP_CP_STATE_SC_CHLNG
    let pd1 :=
      if r.pd.state ≠ OSDP_CP_STATE_OFFLINE ∧ r.ret = OSDP_CP_ERR_GENERIC ∧ soft_fail = false then
        cp_set_offline env r.pd
      else r.pd
    { r with ret := 0, pd := state_update_switch cfg env r.ret pd1 }

/-- The function `state_update(pd)`, one tick of the session state machine of
section 4.5 for one PD: a step of the phy, then `state_update_session`. The result
carries the return value of `state_update` and what the phy step sent, notified and
flushed. -/
def state_update (cfg : osdp_kconfig) (env : osdp_env) (cp : osdp_cp) (pd : osdp_pd) :
    cp_phy_result :=
  state_update_session cfg env (cp_phy_state_update env cp pd)

/-! ## CP side: `osdp_extract_address` (`osdp_cp.c`) -/

/-- The successive tokens that `strtok_r(s, ", ", &save)` and then
`strtok_r(NULL, ", ", &save)` hand out for the string `s` (C library): the maximal
runs of characters other than the comma and the blank. `cur` holds the characters of
the token being read, last one first. -/
def strtok_r_tokens : List Char → List Char → List (List Char)
  | [], cur => if cur = [] then [] else [cur.reverse]
  | c :: cs, cur =>
    if c = ',' ∨ c = ' ' then
      if cur = [] then strtok_r_tokens cs [] else cur.reverse :: strtok_r_tokens cs []
    else strtok_r_tokens cs (c :: cur)

/-- The digits that `strtoul` in base 10 consumes from the front of `s`: the value
accumulated from `acc` and the characters left. -/
def strtoul_digits : List Char → Nat → Nat × List Char
  | [], acc => (acc, [])
  | c :: cs, acc =>
    if c.isDigit then strtoul_digits cs (acc * 10 + (c.toNat - '0'.toNat)) else (acc, c :: cs)

/-- The largest `unsigned long`, for a long of 32 bits. -/
def ULONG_MAX : Nat := 2 ^ 32 - 1

/-- The call `strtoul(tok, &s2, 10)` (C library, `unsigned long` of 32 bits): white
space is skipped, a sign is accepted, then the decimal digits are consumed. The
result is the value (`ULONG_MAX` on overflow, negated modulo 2^32 after a minus
sign) and the characters from `s2` on; without any digit the value is 0 and `s2` is
`tok` itself. -/
def strtoul (tok : List Char) : Nat × List Char :=
  let s1 := tok.dropWhile (fun c => c = ' ' ∨ ('\t' ≤ c ∧ c ≤ '\r'))
  let neg : Bool := s1.head? = some '-'
  let s2 := if s1.head? = some '-' ∨ s1.head? = some '+' then s1.tail else s1
  match s2 with
  | [] => (0, tok)
  | c :: _ =>
    if c.isDigit then
      let r := strtoul_digits s2 0
      let v := if r.1 > ULONG_MAX then ULONG_MAX else r.1
      (if neg then (2 ^ 32 - v) % 2 ^ 32 else v, r.2)
    else (0, tok)

/-- The conversion of an `unsigned long` of 32 bits to `int` in the assignment
`address[pd_offset] = addr`. -/
def ulong_to_int (v : Nat) : Int := if v < 2 ^ 31 then v else (v : Int) - 2 ^ 32

/-- The `while` loop of `osdp_extract_address` over the tokens still to come;
`address` holds the entries written so far, so `pd_offset` is its length. The result
is the return value and the entries of `address` written. -/
def osdp_extract_address_loop (num : Nat) : List (List Char) → List Int → Int × List Int
  | [], address => (if address.length = num then 0 else -1, address)
  | tok :: rest, address =>
    if address.length < num then
      let r := strtoul tok
      if r.2 ≠ [] then (-1, address)
      else osdp_extract_address_loop num rest (address ++ [ulong_to_int r.1])
    else (if address.length = num then 0 else -1, address)

/-- The function `osdp_extract_address(address)`: the return value and the entries of
`address` it has written, in order. The address list is first copied into a buffer
of `32 * CONFIG_OSDP_NUM_CONNECTED_PD` bytes, which keeps at most one character less
than that. -/
def osdp_extract_address (cfg : osdp_kconfig) : Int × List Int :=
  let addr_buf := cfg.CONFIG_OSDP_PD_ADDRESS_LIST.take (32 * cfg.CONFIG_OSDP_NUM_CONNECTED_PD - 1)
  osdp_extract_address_loop cfg.CONFIG_OSDP_NUM_CONNECTED_PD (strtok_r_tokens addr_buf []) []

/-! ## Vocabulary of the statements about the session machine -/

/-- The part of a PD context that belongs to the session machine alone: the session
state, the flags AWAIT_RESP, SC_USE_SCBKD and SC_SCBKD_DONE, the timers `tstamp` and
`sc_tstamp`, and the sequence number. A step of the phy does not touch it. -/
def session_fields (pd : osdp_pd) : Nat × Bool × Bool × Bool × Nat × Nat × Int :=
  (pd.state, pd.flags.AWAIT_RESP, pd.flags.SC_USE_SCBKD, pd.flags.SC_SCBKD_DONE, pd.tstamp,
   pd.sc_tstamp, pd.seq_number)

/-- The Kconfig values of the examples: 20 polls a second, one second before a
command is retried, ten seconds before the secure channel is retried, one PD at
address 101. -/
def kconfig_example : osdp_kconfig :=
  { CONFIG_OSDP_PD_POLL_RATE := 20,
    CONFIG_OSDP_CMD_RETRY_WAIT_SEC := 1,
    CONFIG_OSDP_SC_RETRY_WAIT_SEC := 10,
    CONFIG_OSDP_NUM_CONNECTED_PD := 1,
    CONFIG_OSDP_PD_ADDRESS_LIST := "101".toList }

/-- A PD context of the CP in session state `state` whose last command has completed:
the phy is idle, the queue is empty, AWAIT_RESP is still set, the reply id is
`reply_id`, and the pool has four free blocks. -/
def pd_cp_completed (state reply_id : Nat) : osdp_pd :=
  { address := 101, baud_rate := 9600,
    state := state,
    phy_state := OSDP_CP_PHY_STATE_IDLE,
    flags := { AWAIT_RESP := true, SC_CAPABLE := true },
    reply_id := reply_id,
    cmd_slab_free := 4 }

/-- A PD context of the CP that is ONLINE without secure channel, with the phy idle,
the queue empty, nothing awaited, four free blocks, and the last poll stamped at
time 1000. -/
def pd_cp_online : osdp_pd :=
  { address := 101, baud_rate := 9600,
    state := OSDP_CP_STATE_ONLINE,
    phy_state := OSDP_CP_PHY_STATE_IDLE,
    tstamp := 1000,
    cmd_slab_free := 4 }

/-- The part of a PD context that belongs to the phy and the queue: the phy state, its
timer, the command queue, the pool and the staged command. Receiving and decoding a
reply does not touch it. -/
def phy_fields (pd : osdp_pd) : Nat × Nat × List osdp_cmd × Nat × Nat × osdp_cmd :=
  (pd.phy_state, pd.phy_tstamp, pd.cmd_queue, pd.cmd_slab_free, pd.cmd_id, pd.cmd_data)

/-- A secure-channel helper like `sc_ops_null`, except that the verification of the CP
cryptogram fails. -/
def sc_ops_reject : osdp_sc_ops :=
  { sc_ops_null with osdp_verify_cp_cryptogram := fun _ => -1 }

/-- The SCRYPT command with the cryptogram 01 02 .. 10, 17 bytes. -/
def scrypt_example : List Nat := CMD_SCRYPT :: key_example

/-- Whether a token is a decimal number: one or more decimal digits. -/
def is_decimal (tok : List Char) : Bool := tok ≠ [] ∧ tok.all Char.isDigit

/-- The value of a decimal number. -/
def decimal_value (tok : List Char) : Nat :=
  tok.foldl (fun acc c => acc * 10 + (c.toNat - '0'.toNat)) 0

/-- A packet layer like that of `env_plain`, except that every message has a secure
block, and the frame of a message is the three bytes of its secure block followed by
its data bytes. -/
def env_secure (recv : List Nat) (now : Nat) : osdp_env :=
  { env_plain recv now with
    osdp_phy_packet_get_smb := fun _ => some {},
    osdp_phy_packet_finalize := fun _ smb data =>
      match smb with
      | none => some data
      | some s => some ([s.b0, s.b1, s.b2] ++ data) }

/-- A PD context of the CP in session state SC_CHLNG whose CHLNG command has ended in
a phy error: the phy is in ERR, AWAIT_RESP is set, both SCBK-D flags are clear and
the pool has four free blocks. -/
def pd_cp_chlng_failed : osdp_pd :=
  { pd_cp_completed OSDP_CP_STATE_SC_CHLNG 0 with phy_state := OSDP_CP_PHY_STATE_ERR }

/-- The ticks of `state_update` for one PD, one for each environment of the list in
order, each on the PD context the tick before left: the results of the ticks. -/
def state_update_run (cfg : osdp_kconfig) (cp : osdp_cp) :
    List osdp_env → osdp_pd → List cp_phy_result
  | [], _ => []
  | env :: rest, pd =>
    (state_update cfg env cp pd) :: state_update_run cfg cp rest (state_update cfg env cp pd).pd

/-- A packet layer and channel that take every command: the header is built, there is
room for a two-byte command, every message gets a frame and `send` reports the whole
frame as sent. -/
def channel_takes_commands (env : osdp_env) : Prop :=
  (∀ p, 0 ≤ env.osdp_phy_packet_init p) ∧
  (∀ p, CMD_ID_LEN ≤ OSDP_PACKET_BUF_SIZE - env.osdp_phy_packet_get_data_offset p) ∧
  (∀ p smb out, ∃ frame, env.osdp_phy_packet_finalize p smb out = some frame ∧
    env.send frame = (frame.length : Int))

/-- The channel delivers, in this tick, bytes that the packet layer decodes as a
complete frame with the payload `payload`: `recv` is not empty, and with these bytes
(as many as the buffer holds) at the start of the receive buffer
`osdp_phy_decode_packet` answers `payload`. -/
def channel_delivers (env : osdp_env) (payload : List Nat) : Prop :=
  env.recv.take OSDP_PACKET_BUF_SIZE.toNat ≠ [] ∧
  ∀ p : osdp_pd, p.rx_buf = env.recv.take OSDP_PACKET_BUF_SIZE.toNat →
    p.rx_buf_len = (env.recv.take OSDP_PACKET_BUF_SIZE.toNat).length →
    env.osdp_phy_decode_packet p = .payload payload

/-- A PD context of the CP as it is before the first tick: session state INIT, the phy
idle, the queue empty, nothing awaited and four free blocks in the pool. -/
def pd_cp_init : osdp_pd :=
  { address := 101, baud_rate := 9600, cmd_slab_free := 4 }

/-- The PDID reply of the PD identity of scenario S2, thirteen bytes. -/
def pdid_reply_example : List Nat :=
  [REPLY_PDID, 0xC3, 0xB2, 0xA1, 0x04, 0x05, 0x44, 0x33, 0x22, 0x11, 0x01, 0x02, 0x03]

/-- A PDCAP reply with the triples (4, 1, 2) and (9, 0, 1): LED control, and the
communication-security capability with compliance level 0. -/
def pdcap_reply_example : List Nat :=
  REPLY_PDCAP :: pdcap_payload [(4, 1, 2), (OSDP_PD_CAP_COMMUNICATION_SECURITY, 0, 1)]

/-- Nine ticks over a packet layer without framing, 50 ms apart: the channel delivers
the PDID reply on the third tick and the PDCAP reply on the seventh, and nothing on
the other ticks. -/
def session_ticks_example : List osdp_env :=
  [env_plain [] 0, env_plain [] 50, env_plain pdid_reply_example 100, env_plain [] 150,
   env_plain [] 200, env_plain [] 250, env_plain pdcap_reply_example 300, env_plain [] 350,
   env_plain [] 400]

/-! ## Vocabulary of the statements about recovery -/

/-- What the session machine relies on from `osdp_phy_state_reset` (packet layer, not
under `src/`): it returns the phy to IDLE and leaves the session state, the command
queue and the pool alone. -/
def phy_reset_returns_to_idle (env : osdp_env) : Prop :=
  ∀ p : osdp_pd,
    (env.osdp_phy_state_reset p).phy_state = OSDP_CP_PHY_STATE_IDLE ∧
    (env.osdp_phy_state_reset p).state = p.state ∧
    (env.osdp_phy_state_reset p).cmd_queue = p.cmd_queue ∧
    (env.osdp_phy_state_reset p).cmd_slab_free = p.cmd_slab_free

/-- A PD context of the CP that a response timeout has taken offline at time 1000:
session state OFFLINE, the phy in ERR_WAIT, the queue empty and four free blocks. -/
def pd_cp_offline : osdp_pd :=
  { address := 101, baud_rate := 9600,
    state := OSDP_CP_STATE_OFFLINE,
    phy_state := OSDP_CP_PHY_STATE_ERR_WAIT,
    tstamp := 1000,
    cmd_slab_free := 4 }

/-- The commands with a fixed payload length, whose case of `pd_decode_command` opens
with `ASSERT_LENGTH` (ISTAT and OSTAT, which the PD also handles this way, apart),
each with the payload length it expects. -/
def cmd_fixed_data_len : List (Nat × Int) :=
  [(CMD_POLL, CMD_POLL_DATA_LEN), (CMD_LSTAT, CMD_LSTAT_DATA_LEN),
   (CMD_RSTAT, CMD_RSTAT_DATA_LEN), (CMD_ID, CMD_ID_DATA_LEN), (CMD_CAP, CMD_CAP_DATA_LEN),
   (CMD_OUT, CMD_OUT_DATA_LEN), (CMD_LED, CMD_LED_DATA_LEN), (CMD_BUZ, CMD_BUZ_DATA_LEN),
   (CMD_COMSET, CMD_COMSET_DATA_LEN)]

/-- The TEXT command object with the given header fields, declared length and data
bytes. -/
def text_cmd (reader control_code temp_time row col length : Nat) (data : List Nat) :
    osdp_cmd :=
  { id := OSDP_CMD_TEXT,
    text := { reader := reader, control_code := control_code, temp_time := temp_time,
              offset_row := row, offset_col := col, length := length, data := data } }

/-- The bytes of a TEXT command on the wire: the command id, the five header bytes,
the number of data bytes and the data bytes. -/
def text_wire (reader control_code temp_time row col : Nat) (data : List Nat) : List Nat :=
  [CMD_TEXT, reader, control_code, temp_time, row, col, data.length] ++ data

/-! ## Theorems -/

/-! ### Bytes and words -/

theorem BYTE_0_eq (x : Nat) : BYTE_0 x = x % 256 := by
  simp [BYTE_0, Nat.and_pow_two_sub_one_eq_mod x 8]

theorem BYTE_1_eq (x : Nat) : BYTE_1 x = x / 256 % 256 := by
  have h := Nat.and_pow_two_sub_one_eq_mod (x >>> 8) 8
  simp [Nat.shiftRight_eq_div_pow] at h
  simpa [BYTE_1, Nat.shiftRight_eq_div_pow] using h

theorem BYTE_2_eq (x : Nat) : BYTE_2 x = x / 65536 % 256 := by
  have h := Nat.and_pow_two_sub_one_eq_mod (x >>> 16) 8
  simp [Nat.shiftRight_eq_div_pow] at h
  simpa [BYTE_2, Nat.shiftRight_eq_div_pow] using h

theorem BYTE_3_eq (x : Nat) : BYTE_3 x = x / 16777216 % 256 := by
  have h := Nat.and_pow_two_sub_one_eq_mod (x >>> 24) 8
  simp [Nat.shiftRight_eq_div_pow] at h
  simpa [BYTE_3, Nat.shiftRight_eq_div_pow] using h

/-- An OR with a value shifted past the bits of `a` is a sum. -/
theorem lor_shl (i a b : Nat) (ha : a < 2 ^ i) : a ||| (b <<< i) = a + 2 ^ i * b := by
  rw [Nat.lor_comm, Nat.shiftLeft_eq, Nat.mul_comm b, ← Nat.mul_add_lt_is_or ha b]
  omega

/-- The 16-bit word assembled least significant byte first. -/
theorem le_word16 (b0 b1 : Nat) (h0 : b0 < 256) (h1 : b1 < 256) :
    u16 (u16 b0 ||| (b1 <<< 8)) = b0 + 256 * b1 := by
  have e0 : u16 b0 = b0 := by unfold u16; omega
  rw [e0, lor_shl 8 b0 b1 (by omega)]
  unfold u16; omega

/-- The 24-bit word assembled least significant byte first (vendor code). -/
theorem le_word24 (b0 b1 b2 : Nat) (h0 : b0 < 256) (h1 : b1 < 256) (h2 : b2 < 256) :
    u32 (u32 (u32 b0 ||| (b1 <<< 8)) ||| (b2 <<< 16)) = b0 + 256 * b1 + 65536 * b2 := by
  have e0 : u32 b0 = b0 := by unfold u32; omega
  rw [e0, lor_shl 8 b0 b1 (by omega)]
  have e1 : u32 (b0 + 2 ^ 8 * b1) = b0 + 2 ^ 8 * b1 := by unfold u32; omega
  rw [e1, lor_shl 16 _ b2 (by omega)]
  unfold u32; omega

/-- The 32-bit word assembled least significant byte first (serial number, baud
rate). -/
theorem le_word32 (b0 b1 b2 b3 : Nat) (h0 : b0 < 256) (h1 : b1 < 256) (h2 : b2 < 256)
    (h3 : b3 < 256) :
    u32 (u32 (u32 (u32 b0 ||| (b1 <<< 8)) ||| (b2 <<< 16)) ||| (b3 <<< 24))
      = b0 + 256 * b1 + 65536 * b2 + 16777216 * b3 := by
  have e0 : u32 b0 = b0 := by unfold u32; omega
  rw [e0, lor_shl 8 b0 b1 (by omega)]
  have e1 : u32 (b0 + 2 ^ 8 * b1) = b0 + 2 ^ 8 * b1 := by unfold u32; omega
  rw [e1, lor_shl 16 _ b2 (by omega)]
  have e2 : u32 (b0 + 2 ^ 8 * b1 + 2 ^ 16 * b2) = b0 + 2 ^ 8 * b1 + 2 ^ 16 * b2 := by
    unfold u32; omega
  rw [e2, lor_shl 24 _ b3 (by omega)]
  unfold u32; omega

/-- The 24-bit word assembled most significant byte first (firmware version). -/
theorem be_word24 (b0 b1 b2 : Nat) (h0 : b0 < 256) (h1 : b1 < 256) (h2 : b2 < 256) :
    u32 (u32 (u32 (b0 <<< 16) ||| (b1 <<< 8)) ||| b2) = 65536 * b0 + 256 * b1 + b2 := by
  have e0 : u32 (b0 <<< 16) = 2 ^ 16 * b0 := by
    rw [Nat.shiftLeft_eq]; unfold u32; omega
  have e1 : 2 ^ 16 * b0 ||| (b1 <<< 8) = 2 ^ 16 * b0 + 2 ^ 8 * b1 := by
    rw [Nat.shiftLeft_eq, Nat.mul_comm b1]
    exact (Nat.mul_add_lt_is_or (by omega) b0).symm
  have e2 : u32 (2 ^ 16 * b0 + 2 ^ 8 * b1) = 2 ^ 8 * (256 * b0 + b1) := by
    unfold u32; omega
  rw [e0, e1, e2, ← Nat.mul_add_lt_is_or (by omega) (256 * b0 + b1)]
  unfold u32; omega

/-! ### PDID: the bytes of the reply and their decoding -/

/-- The reply `pd_build_reply` writes for PDID when the buffer has room. -/
theorem pd_build_reply_pdid (ops : osdp_sc_ops) (pd : osdp_pd) (data_off : Int)
    (smb : Option osdp_smb) (max_len : Int) (hid : pd.reply_id = REPLY_PDID)
    (hroom : REPLY_PDID_LEN ≤ max_len - data_off) :
    (pd_build_reply ops pd data_off smb max_len).ret = 13 ∧
    (pd_build_reply ops pd data_off smb max_len).out =
      [0x45,
       pd.id.vendor_code % 256, pd.id.vendor_code / 256 % 256, pd.id.vendor_code / 65536 % 256,
       pd.id.model % 256, pd.id.version % 256,
       pd.id.serial_number % 256, pd.id.serial_number / 256 % 256,
       pd.id.serial_number / 65536 % 256, pd.id.serial_number / 16777216 % 256,
       pd.id.firmware_version / 16777216 % 256, pd.id.firmware_version / 65536 % 256,
       pd.id.firmware_version / 256 % 256] := by
  have h : ¬ (max_len - data_off < 13) := by simp at hroom; omega
  simp [pd_build_reply, pd_build_reply_switch, hid, h, BYTE_0_eq, BYTE_1_eq, BYTE_2_eq,
    BYTE_3_eq, u8]

/-- What `cp_decode_response` stores for a PDID reply of twelve payload bytes. -/
theorem cp_decode_response_pdid (ops : osdp_sc_ops) (cp : osdp_cp) (c : osdp_pd)
    (b0 b1 b2 b3 b4 b5 b6 b7 b8 b9 b10 b11 : Nat)
    (h0 : b0 < 256) (h1 : b1 < 256) (h2 : b2 < 256) (h5 : b5 < 256) (h6 : b6 < 256)
    (h7 : b7 < 256) (h8 : b8 < 256) (h9 : b9 < 256) (h10 : b10 < 256) (h11 : b11 < 256) :
    (cp_decode_response ops cp c
      [0x45, b0, b1, b2, b3, b4, b5, b6, b7, b8, b9, b10, b11] 13).ret = 0 ∧
    (cp_decode_response ops cp c
      [0x45, b0, b1, b2, b3, b4, b5, b6, b7, b8, b9, b10, b11] 13).pd.id =
      { vendor_code := b0 + 256 * b1 + 65536 * b2, model := b3, version := b4,
        serial_number := b5 + 256 * b6 + 65536 * b7 + 16777216 * b8,
        firmware_version := 65536 * b9 + 256 * b10 + b11 } := by
  simp [cp_decode_response, cp_decode_response_switch, rd, le_word24 b0 b1 b2 h0 h1 h2,
    le_word32 b5 b6 b7 b8 h5 h6 h7 h8, be_word24 b9 b10 b11 h9 h10 h11]

/-- C1, as the code behaves: for every PD identity, `pd_build_reply` for reply PDID
(with room for 13 bytes) returns 13 and writes the reply id, the vendor code least
significant byte first, model, version, the serial number least significant byte
first, and then bits 31..24, 23..16 and 15..8 of the firmware version. The claim
expects bits 23..16, 15..8 and 7..0 there: the code reads `BYTE_3`, `BYTE_2`,
`BYTE_1`, so the low byte of the firmware version never reaches the wire. -/
theorem C1_pdid_reply_firmware_bytes (ops : osdp_sc_ops) (pd : osdp_pd) (data_off : Int)
    (smb : Option osdp_smb) (max_len : Int) (hid : pd.reply_id = REPLY_PDID)
    (hroom : REPLY_PDID_LEN ≤ max_len - data_off) :
    (pd_build_reply ops pd data_off smb max_len).ret = 13 ∧
    (pd_build_reply ops pd data_off smb max_len).out =
      [REPLY_PDID,
       pd.id.vendor_code % 256, pd.id.vendor_code / 2 ^ 8 % 256, pd.id.vendor_code / 2 ^ 16 % 256,
       pd.id.model % 256, pd.id.version % 256,
       pd.id.serial_number % 256, pd.id.serial_number / 2 ^ 8 % 256,
       pd.id.serial_number / 2 ^ 16 % 256, pd.id.serial_number / 2 ^ 24 % 256,
       pd.id.firmware_version / 2 ^ 24 % 256, pd.id.firmware_version / 2 ^ 16 % 256,
       pd.id.firmware_version / 2 ^ 8 % 256] :=
  pd_build_reply_pdid ops pd data_off smb max_len hid hroom

/-- C1 at the identity of scenario S2 (vendor 0xA1B2C3, model 4, version 5, serial
0x11223344, firmware 0x010203): the code writes 45 C3 B2 A1 04 05 44 33 22 11 00 01 02,
not the bytes 45 C3 B2 A1 04 05 44 33 22 11 01 02 03 of the claim. -/
theorem C1_pdid_reply_firmware_bytes_s2 :
    REPLY_PDID_LEN ≤ (256 : Int) - 0 ∧
    (pd_build_reply sc_ops_null { id := pd_id_s2, reply_id := REPLY_PDID } 0 none 256).out
      = [0x45, 0xC3, 0xB2, 0xA1, 0x04, 0x05, 0x44, 0x33, 0x22, 0x11, 0x00, 0x01, 0x02] ∧
    (pd_build_reply sc_ops_null { id := pd_id_s2, reply_id := REPLY_PDID } 0 none 256).out
      ≠ [0x45, 0xC3, 0xB2, 0xA1, 0x04, 0x05, 0x44, 0x33, 0x22, 0x11, 0x01, 0x02, 0x03] :=
  ⟨by decide,
   (C1_pdid_reply_firmware_bytes sc_ops_null { id := pd_id_s2, reply_id := REPLY_PDID } 0 none
      256 rfl (by decide)).2,
   by decide⟩

/-- C2, as the code behaves: for every PD identity with vendor code < 2^24, serial
number < 2^32 and firmware version < 2^24, `cp_decode_response` accepts the PDID
reply that `pd_build_reply` produces and recovers the vendor code, the serial number
and the low bytes of model and version, but the firmware version it stores is the
PD's firmware version divided by 256: the round trip loses the low byte. -/
theorem C2_pdid_round_trip_firmware_shifted (ops ops2 : osdp_sc_ops) (cp : osdp_cp)
    (pd c : osdp_pd) (data_off : Int) (smb : Option osdp_smb) (max_len : Int)
    (hid : pd.reply_id = REPLY_PDID) (hroom : REPLY_PDID_LEN ≤ max_len - data_off)
    (hv : pd.id.vendor_code < 2 ^ 24) (hs : pd.id.serial_number < 2 ^ 32)
    (hf : pd.id.firmware_version < 2 ^ 24) :
    (cp_decode_response ops2 cp c (pd_build_reply ops pd data_off smb max_len).out
      (pd_build_reply ops pd data_off smb max_len).ret).ret = OSDP_CP_ERR_NONE ∧
    (cp_decode_response ops2 cp c (pd_build_reply ops pd data_off smb max_len).out
      (pd_build_reply ops pd data_off smb max_len).ret).pd.id =
      { vendor_code := pd.id.vendor_code, model := pd.id.model % 256,
        version := pd.id.version % 256, serial_number := pd.id.serial_number,
        firmware_version := pd.id.firmware_version / 256 } := by
  obtain ⟨hr, ho⟩ := pd_build_reply_pdid ops pd data_off smb max_len hid hroom
  rw [hr, ho]
  have h := cp_decode_response_pdid ops2 cp c (pd.id.vendor_code % 256)
    (pd.id.vendor_code / 256 % 256) (pd.id.vendor_code / 65536 % 256) (pd.id.model % 256)
    (pd.id.version % 256) (pd.id.serial_number % 256) (pd.id.serial_number / 256 % 256)
    (pd.id.serial_number / 65536 % 256) (pd.id.serial_number / 16777216 % 256)
    (pd.id.firmware_version / 16777216 % 256) (pd.id.firmware_version / 65536 % 256)
    (pd.id.firmware_version / 256 % 256)
    (by omega) (by omega) (by omega) (by omega) (by omega) (by omega) (by omega) (by omega)
    (by omega) (by omega)
  refine ⟨h.1, ?_⟩
  rw [h.2]
  have e1 : pd.id.vendor_code % 256 + 256 * (pd.id.vendor_code / 256 % 256)
      + 65536 * (pd.id.vendor_code / 65536 % 256) = pd.id.vendor_code := by omega
  have e2 : pd.id.serial_number % 256 + 256 * (pd.id.serial_number / 256 % 256)
      + 65536 * (pd.id.serial_number / 65536 % 256)
      + 16777216 * (pd.id.serial_number / 16777216 % 256) = pd.id.serial_number := by omega
  have e3 : 65536 * (pd.id.firmware_version / 16777216 % 256)
      + 256 * (pd.id.firmware_version / 65536 % 256) + pd.id.firmware_version / 256 % 256
      = pd.id.firmware_version / 256 := by omega
  rw [e1, e2, e3]

/-- C2 at the identity of scenario S2: the CP ends up with firmware version 0x000102
where the PD has 0x010203; every other field of the identity comes back unchanged. -/
theorem C2_pdid_round_trip_firmware_shifted_s2 :
    (cp_decode_response sc_ops_null {} {}
      (pd_build_reply sc_ops_null { id := pd_id_s2, reply_id := REPLY_PDID } 0 none 256).out
      (pd_build_reply sc_ops_null { id := pd_id_s2, reply_id := REPLY_PDID } 0 none 256).ret).pd.id
      = { pd_id_s2 with firmware_version := 0x000102 } ∧
    pd_id_s2.firmware_version = 0x010203 := by
  have h := (C2_pdid_round_trip_firmware_shifted sc_ops_null sc_ops_null {}
    { id := pd_id_s2, reply_id := REPLY_PDID } {} 0 none 256
    rfl (by decide) (by decide) (by decide) (by decide)).2
  exact ⟨by rw [h]; decide, by decide⟩


/-! ### Commands: the bytes `cp_build_command` writes and how the PD reads them -/

/-- The bytes of an OUT command. -/
theorem cp_build_command_out (ops : osdp_sc_ops) (c : osdp_pd) (data_off : Int)
    (smb : Option osdp_smb) (max_len : Int) (hid : c.cmd_id = CMD_OUT)
    (hroom : CMD_OUT_LEN ≤ max_len - data_off) :
    (cp_build_command ops c data_off smb max_len).ret = 5 ∧
    (cp_build_command ops c data_off smb max_len).out =
      [0x68, c.cmd_data.output.output_no % 256, c.cmd_data.output.control_code % 256,
       c.cmd_data.output.timer_count % 256, c.cmd_data.output.timer_count / 256 % 256] := by
  have h : ¬ (max_len - data_off < 5) := by simp at hroom; omega
  simp [cp_build_command, cp_build_command_switch, hid, h, BYTE_0_eq, BYTE_1_eq, u8]

/-- The bytes of a LED command. -/
theorem cp_build_command_led (ops : osdp_sc_ops) (c : osdp_pd) (data_off : Int)
    (smb : Option osdp_smb) (max_len : Int) (hid : c.cmd_id = CMD_LED)
    (hroom : CMD_LED_LEN ≤ max_len - data_off) :
    (cp_build_command ops c data_off smb max_len).ret = 15 ∧
    (cp_build_command ops c data_off smb max_len).out =
      [0x69, c.cmd_data.led.reader % 256, c.cmd_data.led.led_number % 256,
       c.cmd_data.led.temporary.control_code % 256, c.cmd_data.led.temporary.on_count % 256,
       c.cmd_data.led.temporary.off_count % 256, c.cmd_data.led.temporary.on_color % 256,
       c.cmd_data.led.temporary.off_color % 256,
       c.cmd_data.led.temporary.timer_count % 256,
       c.cmd_data.led.temporary.timer_count / 256 % 256,
       c.cmd_data.led.permanent.control_code % 256, c.cmd_data.led.permanent.on_count % 256,
       c.cmd_data.led.permanent.off_count % 256, c.cmd_data.led.permanent.on_color % 256,
       c.cmd_data.led.permanent.off_color % 256] := by
  have h : ¬ (max_len - data_off < 15) := by simp at hroom; omega
  simp [cp_build_command, cp_build_command_switch, hid, h, BYTE_0_eq, BYTE_1_eq, u8]

/-- The bytes of a BUZ command. -/
theorem cp_build_command_buz (ops : osdp_sc_ops) (c : osdp_pd) (data_off : Int)
    (smb : Option osdp_smb) (max_len : Int) (hid : c.cmd_id = CMD_BUZ)
    (hroom : CMD_BUZ_LEN ≤ max_len - data_off) :
    (cp_build_command ops c data_off smb max_len).ret = 6 ∧
    (cp_build_command ops c data_off smb max_len).out =
      [0x6A, c.cmd_data.buzzer.reader % 256, c.cmd_data.buzzer.control_code % 256,
       c.cmd_data.buzzer.on_count % 256, c.cmd_data.buzzer.off_count % 256,
       c.cmd_data.buzzer.rep_count % 256] := by
  have h : ¬ (max_len - data_off < 6) := by simp at hroom; omega
  simp [cp_build_command, cp_build_command_switch, hid, h, u8]

/-- The command a capable PD hands to its callback for the five bytes of an OUT
command. -/
theorem pd_decode_command_out (ops : osdp_sc_ops) (pd : osdp_pd) (cb : osdp_cmd → Int)
    (hcb : pd.command_callback = some cb) (b0 b1 b2 b3 : Nat) (h2 : b2 < 256) (h3 : b3 < 256)
    (hn : b0 + 1 ≤ (pd.cap OSDP_PD_CAP_OUTPUT_CONTROL).num_items)
    (hc : (pd.cap OSDP_PD_CAP_OUTPUT_CONTROL).compliance_level ≠ 0) :
    ∃ r, pd_decode_command ops pd [0x68, b0, b1, b2, b3] 5 = some r ∧
      r.pd.cb_log = pd.cb_log ++
        [{ id := OSDP_CMD_OUTPUT,
           output := { output_no := b0, control_code := b1, timer_count := b2 + 256 * b3 } }] := by
  have hn2 : ¬ ((pd.cap 2).num_items < b0 + 1) := by simp at hn; omega
  have hc2 : ¬ ((pd.cap 2).compliance_level = 0) := by simpa using hc
  simp [pd_decode_command, pd_decode_command_switch, rd, pd_cmd_cap_ok, pd_command_callback, hcb,
    le_word16 b2 b3 h2 h3, hn2, hc2, pd_nak_record]
  split_ifs <;> simp

/-- The command a capable PD hands to its callback for the fifteen bytes of a LED
command. -/
theorem pd_decode_command_led (ops : osdp_sc_ops) (pd : osdp_pd) (cb : osdp_cmd → Int)
    (hcb : pd.command_callback = some cb) (b0 b1 b2 b3 b4 b5 b6 b7 b8 b9 b10 b11 b12 b13 : Nat)
    (h7 : b7 < 256) (h8 : b8 < 256)
    (hn : b1 + 1 ≤ (pd.cap OSDP_PD_CAP_READER_LED_CONTROL).num_items)
    (hc : (pd.cap OSDP_PD_CAP_READER_LED_CONTROL).compliance_level ≠ 0) :
    ∃ r, pd_decode_command ops pd
        [0x69, b0, b1, b2, b3, b4, b5, b6, b7, b8, b9, b10, b11, b12, b13] 15 = some r ∧
      r.pd.cb_log = pd.cb_log ++
        [{ id := OSDP_CMD_LED,
           led := { reader := b0, led_number := b1,
                    temporary := { control_code := b2, on_count := b3, off_count := b4,
                                   on_color := b5, off_color := b6, timer_count := b7 + 256 * b8 },
                    permanent := { control_code := b9, on_count := b10, off_count := b11,
                                   on_color := b12, off_color := b13 } } }] := by
  have hn2 : ¬ ((pd.cap 4).num_items < b1 + 1) := by simp at hn; omega
  have hc2 : ¬ ((pd.cap 4).compliance_level = 0) := by simpa using hc
  simp [pd_decode_command, pd_decode_command_switch, rd, pd_cmd_cap_ok, pd_command_callback, hcb,
    le_word16 b7 b8 h7 h8, hn2, hc2, pd_nak_record]
  split_ifs <;> simp

/-- The command a capable PD hands to its callback for the six bytes of a BUZ
command. -/
theorem pd_decode_command_buz (ops : osdp_sc_ops) (pd : osdp_pd) (cb : osdp_cmd → Int)
    (hcb : pd.command_callback = some cb) (b0 b1 b2 b3 b4 : Nat)
    (hn : (pd.cap OSDP_PD_CAP_READER_AUDIBLE_OUTPUT).num_items ≠ 0)
    (hc : (pd.cap OSDP_PD_CAP_READER_AUDIBLE_OUTPUT).compliance_level ≠ 0) :
    ∃ r, pd_decode_command ops pd [0x6A, b0, b1, b2, b3, b4] 6 = some r ∧
      r.pd.cb_log = pd.cb_log ++
        [{ id := OSDP_CMD_BUZZER,
           buzzer := { reader := b0, control_code := b1, on_count := b2, off_count := b3,
                       rep_count := b4 } }] := by
  have hn2 : ¬ ((pd.cap 5).num_items = 0) := by simpa using hn
  have hc2 : ¬ ((pd.cap 5).compliance_level = 0) := by simpa using hc
  simp [pd_decode_command, pd_decode_command_switch, rd, pd_cmd_cap_ok, pd_command_callback, hcb,
    hn2, hc2, pd_nak_record]
  split_ifs <;> simp


/-- C3, counterexample: the LED command of scenario S3 with the timer count 300 in its
permanent block is encoded to the same fifteen bytes as the command of S3 itself,
whose permanent timer count is 0, so the PD cannot tell the two apart: the command
handed to the callback of a PD with two LEDs has the kind LED and does not have the
permanent timer count 300. -/
theorem C3_led_permanent_timer_not_sent :
    cmd_led_s3_perm_timer.led.permanent.timer_count = 300 ∧
    cmd_led_s3_perm_timer.led ≠ cmd_led_s3.led ∧
    (cp_build_command sc_ops_null { cmd_id := CMD_LED, cmd_data := cmd_led_s3_perm_timer }
        0 none 256).out =
      (cp_build_command sc_ops_null { cmd_id := CMD_LED, cmd_data := cmd_led_s3 } 0 none 256).out ∧
    (cp_build_command sc_ops_null { cmd_id := CMD_LED, cmd_data := cmd_led_s3_perm_timer }
        0 none 256).out =
      [0x69, 0, 1, 2, 5, 5, 1, 0, 0xF4, 0x01, 1, 10, 0, 2, 0] ∧
    (pd_decode_command sc_ops_null pd_example
        (cp_build_command sc_ops_null { cmd_id := CMD_LED, cmd_data := cmd_led_s3_perm_timer }
          0 none 256).out
        (cp_build_command sc_ops_null { cmd_id := CMD_LED, cmd_data := cmd_led_s3_perm_timer }
          0 none 256).ret).map
      (fun r => r.pd.cb_log.map (fun y => (y.id, decide (y.led = cmd_led_s3_perm_timer.led),
        decide (y.led.permanent.timer_count = 300)))) =
      some [(OSDP_CMD_LED, false, false)] := by
  decide

/-- C3, amended: command round trip. For a staged OUTPUT, LED or BUZZER command whose
fields are in the range of their C types, if `cp_build_command` encodes it (with room
in the buffer) and a PD whose capabilities admit the command decodes those bytes with
`pd_decode_command`, then the application callback is called exactly once, with a
command of the same kind whose payload fields that travel on the wire have the values
of the staged command: the whole payload of OUTPUT and of BUZZER, the 16-bit timer
count of OUTPUT included, and for LED the reader, the LED number, the temporary
block with its 16-bit timer count, and the five settings control code, on count, off
count, on colour and off colour of the permanent block. The timer count of the
permanent block is not on the wire: the bytes of a LED command are the same whatever
its value. -/
theorem C3_command_round_trip (ops ops2 : osdp_sc_ops) (c pd : osdp_pd) (data_off : Int)
    (smb : Option osdp_smb) (max_len : Int) (cb : osdp_cmd → Int)
    (hcb : pd.command_callback = some cb) :
    (c.cmd_id = CMD_OUT → CMD_OUT_LEN ≤ max_len - data_off → c.cmd_data.output.in_range →
      c.cmd_data.output.output_no + 1 ≤ (pd.cap OSDP_PD_CAP_OUTPUT_CONTROL).num_items →
      (pd.cap OSDP_PD_CAP_OUTPUT_CONTROL).compliance_level ≠ 0 →
      ∃ r y, pd_decode_command ops2 pd (cp_build_command ops c data_off smb max_len).out
          (cp_build_command ops c data_off smb max_len).ret = some r ∧
        r.pd.cb_log = pd.cb_log ++ [y] ∧ y.id = OSDP_CMD_OUTPUT ∧
        y.output = c.cmd_data.output) ∧
    (c.cmd_id = CMD_LED → CMD_LED_LEN ≤ max_len - data_off → c.cmd_data.led.in_range →
      c.cmd_data.led.led_number + 1 ≤ (pd.cap OSDP_PD_CAP_READER_LED_CONTROL).num_items →
      (pd.cap OSDP_PD_CAP_READER_LED_CONTROL).compliance_level ≠ 0 →
      ∃ r y, pd_decode_command ops2 pd (cp_build_command ops c data_off smb max_len).out
          (cp_build_command ops c data_off smb max_len).ret = some r ∧
        r.pd.cb_log = pd.cb_log ++ [y] ∧ y.id = OSDP_CMD_LED ∧
        y.led.reader = c.cmd_data.led.reader ∧ y.led.led_number = c.cmd_data.led.led_number ∧
        y.led.temporary = c.cmd_data.led.temporary ∧
        y.led.permanent.control_code = c.cmd_data.led.permanent.control_code ∧
        y.led.permanent.on_count = c.cmd_data.led.permanent.on_count ∧
        y.led.permanent.off_count = c.cmd_data.led.permanent.off_count ∧
        y.led.permanent.on_color = c.cmd_data.led.permanent.on_color ∧
        y.led.permanent.off_color = c.cmd_data.led.permanent.off_color) ∧
    (c.cmd_id = CMD_BUZ → CMD_BUZ_LEN ≤ max_len - data_off → c.cmd_data.buzzer.in_range →
      (pd.cap OSDP_PD_CAP_READER_AUDIBLE_OUTPUT).num_items ≠ 0 →
      (pd.cap OSDP_PD_CAP_READER_AUDIBLE_OUTPUT).compliance_level ≠ 0 →
      ∃ r y, pd_decode_command ops2 pd (cp_build_command ops c data_off smb max_len).out
          (cp_build_command ops c data_off smb max_len).ret = some r ∧
        r.pd.cb_log = pd.cb_log ++ [y] ∧ y.id = OSDP_CMD_BUZZER ∧
        y.buzzer = c.cmd_data.buzzer) ∧
    (c.cmd_id = CMD_LED → CMD_LED_LEN ≤ max_len - data_off → ∀ t : Nat,
      (cp_build_command ops
        { c with cmd_data := { c.cmd_data with led := { c.cmd_data.led with
            permanent := { c.cmd_data.led.permanent with timer_count := t } } } }
        data_off smb max_len).out = (cp_build_command ops c data_off smb max_len).out) := by
  refine ⟨?_, ?_, ?_, ?_⟩
  rotate_left 3
  · intro hid hroom t
    have h1 := (cp_build_command_led ops
      { c with cmd_data := { c.cmd_data with led := { c.cmd_data.led with
          permanent := { c.cmd_data.led.permanent with timer_count := t } } } }
      data_off smb max_len hid hroom).2
    have h2 := (cp_build_command_led ops c data_off smb max_len hid hroom).2
    exact h1.trans h2.symm
  · intro hid hroom hr hn hc
    obtain ⟨h1, h2, h3⟩ := hr
    obtain ⟨e1, e2⟩ := cp_build_command_out ops c data_off smb max_len hid hroom
    rw [e1, e2]
    obtain ⟨r, hr1, hr2⟩ := pd_decode_command_out ops2 pd cb hcb
      (c.cmd_data.output.output_no % 256) (c.cmd_data.output.control_code % 256)
      (c.cmd_data.output.timer_count % 256) (c.cmd_data.output.timer_count / 256 % 256)
      (by omega) (by omega) (by rw [Nat.mod_eq_of_lt h1]; exact hn) hc
    refine ⟨r, _, hr1, hr2, rfl, ?_⟩
    cases hx : c.cmd_data.output
    simp only [hx] at h1 h2 h3
    simp only [osdp_cmd_output.mk.injEq]
    omega
  · intro hid hroom hr hn hc
    obtain ⟨h1, h2, ⟨t1, t2, t3, t4, t5, t6⟩, ⟨p1, p2, p3, p4, p5, _⟩⟩ := hr
    obtain ⟨e1, e2⟩ := cp_build_command_led ops c data_off smb max_len hid hroom
    rw [e1, e2]
    obtain ⟨r, hr1, hr2⟩ := pd_decode_command_led ops2 pd cb hcb
      (c.cmd_data.led.reader % 256) (c.cmd_data.led.led_number % 256)
      (c.cmd_data.led.temporary.control_code % 256) (c.cmd_data.led.temporary.on_count % 256)
      (c.cmd_data.led.temporary.off_count % 256) (c.cmd_data.led.temporary.on_color % 256)
      (c.cmd_data.led.temporary.off_color % 256) (c.cmd_data.led.temporary.timer_count % 256)
      (c.cmd_data.led.temporary.timer_count / 256 % 256)
      (c.cmd_data.led.permanent.control_code % 256) (c.cmd_data.led.permanent.on_count % 256)
      (c.cmd_data.led.permanent.off_count % 256) (c.cmd_data.led.permanent.on_color % 256)
      (c.cmd_data.led.permanent.off_color % 256)
      (by omega) (by omega) (by rw [Nat.mod_eq_of_lt h2]; exact hn) hc
    refine ⟨r, _, hr1, hr2, rfl, ?_⟩
    refine ⟨Nat.mod_eq_of_lt h1, Nat.mod_eq_of_lt h2, ?_, Nat.mod_eq_of_lt p1,
      Nat.mod_eq_of_lt p2, Nat.mod_eq_of_lt p3, Nat.mod_eq_of_lt p4, Nat.mod_eq_of_lt p5⟩
    cases hx : c.cmd_data.led.temporary
    simp only [hx] at t1 t2 t3 t4 t5 t6
    simp only [osdp_cmd_led_params.mk.injEq]
    omega
  · intro hid hroom hr hn hc
    obtain ⟨h1, h2, h3, h4, h5⟩ := hr
    obtain ⟨e1, e2⟩ := cp_build_command_buz ops c data_off smb max_len hid hroom
    rw [e1, e2]
    obtain ⟨r, hr1, hr2⟩ := pd_decode_command_buz ops2 pd cb hcb
      (c.cmd_data.buzzer.reader % 256) (c.cmd_data.buzzer.control_code % 256)
      (c.cmd_data.buzzer.on_count % 256) (c.cmd_data.buzzer.off_count % 256)
      (c.cmd_data.buzzer.rep_count % 256) hn hc
    refine ⟨r, _, hr1, hr2, rfl, ?_⟩
    cases hx : c.cmd_data.buzzer
    simp only [hx] at h1 h2 h3 h4 h5
    simp only [osdp_cmd_buzzer.mk.injEq]
    omega


/-- C3 on scenario S3 of the spec: the LED command for reader 0, led 1,
temp(2,5,5,1,0,timer 500), perm(1,10,0,2,0) reaches the callback of a PD with two
LEDs field for field. -/
theorem C3_command_round_trip_s3 :
    pd_example.command_callback = some (fun _ => 0) ∧
    ∃ r y, pd_decode_command sc_ops_null pd_example
        (cp_build_command sc_ops_null { cmd_id := CMD_LED, cmd_data := cmd_led_s3 } 0 none 256).out
        (cp_build_command sc_ops_null { cmd_id := CMD_LED, cmd_data := cmd_led_s3 } 0 none 256).ret
        = some r ∧
      r.pd.cb_log = pd_example.cb_log ++ [y] ∧ y.id = OSDP_CMD_LED ∧
      y.led.reader = 0 ∧ y.led.led_number = 1 ∧
      y.led.temporary = { control_code := 2, on_count := 5, off_count := 5, on_color := 1,
                          off_color := 0, timer_count := 500 } ∧
      y.led.permanent.control_code = 1 ∧ y.led.permanent.on_count = 10 ∧
      y.led.permanent.off_count = 0 ∧ y.led.permanent.on_color = 2 ∧
      y.led.permanent.off_color = 0 :=
  ⟨rfl, (C3_command_round_trip sc_ops_null sc_ops_null
      { cmd_id := CMD_LED, cmd_data := cmd_led_s3 } pd_example 0 none 256 (fun _ => 0) rfl).2.1
      rfl (by decide) (by decide) (by decide) (by decide)⟩

/-! ### COMSET -/

/-- The bytes of a COMSET command. -/
theorem cp_build_command_comset (ops : osdp_sc_ops) (c : osdp_pd) (data_off : Int)
    (smb : Option osdp_smb) (max_len : Int) (hid : c.cmd_id = CMD_COMSET)
    (hroom : CMD_COMSET_LEN ≤ max_len - data_off) :
    (cp_build_command ops c data_off smb max_len).ret = 6 ∧
    (cp_build_command ops c data_off smb max_len).out =
      [0x6E, c.cmd_data.comset.address % 256,
       c.cmd_data.comset.baud_rate % 256, c.cmd_data.comset.baud_rate / 256 % 256,
       c.cmd_data.comset.baud_rate / 65536 % 256,
       c.cmd_data.comset.baud_rate / 16777216 % 256] := by
  have h : ¬ (max_len - data_off < 6) := by simp at hroom; omega
  simp [cp_build_command, cp_build_command_switch, hid, h, BYTE_0_eq, BYTE_1_eq, BYTE_2_eq,
    BYTE_3_eq, u8]

/-- The COMSET command the PD hands to its callback for the six bytes of a COMSET
command, and the state in which `pd_decode_command` leaves the PD. -/
theorem pd_decode_command_comset (ops : osdp_sc_ops) (pd : osdp_pd) (cb : osdp_cmd → Int)
    (hcb : pd.command_callback = some cb) (a b0 b1 b2 b3 : Nat)
    (h0 : b0 < 256) (h1 : b1 < 256) (h2 : b2 < 256) (h3 : b3 < 256) (y : osdp_cmd)
    (hy : y = { id := OSDP_CMD_COMSET,
                comset :=
                  if a < 0x7F ∧ (b0 + 256 * b1 + 65536 * b2 + 16777216 * b3 = 9600 ∨
                      b0 + 256 * b1 + 65536 * b2 + 16777216 * b3 = 38400 ∨
                      b0 + 256 * b1 + 65536 * b2 + 16777216 * b3 = 115200) then
                    { address := a, baud_rate := b0 + 256 * b1 + 65536 * b2 + 16777216 * b3 }
                  else { address := u8 pd.address, baud_rate := u32 pd.baud_rate } }) :
    pd_decode_command ops pd [0x6E, a, b0, b1, b2, b3] 6 =
      some (if cb y = 0 then
              { ret := OSDP_PD_ERR_NONE,
                pd := { pd with cmd_id := CMD_COMSET, reply_id := REPLY_COM, cmd_data := y,
                                cb_log := pd.cb_log ++ [y] },
                pos := 6 }
            else
              { ret := OSDP_PD_ERR_REPLY,
                pd := { pd with cmd_id := CMD_COMSET, reply_id := REPLY_NAK,
                                cmd_data_0 := OSDP_PD_NAK_RECORD, cb_log := pd.cb_log ++ [y] },
                pos := 6 }) := by
  subst hy
  have hw := le_word32 b0 b1 b2 b3 h0 h1 h2 h3
  generalize b0 + 256 * b1 + 65536 * b2 + 16777216 * b3 = w at hw ⊢
  simp [pd_decode_command, pd_decode_command_switch, pd_decode_command_switch_tail, rd,
    pd_command_callback, hcb, hw, pd_nak_record]
  by_cases hv : a < 127 ∧ (w = 9600 ∨ w = 38400 ∨ w = 115200)
  · have hv2 : ¬ (127 ≤ a ∨ ¬ w = 9600 ∧ ¬ w = 38400 ∧ ¬ w = 115200) := by omega
    simp only [hv, hv2, if_true, if_false, and_self]
    split_ifs <;> simp
  · have hv2 : (127 ≤ a ∨ ¬ w = 9600 ∧ ¬ w = 38400 ∧ ¬ w = 115200) := by omega
    simp only [hv, hv2, if_true, if_false]
    split_ifs <;> simp

/-- C4: COMSET validation. For every staged COMSET command with address `a` and baud
rate `b` (in the range of their C types), `cp_build_command` writes the six bytes
id, `a`, `b` least significant byte first, and when a PD (whose own address and baud
rate are in range) decodes them, the application callback is called exactly once,
with a COMSET command that carries exactly `(a, b)` if `a < 0x7F` and `b` is one of
9600, 38400, 115200, and the PD's current address and baud rate in every other
case. -/
theorem C4_comset_validation (ops ops2 : osdp_sc_ops) (c pd : osdp_pd) (data_off : Int)
    (smb : Option osdp_smb) (max_len : Int) (cb : osdp_cmd → Int)
    (hcb : pd.command_callback = some cb) (hid : c.cmd_id = CMD_COMSET)
    (hroom : CMD_COMSET_LEN ≤ max_len - data_off) (hr : c.cmd_data.comset.in_range)
    (hpa : pd.address < 256) (hpb : pd.baud_rate < 4294967296) :
    (cp_build_command ops c data_off smb max_len).out =
      [CMD_COMSET, c.cmd_data.comset.address,
       c.cmd_data.comset.baud_rate % 256, c.cmd_data.comset.baud_rate / 2 ^ 8 % 256,
       c.cmd_data.comset.baud_rate / 2 ^ 16 % 256, c.cmd_data.comset.baud_rate / 2 ^ 24 % 256] ∧
    ∃ r y, pd_decode_command ops2 pd (cp_build_command ops c data_off smb max_len).out
        (cp_build_command ops c data_off smb max_len).ret = some r ∧
      r.pd.cb_log = pd.cb_log ++ [y] ∧ y.id = OSDP_CMD_COMSET ∧
      y.comset =
        if c.cmd_data.comset.address < 0x7F ∧
            (c.cmd_data.comset.baud_rate = 9600 ∨ c.cmd_data.comset.baud_rate = 38400 ∨
              c.cmd_data.comset.baud_rate = 115200) then
          { address := c.cmd_data.comset.address, baud_rate := c.cmd_data.comset.baud_rate }
        else { address := pd.address, baud_rate := pd.baud_rate } := by
  obtain ⟨ha, hb⟩ := hr
  obtain ⟨e1, e2⟩ := cp_build_command_comset ops c data_off smb max_len hid hroom
  rw [e1, e2, Nat.mod_eq_of_lt ha]
  refine ⟨rfl, ?_⟩
  have hsum : c.cmd_data.comset.baud_rate % 256 + 256 * (c.cmd_data.comset.baud_rate / 256 % 256)
      + 65536 * (c.cmd_data.comset.baud_rate / 65536 % 256)
      + 16777216 * (c.cmd_data.comset.baud_rate / 16777216 % 256)
      = c.cmd_data.comset.baud_rate := by omega
  have h := pd_decode_command_comset ops2 pd cb hcb c.cmd_data.comset.address
    (c.cmd_data.comset.baud_rate % 256) (c.cmd_data.comset.baud_rate / 256 % 256)
    (c.cmd_data.comset.baud_rate / 65536 % 256) (c.cmd_data.comset.baud_rate / 16777216 % 256)
    (by omega) (by omega) (by omega) (by omega) _ rfl
  rw [hsum] at h
  rw [h]
  have hu8 : u8 pd.address = pd.address := Nat.mod_eq_of_lt hpa
  have hu32 : u32 pd.baud_rate = pd.baud_rate := Nat.mod_eq_of_lt hpb
  rw [hu8, hu32]
  refine ⟨_, { id := OSDP_CMD_COMSET,
               comset :=
                 if c.cmd_data.comset.address < 0x7F ∧
                     (c.cmd_data.comset.baud_rate = 9600 ∨ c.cmd_data.comset.baud_rate = 38400 ∨
                       c.cmd_data.comset.baud_rate = 115200) then
                   { address := c.cmd_data.comset.address,
                     baud_rate := c.cmd_data.comset.baud_rate }
                 else { address := pd.address, baud_rate := pd.baud_rate } }, rfl, ?_, rfl, rfl⟩
  split_ifs <;> rfl

/-- C4 on two commands sent to a PD at address 1 and 9600 baud: COMSET(5, 38400) is
handed to the callback as it is, COMSET(0x7F, 38400) is replaced by (1, 9600). -/
theorem C4_comset_validation_examples :
    (∃ r y, pd_decode_command sc_ops_null pd_example
        (cp_build_command sc_ops_null
          { cmd_id := CMD_COMSET, cmd_data := { comset := { address := 5, baud_rate := 38400 } } }
          0 none 256).out 6 = some r ∧
      r.pd.cb_log = [y] ∧ y.id = OSDP_CMD_COMSET ∧
      y.comset = { address := 5, baud_rate := 38400 }) ∧
    (∃ r y, pd_decode_command sc_ops_null pd_example
        (cp_build_command sc_ops_null
          { cmd_id := CMD_COMSET, cmd_data := { comset := { address := 0x7F, baud_rate := 38400 } } }
          0 none 256).out 6 = some r ∧
      r.pd.cb_log = [y] ∧ y.id = OSDP_CMD_COMSET ∧
      y.comset = { address := 1, baud_rate := 9600 }) :=
  ⟨(C4_comset_validation sc_ops_null sc_ops_null
      { cmd_id := CMD_COMSET, cmd_data := { comset := { address := 5, baud_rate := 38400 } } }
      pd_example 0 none 256 (fun _ => 0) rfl rfl (by decide) (by decide) (by decide)
      (by decide)).2,
   (C4_comset_validation sc_ops_null sc_ops_null
      { cmd_id := CMD_COMSET, cmd_data := { comset := { address := 0x7F, baud_rate := 38400 } } }
      pd_example 0 none 256 (fun _ => 0) rfl rfl (by decide) (by decide) (by decide)
      (by decide)).2⟩

/-- C5, as the code behaves: for every COMSET command the PD accepts (valid address
`a` and baud `b`, callback returns 0), `pd_decode_command` selects the reply COM,
stages the command in `pd->cmd_data` and leaves the PD's address, baud rate and
command queue as they were. `pd_build_reply` then looks for the command at the tail
of the command queue, where the decoder never put it: unless a COMSET command
happens to sit there already, the reply it builds is the two bytes NAK, RECORD and
the PD keeps its old address and baud rate. The claim expects COM followed by `a`
and `b`, and the new values adopted. -/
theorem C5_comset_reply_not_built (ops ops2 : osdp_sc_ops) (pd : osdp_pd)
    (cb : osdp_cmd → Int) (hcb : pd.command_callback = some cb) (a b : Nat)
    (ha : a < 0x7F) (hb : b = 9600 ∨ b = 38400 ∨ b = 115200)
    (hacc : cb { id := OSDP_CMD_COMSET, comset := { address := a, baud_rate := b } } = 0)
    (hq : ∀ t, osdp_cmd_get_last pd = some t → t.id ≠ OSDP_CMD_COMSET)
    (data_off : Int) (smb : Option osdp_smb) (max_len : Int)
    (hroom : REPLY_COM_LEN ≤ max_len - data_off) :
    ∃ r, pd_decode_command ops pd
        [CMD_COMSET, a, b % 256, b / 2 ^ 8 % 256, b / 2 ^ 16 % 256, b / 2 ^ 24 % 256] 6 = some r ∧
      r.ret = OSDP_PD_ERR_NONE ∧ r.pd.reply_id = REPLY_COM ∧
      r.pd.cmd_data.comset = { address := a, baud_rate := b } ∧
      r.pd.address = pd.address ∧ r.pd.baud_rate = pd.baud_rate ∧
      r.pd.cmd_queue = pd.cmd_queue ∧
      (pd_build_reply ops2 r.pd data_off smb max_len).ret = 2 ∧
      (pd_build_reply ops2 r.pd data_off smb max_len).out = [REPLY_NAK, OSDP_PD_NAK_RECORD] ∧
      (pd_build_reply ops2 r.pd data_off smb max_len).pd.address = pd.address ∧
      (pd_build_reply ops2 r.pd data_off smb max_len).pd.baud_rate = pd.baud_rate := by
  have hsum : b % 256 + 256 * (b / 256 % 256) + 65536 * (b / 65536 % 256)
      + 16777216 * (b / 16777216 % 256) = b := by omega
  have h := pd_decode_command_comset ops pd cb hcb a (b % 256) (b / 256 % 256)
    (b / 65536 % 256) (b / 16777216 % 256) (by omega) (by omega) (by omega) (by omega) _ rfl
  rw [hsum] at h
  have hv : a < 127 ∧ (b = 9600 ∨ b = 38400 ∨ b = 115200) := ⟨ha, hb⟩
  simp only [hv, and_self, if_true, hacc] at h
  refine ⟨_, h, rfl, rfl, rfl, rfl, rfl, rfl, ?_⟩
  have hroom2 : ¬ (max_len - data_off < 6) := by simp at hroom; omega
  have hroom3 : ¬ (max_len - data_off < 2) := by omega
  have hq2 : ∀ t, pd.cmd_queue.getLast? = some t → t.id ≠ 6 := by
    simpa [osdp_cmd_get_last] using hq
  cases hl : pd.cmd_queue.getLast? with
  | none =>
    simp [pd_build_reply, pd_build_reply_switch, osdp_cmd_get_last, hl, hroom2, hroom3]
  | some t =>
    have ht := hq2 t hl
    simp [pd_build_reply, pd_build_reply_switch, osdp_cmd_get_last, hl, hroom2, hroom3, ht]

/-- C5 on scenario S6 of the spec: COMSET addr=5 baud=38400, accepted by the callback
of a PD at address 1 and 9600 baud with an empty command queue. The reply is
41 09 (NAK, RECORD), not 54 05 00 96 00 00, and the PD stays at address 1 and
9600 baud. -/
theorem C5_comset_reply_not_built_s6 :
    ∃ r, pd_decode_command sc_ops_null pd_example [0x6E, 0x05, 0x00, 0x96, 0x00, 0x00] 6 = some r ∧
      r.pd.reply_id = REPLY_COM ∧
      (pd_build_reply sc_ops_null r.pd 0 none 256).out = [0x41, 0x09] ∧
      (pd_build_reply sc_ops_null r.pd 0 none 256).out ≠ [0x54, 0x05, 0x00, 0x96, 0x00, 0x00] ∧
      (pd_build_reply sc_ops_null r.pd 0 none 256).pd.address = 1 ∧
      (pd_build_reply sc_ops_null r.pd 0 none 256).pd.baud_rate = 9600 := by
  obtain ⟨r, h1, _, h3, _, _, _, _, _, h9, h10, h11⟩ :=
    C5_comset_reply_not_built sc_ops_null sc_ops_null pd_example (fun _ => 0) rfl 5 38400
      (by decide) (by decide) rfl (by intro t ht; simp [osdp_cmd_get_last, pd_example] at ht)
      0 none 256 (by decide)
  exact ⟨r, h1, h3, h9, by rw [h9]; decide, h10, h11⟩

/-! ### The length of an encoded command -/

/-- C6: encoded command length. Whenever the buffer has room, `cp_build_command`
returns exactly 1 for POLL, LSTAT, ISTAT, OSTAT and RSTAT, 2 for ID, CAP and DIAG
(second byte 0), 5 for OUT, 15 for LED, 6 for BUZ, 6 for COMSET, 7+N for a TEXT
command with N data bytes, and (with a secure block present) 9 for CHLNG and 17 for
SCRYPT, and (with SC_ACTIVE set) 19 for KEYSET; in every case it has written that
many bytes and the first byte written is the command id. -/
theorem C6_encoded_command_length (ops : osdp_sc_ops) (pd : osdp_pd) (data_off : Int)
    (smb : Option osdp_smb) (max_len : Int) :
    (pd.cmd_id = CMD_POLL ∨ pd.cmd_id = CMD_LSTAT ∨ pd.cmd_id = CMD_ISTAT ∨
        pd.cmd_id = CMD_OSTAT ∨ pd.cmd_id = CMD_RSTAT → 1 ≤ max_len - data_off →
      (cp_build_command ops pd data_off smb max_len).is_message pd.cmd_id 1) ∧
    (pd.cmd_id = CMD_ID ∨ pd.cmd_id = CMD_CAP ∨ pd.cmd_id = CMD_DIAG →
        2 ≤ max_len - data_off →
      (cp_build_command ops pd data_off smb max_len).is_message pd.cmd_id 2 ∧
      (cp_build_command ops pd data_off smb max_len).out = [pd.cmd_id, 0]) ∧
    (pd.cmd_id = CMD_OUT → 5 ≤ max_len - data_off →
      (cp_build_command ops pd data_off smb max_len).is_message pd.cmd_id 5) ∧
    (pd.cmd_id = CMD_LED → 15 ≤ max_len - data_off →
      (cp_build_command ops pd data_off smb max_len).is_message pd.cmd_id 15) ∧
    (pd.cmd_id = CMD_BUZ → 6 ≤ max_len - data_off →
      (cp_build_command ops pd data_off smb max_len).is_message pd.cmd_id 6) ∧
    (pd.cmd_id = CMD_COMSET → 6 ≤ max_len - data_off →
      (cp_build_command ops pd data_off smb max_len).is_message pd.cmd_id 6) ∧
    (pd.cmd_id = CMD_TEXT → 7 + (pd.cmd_data.text.length : Int) ≤ max_len - data_off →
      (cp_build_command ops pd data_off smb max_len).is_message pd.cmd_id
        (7 + pd.cmd_data.text.length)) ∧
    (pd.cmd_id = CMD_CHLNG → smb ≠ none → 9 ≤ max_len - data_off →
      (cp_build_command ops pd data_off smb max_len).is_message pd.cmd_id 9) ∧
    (pd.cmd_id = CMD_SCRYPT → smb ≠ none → 17 ≤ max_len - data_off →
      (cp_build_command ops pd data_off smb max_len).is_message pd.cmd_id 17) ∧
    (pd.cmd_id = CMD_KEYSET → pd.flags.SC_ACTIVE = true → 19 ≤ max_len - data_off →
      (cp_build_command ops pd data_off smb max_len).is_message pd.cmd_id 19) := by
  refine ⟨?_, ?_, ?_, ?_, ?_, ?_, ?_, ?_, ?_, ?_⟩
  · intro hid hroom
    have h : ¬ (max_len - data_off < 1) := by omega
    rcases hid with hid | hid | hid | hid | hid <;>
      simp [build_result.is_message, cp_build_command, cp_build_command_switch, hid, h, u8]
  · intro hid hroom
    have h : ¬ (max_len - data_off < 2) := by omega
    rcases hid with hid | hid | hid <;>
      simp [build_result.is_message, cp_build_command, cp_build_command_switch, hid, h, u8]
  · intro hid hroom
    have h : ¬ (max_len - data_off < 5) := by omega
    simp [build_result.is_message, cp_build_command, cp_build_command_switch, hid, h, u8]
  · intro hid hroom
    have h : ¬ (max_len - data_off < 15) := by omega
    simp [build_result.is_message, cp_build_command, cp_build_command_switch, hid, h, u8]
  · intro hid hroom
    have h : ¬ (max_len - data_off < 6) := by omega
    simp [build_result.is_message, cp_build_command, cp_build_command_switch, hid, h, u8]
  · intro hid hroom
    have h : ¬ (max_len - data_off < 6) := by omega
    simp [build_result.is_message, cp_build_command, cp_build_command_switch, hid, h, u8]
  · intro hid hroom
    have h : ¬ (max_len - data_off < 7 + (pd.cmd_data.text.length : Int)) := by omega
    simp [build_result.is_message, cp_build_command, cp_build_command_switch, hid, h, u8, rd_n]
    omega
  · intro hid hs hroom
    have h : ¬ (max_len - data_off < 9) := by omega
    cases smb with
    | none => exact absurd rfl hs
    | some s =>
      simp [build_result.is_message, cp_build_command, cp_build_command_switch, hid, h, u8, rd_n]
  · intro hid hs hroom
    have h : ¬ (max_len - data_off < 17) := by omega
    cases smb with
    | none => exact absurd rfl hs
    | some s =>
      simp [build_result.is_message, cp_build_command, cp_build_command_switch, hid, h, u8, rd_n]
  · intro hid ha hroom
    have h : ¬ (max_len - data_off < 19) := by omega
    simp [build_result.is_message, cp_build_command, cp_build_command_switch, hid, h, u8, rd_n, ha]

/-- C6 on three commands: POLL is the single byte 60, a TEXT command with three data
bytes is a message of 10 bytes led by 6B, and CHLNG with a secure block present is a
message of 9 bytes led by 76. -/
theorem C6_encoded_command_length_examples :
    (cp_build_command sc_ops_null { cmd_id := CMD_POLL } 0 none 256).is_message 0x60 1 ∧
    (cp_build_command sc_ops_null
      { cmd_id := CMD_TEXT, cmd_data := { text := { length := 3, data := [0x41, 0x42, 0x43] } } }
      0 none 256).is_message 0x6B 10 ∧
    (cp_build_command sc_ops_null { cmd_id := CMD_CHLNG } 0 (some {}) 256).is_message 0x76 9 :=
  ⟨(C6_encoded_command_length sc_ops_null { cmd_id := CMD_POLL } 0 none 256).1
      (Or.inl rfl) (by decide),
   (C6_encoded_command_length sc_ops_null
      { cmd_id := CMD_TEXT, cmd_data := { text := { length := 3, data := [0x41, 0x42, 0x43] } } }
      0 none 256).2.2.2.2.2.2.1 rfl (by decide),
   (C6_encoded_command_length sc_ops_null { cmd_id := CMD_CHLNG } 0 (some {}) 256).2.2.2.2.2.2.2.1
      rfl (by simp) (by decide)⟩

/-! ### Replies that `cp_decode_response` rejects -/

/-- C7: for every reply buffer, `cp_decode_response` returns the generic error (-1)
whenever the reply id is not a supported reply, whenever a fixed-layout reply has a
payload length different from its table length (ACK 0, NAK 1, PDID 12, LSTATR 2,
RSTATR 1, COM 5, BUSY 0, CCRYPT 32, RMAC_I 16), whenever a PDCAP payload length is
not a multiple of 3, and whenever the count byte embedded in a KEYPPAD or FMT reply
differs from the number of bytes that follow it. The payload length is `len - 1`,
the count byte of KEYPPAD is `buf[2]` and that of FMT is `buf[3]`. -/
theorem C7_decode_response_rejects (ops : osdp_sc_ops) (cp : osdp_cp) (pd : osdp_pd)
    (buf : List Nat) (len : Int) :
    (rd buf 0 ∉ spec_reply_ids →
      (cp_decode_response ops cp pd buf len).ret = OSDP_CP_ERR_GENERIC) ∧
    (rd buf 0 = REPLY_ACK → len - 1 ≠ 0 →
      (cp_decode_response ops cp pd buf len).ret = OSDP_CP_ERR_GENERIC) ∧
    (rd buf 0 = REPLY_NAK → len - 1 ≠ 1 →
      (cp_decode_response ops cp pd buf len).ret = OSDP_CP_ERR_GENERIC) ∧
    (rd buf 0 = REPLY_PDID → len - 1 ≠ 12 →
      (cp_decode_response ops cp pd buf len).ret = OSDP_CP_ERR_GENERIC) ∧
    (rd buf 0 = REPLY_LSTATR → len - 1 ≠ 2 →
      (cp_decode_response ops cp pd buf len).ret = OSDP_CP_ERR_GENERIC) ∧
    (rd buf 0 = REPLY_RSTATR → len - 1 ≠ 1 →
      (cp_decode_response ops cp pd buf len).ret = OSDP_CP_ERR_GENERIC) ∧
    (rd buf 0 = REPLY_COM → len - 1 ≠ 5 →
      (cp_decode_response ops cp pd buf len).ret = OSDP_CP_ERR_GENERIC) ∧
    (rd buf 0 = REPLY_BUSY → len - 1 ≠ 0 →
      (cp_decode_response ops cp pd buf len).ret = OSDP_CP_ERR_GENERIC) ∧
    (rd buf 0 = REPLY_CCRYPT → len - 1 ≠ 32 →
      (cp_decode_response ops cp pd buf len).ret = OSDP_CP_ERR_GENERIC) ∧
    (rd buf 0 = REPLY_RMAC_I → len - 1 ≠ 16 →
      (cp_decode_response ops cp pd buf len).ret = OSDP_CP_ERR_GENERIC) ∧
    (rd buf 0 = REPLY_PDCAP → (len - 1) % 3 ≠ 0 →
      (cp_decode_response ops cp pd buf len).ret = OSDP_CP_ERR_GENERIC) ∧
    (rd buf 0 = REPLY_KEYPPAD → len - 1 - 2 ≠ (rd buf 2 : Int) →
      (cp_decode_response ops cp pd buf len).ret = OSDP_CP_ERR_GENERIC) ∧
    (rd buf 0 = REPLY_FMT → len - 1 - 3 ≠ (rd buf 3 : Int) →
      (cp_decode_response ops cp pd buf len).ret = OSDP_CP_ERR_GENERIC) := by
  refine ⟨?_, ?_, ?_, ?_, ?_, ?_, ?_, ?_, ?_, ?_, ?_, ?_, ?_⟩
  · intro h
    simp [spec_reply_ids] at h
    obtain ⟨h1, h2, h3, h4, h5, h6, h7, h8, h9, h10, h11, h12, h13⟩ := h
    simp [cp_decode_response, cp_decode_response_switch, h1, h2, h3, h4, h5, h6, h7, h8, h9,
      h10, h11, h12, h13]
  · intro hid hl
    simp at hid
    simp [cp_decode_response, cp_decode_response_switch, hid, hl]
  · intro hid hl
    simp at hid
    simp [cp_decode_response, cp_decode_response_switch, hid, hl]
  · intro hid hl
    simp at hid
    simp [cp_decode_response, cp_decode_response_switch, hid, hl]
  · intro hid hl
    simp at hid
    simp [cp_decode_response, cp_decode_response_switch, hid, hl]
  · intro hid hl
    simp at hid
    simp [cp_decode_response, cp_decode_response_switch, hid, hl]
  · intro hid hl
    simp at hid
    simp [cp_decode_response, cp_decode_response_switch, hid, hl]
  · intro hid hl
    simp at hid
    simp [cp_decode_response, cp_decode_response_switch, hid, hl]
  · intro hid hl
    simp at hid
    simp [cp_decode_response, cp_decode_response_switch, hid, hl]
  · intro hid hl
    simp at hid
    simp [cp_decode_response, cp_decode_response_switch, hid, hl]
  · intro hid hl
    simp at hid
    simp [cp_decode_response, cp_decode_response_switch, hid, hl]
  · intro hid hl
    simp at hid
    simp only [cp_decode_response, cp_decode_response_switch, hid]
    simp
    by_cases h2 : len - 1 < 2
    · simp [h2]
    · simp [h2, hl]
  · intro hid hl
    simp at hid
    simp only [cp_decode_response, cp_decode_response_switch, hid]
    simp
    by_cases h2 : len - 1 < 3
    · simp [h2]
    · simp [h2, hl]

/-- C7 on three buffers: a reply with the unknown id 0x99, a PDID reply with two
payload bytes, and a KEYPPAD reply that announces three keys and carries one. -/
theorem C7_decode_response_rejects_examples :
    (cp_decode_response sc_ops_null {} {} [0x99] 1).ret = -1 ∧
    (cp_decode_response sc_ops_null {} {} [0x45, 0x01, 0x02] 3).ret = -1 ∧
    (cp_decode_response sc_ops_null {} {} [0x53, 0x00, 0x03, 0x31] 4).ret = -1 :=
  ⟨(C7_decode_response_rejects sc_ops_null {} {} [0x99] 1).1 (by decide),
   (C7_decode_response_rejects sc_ops_null {} {} [0x45, 0x01, 0x02] 3).2.2.2.1 rfl (by decide),
   (C7_decode_response_rejects sc_ops_null {} {} [0x53, 0x00, 0x03, 0x31] 4).2.2.2.2.2.2.2.2.2.2.2.1
     rfl (by decide)⟩

/-! ### Card-read and key-press replies -/

/-- The reads of a copy loop over the bytes that follow a prefix give those bytes. -/
theorem rd_n_append (pre data : List Nat) :
    rd_n (pre ++ data) pre.length data.length = data := by
  apply List.ext_getElem
  · simp [rd_n]
  · intro i h1 h2
    simp [rd_n, rd, List.getD_eq_getElem?_getD, List.getElem?_append_right, h2]

/-- C8, counterexample: a RAW reply for reader 0 in Wiegand format with bit count
N = 26 followed by exactly ceil(26/8) = 4 data bytes is rejected: `cp_decode_response`
returns the generic error and does not call the card-read notifier. -/
theorem C8_raw_bit_count_rejected :
    [0xDE, 0xAD, 0xBE, 0xEF].length = (26 + 7) / 8 ∧
    (cp_decode_response sc_ops_null { keypress := true, cardread := true } {}
      [0x50, 0x00, 0x01, 26, 0, 0xDE, 0xAD, 0xBE, 0xEF] 9).ret = -1 ∧
    (cp_decode_response sc_ops_null { keypress := true, cardread := true } {}
      [0x50, 0x00, 0x01, 26, 0, 0xDE, 0xAD, 0xBE, 0xEF] 9).notified = [] := by
  decide

/-- C8, amended: for every RAW reply whose payload is reader, format, a 16-bit
little-endian count N, followed by exactly N data bytes, `cp_decode_response`
succeeds and calls the card-read notifier (one being registered) exactly once with
the PD's offset, that format and those N data bytes (the code compares the count
with the number of data bytes, not with the number of bits). -/
theorem C8_raw_reply_byte_count (ops : osdp_sc_ops) (cp : osdp_cp) (pd : osdp_pd)
    (reader format : Nat) (data : List Nat) (hcr : cp.cardread = true)
    (hn : data.length < 65536) :
    (cp_decode_response ops cp pd
      (REPLY_RAW :: reader :: format :: data.length % 256 :: data.length / 256 % 256 :: data)
      (5 + data.length)).ret = OSDP_CP_ERR_NONE ∧
    (cp_decode_response ops cp pd
      (REPLY_RAW :: reader :: format :: data.length % 256 :: data.length / 256 % 256 :: data)
      (5 + data.length)).notified
      = [cp_notification.cardread pd.offset format data data.length] := by
  have ht : data.length % 256 ||| (data.length / 256 % 256) <<< 8 = data.length := by
    rw [lor_shl 8 _ _ (by omega)]; omega
  have hl : ¬ ((5 : Int) + data.length - 1 < 4) := by omega
  have hc : (5 : Int) + data.length - 1 - 4 = (data.length : Int) := by omega
  simp [cp_decode_response, cp_decode_response_switch, rd, ht, hcr, hl, hc]

/-- C8 amended, on a reply for reader 0 in Wiegand format with count 4 and four data
bytes: one card-read notification with those four bytes. -/
theorem C8_raw_reply_byte_count_example :
    (cp_decode_response sc_ops_null { cardread := true } { offset := 2 }
      [0x50, 0x00, 0x01, 4, 0, 0xDE, 0xAD, 0xBE, 0xEF] 9).notified
      = [cp_notification.cardread 2 1 [0xDE, 0xAD, 0xBE, 0xEF] 4] :=
  (C8_raw_reply_byte_count sc_ops_null { cardread := true } { offset := 2 } 0 1
    [0xDE, 0xAD, 0xBE, 0xEF] rfl (by decide)).2

/-- C9: for every KEYPPAD reply whose payload is reader, count N, then exactly N key
bytes, `cp_decode_response` succeeds and calls the key-press notifier (when one is
registered) exactly N times, in wire order, each time with the PD's offset and the
corresponding key byte; for a KEYPPAD reply whose count differs from the number of
key bytes present it returns the generic error and calls the notifier zero
times. -/
theorem C9_keypad_reply_notifies (ops : osdp_sc_ops) (cp : osdp_cp) (pd : osdp_pd)
    (reader : Nat) (keys : List Nat) :
    (cp.keypress = true →
      (cp_decode_response ops cp pd (REPLY_KEYPPAD :: reader :: keys.length :: keys)
        (3 + keys.length)).ret = OSDP_CP_ERR_NONE ∧
      (cp_decode_response ops cp pd (REPLY_KEYPPAD :: reader :: keys.length :: keys)
        (3 + keys.length)).notified
        = keys.map (fun key => cp_notification.keypress pd.offset key)) ∧
    (∀ count, count ≠ keys.length →
      (cp_decode_response ops cp pd (REPLY_KEYPPAD :: reader :: count :: keys)
        (3 + keys.length)).ret = OSDP_CP_ERR_GENERIC ∧
      (cp_decode_response ops cp pd (REPLY_KEYPPAD :: reader :: count :: keys)
        (3 + keys.length)).notified = []) := by
  constructor
  · intro hk
    have hrd := rd_n_append [REPLY_KEYPPAD, reader, keys.length] keys
    have hmap : (List.range keys.length).map
        (fun i => cp_notification.keypress pd.offset
          (rd (REPLY_KEYPPAD :: reader :: keys.length :: keys) (1 + 2 + i)))
        = keys.map (fun key => cp_notification.keypress pd.offset key) := by
      conv_rhs => rw [← hrd]
      simp [rd_n, Nat.add_comm]
    have hl : ¬ ((3 : Int) + keys.length - 1 < 2) := by omega
    have hc : (3 : Int) + keys.length - 1 - 2 = (keys.length : Int) := by omega
    simp only [cp_decode_response, cp_decode_response_switch, rd, REPLY_KEYPPAD] at hmap ⊢
    simp [hk, hl, hc]
    simpa using hmap
  · intro count hc
    have hl : ¬ ((3 : Int) + keys.length - 1 < 2) := by omega
    have hc2 : (3 : Int) + keys.length - 1 - 2 ≠ (count : Int) := by omega
    simp only [cp_decode_response, cp_decode_response_switch, rd, REPLY_KEYPPAD]
    simp [hl, hc2]

/-- C9 on a reply with the three keys 31 32 33, and on the same bytes announced with
count 5. -/
theorem C9_keypad_reply_notifies_example :
    (cp_decode_response sc_ops_null { keypress := true } { offset := 2 }
      [0x53, 0x00, 3, 0x31, 0x32, 0x33] 6).notified
      = [cp_notification.keypress 2 0x31, cp_notification.keypress 2 0x32,
         cp_notification.keypress 2 0x33] ∧
    (cp_decode_response sc_ops_null { keypress := true } { offset := 2 }
      [0x53, 0x00, 5, 0x31, 0x32, 0x33] 6).notified = [] :=
  ⟨((C9_keypad_reply_notifies sc_ops_null { keypress := true } { offset := 2 } 0
      [0x31, 0x32, 0x33]).1 rfl).2,
   ((C9_keypad_reply_notifies sc_ops_null { keypress := true } { offset := 2 } 0
      [0x31, 0x32, 0x33]).2 5 (by decide)).2⟩

/-! ### PDCAP: recording the capabilities -/

/-- A read past a prefix is a read of what follows the prefix. -/
theorem rd_append (pre l : List Nat) (i : Nat) : rd (pre ++ l) (pre.length + i) = rd l i := by
  simp [rd, List.getD_eq_getElem?_getD, List.getElem?_append_right]

/-- The loop of the PDCAP case, started at the first byte of the triples `ts` with at
least one turn of fuel for each of them, records all of them. -/
theorem cp_decode_pdcap_records (ts : List (Nat × Nat × Nat)) :
    ∀ (pre : List Nat) (cap : Nat → osdp_pd_cap) (fuel : Nat), ts.length ≤ fuel →
      (∀ t ∈ ts, t.1 ≤ OSDP_PD_CAP_SENTINEL) →
      cp_decode_pdcap (pre ++ pdcap_payload ts) ((pre.length : Int) + 3 * ts.length - 1) fuel
        pre.length cap = record_caps cap ts := by
  induction ts with
  | nil =>
    intro pre cap fuel _ _
    cases fuel <;> simp [cp_decode_pdcap, record_caps]
  | cons t ts ih =>
    intro pre cap fuel hfuel hfc
    obtain ⟨f, rfl⟩ : ∃ f, fuel = f + 1 := ⟨fuel - 1, by simp at hfuel; omega⟩
    have hlt : (pre.length : Int) < (pre.length : Int) + 3 * ((t :: ts).length : Int) - 1 := by
      simp; omega
    have h1 : rd (pre ++ pdcap_payload (t :: ts)) pre.length = t.1 := by
      have h := rd_append pre (pdcap_payload (t :: ts)) 0
      rw [Nat.add_zero] at h
      rw [h]; rfl
    have h2 : rd (pre ++ pdcap_payload (t :: ts)) (pre.length + 1) = t.2.1 := by
      rw [rd_append]; rfl
    have h3 : rd (pre ++ pdcap_payload (t :: ts)) (pre.length + 2) = t.2.2 := by
      rw [rd_append]; rfl
    have ht : ¬ (t.1 > OSDP_PD_CAP_SENTINEL) := by
      have := hfc t (List.mem_cons_self _ _); omega
    have hbuf : pre ++ pdcap_payload (t :: ts) = (pre ++ [t.1, t.2.1, t.2.2]) ++ pdcap_payload ts := by
      simp [pdcap_payload]
    have hlen : (pre.length : Int) + 3 * ((t :: ts).length : Int) - 1
        = ((pre ++ [t.1, t.2.1, t.2.2]).length : Int) + 3 * (ts.length : Int) - 1 := by
      simp; omega
    have hpos : pre.length + 3 = (pre ++ [t.1, t.2.1, t.2.2]).length := by simp
    rw [cp_decode_pdcap, if_pos hlt]
    simp only [h1, h2, h3, if_neg ht]
    rw [hbuf, hlen, hpos]
    rw [ih (pre ++ [t.1, t.2.1, t.2.2]) _ f (by simp at hfuel; omega)
      (fun u hu => hfc u (List.mem_cons_of_mem _ hu))]
    rfl

/-- A code that no triple names keeps its entry. -/
theorem record_caps_of_not_mem (ts : List (Nat × Nat × Nat)) :
    ∀ (cap : Nat → osdp_pd_cap) (fc : Nat), (∀ t ∈ ts, t.1 ≠ fc) →
      record_caps cap ts fc = cap fc := by
  induction ts with
  | nil => intro cap fc _; rfl
  | cons t ts ih =>
    intro cap fc h
    rw [record_caps, ih _ fc (fun u hu => h u (List.mem_cons_of_mem _ hu))]
    have := h t (List.mem_cons_self _ _)
    simp [Ne.symm this]

/-- The last triple that names a code is the entry of that code. -/
theorem record_caps_of_last (pre post : List (Nat × Nat × Nat)) (fc c n : Nat) :
    ∀ (cap : Nat → osdp_pd_cap), (∀ t ∈ post, t.1 ≠ fc) →
      record_caps cap (pre ++ (fc, c, n) :: post) fc
        = { function_code := fc, compliance_level := c, num_items := n } := by
  induction pre with
  | nil =>
    intro cap h
    simp only [List.nil_append, record_caps]
    rw [record_caps_of_not_mem post _ fc h]
    simp
  | cons t pre ih =>
    intro cap h
    simp only [List.cons_append, record_caps]
    exact ih _ h

/-- C10: for every PDCAP reply whose payload is k triples (function code, compliance
level, number of items) with every function code below the sentinel,
`cp_decode_response` succeeds and records every one of the k triples in the PD's
capability map at its function code: the entry of a code is the last triple that
names it, and a code that no triple names keeps its entry. It leaves SC_CAPABLE set
if and only if bit 0 of the recorded compliance level for the communication-security
capability is 1. -/
theorem C10_pdcap_reply_records (ops : osdp_sc_ops) (cp : osdp_cp) (pd : osdp_pd)
    (ts : List (Nat × Nat × Nat)) (hfc : ∀ t ∈ ts, t.1 < OSDP_PD_CAP_SENTINEL) :
    (cp_decode_response ops cp pd (REPLY_PDCAP :: pdcap_payload ts) (1 + 3 * ts.length)).ret
      = OSDP_CP_ERR_NONE ∧
    (∀ pre post fc c n, ts = pre ++ (fc, c, n) :: post → (∀ t ∈ post, t.1 ≠ fc) →
      (cp_decode_response ops cp pd (REPLY_PDCAP :: pdcap_payload ts)
        (1 + 3 * ts.length)).pd.cap fc
        = { function_code := fc, compliance_level := c, num_items := n }) ∧
    (∀ fc, (∀ t ∈ ts, t.1 ≠ fc) →
      (cp_decode_response ops cp pd (REPLY_PDCAP :: pdcap_payload ts)
        (1 + 3 * ts.length)).pd.cap fc = pd.cap fc) ∧
    ((cp_decode_response ops cp pd (REPLY_PDCAP :: pdcap_payload ts)
        (1 + 3 * ts.length)).pd.flags.SC_CAPABLE = true ↔
      ((cp_decode_response ops cp pd (REPLY_PDCAP :: pdcap_payload ts)
        (1 + 3 * ts.length)).pd.cap OSDP_PD_CAP_COMMUNICATION_SECURITY).compliance_level % 2
        = 1) := by
  have hloop := cp_decode_pdcap_records ts [REPLY_PDCAP] pd.cap (3 * ts.length)
    (by omega) (fun t ht => Nat.le_of_lt (hfc t ht))
  have hmod : ((1 : Int) + 3 * (ts.length : Int) - 1) % 3 = 0 := by omega
  have hlen : ((1 : Int) + 3 * (ts.length : Int) - 1) = (([REPLY_PDCAP].length : Nat) : Int) + 3 * ts.length - 1 := by
    simp
  have htn : ((1 : Int) + 3 * (ts.length : Int) - 1).toNat = 3 * ts.length := by omega
  have hres : (cp_decode_response ops cp pd (REPLY_PDCAP :: pdcap_payload ts)
      (1 + 3 * ts.length)).pd.cap = record_caps pd.cap ts ∧
      (cp_decode_response ops cp pd (REPLY_PDCAP :: pdcap_payload ts) (1 + 3 * ts.length)).ret = 0 ∧
      ((cp_decode_response ops cp pd (REPLY_PDCAP :: pdcap_payload ts)
        (1 + 3 * ts.length)).pd.flags.SC_CAPABLE = true ↔
        (record_caps pd.cap ts 9).compliance_level % 2 = 1) := by
    have e : (3 * (ts.length : Int)).toNat = 3 * ts.length := by omega
    simp only [cp_decode_response, cp_decode_response_switch, rd, REPLY_PDCAP] at hloop ⊢
    simp at hloop
    simp [hmod, htn, e, hloop]
  obtain ⟨hcap, hret, hflag⟩ := hres
  refine ⟨hret, ?_, ?_, ?_⟩
  · intro pre post fc c n hts hpost
    rw [hcap, hts]
    exact record_caps_of_last pre post fc c n pd.cap hpost
  · intro fc h
    rw [hcap]
    exact record_caps_of_not_mem ts pd.cap fc h
  · rw [hcap]
    exact hflag

/-- C10 on a reply with the triples (4, 1, 2), (9, 1, 1), (4, 1, 3): the LED
capability ends with three items, the communication-security capability has bit 0
set and SC_CAPABLE is set, and the output capability, which the reply does not
name, is untouched. -/
theorem C10_pdcap_reply_records_example :
    (cp_decode_response sc_ops_null {} {}
      [0x46, 4, 1, 2, 9, 1, 1, 4, 1, 3] 10).ret = 0 ∧
    (cp_decode_response sc_ops_null {} {}
      [0x46, 4, 1, 2, 9, 1, 1, 4, 1, 3] 10).pd.cap 4
      = { function_code := 4, compliance_level := 1, num_items := 3 } ∧
    (cp_decode_response sc_ops_null {} {}
      [0x46, 4, 1, 2, 9, 1, 1, 4, 1, 3] 10).pd.cap 9
      = { function_code := 9, compliance_level := 1, num_items := 1 } ∧
    (cp_decode_response sc_ops_null {} {}
      [0x46, 4, 1, 2, 9, 1, 1, 4, 1, 3] 10).pd.flags.SC_CAPABLE = true :=
  have h := C10_pdcap_reply_records sc_ops_null {} {} [(4, 1, 2), (9, 1, 1), (4, 1, 3)]
    (by decide)
  ⟨h.1,
   h.2.1 [(4, 1, 2), (9, 1, 1)] [] 4 1 3 rfl (by simp),
   h.2.1 [(4, 1, 2)] [(4, 1, 3)] 9 1 1 rfl (by decide),
   h.2.2.2.mpr
     (congrArg (fun c => c.compliance_level % 2)
       (h.2.1 [(4, 1, 2)] [(4, 1, 3)] 9 1 1 rfl (by decide)))⟩


/-! ### Properties that pass through an `if` -/

/-- A property of both values passes through an `if` between two `flow`s. -/
theorem flow_val_ite {α : Type} (P : α → Prop) (c : Prop) [Decidable c] (a b : flow α)
    (ha : P a.val) (hb : P b.val) : P (if c then a else b).val := by
  split_ifs
  · exact ha
  · exact hb

/-- A property that holds for both branches, each under its condition, holds for the
`if`. -/
theorem ite_of_imp {β : Type} (P : β → Prop) (c : Prop) [Decidable c] (a b : β)
    (ha : c → P a) (hb : ¬ c → P b) : P (if c then a else b) := by
  split_ifs with h
  · exact ha h
  · exact hb h

/-! ### The replies of the PD to commands without payload fields -/

/-- The PDCAP loop only appends to what has been written. -/
theorem pd_build_reply_pdcap_prefix (cap : Nat → osdp_pd_cap) (is : List Nat) :
    ∀ (max_len : Int) (out : List Nat),
      ∃ tail, pd_build_reply_pdcap cap is max_len out = out ++ tail := by
  induction is with
  | nil => intro max_len out; exact ⟨[], by simp [pd_build_reply_pdcap]⟩
  | cons i is ih =>
    intro max_len out
    unfold pd_build_reply_pdcap
    split_ifs with h1 h2
    · exact ih max_len out
    · exact ⟨[], by simp⟩
    · obtain ⟨t, ht⟩ := ih (max_len - REPLY_PDCAP_ENTITY_LEN)
        (out ++ [u8 i, u8 (cap i).compliance_level, u8 (cap i).num_items])
      exact ⟨[u8 i, u8 (cap i).compliance_level, u8 (cap i).num_items] ++ t, by
        rw [ht]; simp⟩

/-- C12, as the code behaves: the POLL case of `pd_decode_command` selects the reply
ACK and leaves the event queue as it is, whatever the queue holds, and the reply
built is the one byte ACK. `pd_event_dequeue` and `pd_translate_event`, which would
surface the oldest event, are not called. The claim expects the reply derived from
the oldest queued event (KEYPPAD, RAW or FMT) and that event removed; its second
half, ACK for an empty queue, holds. -/
theorem C12_poll_ignores_event_queue (ops : osdp_sc_ops) (pd : osdp_pd) (data_off : Int)
    (smb : Option osdp_smb) (max_len : Int) (hroom : 1 ≤ max_len - data_off) :
    ∃ d, pd_decode_command ops pd [CMD_POLL] 1 = some d ∧
      d.pd.reply_id = REPLY_ACK ∧ d.pd.event_queue = pd.event_queue ∧
      (pd_build_reply ops d.pd data_off smb max_len).out = [REPLY_ACK] ∧
      (pd_build_reply ops d.pd data_off smb max_len).pd.event_queue = pd.event_queue := by
  have h : ¬ (max_len - data_off < 1) := by omega
  simp [pd_decode_command, pd_decode_command_switch, pd_build_reply, pd_build_reply_switch, h, rd,
    u8]

/-- C12 on a PD that has one key-press event queued: the event would translate to a
KEYPPAD reply and can be dequeued, but the reply to POLL `[0x60]` is `[0x40]` and the
event is still queued afterwards. -/
theorem C12_poll_ignores_event_queue_keypress :
    (pd_translate_event event_key_5).1 = REPLY_KEYPPAD ∧
    (pd_event_dequeue { pd_example with event_queue := [event_key_5] }).isSome = true ∧
    ∃ d, pd_decode_command sc_ops_null { pd_example with event_queue := [event_key_5] }
        [0x60] 1 = some d ∧
      (pd_build_reply sc_ops_null d.pd 0 none 256).out = [0x40] ∧
      (pd_build_reply sc_ops_null d.pd 0 none 256).pd.event_queue = [event_key_5] := by
  obtain ⟨d, h1, _, _, h4, h5⟩ := C12_poll_ignores_event_queue sc_ops_null
    { pd_example with event_queue := [event_key_5] } 0 none 256 (by decide)
  exact ⟨by decide, by decide, d, h1, h4, h5⟩

/-! ### Capability gating -/

/-- C13, as the code behaves: for every OUT command whose output number is not below
the number of items of the output-control capability, every LED command whose LED
number is not below the number of items of the LED capability, and every BUZ or
TEXT command when the respective capability has zero items or compliance level 0,
the PD does not invoke the application callback and selects the reply NAK, but
`pd_cmd_cap_ok` stores the reason CMD_UNKNOWN in `pd->ephemeral_data[0]` while
`pd_build_reply` sends `pd->cmd_data[0]`: the reply is NAK followed by whatever
`pd->cmd_data[0]` held before the command, not NAK, CMD_UNKNOWN as the claim says. -/
theorem C13_capability_gating_reason (ops : osdp_sc_ops) (pd : osdp_pd) (data_off : Int)
    (smb : Option osdp_smb) (max_len : Int) (hroom : 2 ≤ max_len - data_off) :
    (∀ output_no control_code t0 t1,
      (pd.cap OSDP_PD_CAP_OUTPUT_CONTROL).num_items ≤ output_no →
      pd_refuses_command ops pd [CMD_OUT, output_no, control_code, t0, t1] 5
        data_off smb max_len) ∧
    (∀ reader led_number b2 b3 b4 b5 b6 b7 b8 b9 b10 b11 b12 b13,
      (pd.cap OSDP_PD_CAP_READER_LED_CONTROL).num_items ≤ led_number →
      pd_refuses_command ops pd
        [CMD_LED, reader, led_number, b2, b3, b4, b5, b6, b7, b8, b9, b10, b11, b12, b13] 15
        data_off smb max_len) ∧
    (∀ reader control_code on_count off_count rep_count,
      (pd.cap OSDP_PD_CAP_READER_AUDIBLE_OUTPUT).num_items = 0 ∨
        (pd.cap OSDP_PD_CAP_READER_AUDIBLE_OUTPUT).compliance_level = 0 →
      pd_refuses_command ops pd [CMD_BUZ, reader, control_code, on_count, off_count, rep_count]
        6 data_off smb max_len) ∧
    (∀ reader control_code temp_time row col (data : List Nat),
      data.length ≤ OSDP_CMD_TEXT_MAX_LEN →
      (pd.cap OSDP_PD_CAP_READER_TEXT_OUTPUT).num_items = 0 ∨
        (pd.cap OSDP_PD_CAP_READER_TEXT_OUTPUT).compliance_level = 0 →
      pd_refuses_command ops pd
        (CMD_TEXT :: reader :: control_code :: temp_time :: row :: col :: data.length :: data)
        (7 + data.length) data_off smb max_len) := by
  have h : ¬ (max_len - data_off < 2) := by omega
  have hu : u8 65 = 65 := rfl
  refine ⟨?_, ?_, ?_, ?_⟩
  · intro output_no control_code t0 t1 hn
    have hn2 : (pd.cap 2).num_items < output_no + 1 := by simp at hn; omega
    simp [pd_refuses_command, pd_decode_command, pd_decode_command_switch, rd, pd_cmd_cap_ok,
      hn2, pd_build_reply, pd_build_reply_switch, h, hu]
  · intro reader led_number b2 b3 b4 b5 b6 b7 b8 b9 b10 b11 b12 b13 hn
    have hn2 : (pd.cap 4).num_items < led_number + 1 := by simp at hn; omega
    simp [pd_refuses_command, pd_decode_command, pd_decode_command_switch, rd, pd_cmd_cap_ok,
      hn2, pd_build_reply, pd_build_reply_switch, h, hu]
  · intro reader control_code on_count off_count rep_count hn
    have hn2 : (pd.cap 5).num_items = 0 ∨ (pd.cap 5).compliance_level = 0 := by simpa using hn
    simp [pd_refuses_command, pd_decode_command, pd_decode_command_switch, rd, pd_cmd_cap_ok,
      hn2, pd_build_reply, pd_build_reply_switch, h, hu]
  · intro reader control_code temp_time row col data hlen hn
    have hn2 : (pd.cap 6).num_items = 0 ∨ (pd.cap 6).compliance_level = 0 := by simpa using hn
    have hl1 : ¬ ((7 : Int) + data.length - 1 < 6) := by omega
    have hl2 : ¬ (32 < data.length) := by simp at hlen; omega
    have hl3 : ¬ ((7 : Int) + data.length - 1 - 6 < data.length) := by omega
    simp [pd_refuses_command, pd_decode_command, pd_decode_command_switch,
      pd_decode_command_switch_tail, rd, pd_cmd_cap_ok, hn2, hl1, hl2, hl3, pd_build_reply,
      pd_build_reply_switch, h, hu]

/-- C13 on a PD with four outputs that receives OUT for output number 4 (the bytes
68 04 01 00 00): the frame that `osdp_update` sends is 41 00, NAK with reason 0,
because `pd_receve_packet` has reset `pd->cmd_data[0]`; the claim expects 41 03. -/
theorem C13_capability_gating_reason_out4 :
    (pd_example.cap OSDP_PD_CAP_OUTPUT_CONTROL).num_items ≤ 4 ∧
    pd_refuses_command sc_ops_null pd_example [0x68, 0x04, 0x01, 0x00, 0x00] 5 0 none 256 ∧
    (∃ r, osdp_update (env_plain [0x68, 0x04, 0x01, 0x00, 0x00] 0) pd_example = some r ∧
      r.sent = [[0x41, 0x00]] ∧ r.pd.cb_log = []) :=
  ⟨by decide,
   (C13_capability_gating_reason sc_ops_null pd_example 0 none 256 (by decide)).1 4 1 0 0
     (by decide),
   ⟨_, rfl, by decide, by decide⟩⟩


/-! ## C14: one reply for each command -/

/-- When the `switch` of `pd_build_reply` has `ret = 0`, it has written at least one
byte. -/
theorem pd_build_reply_switch_nonempty (ops : osdp_sc_ops) (pd : osdp_pd)
    (smb : Option osdp_smb) (max_len : Int) :
    (pd_build_reply_switch ops pd smb max_len).val.ret = 0 →
      (pd_build_reply_switch ops pd smb max_len).val.out ≠ [] := by
  unfold pd_build_reply_switch
  dsimp only
  repeat' (first
    | apply flow_val_ite (fun st : build_state => st.ret = 0 → st.out ≠ [])
    | (intro h; change (-1 : Int) = 0 at h; omega)
    | (intro _; exact List.cons_ne_nil _ _)
    | (intro _
       obtain ⟨t, ht⟩ := pd_build_reply_pdcap_prefix pd.cap (List.range OSDP_PD_CAP_SENTINEL)
         max_len [u8 pd.reply_id]
       show pd_build_reply_pdcap pd.cap (List.range OSDP_PD_CAP_SENTINEL) max_len
         [u8 pd.reply_id] ≠ []
       rw [ht]
       exact List.cons_ne_nil _ _)
    | split)

/-- With room for the longest reply the `switch` of `pd_build_reply` is always left by
`break`: no `ASSERT_BUF_LEN` returns. -/
theorem pd_build_reply_switch_broke (ops : osdp_sc_ops) (pd : osdp_pd)
    (smb : Option osdp_smb) (max_len : Int) (hroom : REPLY_CCRYPT_LEN ≤ max_len) :
    (pd_build_reply_switch ops pd smb max_len).is_broke = true := by
  simp only [REPLY_CCRYPT_LEN] at hroom
  unfold pd_build_reply_switch
  dsimp only
  repeat' (first
    | rfl
    | (apply ite_of_imp (fun f : flow build_state => f.is_broke = true) <;> intro hc <;>
        first | (exfalso; simp at hc; omega) | skip)
    | split)

/-- The function `pd_build_reply` never returns 0: it returns -1, or the positive
number of bytes it has written; and when the `switch` is left by `break` with an
error and there is room for two bytes, the reply is NAK, RECORD. -/
theorem pd_build_reply_ret (ops : osdp_sc_ops) (pd : osdp_pd) (data_off : Int)
    (smb : Option osdp_smb) (max_len : Int) :
    ((pd_build_reply ops pd data_off smb max_len).ret = OSDP_PD_ERR_GENERIC ∨
      (0 < (pd_build_reply ops pd data_off smb max_len).ret ∧
        ((pd_build_reply ops pd data_off smb max_len).out.length : Int) =
          (pd_build_reply ops pd data_off smb max_len).ret)) ∧
    (∀ st, pd_build_reply_switch ops pd smb (max_len - data_off) = .broke st → st.ret ≠ 0 →
      REPLY_NAK_LEN ≤ max_len - data_off →
      (pd_build_reply ops pd data_off smb max_len).ret = 2 ∧
      (pd_build_reply ops pd data_off smb max_len).out = [REPLY_NAK, OSDP_PD_NAK_RECORD]) ∧
    (REPLY_CCRYPT_LEN ≤ max_len - data_off →
      0 < (pd_build_reply ops pd data_off smb max_len).ret) := by
  have hne := pd_build_reply_switch_nonempty ops pd smb (max_len - data_off)
  have hbr := pd_build_reply_switch_broke ops pd smb (max_len - data_off)
  unfold pd_build_reply
  dsimp only
  cases hsw : pd_build_reply_switch ops pd smb (max_len - data_off) with
  | returned st =>
    rw [hsw] at hbr
    refine ⟨Or.inl rfl, ?_, ?_⟩
    · intro st2 h
      cases h
    · intro h
      cases hbr h
  | broke st =>
    rw [hsw] at hne
    dsimp only
    by_cases hret : st.ret ≠ 0
    · rw [if_pos hret]
      by_cases hlen : max_len - data_off < REPLY_NAK_LEN
      · rw [if_pos hlen]
        refine ⟨Or.inl rfl, ?_, ?_⟩
        · intro st2 _ _ h
          exact absurd hlen (not_lt.mpr h)
        · intro h
          simp only [REPLY_NAK_LEN, REPLY_CCRYPT_LEN] at hlen h
          omega
      · rw [if_neg hlen]
        have h2 : (0 : Int) < 2 := by decide
        exact ⟨Or.inr ⟨h2, rfl⟩, fun _ _ _ _ => ⟨rfl, rfl⟩, fun _ => h2⟩
    · rw [if_neg hret]
      have h0 : st.ret = 0 := not_not.mp hret
      have hpos : (0 : Int) < (st.out.length : Int) := by
        exact_mod_cast List.length_pos.mpr (hne h0)
      refine ⟨Or.inr ⟨hpos, rfl⟩, ?_, fun _ => hpos⟩
      intro st2 h hr
      cases h
      exact absurd h0 hr

/-- The function `pd_cmd_cap_ok` leaves the callback pointer alone. -/
theorem pd_cmd_cap_ok_callback (pd : osdp_pd) (cmd : osdp_cmd) :
    (pd_cmd_cap_ok pd cmd).2.command_callback = pd.command_callback := by
  unfold pd_cmd_cap_ok
  dsimp only
  split_ifs <;> rfl

/-- With a callback registered the guarded call is made. -/
theorem pd_command_callback_ne_none (pd : osdp_pd) (cmd : osdp_cmd) (cb : osdp_cmd → Int)
    (hcb : pd.command_callback = some cb) : pd_command_callback pd cmd ≠ none := by
  simp [pd_command_callback, hcb]

/-- With a callback registered the second half of the `switch` of `pd_decode_command`
never calls a NULL pointer. -/
theorem pd_decode_command_switch_tail_total (ops : osdp_sc_ops) (pd : osdp_pd) (buf : List Nat)
    (len : Int) (cb : osdp_cmd → Int) (hcb : pd.command_callback = some cb) :
    (pd_decode_command_switch_tail ops pd buf len).isSome = true := by
  unfold pd_decode_command_switch_tail
  dsimp only
  repeat' (first
    | rfl
    | apply ite_of_imp (fun o : Option (flow pd_decode_result) => o.isSome = true) <;> intro _
    | (split <;> first
        | (rename_i heq
           first
             | exact absurd heq (pd_command_callback_ne_none _ _ cb hcb)
             | exact absurd heq (pd_command_callback_ne_none _ _ cb
                 ((pd_cmd_cap_ok_callback _ _).trans hcb)))
        | skip))

/-- With a callback registered the `switch` of `pd_decode_command` never calls a NULL
pointer. -/
theorem pd_decode_command_switch_total (ops : osdp_sc_ops) (pd : osdp_pd) (buf : List Nat)
    (len : Int) (cb : osdp_cmd → Int) (hcb : pd.command_callback = some cb) :
    (pd_decode_command_switch ops pd buf len).isSome = true := by
  unfold pd_decode_command_switch
  dsimp only
  repeat' (first
    | rfl
    | exact pd_decode_command_switch_tail_total ops pd buf len cb hcb
    | apply ite_of_imp (fun o : Option (flow pd_decode_result) => o.isSome = true) <;> intro _
    | (split <;> first
        | (rename_i heq
           first
             | exact absurd heq (pd_command_callback_ne_none _ _ cb hcb)
             | exact absurd heq (pd_command_callback_ne_none _ _ cb
                 ((pd_cmd_cap_ok_callback _ _).trans hcb)))
        | skip))

/-- With a callback registered `pd_decode_command` returns: the decoder is total. -/
theorem pd_decode_command_total (ops : osdp_sc_ops) (pd : osdp_pd) (buf : List Nat)
    (len : Int) (cb : osdp_cmd → Int) (hcb : pd.command_callback = some cb) :
    ∃ d, pd_decode_command ops pd buf len = some d := by
  have h := pd_decode_command_switch_total ops { pd with reply_id := 0, cmd_id := rd buf 0 }
    buf (len - 1) cb hcb
  unfold pd_decode_command
  dsimp only
  cases hsw : pd_decode_command_switch ops { pd with reply_id := 0, cmd_id := rd buf 0 }
      buf (len - 1) with
  | none => rw [hsw] at h; cases h
  | some f =>
    cases f with
    | returned r => exact ⟨_, rfl⟩
    | broke r =>
      dsimp only
      split_ifs
      · exact ⟨_, rfl⟩
      · exact ⟨_, rfl⟩

/-- The function `pd_receve_packet` leaves the callback pointer alone. -/
theorem pd_receve_packet_callback (env : osdp_env) (pd : osdp_pd) :
    (pd_receve_packet env pd).pd.command_callback = pd.command_callback := by
  unfold pd_receve_packet
  dsimp only
  repeat' (first | rfl | split)

/-- When the packet layer frames every reply, leaves room for the longest reply, and
the channel takes every frame, `pd_send_reply` sends exactly one frame and returns
0. -/
theorem pd_send_reply_ok (env : osdp_env) (pd : osdp_pd)
    (hinit : ∀ p, 0 ≤ env.osdp_phy_packet_init p)
    (hroom : ∀ p, REPLY_CCRYPT_LEN ≤ OSDP_PACKET_BUF_SIZE - env.osdp_phy_packet_get_data_offset p)
    (hfin : ∀ p smb out, ∃ frame, env.osdp_phy_packet_finalize p smb out = some frame ∧
      env.send frame = (frame.length : Int)) :
    ∃ frame, (pd_send_reply env pd).ret = OSDP_PD_ERR_NONE ∧
      (pd_send_reply env pd).sent = [frame] := by
  have h1 : ¬ (env.osdp_phy_packet_init pd < 0) := not_lt.mpr (hinit pd)
  have h2 : ¬ ((pd_build_reply env.sc_ops pd (env.osdp_phy_packet_get_data_offset pd)
      (env.osdp_phy_packet_get_smb pd) OSDP_PACKET_BUF_SIZE).ret ≤ 0) :=
    not_le.mpr ((pd_build_reply_ret env.sc_ops pd _ _ _).2.2 (hroom pd))
  obtain ⟨frame, hf, hs⟩ := hfin
    (pd_build_reply env.sc_ops pd (env.osdp_phy_packet_get_data_offset pd)
      (env.osdp_phy_packet_get_smb pd) OSDP_PACKET_BUF_SIZE).pd
    (pd_build_reply env.sc_ops pd (env.osdp_phy_packet_get_data_offset pd)
      (env.osdp_phy_packet_get_smb pd) OSDP_PACKET_BUF_SIZE).smb
    (pd_build_reply env.sc_ops pd (env.osdp_phy_packet_get_data_offset pd)
      (env.osdp_phy_packet_get_smb pd) OSDP_PACKET_BUF_SIZE).out
  refine ⟨frame, ?_, ?_⟩ <;>
    simp only [pd_send_reply, if_neg h1, if_neg h2, hf, ne_eq, hs, not_true_eq_false, if_false]

/-- The case SEND_REPLY of `osdp_update` under the same conditions: one frame is sent
and the PD is left in IDLE with an empty receive buffer. -/
theorem osdp_update_send_reply_ok (env : osdp_env) (pd : osdp_pd) (flushes : Nat)
    (hinit : ∀ p, 0 ≤ env.osdp_phy_packet_init p)
    (hroom : ∀ p, REPLY_CCRYPT_LEN ≤ OSDP_PACKET_BUF_SIZE - env.osdp_phy_packet_get_data_offset p)
    (hfin : ∀ p smb out, ∃ frame, env.osdp_phy_packet_finalize p smb out = some frame ∧
      env.send frame = (frame.length : Int)) :
    ∃ frame, (osdp_update_send_reply env pd flushes).sent = [frame] ∧
      (osdp_update_send_reply env pd flushes).pd.state = OSDP_PD_STATE_IDLE ∧
      (osdp_update_send_reply env pd flushes).pd.rx_buf_len = 0 := by
  obtain ⟨frame, hr, hs⟩ := pd_send_reply_ok env pd hinit hroom hfin
  have h : ¬ ((pd_send_reply env pd).ret = -1) := by
    rw [hr]
    decide
  refine ⟨frame, ?_, ?_, ?_⟩ <;> simp only [osdp_update_send_reply, if_neg h, hs]

/-- C14: when the PD is in IDLE, `pd_receve_packet` returns 0 (a complete command
frame has been received) and the response timeout has not run out, then, with a
callback registered, a packet layer that frames every reply and leaves room for the
longest one, and a channel that takes every frame, that call of `osdp_update`
returns, sends exactly one frame, and leaves the PD in IDLE with an empty receive
buffer, whatever the bytes of the command are. And `pd_build_reply` never returns
0: it returns -1 or the positive number of bytes written, which are NAK, RECORD when
the `switch` is left with an error and there is room for two bytes. -/
theorem C14_one_reply_per_command (env : osdp_env) (pd : osdp_pd) (cb : osdp_cmd → Int)
    (hidle : pd.state = OSDP_PD_STATE_IDLE)
    (hcb : pd.command_callback = some cb)
    (hrx : (pd_receve_packet env pd).ret = 0)
    (htime : osdp_millis_since env (pd_receve_packet env pd).pd.tstamp ≤ OSDP_RESP_TOUT_MS)
    (hinit : ∀ p, 0 ≤ env.osdp_phy_packet_init p)
    (hroom : ∀ p, REPLY_CCRYPT_LEN ≤ OSDP_PACKET_BUF_SIZE - env.osdp_phy_packet_get_data_offset p)
    (hfin : ∀ p smb out, ∃ frame, env.osdp_phy_packet_finalize p smb out = some frame ∧
      env.send frame = (frame.length : Int)) :
    (∃ r frame, osdp_update env pd = some r ∧ r.sent = [frame] ∧
      r.pd.state = OSDP_PD_STATE_IDLE ∧ r.pd.rx_buf_len = 0) ∧
    (∀ (ops : osdp_sc_ops) (p : osdp_pd) (data_off : Int) (smb : Option osdp_smb)
        (max_len : Int),
      ((pd_build_reply ops p data_off smb max_len).ret = OSDP_PD_ERR_GENERIC ∨
        (0 < (pd_build_reply ops p data_off smb max_len).ret ∧
          ((pd_build_reply ops p data_off smb max_len).out.length : Int) =
            (pd_build_reply ops p data_off smb max_len).ret)) ∧
      (∀ st, pd_build_reply_switch ops p smb (max_len - data_off) = .broke st → st.ret ≠ 0 →
        REPLY_NAK_LEN ≤ max_len - data_off →
        (pd_build_reply ops p data_off smb max_len).out = [REPLY_NAK, OSDP_PD_NAK_RECORD])) := by
  refine ⟨?_, fun ops p data_off smb max_len =>
    ⟨(pd_build_reply_ret ops p data_off smb max_len).1,
     fun st h1 h2 h3 => ((pd_build_reply_ret ops p data_off smb max_len).2.1 st h1 h2 h3).2⟩⟩
  obtain ⟨d, hd⟩ := pd_decode_command_total env.sc_ops (pd_receve_packet env pd).pd
    (pd_receve_packet env pd).pd.rx_buf (pd_receve_packet env pd).pd.rx_buf_len cb
    ((pd_receve_packet_callback env pd).trans hcb)
  obtain ⟨frame, h1, h2, h3⟩ := osdp_update_send_reply_ok env
    { d.pd with state := OSDP_PD_STATE_SEND_REPLY } (pd_receve_packet env pd).flushes
    hinit hroom hfin
  have hc : ¬ ((pd_receve_packet env pd).ret = -1 ∨
      (((pd_receve_packet env pd).pd.rx_buf_len > 0 ∨
          (pd_receve_packet env pd).pd.flags.SC_ACTIVE = true) ∧
        osdp_millis_since env (pd_receve_packet env pd).pd.tstamp > OSDP_RESP_TOUT_MS)) := by
    rw [hrx]
    intro h
    rcases h with h | h
    · exact absurd h (by decide)
    · exact absurd h.2 (not_lt.mpr htime)
  have h01 : ¬ ((pd_receve_packet env pd).ret = 1) := by
    rw [hrx]
    decide
  refine ⟨_, frame, ?_, h1, h2, h3⟩
  simp only [osdp_update, if_pos hidle, if_neg hc, if_neg h01, if_pos hrx, hd]

/-- C14 on the PD `pd_example` with a packet layer without framing: the command POLL
(60) is answered in the same tick with the one frame 40, and so are a POLL with a
byte too many (41 09), the unknown command id 00 (41 03), and an OUT command for an
output the PD does not have (41 00); each time the PD is back in IDLE with an empty
receive buffer. -/
theorem C14_one_reply_per_command_examples :
    (∃ r frame, osdp_update (env_plain [0x60] 0) pd_example = some r ∧ r.sent = [frame] ∧
      r.pd.state = OSDP_PD_STATE_IDLE ∧ r.pd.rx_buf_len = 0) ∧
    (osdp_update (env_plain [0x60] 0) pd_example).map
      (fun r => (r.sent, r.pd.state, r.pd.rx_buf_len)) = some ([[0x40]], 0, 0) ∧
    (osdp_update (env_plain [0x60, 1] 0) pd_example).map
      (fun r => (r.sent, r.pd.state, r.pd.rx_buf_len)) = some ([[0x41, 0x09]], 0, 0) ∧
    (osdp_update (env_plain [0x00] 0) pd_example).map
      (fun r => (r.sent, r.pd.state, r.pd.rx_buf_len)) = some ([[0x41, 0x03]], 0, 0) ∧
    (osdp_update (env_plain [0x68, 9, 1, 0, 0] 0) pd_example).map
      (fun r => (r.sent, r.pd.state, r.pd.rx_buf_len)) = some ([[0x41, 0x00]], 0, 0) :=
  ⟨(C14_one_reply_per_command (env_plain [0x60] 0) pd_example (fun _ => 0) rfl rfl rfl
      (by decide) (fun _ => le_refl _)
      (fun _ => (by decide : REPLY_CCRYPT_LEN ≤ OSDP_PACKET_BUF_SIZE - 0))
      (fun _ _ out => ⟨out, rfl, rfl⟩)).1,
   by decide, by decide, by decide, by decide⟩


/-! ## C15: `osdp_cp_send_command` refuses -/

/-- C15: `osdp_cp_send_command` returns -1 and leaves the whole context, so every PD
and its command queue, as it was, (1) when the PD index is negative or not below
the number of PDs, (2) when the addressed PD is not in session state ONLINE, and
(3) when the command id is none of OUTPUT, LED, BUZZER, TEXT, COMSET, KEYSET. -/
theorem C15_send_command_refuses (ctx : osdp) (ptr_image : osdp_cmd_keyset) (pd : Int)
    (cmd : osdp_cmd) :
    ((pd < 0 ∨ (ctx.pd.length : Int) ≤ pd) →
      osdp_cp_send_command ctx ptr_image pd cmd = (-1, ctx)) ∧
    (∀ target, ctx.pd.get? pd.toNat = some target → target.state ≠ OSDP_CP_STATE_ONLINE →
      osdp_cp_send_command ctx ptr_image pd cmd = (-1, ctx)) ∧
    (cmd.id ∉ [OSDP_CMD_OUTPUT, OSDP_CMD_LED, OSDP_CMD_BUZZER, OSDP_CMD_TEXT,
        OSDP_CMD_COMSET, OSDP_CMD_KEYSET] →
      osdp_cp_send_command ctx ptr_image pd cmd = (-1, ctx)) := by
  refine ⟨?_, ?_, ?_⟩
  · intro h
    have h2 : pd < 0 ∨ pd ≥ (ctx.pd.length : Int) := h
    simp only [osdp_cp_send_command, if_pos h2]
  · intro target hget hst
    by_cases h1 : pd < 0 ∨ pd ≥ (ctx.pd.length : Int)
    · simp only [osdp_cp_send_command, if_pos h1]
    · simp only [osdp_cp_send_command, if_neg h1, hget, if_pos hst]
  · intro hid
    simp only [List.mem_cons, List.mem_singleton, not_or, List.mem_nil_iff, or_false] at hid
    obtain ⟨h1, h2, h3, h4, h5, h6⟩ := hid
    by_cases h0 : pd < 0 ∨ pd ≥ (ctx.pd.length : Int)
    · simp only [osdp_cp_send_command, if_pos h0]
    · simp only [osdp_cp_send_command, if_neg h0, if_neg h1, if_neg h2, if_neg h3, if_neg h4,
        if_neg h5, if_neg h6]
      cases ctx.pd.get? pd.toNat with
      | none => rfl
      | some target => simp

/-- C15 on a CP with the single PD `pd_example`, which is in session state INIT and
has an empty queue: index 1, index -1, the PD that is not ONLINE, and the command id
9 are all refused with -1, and the queue stays empty. -/
theorem C15_send_command_refuses_examples :
    osdp_cp_send_command { pd := [pd_example] } {} 1 cmd_led_s3 = (-1, { pd := [pd_example] }) ∧
    osdp_cp_send_command { pd := [pd_example] } {} (-1) cmd_led_s3 =
      (-1, { pd := [pd_example] }) ∧
    osdp_cp_send_command { pd := [pd_example] } {} 0 cmd_led_s3 = (-1, { pd := [pd_example] }) ∧
    osdp_cp_send_command { pd := [{ pd_example with state := OSDP_CP_STATE_ONLINE }] } {} 0
        { cmd_led_s3 with id := 9 } =
      (-1, { pd := [{ pd_example with state := OSDP_CP_STATE_ONLINE }] }) :=
  ⟨(C15_send_command_refuses { pd := [pd_example] } {} 1 cmd_led_s3).1 (by decide),
   (C15_send_command_refuses { pd := [pd_example] } {} (-1) cmd_led_s3).1 (by decide),
   (C15_send_command_refuses { pd := [pd_example] } {} 0 cmd_led_s3).2.1 pd_example rfl
     (by decide),
   (C15_send_command_refuses { pd := [{ pd_example with state := OSDP_CP_STATE_ONLINE }] } {} 0
     { cmd_led_s3 with id := 9 }).2.2 (by decide)⟩


/-! ## C16: the order of the commands on the wire -/

/-- The `switch` of `cp_build_command` leaves the queue and the staged command of the
PD context alone. -/
theorem cp_build_command_switch_frame (ops : osdp_sc_ops) (pd : osdp_pd) (smb : Option osdp_smb)
    (max_len : Int) :
    (cp_build_command_switch ops pd smb max_len).val.pd.cmd_queue = pd.cmd_queue ∧
    (cp_build_command_switch ops pd smb max_len).val.pd.cmd_id = pd.cmd_id ∧
    (cp_build_command_switch ops pd smb max_len).val.pd.cmd_data = pd.cmd_data := by
  unfold cp_build_command_switch
  dsimp only
  repeat' (first
    | exact ⟨rfl, rfl, rfl⟩
    | apply flow_val_ite (fun st : build_state => st.pd.cmd_queue = pd.cmd_queue ∧
        st.pd.cmd_id = pd.cmd_id ∧ st.pd.cmd_data = pd.cmd_data)
    | split)

/-- The function `cp_build_command` leaves the queue and the staged command alone. -/
theorem cp_build_command_frame (ops : osdp_sc_ops) (pd : osdp_pd) (data_off : Int)
    (smb : Option osdp_smb) (max_len : Int) :
    (cp_build_command ops pd data_off smb max_len).pd.cmd_queue = pd.cmd_queue ∧
    (cp_build_command ops pd data_off smb max_len).pd.cmd_id = pd.cmd_id ∧
    (cp_build_command ops pd data_off smb max_len).pd.cmd_data = pd.cmd_data := by
  have h := cp_build_command_switch_frame ops pd smb (max_len - data_off)
  unfold cp_build_command
  dsimp only
  cases hsw : cp_build_command_switch ops pd smb (max_len - data_off) with
  | returned st => rw [hsw] at h; exact h
  | broke st =>
    rw [hsw] at h
    dsimp only
    split_ifs <;> exact h

/-- The function `cp_send_command` leaves the queue and the staged command alone. -/
theorem cp_send_command_frame (env : osdp_env) (pd : osdp_pd) :
    (cp_send_command env pd).pd.cmd_queue = pd.cmd_queue ∧
    (cp_send_command env pd).pd.cmd_id = pd.cmd_id ∧
    (cp_send_command env pd).pd.cmd_data = pd.cmd_data := by
  have h := cp_build_command_frame env.sc_ops pd (env.osdp_phy_packet_get_data_offset pd)
    (env.osdp_phy_packet_get_smb pd) OSDP_PACKET_BUF_SIZE
  unfold cp_send_command
  dsimp only
  split_ifs
  · exact ⟨rfl, rfl, rfl⟩
  · exact h
  · split
    · exact h
    · split_ifs <;> exact h

/-- The case SEND_CMD of the phy leaves the queue and the staged command alone. -/
theorem cp_phy_send_cmd_frame (env : osdp_env) (pd : osdp_pd) (flushes : Nat) :
    (cp_phy_send_cmd env pd flushes).pd.cmd_queue = pd.cmd_queue ∧
    (cp_phy_send_cmd env pd flushes).pd.cmd_id = pd.cmd_id ∧
    (cp_phy_send_cmd env pd flushes).pd.cmd_data = pd.cmd_data := by
  have h := cp_send_command_frame env pd
  unfold cp_phy_send_cmd
  dsimp only
  split_ifs <;> exact h

/-- The `switch` of `cp_decode_response` leaves the queue alone. -/
theorem cp_decode_response_switch_frame (ops : osdp_sc_ops) (cp : osdp_cp) (pd : osdp_pd)
    (buf : List Nat) (len : Int) :
    (cp_decode_response_switch ops cp pd buf len).val.pd.cmd_queue = pd.cmd_queue := by
  unfold cp_decode_response_switch
  dsimp only
  repeat' (first
    | rfl
    | apply flow_val_ite (fun r : cp_decode_result => r.pd.cmd_queue = pd.cmd_queue))

/-- The function `cp_decode_response` leaves the queue alone. -/
theorem cp_decode_response_frame (ops : osdp_sc_ops) (cp : osdp_cp) (pd : osdp_pd)
    (buf : List Nat) (len : Int) :
    (cp_decode_response ops cp pd buf len).pd.cmd_queue = pd.cmd_queue := by
  have h := cp_decode_response_switch_frame ops cp { pd with reply_id := rd buf 0 } buf (len - 1)
  unfold cp_decode_response
  dsimp only
  cases hsw : cp_decode_response_switch ops cp { pd with reply_id := rd buf 0 } buf (len - 1) with
  | returned r => rw [hsw] at h; exact h
  | broke r =>
    rw [hsw] at h
    dsimp only
    split_ifs <;> exact h

/-- The function `cp_process_reply` leaves the queue alone. -/
theorem cp_process_reply_frame (env : osdp_env) (cp : osdp_cp) (pd : osdp_pd) :
    (cp_process_reply env cp pd).pd.cmd_queue = pd.cmd_queue := by
  unfold cp_process_reply
  dsimp only
  split_ifs
  · rfl
  · split
    · split <;> rfl
    · rfl
    · rfl
    · exact cp_decode_response_frame _ _ _ _ _

/-- A step of the phy in IDLE with a command queued: the head of the queue is taken
off and is what the step leaves staged in `pd->cmd_id` and `pd->cmd_data`. -/
theorem cp_phy_state_update_idle (env : osdp_env) (cp : osdp_cp) (pd : osdp_pd) (c : osdp_cmd)
    (rest : List osdp_cmd) (hst : pd.phy_state = OSDP_CP_PHY_STATE_IDLE)
    (hq : pd.cmd_queue = c :: rest) :
    (cp_phy_state_update env cp pd).pd.cmd_queue = rest ∧
    (cp_phy_state_update env cp pd).pd.cmd_id = c.id ∧
    (cp_phy_state_update env cp pd).pd.cmd_data = c := by
  simp only [OSDP_CP_PHY_STATE_IDLE] at hst
  have h := cp_phy_send_cmd_frame env
    { pd with cmd_queue := rest, cmd_id := c.id, cmd_data := c,
              cmd_slab_free := pd.cmd_slab_free + 1, rx_buf_len := 0 } (channel_flush env)
  simpa [cp_phy_state_update, hst, cp_cmd_dequeue, hq, cp_cmd_free, cp_reset_channel] using h

/-- A step of the phy that is not in ERR, and not in IDLE with a command queued,
leaves the queue alone. -/
theorem cp_phy_state_update_frame (env : osdp_env) (cp : osdp_cp) (pd : osdp_pd)
    (herr : pd.phy_state ≠ OSDP_CP_PHY_STATE_ERR)
    (hidle : ¬ (pd.phy_state = OSDP_CP_PHY_STATE_IDLE ∧ pd.cmd_queue ≠ [])) :
    (cp_phy_state_update env cp pd).pd.cmd_queue = pd.cmd_queue := by
  unfold cp_phy_state_update
  dsimp only
  split_ifs with h1 h2 h3
  · rfl
  · have hq : pd.cmd_queue = [] := by
      by_contra hne
      exact hidle ⟨h2, hne⟩
    simp [cp_cmd_dequeue, hq]
  · exact (cp_phy_send_cmd_frame env pd 0).1
  all_goals first
    | exact cp_process_reply_frame env cp pd
    | rfl

/-- The loop of `osdp_cp_send_command_keyset` returns 0 only when it has given every
PD one KEYSET command whose payload is `ptr_image`. -/
theorem osdp_cp_send_command_keyset_loop_zero (ptr_image : osdp_cmd_keyset) :
    ∀ pds : List osdp_pd, (osdp_cp_send_command_keyset_loop ptr_image pds).1 = 0 →
      (osdp_cp_send_command_keyset_loop ptr_image pds).2 =
        pds.map (fun p =>
          cp_cmd_enqueue { p with cmd_slab_free := p.cmd_slab_free - 1 }
            { id := CMD_KEYSET, keyset := ptr_image })
  | [], _ => rfl
  | p :: rest, h => by
    by_cases hp : p.cmd_slab_free = 0
    · simp [osdp_cp_send_command_keyset_loop, cp_cmd_alloc, hp] at h
    · simp only [osdp_cp_send_command_keyset_loop, cp_cmd_alloc, if_neg hp] at h
      have ih := osdp_cp_send_command_keyset_loop_zero ptr_image rest h
      simp [osdp_cp_send_command_keyset_loop, cp_cmd_alloc, hp, ih]

/-- A call of `osdp_cp_send_command` for the PD with index `i` that returns 0 appends
the queued form of the command at the tail of the queue of that PD. -/
theorem osdp_cp_send_command_zero (ctx : osdp) (ptr_image : osdp_cmd_keyset) (i : Nat)
    (cmd : osdp_cmd) (pd : osdp_pd) (hget : ctx.pd.get? i = some pd)
    (hret : (osdp_cp_send_command ctx ptr_image (i : Int) cmd).1 = 0) :
    ∃ pd2, (osdp_cp_send_command ctx ptr_image (i : Int) cmd).2.pd.get? i = some pd2 ∧
      pd2.cmd_queue = pd.cmd_queue ++ [cp_queued_form ptr_image cmd] := by
  have hlt : i < ctx.pd.length := by
    rcases Nat.lt_or_ge i ctx.pd.length with h | h
    · exact h
    · rw [List.get?_eq_none.mpr h] at hget
      cases hget
  have h0 : ¬ ((i : Int) < 0 ∨ ctx.pd.length ≤ i) := by omega
  have hget3 : ctx.pd[i]? = some pd := by simpa using hget
  by_cases hst : pd.state = 7
  swap
  · simp [osdp_cp_send_command, h0, hget3, hst] at hret
  by_cases h6 : cmd.id = 5
  · have hm : sc_status_is_pd_mask ctx = true := by
      by_contra hm
      simp [osdp_cp_send_command, h0, hget3, hst, h6, osdp_cp_send_command_keyset, hm] at hret
    have hl := osdp_cp_send_command_keyset_loop_zero ptr_image ctx.pd
      (by simpa [osdp_cp_send_command, h0, hget3, hst, h6, osdp_cp_send_command_keyset, hm]
        using hret)
    refine ⟨cp_cmd_enqueue { pd with cmd_slab_free := pd.cmd_slab_free - 1 }
      { id := CMD_KEYSET, keyset := ptr_image }, ?_, ?_⟩
    · simp [osdp_cp_send_command, h0, hget3, hst, h6, osdp_cp_send_command_keyset, hm, hl]
    · simp [cp_cmd_enqueue, cp_queued_form, h6]
  · by_cases hp : pd.cmd_slab_free = 0
    · simp [osdp_cp_send_command, h0, hget3, hst, h6, cp_cmd_alloc, hp] at hret
    · simp only [osdp_cp_send_command, OSDP_CMD_KEYSET, OSDP_CMD_OUTPUT, OSDP_CMD_LED,
        OSDP_CMD_BUZZER, OSDP_CMD_TEXT, OSDP_CMD_COMSET] at hret ⊢
      simp only [cp_queued_form, OSDP_CMD_KEYSET, OSDP_CMD_OUTPUT, OSDP_CMD_LED,
        OSDP_CMD_BUZZER, OSDP_CMD_TEXT, OSDP_CMD_COMSET, if_neg h6]
      split_ifs at hret ⊢ <;>
        simp_all [cp_cmd_alloc, cp_cmd_enqueue]

/-- A run that ends clean was clean at its start. -/
theorem cp_run_clean (ptr_image : osdp_cmd_keyset) (i : Nat) :
    ∀ (ops : List cp_op) (s : cp_run_state), (cp_run ptr_image i ops s).clean = true →
      s.clean = true
  | [], _, h => h
  | op :: ops, s, h => by
    have h1 := cp_run_clean ptr_image i ops (cp_run_step ptr_image i s op) h
    cases op with
    | send_command cmd =>
      simp only [cp_run_step, Bool.and_eq_true] at h1
      exact h1.1
    | phy_step env =>
      simp only [cp_run_step] at h1
      split at h1
      · cases h1
      · simp only [Bool.and_eq_true] at h1
        exact h1.1

/-- One clean operation keeps the account of the queue: what has been staged, followed
by what is still queued, is the list of the queued forms of the commands submitted. -/
theorem cp_run_step_account (ptr_image : osdp_cmd_keyset) (i : Nat) (s : cp_run_state)
    (op : cp_op)
    (hinv : ∃ pd, s.ctx.pd.get? i = some pd ∧
      s.staged ++ pd.cmd_queue.map (fun c => (c.id, c)) =
        s.submitted.map (fun c => ((cp_queued_form ptr_image c).id, cp_queued_form ptr_image c)))
    (hclean : (cp_run_step ptr_image i s op).clean = true) :
    ∃ pd, (cp_run_step ptr_image i s op).ctx.pd.get? i = some pd ∧
      (cp_run_step ptr_image i s op).staged ++ pd.cmd_queue.map (fun c => (c.id, c)) =
        (cp_run_step ptr_image i s op).submitted.map
          (fun c => ((cp_queued_form ptr_image c).id, cp_queued_form ptr_image c)) := by
  obtain ⟨pd, hget, hacc⟩ := hinv
  cases op with
  | send_command cmd =>
    simp only [cp_run_step, Bool.and_eq_true, decide_eq_true_eq] at hclean ⊢
    obtain ⟨pd2, hget2, hq2⟩ := osdp_cp_send_command_zero s.ctx ptr_image i cmd pd hget hclean.2
    refine ⟨pd2, hget2, ?_⟩
    rw [hq2, List.map_append, ← List.append_assoc, hacc, List.map_append]
    rfl
  | phy_step env =>
    have hlt : i < s.ctx.pd.length := by
      rcases Nat.lt_or_ge i s.ctx.pd.length with h | h
      · exact h
      · rw [List.get?_eq_none.mpr h] at hget
        cases hget
    simp only [cp_run_step, hget, Bool.and_eq_true, decide_eq_true_eq] at hclean ⊢
    refine ⟨(cp_phy_state_update env s.ctx.cp pd).pd, by simp [hlt], ?_⟩
    by_cases hidle : pd.phy_state = OSDP_CP_PHY_STATE_IDLE ∧ pd.cmd_queue ≠ []
    · rw [if_pos hidle]
      cases hq : pd.cmd_queue with
      | nil => exact absurd hq hidle.2
      | cons c rest =>
        obtain ⟨h1, h2, h3⟩ := cp_phy_state_update_idle env s.ctx.cp pd c rest hidle.1 hq
        rw [h1, h2, h3, ← hacc, hq]
        simp
    · rw [if_neg hidle, cp_phy_state_update_frame env s.ctx.cp pd hclean.2 hidle]
      exact hacc

/-- A clean run keeps the account of the queue. -/
theorem cp_run_account (ptr_image : osdp_cmd_keyset) (i : Nat) :
    ∀ (ops : List cp_op) (s : cp_run_state),
      (∃ pd, s.ctx.pd.get? i = some pd ∧
        s.staged ++ pd.cmd_queue.map (fun c => (c.id, c)) =
          s.submitted.map
            (fun c => ((cp_queued_form ptr_image c).id, cp_queued_form ptr_image c))) →
      (cp_run ptr_image i ops s).clean = true →
      ∃ pd, (cp_run ptr_image i ops s).ctx.pd.get? i = some pd ∧
        (cp_run ptr_image i ops s).staged ++ pd.cmd_queue.map (fun c => (c.id, c)) =
          (cp_run ptr_image i ops s).submitted.map
            (fun c => ((cp_queued_form ptr_image c).id, cp_queued_form ptr_image c))
  | [], _, hinv, _ => hinv
  | op :: ops, s, hinv, hclean =>
    cp_run_account ptr_image i ops (cp_run_step ptr_image i s op)
      (cp_run_step_account ptr_image i s op hinv
        (cp_run_clean ptr_image i ops (cp_run_step ptr_image i s op) hclean))
      hclean

/-- C16, as the code has it. In a run on the PD with index `i` that starts with an
empty queue, in which every `osdp_cp_send_command` returns 0 and no phy step is made
in phy state ERR, the pairs `(cmd_id, cmd_data)` that the phy stages on leaving IDLE,
followed by the commands still queued, are the queued forms of the commands
submitted, in the order of the calls: the k-th command staged is the queued form of
the k-th command submitted. The queued form of a command other than KEYSET is the
command with its id translated to the wire id; the queued form of a KEYSET command
has the wire id, but its keyset payload is `ptr_image`, not the payload submitted. -/
theorem C16_staged_order_is_submit_order (ptr_image : osdp_cmd_keyset) (i : Nat)
    (ops : List cp_op) (ctx : osdp) (pd : osdp_pd)
    (hget : ctx.pd.get? i = some pd) (hq : pd.cmd_queue = [])
    (hclean : (cp_run ptr_image i ops { ctx := ctx }).clean = true) :
    (∃ pd2, (cp_run ptr_image i ops { ctx := ctx }).ctx.pd.get? i = some pd2 ∧
      (cp_run ptr_image i ops { ctx := ctx }).staged ++ pd2.cmd_queue.map (fun c => (c.id, c)) =
        (cp_run ptr_image i ops { ctx := ctx }).submitted.map
          (fun c => ((cp_queued_form ptr_image c).id, cp_queued_form ptr_image c))) ∧
    (∀ cmd : osdp_cmd, cmd.id = OSDP_CMD_KEYSET →
      cp_queued_form ptr_image cmd = { id := CMD_KEYSET, keyset := ptr_image }) ∧
    (∀ cmd : osdp_cmd, cmd.id ≠ OSDP_CMD_KEYSET →
      ∃ wire, cp_queued_form ptr_image cmd = { cmd with id := wire }) := by
  refine ⟨cp_run_account ptr_image i ops { ctx := ctx } ⟨pd, hget, by simp [hq]⟩ hclean, ?_, ?_⟩
  · intro cmd h
    simp [cp_queued_form, h]
  · intro cmd h
    unfold cp_queued_form
    rw [if_neg h]
    split_ifs
    · exact ⟨_, rfl⟩
    · exact ⟨_, rfl⟩
    · exact ⟨_, rfl⟩
    · exact ⟨_, rfl⟩
    · exact ⟨_, rfl⟩

/-- C16 on the PD `pd_cp_sc_online`: the application submits the KEYSET command with
the key 01 .. 10 and then a buzzer command, and the phy makes one step. Both calls
return 0, the command staged is the first one submitted and the buzzer command is
still queued, but the keyset payload staged is the pointer image (here the empty
payload), not the key submitted. -/
theorem C16_staged_order_is_submit_order_example :
    (cp_run {} 0
      [.send_command cmd_keyset_example,
       .send_command { cmd_buz_example with id := OSDP_CMD_BUZZER },
       .phy_step (env_plain [] 0)] { ctx := { pd := [pd_cp_sc_online] } }).staged =
      [(CMD_KEYSET, { id := CMD_KEYSET })] ∧
    cmd_keyset_example.keyset.data = key_example ∧
    ∃ pd2, (cp_run {} 0
      [.send_command cmd_keyset_example,
       .send_command { cmd_buz_example with id := OSDP_CMD_BUZZER },
       .phy_step (env_plain [] 0)] { ctx := { pd := [pd_cp_sc_online] } }).ctx.pd.get? 0 =
        some pd2 ∧ pd2.cmd_queue = [cmd_buz_example] := by
  obtain ⟨⟨pd2, h1, h2⟩, _, _⟩ := C16_staged_order_is_submit_order {} 0
    [.send_command cmd_keyset_example,
     .send_command { cmd_buz_example with id := OSDP_CMD_BUZZER },
     .phy_step (env_plain [] 0)] { pd := [pd_cp_sc_online] } pd_cp_sc_online rfl rfl rfl
  have hs : (cp_run {} 0
      [.send_command cmd_keyset_example,
       .send_command { cmd_buz_example with id := OSDP_CMD_BUZZER },
       .phy_step (env_plain [] 0)] { ctx := { pd := [pd_cp_sc_online] } }).staged =
      [(CMD_KEYSET, { id := CMD_KEYSET })] := rfl
  refine ⟨hs, rfl, pd2, h1, ?_⟩
  rw [hs] at h2
  have h3 : pd2.cmd_queue.map (fun c => (c.id, c)) = [(CMD_BUZ, cmd_buz_example)] :=
    List.append_cancel_left
      (h2.trans (by rfl : _ = [(CMD_KEYSET, ({ id := CMD_KEYSET } : osdp_cmd))] ++
        [(CMD_BUZ, cmd_buz_example)]))
  cases hq : pd2.cmd_queue with
  | nil => rw [hq] at h3; cases h3
  | cons c rest =>
    rw [hq] at h3
    simp only [List.map_cons, List.cons.injEq, Prod.mk.injEq, List.map_eq_nil_iff] at h3
    rw [h3.1.2, h3.2]


/-! ## C17: the KEYSET command of `osdp_cp_send_command` -/

/-- The loop of `osdp_cp_send_command_keyset` when every pool has a free block: it
returns 0 and every PD gets one KEYSET command whose payload is `ptr_image`. -/
theorem osdp_cp_send_command_keyset_loop_ok (ptr_image : osdp_cmd_keyset) :
    ∀ pds : List osdp_pd, (∀ p ∈ pds, 0 < p.cmd_slab_free) →
      osdp_cp_send_command_keyset_loop ptr_image pds =
        (0, pds.map (fun p =>
          cp_cmd_enqueue { p with cmd_slab_free := p.cmd_slab_free - 1 }
            { id := CMD_KEYSET, keyset := ptr_image }))
  | [], _ => rfl
  | p :: rest, h => by
    have hp : p.cmd_slab_free ≠ 0 := by
      have := h p (List.mem_cons_self _ _)
      omega
    have ih := osdp_cp_send_command_keyset_loop_ok ptr_image rest
      (fun q hq => h q (List.mem_cons_of_mem _ hq))
    simp [osdp_cp_send_command_keyset_loop, cp_cmd_alloc, hp, ih]

/-- C17, as the code has it: when every PD is ONLINE with SC_ACTIVE and has a free
block in its pool, `osdp_cp_send_command` with a KEYSET command returns 0 and appends
to every queue exactly one KEYSET command, but the keyset payload of that command is
`ptr_image`, the bytes at the address of the pointer parameter, whatever the keyset
payload of the submitted command is: two commands with different keys leave the same
queues. -/
theorem C17_keyset_queues_pointer_image (ctx : osdp) (ptr_image : osdp_cmd_keyset) (pd : Int)
    (cmd : osdp_cmd) (hpd : 0 ≤ pd ∧ pd < (ctx.pd.length : Int))
    (hid : cmd.id = OSDP_CMD_KEYSET)
    (hall : ∀ p ∈ ctx.pd, p.state = OSDP_CP_STATE_ONLINE ∧ p.flags.SC_ACTIVE = true ∧
      0 < p.cmd_slab_free) :
    (osdp_cp_send_command ctx ptr_image pd cmd).1 = 0 ∧
    (osdp_cp_send_command ctx ptr_image pd cmd).2.pd.map (fun p => p.cmd_queue) =
      ctx.pd.map (fun p => p.cmd_queue ++ [{ id := CMD_KEYSET, keyset := ptr_image }]) ∧
    ∀ cmd2 : osdp_cmd, cmd2.id = OSDP_CMD_KEYSET →
      osdp_cp_send_command ctx ptr_image pd cmd2 = osdp_cp_send_command ctx ptr_image pd cmd := by
  have hlt : pd.toNat < ctx.pd.length := by omega
  have h0 : ¬ (pd < 0 ∨ pd ≥ (ctx.pd.length : Int)) := by omega
  have hget : ctx.pd.get? pd.toNat = some (ctx.pd.get ⟨pd.toNat, hlt⟩) := List.get?_eq_get hlt
  have hst : (ctx.pd.get ⟨pd.toNat, hlt⟩).state = OSDP_CP_STATE_ONLINE :=
    (hall _ (List.get_mem _ _ _)).1
  have hmask : sc_status_is_pd_mask ctx = true := by
    simp only [sc_status_is_pd_mask, List.all_eq_true, decide_eq_true_eq]
    exact fun p hp => ⟨(hall p hp).1, (hall p hp).2.1⟩
  have hloop := osdp_cp_send_command_keyset_loop_ok ptr_image ctx.pd
    (fun p hp => (hall p hp).2.2)
  have key : ∀ c : osdp_cmd, c.id = OSDP_CMD_KEYSET →
      osdp_cp_send_command ctx ptr_image pd c =
        (0, { ctx with pd := ctx.pd.map (fun p =>
          cp_cmd_enqueue { p with cmd_slab_free := p.cmd_slab_free - 1 }
            { id := CMD_KEYSET, keyset := ptr_image }) }) := by
    intro c hc
    simp only [OSDP_CMD_KEYSET] at hc
    simp only [osdp_cp_send_command, if_neg h0, hget]
    have hst2 : ctx.pd[pd.toNat].state = 7 := hst
    simp [hst2, hc, osdp_cp_send_command_keyset, hmask, hloop]
  refine ⟨?_, ?_, ?_⟩
  · rw [key cmd hid]
  · rw [key cmd hid]
    simp [cp_cmd_enqueue, Function.comp_def]
  · intro cmd2 h2
    rw [key cmd hid, key cmd2 h2]

/-- C17 on a CP with the one PD `pd_cp_sc_online`, which is ONLINE with SC_ACTIVE and
has four free blocks: the KEYSET command with the 16-byte key 01 .. 10 is accepted
with 0, and the command queued has a keyset payload that is not the one submitted
(here the pointer image is the empty payload). -/
theorem C17_keyset_queues_pointer_image_example :
    (osdp_cp_send_command { pd := [pd_cp_sc_online] } {} 0 cmd_keyset_example).1 = 0 ∧
    (osdp_cp_send_command { pd := [pd_cp_sc_online] } {} 0 cmd_keyset_example).2.pd.map
        (fun p => p.cmd_queue.map (fun c => c.keyset.data)) = [[[]]] ∧
    cmd_keyset_example.keyset.data = key_example := by
  have h := C17_keyset_queues_pointer_image { pd := [pd_cp_sc_online] } {} 0 cmd_keyset_example
    (by decide) rfl (by simp [pd_cp_sc_online, pd_example_sc])
  refine ⟨h.1, ?_, rfl⟩
  have h2 := congrArg (List.map (fun q : List osdp_cmd => q.map (fun c => c.keyset.data))) h.2.1
  simpa [pd_cp_sc_online, pd_example_sc, Function.comp_def] using h2


/-! ## C18: the phy after a BUSY reply -/

/-- C18, as the code has it. The PD context waits for a reply (phy state REPLY_WAIT),
the tick `env1` receives the one-byte reply BUSY, the tick `env2` comes when the
retry time has elapsed, and `env3` is the tick after it. The first tick returns 2
and enters WAIT, the second enters IDLE; neither sends a frame nor touches the queue
or the staged command. The third tick does not send the staged command again: with
an empty queue it sends nothing, and with the queue `c :: rest` it dequeues `c`,
stages it in place of the command that was answered with BUSY, and sends that. -/
theorem C18_busy_then_next_command (env1 env2 env3 : osdp_env) (cp : osdp_cp) (pd : osdp_pd)
    (hst : pd.phy_state = OSDP_CP_PHY_STATE_REPLY_WAIT)
    (hrecv : env1.recv.take (OSDP_PACKET_BUF_SIZE - (pd.rx_buf_len : Int)).toNat ≠ [])
    (hdec : env1.osdp_phy_decode_packet
        { pd with
          rx_buf := pd.rx_buf.take pd.rx_buf_len ++
            env1.recv.take (OSDP_PACKET_BUF_SIZE - (pd.rx_buf_len : Int)).toNat,
          rx_buf_len := pd.rx_buf_len +
            (env1.recv.take (OSDP_PACKET_BUF_SIZE - (pd.rx_buf_len : Int)).toNat).length } =
      .payload [REPLY_BUSY])
    (hwait : cp_cmd_RETRY_WAIT_MS ≤ env2.millis_now - env1.millis_now) :
    (cp_phy_state_update env1 cp pd).ret = 2 ∧
    (cp_phy_state_update env1 cp pd).sent = [] ∧
    (cp_phy_state_update env1 cp pd).pd =
      { pd with rx_buf := [REPLY_BUSY], rx_buf_len := 1, reply_id := REPLY_BUSY,
                phy_tstamp := env1.millis_now, phy_state := OSDP_CP_PHY_STATE_WAIT } ∧
    (cp_phy_state_update env2 cp (cp_phy_state_update env1 cp pd).pd).sent = [] ∧
    (cp_phy_state_update env2 cp (cp_phy_state_update env1 cp pd).pd).pd =
      { pd with rx_buf := [REPLY_BUSY], rx_buf_len := 1, reply_id := REPLY_BUSY,
                phy_tstamp := env1.millis_now, phy_state := OSDP_CP_PHY_STATE_IDLE } ∧
    (pd.cmd_queue = [] →
      (cp_phy_state_update env3 cp
        (cp_phy_state_update env2 cp (cp_phy_state_update env1 cp pd).pd).pd).sent = []) ∧
    (∀ c rest, pd.cmd_queue = c :: rest →
      cp_phy_state_update env3 cp
          (cp_phy_state_update env2 cp (cp_phy_state_update env1 cp pd).pd).pd =
        cp_phy_send_cmd env3
          { pd with rx_buf := [REPLY_BUSY], rx_buf_len := 0, reply_id := REPLY_BUSY,
                    phy_tstamp := env1.millis_now, phy_state := OSDP_CP_PHY_STATE_IDLE,
                    cmd_queue := rest, cmd_id := c.id, cmd_data := c,
                    cmd_slab_free := pd.cmd_slab_free + 1 }
          (channel_flush env3)) := by
  have hlen : ¬ ((env1.recv.take (OSDP_PACKET_BUF_SIZE - (pd.rx_buf_len : Int)).toNat).length = 0) := by
    simpa using hrecv
  have h1 : cp_phy_state_update env1 cp pd =
      { ret := 2,
        pd := { pd with rx_buf := [REPLY_BUSY], rx_buf_len := 1, reply_id := REPLY_BUSY,
                        phy_tstamp := env1.millis_now, phy_state := OSDP_CP_PHY_STATE_WAIT } } := by
    have hp : cp_process_reply env1 cp pd =
        { ret := 2,
          pd := { pd with rx_buf := [REPLY_BUSY], rx_buf_len := 1, reply_id := REPLY_BUSY } } := by
      simp only [cp_process_reply, if_neg hlen, hdec]
      simp [cp_decode_response, cp_decode_response_switch, rd]
    simp only [OSDP_CP_PHY_STATE_REPLY_WAIT] at hst
    simp only [cp_phy_state_update, hp]
    simp [hst]
  have hw : ¬ (env2.millis_now - env1.millis_now < cp_cmd_RETRY_WAIT_MS) := by omega
  have h2 : cp_phy_state_update env2 cp
      { pd with rx_buf := [REPLY_BUSY], rx_buf_len := 1, reply_id := REPLY_BUSY,
                phy_tstamp := env1.millis_now, phy_state := OSDP_CP_PHY_STATE_WAIT } =
      { ret := OSDP_CP_ERR_INPROG,
        pd := { pd with rx_buf := [REPLY_BUSY], rx_buf_len := 1, reply_id := REPLY_BUSY,
                        phy_tstamp := env1.millis_now, phy_state := OSDP_CP_PHY_STATE_IDLE } } := by
    simp only [cp_phy_state_update, osdp_millis_since, if_neg hw]
    simp
  rw [h1]
  dsimp only
  rw [h2]
  dsimp only
  refine ⟨rfl, rfl, rfl, rfl, rfl, ?_, ?_⟩
  · intro hq
    simp [cp_phy_state_update, cp_cmd_dequeue, hq]
  · intro c rest hq
    simp [cp_phy_state_update, cp_cmd_dequeue, hq, cp_cmd_free, cp_reset_channel]

/-- C18 on a PD context that waits for the reply to the LED command of scenario S3,
with a buzzer command queued behind it: after BUSY at time 1010 and the ticks at 1400
and 1401 the frame on the wire is the buzzer command 6A 00 02 01 01 01, not the LED
command, and the queue is empty; had the queue been empty, nothing would be sent,
although sending the staged command again would have put the LED command on the
wire. -/
theorem C18_busy_then_next_command_example :
    (cp_phy_state_update (env_plain [] 1401) {}
      (cp_phy_state_update (env_plain [] 1400) {}
        (cp_phy_state_update (env_plain [0x79] 1010) {}
          (pd_cp_waiting [cmd_buz_example])).pd).pd).sent = [[0x6A, 0, 2, 1, 1, 1]] ∧
    (cp_phy_state_update (env_plain [] 1401) {}
      (cp_phy_state_update (env_plain [] 1400) {}
        (cp_phy_state_update (env_plain [0x79] 1010) {} (pd_cp_waiting [])).pd).pd).sent = [] ∧
    (cp_send_command (env_plain [] 1401) (pd_cp_waiting [])).sent =
      [[0x69, 0, 1, 2, 5, 5, 1, 0, 244, 1, 1, 10, 0, 2, 0]] := by
  have h := C18_busy_then_next_command (env_plain [0x79] 1010) (env_plain [] 1400)
    (env_plain [] 1401) {} (pd_cp_waiting [cmd_buz_example]) rfl (by decide) rfl (by decide)
  have h0 := C18_busy_then_next_command (env_plain [0x79] 1010) (env_plain [] 1400)
    (env_plain [] 1401) {} (pd_cp_waiting []) rfl (by decide) rfl (by decide)
  refine ⟨?_, h0.2.2.2.2.2.1 rfl, by decide⟩
  rw [h.2.2.2.2.2.2 cmd_buz_example [] rfl]
  decide

/-! ### KEYSET on the PD -/

/-- C19, as the code behaves: for every well-formed KEYSET command (type 1, length 16)
received by an SC-capable PD while SC_ACTIVE is set, if the application callback
returns non-zero then the reply is NAK (reason RECORD) and the flags of the PD,
SC_USE_SCBKD and INSTALL_MODE among them, are the same as before the command, but
the stored SCBK is the key of the command: `pd_decode_command` copies the key into
`pd->sc.scbk` before it calls the callback. The claim expects the stored SCBK to be
the same as before. -/
theorem C19_keyset_rejected_scbk_overwritten (ops : osdp_sc_ops) (pd : osdp_pd)
    (cb : osdp_cmd → Int) (key : List Nat) (data_off : Int) (smb : Option osdp_smb)
    (max_len : Int) (hcb : pd.command_callback = some cb) (hkey : key.length = 16)
    (hact : pd.flags.SC_ACTIVE = true)
    (hcap : (pd.cap OSDP_PD_CAP_COMMUNICATION_SECURITY).compliance_level ≠ 0)
    (hrej : cb { id := OSDP_CMD_KEYSET, keyset := { type := 1, length := 16, data := key } } ≠ 0)
    (hroom : 2 ≤ max_len - data_off) :
    ∃ d, pd_decode_command ops pd (CMD_KEYSET :: 1 :: 16 :: key) 19 = some d ∧
      d.ret = OSDP_PD_ERR_REPLY ∧ d.pd.reply_id = REPLY_NAK ∧
      d.pd.flags = pd.flags ∧ d.pd.sc.scbk = key ∧
      (pd_build_reply ops d.pd data_off smb max_len).out = [REPLY_NAK, OSDP_PD_NAK_RECORD] ∧
      (pd_build_reply ops d.pd data_off smb max_len).pd.sc.scbk = key := by
  have h : ¬ (max_len - data_off < 2) := by omega
  have hu : u8 65 = 65 := rfl
  have hu9 : u8 9 = 9 := rfl
  have hk : rd_n (CMD_KEYSET :: 1 :: 16 :: key) 3 16 = key := by
    have := rd_n_append [CMD_KEYSET, 1, 16] key
    simpa [hkey] using this
  have hcap2 : ¬ ((pd.cap 9).compliance_level = 0) := by simpa using hcap
  simp only [CMD_KEYSET] at hk
  simp only [OSDP_CMD_KEYSET, ne_eq] at hrej
  simp [pd_decode_command, pd_decode_command_switch, pd_decode_command_switch_tail, rd,
    pd_cmd_cap_ok, hcap2, hact, pd_command_callback, hcb, hk, hrej, pd_nak_record,
    pd_build_reply, pd_build_reply_switch, h, hu, hu9]

/-- C20, as the code behaves: for every KEYSET command of the right length received by
an SC-capable PD while SC_ACTIVE is clear, the PD leaves its stored SCBK unchanged
and does not invoke the application callback, and the KEYSET case stores the reason
SC_COND, but it leaves the switch with `ret` still `OSDP_PD_ERR_GENERIC`, so the
code after the switch replaces the reason by CMD_LEN: the reply built is the two
bytes NAK, CMD_LEN, not NAK, SC_COND as the claim says. -/
theorem C20_keyset_sc_inactive_reason (ops : osdp_sc_ops) (pd : osdp_pd) (buf : List Nat)
    (data_off : Int) (smb : Option osdp_smb) (max_len : Int)
    (hid : rd buf 0 = CMD_KEYSET) (hact : pd.flags.SC_ACTIVE = false)
    (hcap : (pd.cap OSDP_PD_CAP_COMMUNICATION_SECURITY).compliance_level ≠ 0)
    (hroom : 2 ≤ max_len - data_off) :
    ∃ d, pd_decode_command ops pd buf 19 = some d ∧
      d.ret = OSDP_PD_ERR_REPLY ∧ d.pd.sc.scbk = pd.sc.scbk ∧ d.pd.cb_log = pd.cb_log ∧
      d.pd.reply_id = REPLY_NAK ∧ d.pd.cmd_data_0 = OSDP_PD_NAK_CMD_LEN ∧
      (pd_build_reply ops d.pd data_off smb max_len).out = [REPLY_NAK, OSDP_PD_NAK_CMD_LEN] ∧
      (pd_build_reply ops d.pd data_off smb max_len).out ≠ [REPLY_NAK, OSDP_PD_NAK_SC_COND] := by
  have h : ¬ (max_len - data_off < 2) := by omega
  have hu : u8 65 = 65 := rfl
  have hu2 : u8 2 = 2 := rfl
  have hcap2 : ¬ ((pd.cap 9).compliance_level = 0) := by simpa using hcap
  simp at hid
  simp [pd_decode_command, pd_decode_command_switch, pd_decode_command_switch_tail, hid,
    pd_cmd_cap_ok, hcap2, hact, pd_build_reply, pd_build_reply_switch, h, hu, hu2]

/-- C19 on a PD with the stored SCBK AA .. AA whose callback refuses the KEYSET command
with the key 01 .. 10: the reply is 41 09 (NAK, RECORD) and the two flags are still
set, but the stored SCBK is now 01 .. 10. -/
theorem C19_keyset_rejected_scbk_overwritten_example :
    pd_example_sc.sc.scbk = List.replicate 16 0xAA ∧
    ∃ d, pd_decode_command sc_ops_null pd_example_sc (0x75 :: 1 :: 16 :: key_example) 19 = some d ∧
      d.pd.reply_id = REPLY_NAK ∧ d.pd.flags.SC_USE_SCBKD = true ∧
      d.pd.flags.INSTALL_MODE = true ∧ d.pd.sc.scbk = key_example ∧
      d.pd.sc.scbk ≠ pd_example_sc.sc.scbk ∧
      (pd_build_reply sc_ops_null d.pd 0 none 256).out = [0x41, 0x09] := by
  obtain ⟨d, h1, _, h3, h4, h5, h6, _⟩ := C19_keyset_rejected_scbk_overwritten sc_ops_null
    pd_example_sc (fun _ => 1) key_example 0 none 256 rfl rfl rfl (by decide) (by decide)
    (by decide)
  exact ⟨rfl, d, h1, h3, by rw [h4]; rfl, by rw [h4]; rfl, h5, by rw [h5]; decide, h6⟩

/-- C20 on a SC-capable PD with SC_ACTIVE clear that receives a KEYSET command of 19
bytes: the reply is 41 02 (NAK, CMD_LEN), where the claim expects 41 06
(NAK, SC_COND). -/
theorem C20_keyset_sc_inactive_reason_example :
    ∃ d, pd_decode_command sc_ops_null { pd_example_sc with flags := {} }
        (0x75 :: 1 :: 16 :: key_example) 19 = some d ∧
      d.pd.sc.scbk = pd_example_sc.sc.scbk ∧ d.pd.cb_log = [] ∧
      (pd_build_reply sc_ops_null d.pd 0 none 256).out = [0x41, 0x02] := by
  obtain ⟨d, h1, _, h3, h4, _, _, h7, _⟩ := C20_keyset_sc_inactive_reason sc_ops_null
    { pd_example_sc with flags := {} } (0x75 :: 1 :: 16 :: key_example) 0 none 256 rfl rfl
    (by decide) (by decide)
  exact ⟨d, h1, h3, h4, h7⟩

/-! ### A step of the phy leaves the session fields alone -/

/-- The `switch` of `cp_build_command` leaves the session fields alone. -/
theorem cp_build_command_switch_session (ops : osdp_sc_ops) (pd : osdp_pd)
    (smb : Option osdp_smb) (max_len : Int) :
    session_fields (cp_build_command_switch ops pd smb max_len).val.pd = session_fields pd := by
  unfold cp_build_command_switch
  dsimp only
  repeat' (first
    | rfl
    | apply flow_val_ite (fun st : build_state => session_fields st.pd = session_fields pd)
    | split)

/-- The function `cp_build_command` leaves the session fields alone. -/
theorem cp_build_command_session (ops : osdp_sc_ops) (pd : osdp_pd) (data_off : Int)
    (smb : Option osdp_smb) (max_len : Int) :
    session_fields (cp_build_command ops pd data_off smb max_len).pd = session_fields pd := by
  have h := cp_build_command_switch_session ops pd smb (max_len - data_off)
  unfold cp_build_command
  dsimp only
  cases hsw : cp_build_command_switch ops pd smb (max_len - data_off) with
  | returned st => rw [hsw] at h; exact h
  | broke st =>
    rw [hsw] at h
    dsimp only
    split_ifs <;> exact h

/-- The function `cp_send_command` leaves the session fields alone. -/
theorem cp_send_command_session (env : osdp_env) (pd : osdp_pd) :
    session_fields (cp_send_command env pd).pd = session_fields pd := by
  have h := cp_build_command_session env.sc_ops pd (env.osdp_phy_packet_get_data_offset pd)
    (env.osdp_phy_packet_get_smb pd) OSDP_PACKET_BUF_SIZE
  unfold cp_send_command
  dsimp only
  split_ifs
  · rfl
  · exact h
  · split
    · exact h
    · split_ifs <;> exact h

/-- The case SEND_CMD of the phy leaves the session fields alone. -/
theorem cp_phy_send_cmd_session (env : osdp_env) (pd : osdp_pd) (flushes : Nat) :
    session_fields (cp_phy_send_cmd env pd flushes).pd = session_fields pd := by
  have h := cp_send_command_session env pd
  unfold cp_phy_send_cmd
  dsimp only
  split_ifs <;> exact h

/-- The `switch` of `cp_decode_response` leaves the session fields alone. -/
theorem cp_decode_response_switch_session (ops : osdp_sc_ops) (cp : osdp_cp) (pd : osdp_pd)
    (buf : List Nat) (len : Int) :
    session_fields (cp_decode_response_switch ops cp pd buf len).val.pd = session_fields pd := by
  unfold cp_decode_response_switch
  dsimp only
  repeat' (first
    | rfl
    | apply flow_val_ite (fun r : cp_decode_result => session_fields r.pd = session_fields pd))

/-- The function `cp_decode_response` leaves the session fields alone. -/
theorem cp_decode_response_session (ops : osdp_sc_ops) (cp : osdp_cp) (pd : osdp_pd)
    (buf : List Nat) (len : Int) :
    session_fields (cp_decode_response ops cp pd buf len).pd = session_fields pd := by
  have h := cp_decode_response_switch_session ops cp { pd with reply_id := rd buf 0 } buf (len - 1)
  unfold cp_decode_response
  dsimp only
  cases hsw : cp_decode_response_switch ops cp { pd with reply_id := rd buf 0 } buf (len - 1) with
  | returned r => rw [hsw] at h; exact h
  | broke r =>
    rw [hsw] at h
    dsimp only
    split_ifs <;> exact h

/-- The function `cp_process_reply` leaves the session fields alone. -/
theorem cp_process_reply_session (env : osdp_env) (cp : osdp_cp) (pd : osdp_pd) :
    session_fields (cp_process_reply env cp pd).pd = session_fields pd := by
  unfold cp_process_reply
  dsimp only
  split_ifs
  · rfl
  · split
    · split <;> rfl
    · rfl
    · rfl
    · exact cp_decode_response_session _ _ _ _ _

/-- A step of the phy leaves the session fields alone. -/
theorem cp_phy_state_update_session (env : osdp_env) (cp : osdp_cp) (pd : osdp_pd) :
    session_fields (cp_phy_state_update env cp pd).pd = session_fields pd := by
  unfold cp_phy_state_update
  dsimp only
  split_ifs
  · rfl
  · cases hq : pd.cmd_queue with
    | nil => simp [cp_cmd_dequeue, hq]
    | cons c rest =>
      simp only [cp_cmd_dequeue, hq]
      exact cp_phy_send_cmd_session env _ _
  · exact cp_phy_send_cmd_session env pd 0
  all_goals first
    | exact cp_process_reply_session env cp pd
    | rfl

/-- A step of the phy in IDLE with an empty queue does nothing and returns 0. -/
theorem cp_phy_state_update_quiet (env : osdp_env) (cp : osdp_cp) (pd : osdp_pd)
    (hphy : pd.phy_state = OSDP_CP_PHY_STATE_IDLE) (hq : pd.cmd_queue = []) :
    cp_phy_state_update env cp pd = { ret := 0, pd := pd } := by
  simp only [OSDP_CP_PHY_STATE_IDLE] at hphy
  simp [cp_phy_state_update, hphy, cp_cmd_dequeue, hq]

/-- When the phy is neither in progress nor yielding and has reported no error, the
tick of `state_update` is the `switch (pd->state)` on the PD context the phy left. -/
theorem state_update_completed (cfg : osdp_kconfig) (env : osdp_env) (cp : osdp_cp)
    (pd : osdp_pd)
    (hdone : (cp_phy_state_update env cp pd).ret ≠ OSDP_CP_ERR_INPROG ∧
      (cp_phy_state_update env cp pd).ret ≠ OSDP_CP_ERR_CAN_YIELD ∧
      (cp_phy_state_update env cp pd).ret ≠ OSDP_CP_ERR_GENERIC) :
    (state_update cfg env cp pd).pd =
      state_update_switch cfg env (cp_phy_state_update env cp pd).ret
        (cp_phy_state_update env cp pd).pd := by
  unfold state_update
  generalize cp_phy_state_update env cp pd = r at *
  obtain ⟨hd1, hd2, hd3⟩ := hdone
  simp only [OSDP_CP_ERR_INPROG, OSDP_CP_ERR_CAN_YIELD, OSDP_CP_ERR_GENERIC, ne_eq] at hd1 hd2 hd3
  simp [state_update_session, hd1, hd2, hd3]

/-- A reply whose id is not RMAC_I leaves SC_ACTIVE as the `switch` of
`cp_decode_response` found it. -/
theorem cp_decode_response_switch_sc_active (ops : osdp_sc_ops) (cp : osdp_cp) (pd : osdp_pd)
    (buf : List Nat) (len : Int) (hid : pd.reply_id ≠ REPLY_RMAC_I) :
    (cp_decode_response_switch ops cp pd buf len).val.pd.flags.SC_ACTIVE = pd.flags.SC_ACTIVE := by
  unfold cp_decode_response_switch
  dsimp only
  repeat' (first
    | rfl
    | exact absurd ‹pd.reply_id = REPLY_RMAC_I› hid
    | apply ite_of_imp (fun f : flow cp_decode_result =>
        f.val.pd.flags.SC_ACTIVE = pd.flags.SC_ACTIVE) <;> intro _)

/-- The function `cp_decode_response` on a reply whose id is not RMAC_I leaves
SC_ACTIVE as it was. -/
theorem cp_decode_response_sc_active (ops : osdp_sc_ops) (cp : osdp_cp) (pd : osdp_pd)
    (buf : List Nat) (len : Int) (hid : rd buf 0 ≠ REPLY_RMAC_I) :
    (cp_decode_response ops cp pd buf len).pd.flags.SC_ACTIVE = pd.flags.SC_ACTIVE := by
  have h := cp_decode_response_switch_sc_active ops cp { pd with reply_id := rd buf 0 } buf
    (len - 1) hid
  unfold cp_decode_response
  dsimp only
  cases hsw : cp_decode_response_switch ops cp { pd with reply_id := rd buf 0 } buf (len - 1) with
  | returned r => rw [hsw] at h; exact h
  | broke r =>
    rw [hsw] at h
    dsimp only
    split_ifs <;> exact h

/-- The `switch` of `cp_decode_response` leaves the phy fields alone. -/
theorem cp_decode_response_switch_phy (ops : osdp_sc_ops) (cp : osdp_cp) (pd : osdp_pd)
    (buf : List Nat) (len : Int) :
    phy_fields (cp_decode_response_switch ops cp pd buf len).val.pd = phy_fields pd := by
  unfold cp_decode_response_switch
  dsimp only
  repeat' (first
    | rfl
    | apply flow_val_ite (fun r : cp_decode_result => phy_fields r.pd = phy_fields pd))

/-- The function `cp_decode_response` leaves the phy fields alone. -/
theorem cp_decode_response_phy (ops : osdp_sc_ops) (cp : osdp_cp) (pd : osdp_pd)
    (buf : List Nat) (len : Int) :
    phy_fields (cp_decode_response ops cp pd buf len).pd = phy_fields pd := by
  have h := cp_decode_response_switch_phy ops cp { pd with reply_id := rd buf 0 } buf (len - 1)
  unfold cp_decode_response
  dsimp only
  cases hsw : cp_decode_response_switch ops cp { pd with reply_id := rd buf 0 } buf (len - 1) with
  | returned r => rw [hsw] at h; exact h
  | broke r =>
    rw [hsw] at h
    dsimp only
    split_ifs <;> exact h

/-- The function `cp_process_reply` leaves the phy fields alone. -/
theorem cp_process_reply_phy (env : osdp_env) (cp : osdp_cp) (pd : osdp_pd) :
    phy_fields (cp_process_reply env cp pd).pd = phy_fields pd := by
  unfold cp_process_reply
  dsimp only
  split_ifs
  · rfl
  · split
    · split <;> rfl
    · rfl
    · rfl
    · exact cp_decode_response_phy _ _ _ _ _

/-- What a tick of `state_update` sends is what its phy step sends. -/
theorem state_update_sent (cfg : osdp_kconfig) (env : osdp_env) (cp : osdp_cp) (pd : osdp_pd) :
    (state_update cfg env cp pd).sent = (cp_phy_state_update env cp pd).sent := by
  unfold state_update state_update_session
  dsimp only
  split_ifs <;> rfl

/-- What `cp_phy_send_cmd` sends is what `cp_send_command` sends. -/
theorem cp_phy_send_cmd_sent (env : osdp_env) (pd : osdp_pd) (flushes : Nat) :
    (cp_phy_send_cmd env pd flushes).sent = (cp_send_command env pd).sent := by
  unfold cp_phy_send_cmd
  dsimp only
  split_ifs <;> rfl

/-- A step of the phy in IDLE with a command queued sends what `cp_send_command` sends
with the head of the queue staged. -/
theorem cp_phy_state_update_idle_sent (env : osdp_env) (cp : osdp_cp) (pd : osdp_pd)
    (c : osdp_cmd) (rest : List osdp_cmd) (hst : pd.phy_state = OSDP_CP_PHY_STATE_IDLE)
    (hq : pd.cmd_queue = c :: rest) :
    (cp_phy_state_update env cp pd).sent =
      (cp_send_command env
        { pd with cmd_queue := rest, cmd_id := c.id, cmd_data := c,
                  cmd_slab_free := pd.cmd_slab_free + 1, rx_buf_len := 0 }).sent := by
  simp only [OSDP_CP_PHY_STATE_IDLE] at hst
  have h := cp_phy_send_cmd_sent env
    { pd with cmd_queue := rest, cmd_id := c.id, cmd_data := c,
              cmd_slab_free := pd.cmd_slab_free + 1, rx_buf_len := 0 } (channel_flush env)
  simpa [cp_phy_state_update, hst, cp_cmd_dequeue, hq, cp_cmd_free, cp_reset_channel] using h

/-! ### C21: the reply RMAC_I to SCRYPT -/

/-- C21, counterexample: a PD that supports the secure channel and has SC_ACTIVE set
receives an SCRYPT command whose cryptogram does not verify. The reply RMAC_I is
built with the secure block 03, SCS_14, 00 (verification failed), and SC_ACTIVE is
still set. -/
theorem C21_scrypt_failed_sc_active_kept :
    pd_example_sc.flags.SC_ACTIVE = true ∧
    ∃ d, pd_decode_command sc_ops_reject pd_example_sc scrypt_example 17 = some d ∧
      d.pd.reply_id = REPLY_RMAC_I ∧
      sc_ops_reject.osdp_verify_cp_cryptogram
        { d.pd with sc := sc_ops_reject.osdp_compute_rmac_i d.pd } ≠ 0 ∧
      (pd_build_reply sc_ops_reject d.pd 0 (some {}) 256).smb =
        some { b0 := 3, b1 := SCS_14, b2 := 0 } ∧
      (pd_build_reply sc_ops_reject d.pd 0 (some {}) 256).pd.flags.SC_ACTIVE = true := by
  refine ⟨rfl, _, rfl, ?_, ?_, ?_, ?_⟩ <;> decide

/-- The case RMAC_I of `pd_build_reply` with a secure block and room for the reply:
the secure block is 03, SCS_14 and the result of the verification of the CP
cryptogram, and SC_ACTIVE is set when the verification succeeded and untouched
otherwise. -/
theorem pd_build_reply_rmac_i (ops : osdp_sc_ops) (p : osdp_pd) (data_off : Int) (s : osdp_smb)
    (max_len : Int) (hid : p.reply_id = REPLY_RMAC_I)
    (hroom : REPLY_RMAC_I_LEN ≤ max_len - data_off) :
    (pd_build_reply ops p data_off (some s) max_len).smb =
      some { b0 := 3, b1 := SCS_14,
             b2 := if ops.osdp_verify_cp_cryptogram
                 { p with sc := ops.osdp_compute_rmac_i p } = 0 then 1 else 0 } ∧
    (ops.osdp_verify_cp_cryptogram { p with sc := ops.osdp_compute_rmac_i p } = 0 →
      (pd_build_reply ops p data_off (some s) max_len).pd.flags.SC_ACTIVE = true) ∧
    (ops.osdp_verify_cp_cryptogram { p with sc := ops.osdp_compute_rmac_i p } ≠ 0 →
      (pd_build_reply ops p data_off (some s) max_len).pd.flags.SC_ACTIVE =
        p.flags.SC_ACTIVE) := by
  have hid2 : p.reply_id = 120 := by simpa using hid
  have hr : ¬ (max_len - data_off < 17) := by simpa using hroom
  generalize hv : ops.osdp_verify_cp_cryptogram { p with sc := ops.osdp_compute_rmac_i p } = v
  have hb : pd_build_reply_switch ops p (some s) (max_len - data_off) =
      .broke { ret := OSDP_PD_ERR_NONE,
               out := [u8 p.reply_id] ++ (rd_n (ops.osdp_compute_rmac_i p).r_mac 0 16).map u8,
               smb := some { b0 := 3, b1 := SCS_14, b2 := if v = 0 then 1 else 0 },
               pd := if v = 0 then
                   { p with sc := ops.osdp_compute_rmac_i p,
                            flags := { p.flags with SC_ACTIVE := true } }
                 else { p with sc := ops.osdp_compute_rmac_i p } } := by
    unfold pd_build_reply_switch
    simp only [hid2, REPLY_ACK, REPLY_PDID, REPLY_PDCAP, REPLY_LSTATR, REPLY_RSTATR, REPLY_COM,
      REPLY_NAK, REPLY_CCRYPT, REPLY_RMAC_I, REPLY_RMAC_I_LEN, if_neg hr]
    have hv2 := hv
    simp only [hid2] at hv2
    simp [hv2]
  unfold pd_build_reply
  simp only [hb]
  refine ⟨?_, ?_, ?_⟩
  · by_cases h0 : v = 0 <;> simp [pd_build_reply_smb, h0]
  · intro h0
    simp [h0]
  · intro h0
    simp [h0]

/-- C21, amended: for every SCRYPT command of 16 data bytes handled by a PD that
supports the secure channel, the decoder stores the 16 bytes as the CP cryptogram and
selects the reply RMAC_I; once the reply has been built (with a secure block present
and room for 17 bytes) the secure block is 03, SCS_14 and a third byte that is 1 when
the verification of the CP cryptogram succeeded and 0 when it failed; SC_ACTIVE is
set when the verification succeeded and keeps its prior value when it failed, so it
is set if and only if the verification succeeded whenever it was clear before. -/
theorem C21_scrypt_reply (ops : osdp_sc_ops) (pd : osdp_pd) (crypt : List Nat)
    (data_off : Int) (s : osdp_smb) (max_len : Int)
    (hcap : (pd.cap OSDP_PD_CAP_COMMUNICATION_SECURITY).compliance_level ≠ 0)
    (hlen : crypt.length = 16)
    (hroom : REPLY_RMAC_I_LEN ≤ max_len - data_off) :
    ∃ d, pd_decode_command ops pd (CMD_SCRYPT :: crypt) 17 = some d ∧
      d.pd.reply_id = REPLY_RMAC_I ∧ d.pd.sc.cp_cryptogram = crypt ∧
      d.pd.flags = pd.flags ∧
      (pd_build_reply ops d.pd data_off (some s) max_len).smb =
        some { b0 := 3, b1 := SCS_14,
               b2 := if ops.osdp_verify_cp_cryptogram
                   { d.pd with sc := ops.osdp_compute_rmac_i d.pd } = 0 then 1 else 0 } ∧
      (ops.osdp_verify_cp_cryptogram { d.pd with sc := ops.osdp_compute_rmac_i d.pd } = 0 →
        (pd_build_reply ops d.pd data_off (some s) max_len).pd.flags.SC_ACTIVE = true) ∧
      (ops.osdp_verify_cp_cryptogram { d.pd with sc := ops.osdp_compute_rmac_i d.pd } ≠ 0 →
        (pd_build_reply ops d.pd data_off (some s) max_len).pd.flags.SC_ACTIVE =
          pd.flags.SC_ACTIVE) ∧
      (pd.flags.SC_ACTIVE = false →
        ((pd_build_reply ops d.pd data_off (some s) max_len).pd.flags.SC_ACTIVE = true ↔
          ops.osdp_verify_cp_cryptogram
            { d.pd with sc := ops.osdp_compute_rmac_i d.pd } = 0)) := by
  have hcap2 : ¬ ((pd.cap 9).compliance_level = 0) := by simpa using hcap
  have hk : rd_n (CMD_SCRYPT :: crypt) 1 16 = crypt := by
    have := rd_n_append [CMD_SCRYPT] crypt
    simpa [hlen] using this
  simp only [CMD_SCRYPT] at hk
  have hd : pd_decode_command ops pd (CMD_SCRYPT :: crypt) 17 =
      some { ret := OSDP_PD_ERR_NONE,
             pd := { pd with cmd_id := CMD_SCRYPT,
                             sc := { pd.sc with cp_cryptogram := crypt },
                             reply_id := REPLY_RMAC_I },
             pos := 17 } := by
    simp [pd_decode_command, pd_decode_command_switch, pd_decode_command_switch_tail, rd,
      pd_cmd_cap_ok, hcap2, hk]
  obtain ⟨h1, h2, h3⟩ := pd_build_reply_rmac_i ops
    { pd with cmd_id := CMD_SCRYPT, sc := { pd.sc with cp_cryptogram := crypt },
              reply_id := REPLY_RMAC_I } data_off s max_len rfl hroom
  refine ⟨_, hd, rfl, rfl, rfl, h1, h2, h3, ?_⟩
  intro hact
  constructor
  · intro hset
    by_contra hv
    have := h3 hv
    rw [hset] at this
    exact absurd (this.trans hact) (by decide)
  · exact h2

/-- C21, amended, on an SC-capable PD with SC_ACTIVE clear that receives the SCRYPT
command with the cryptogram 01 .. 10: when the verification succeeds the secure block
of the reply is 03, SCS_14, 01 and SC_ACTIVE is set; when it fails the secure block is
03, SCS_14, 00 and SC_ACTIVE is still clear. -/
theorem C21_scrypt_reply_example :
    (∃ d, pd_decode_command sc_ops_null { pd_example_sc with flags := {} } scrypt_example 17
          = some d ∧
        (pd_build_reply sc_ops_null d.pd 0 (some {}) 256).smb =
          some { b0 := 3, b1 := 0x14, b2 := 1 } ∧
        (pd_build_reply sc_ops_null d.pd 0 (some {}) 256).pd.flags.SC_ACTIVE = true) ∧
    (∃ d, pd_decode_command sc_ops_reject { pd_example_sc with flags := {} } scrypt_example 17
          = some d ∧
        (pd_build_reply sc_ops_reject d.pd 0 (some {}) 256).smb =
          some { b0 := 3, b1 := 0x14, b2 := 0 } ∧
        (pd_build_reply sc_ops_reject d.pd 0 (some {}) 256).pd.flags.SC_ACTIVE = false) := by
  obtain ⟨d, h1, _, _, _, h5, h6, _, _⟩ := C21_scrypt_reply sc_ops_null
    { pd_example_sc with flags := {} } key_example 0 {} 256 (by decide) rfl (by decide)
  obtain ⟨e, g1, _, _, _, g5, _, g7, _⟩ := C21_scrypt_reply sc_ops_reject
    { pd_example_sc with flags := {} } key_example 0 {} 256 (by decide) rfl (by decide)
  have hne : (-1 : Int) ≠ 0 := by decide
  exact ⟨⟨d, h1, h5, h6 rfl⟩, ⟨e, g1, g5, g7 hne⟩⟩

/-! ### C22: the tag of the secure block -/

/-- The `switch` of `cp_build_command` for a command that is neither CHLNG nor SCRYPT
leaves the secure block and the flags alone. -/
theorem cp_build_command_switch_smb (ops : osdp_sc_ops) (pd : osdp_pd) (smb : Option osdp_smb)
    (max_len : Int) (h1 : pd.cmd_id ≠ CMD_CHLNG) (h2 : pd.cmd_id ≠ CMD_SCRYPT) :
    (cp_build_command_switch ops pd smb max_len).val.smb = smb ∧
    (cp_build_command_switch ops pd smb max_len).val.pd.flags = pd.flags := by
  unfold cp_build_command_switch
  dsimp only
  repeat' (first
    | exact ⟨rfl, rfl⟩
    | exact absurd ‹pd.cmd_id = CMD_CHLNG› h1
    | exact absurd ‹pd.cmd_id = CMD_SCRYPT› h2
    | apply ite_of_imp (fun f : flow build_state =>
        f.val.smb = smb ∧ f.val.pd.flags = pd.flags) <;> intro _)

/-- The `switch` of `pd_build_reply` for a reply that is neither CCRYPT nor RMAC_I
leaves the secure block and the flags alone. -/
theorem pd_build_reply_switch_smb (ops : osdp_sc_ops) (pd : osdp_pd) (smb : Option osdp_smb)
    (max_len : Int) (h1 : pd.reply_id ≠ REPLY_CCRYPT) (h2 : pd.reply_id ≠ REPLY_RMAC_I) :
    (pd_build_reply_switch ops pd smb max_len).val.smb = smb ∧
    (pd_build_reply_switch ops pd smb max_len).val.pd.flags = pd.flags := by
  unfold pd_build_reply_switch
  dsimp only
  repeat' (first
    | exact ⟨rfl, rfl⟩
    | exact absurd ‹pd.reply_id = REPLY_CCRYPT› h1
    | exact absurd ‹pd.reply_id = REPLY_RMAC_I› h2
    | apply ite_of_imp (fun f : flow build_state =>
        f.val.smb = smb ∧ f.val.pd.flags = pd.flags) <;> intro _
    | split)

/-- C22, as the code has it. With SC_ACTIVE set and a secure block whose tag is above
SCS_14, `cp_build_command` for a command other than CHLNG and SCRYPT that it builds
sets the block to length 2 and the tag SCS_15 when the message is the command id
alone and SCS_17 when data bytes follow; CHLNG and SCRYPT carry the block 03, SCS_11
and 03, SCS_13. `pd_build_reply` for a reply other than CCRYPT and RMAC_I that its
`switch` builds sets the tag SCS_16 for the reply id alone and SCS_18 when data bytes
follow; CCRYPT and RMAC_I carry the tags SCS_12 and SCS_14. But when the `switch` of
`pd_build_reply` has no case for the reply id, the tag is chosen from the zero bytes
written so far, before the reply NAK, RECORD is substituted: that reply has a data
byte and is tagged SCS_16, not SCS_18. -/
theorem C22_secure_block_tag (ops : osdp_sc_ops) (pd : osdp_pd) (data_off : Int)
    (s : osdp_smb) (max_len : Int) :
    (pd.flags.SC_ACTIVE = true → s.b1 > SCS_14 →
      pd.cmd_id ≠ CMD_CHLNG → pd.cmd_id ≠ CMD_SCRYPT →
      0 ≤ (cp_build_command ops pd data_off (some s) max_len).ret →
      (cp_build_command ops pd data_off (some s) max_len).smb =
        some { b0 := 2,
               b1 := if (cp_build_command ops pd data_off (some s) max_len).out.length > 1
                 then SCS_17 else SCS_15,
               b2 := s.b2 }) ∧
    (pd.cmd_id = CMD_CHLNG → CMD_CHLNG_LEN ≤ max_len - data_off →
      (cp_build_command ops pd data_off (some s) max_len).smb =
        some { b0 := 3, b1 := SCS_11, b2 := if pd.flags.SC_USE_SCBKD then 0 else 1 }) ∧
    (pd.cmd_id = CMD_SCRYPT → CMD_SCRYPT_LEN ≤ max_len - data_off →
      (cp_build_command ops pd data_off (some s) max_len).smb =
        some { b0 := 3, b1 := SCS_13, b2 := if pd.flags.SC_USE_SCBKD then 0 else 1 }) ∧
    (pd.flags.SC_ACTIVE = true → s.b1 > SCS_14 →
      pd.reply_id ≠ REPLY_CCRYPT → pd.reply_id ≠ REPLY_RMAC_I →
      (∃ st, pd_build_reply_switch ops pd (some s) (max_len - data_off) = .broke st ∧
        st.ret = 0) →
      (pd_build_reply ops pd data_off (some s) max_len).smb =
        some { b0 := 2,
               b1 := if (pd_build_reply ops pd data_off (some s) max_len).out.length > 1
                 then SCS_18 else SCS_16,
               b2 := s.b2 }) ∧
    (pd.reply_id = REPLY_CCRYPT → REPLY_CCRYPT_LEN ≤ max_len - data_off →
      (pd_build_reply ops pd data_off (some s) max_len).smb =
        some { b0 := 3, b1 := SCS_12, b2 := if pd.flags.SC_USE_SCBKD then 0 else 1 }) ∧
    (pd.reply_id = REPLY_RMAC_I → REPLY_RMAC_I_LEN ≤ max_len - data_off →
      ∃ b2, (pd_build_reply ops pd data_off (some s) max_len).smb =
        some { b0 := 3, b1 := SCS_14, b2 := b2 }) ∧
    (pd.flags.SC_ACTIVE = true → s.b1 > SCS_14 →
      pd.reply_id ∉ [REPLY_ACK, REPLY_PDID, REPLY_PDCAP, REPLY_LSTATR, REPLY_RSTATR, REPLY_COM,
        REPLY_NAK, REPLY_CCRYPT, REPLY_RMAC_I] →
      REPLY_NAK_LEN ≤ max_len - data_off →
      (pd_build_reply ops pd data_off (some s) max_len).out =
        [REPLY_NAK, OSDP_PD_NAK_RECORD] ∧
      (pd_build_reply ops pd data_off (some s) max_len).smb =
        some { b0 := 2, b1 := SCS_16, b2 := s.b2 }) := by
  refine ⟨?_, ?_, ?_, ?_, ?_, ?_, ?_⟩
  · intro hact htag h1 h2
    have hsw := cp_build_command_switch_smb ops pd (some s) (max_len - data_off) h1 h2
    have htag2 : 20 < s.b1 := by simpa using htag
    have hneg : ¬ (0 : Int) ≤ -1 := by decide
    unfold cp_build_command
    dsimp only
    cases hc : cp_build_command_switch ops pd (some s) (max_len - data_off) with
    | returned st =>
      intro h
      exact absurd h hneg
    | broke st =>
      rw [hc] at hsw
      obtain ⟨hs1, hs2⟩ := hsw
      simp only [flow.val] at hs1 hs2
      dsimp only
      by_cases hr : st.ret < 0
      · rw [if_pos hr]
        intro h
        exact absurd h hneg
      · rw [if_neg hr]
        intro _
        simp [cp_build_command_smb, hs1, hs2, htag2, hact]
  · intro hid hroom
    have hid2 : pd.cmd_id = 118 := by simpa using hid
    have hr : ¬ (max_len - data_off < 9) := by simpa using hroom
    simp [cp_build_command, cp_build_command_switch, hid2, hr, cp_build_command_smb]
  · intro hid hroom
    have hid2 : pd.cmd_id = 119 := by simpa using hid
    have hr : ¬ (max_len - data_off < 17) := by simpa using hroom
    simp [cp_build_command, cp_build_command_switch, hid2, hr, cp_build_command_smb]
  · intro hact htag h1 h2
    have hsw := pd_build_reply_switch_smb ops pd (some s) (max_len - data_off) h1 h2
    have htag2 : 20 < s.b1 := by simpa using htag
    intro hbuilt
    obtain ⟨st, hc, h0⟩ := hbuilt
    rw [hc] at hsw
    obtain ⟨hs1, hs2⟩ := hsw
    simp only [flow.val] at hs1 hs2
    simp [pd_build_reply, hc, h0, pd_build_reply_smb, hs1, hs2, htag2, hact]
  · intro hid hroom
    have hid2 : pd.reply_id = 118 := by simpa using hid
    have hr : ¬ (max_len - data_off < 33) := by simpa using hroom
    simp [pd_build_reply, pd_build_reply_switch, hid2, hr, pd_build_reply_smb]
  · intro hid hroom
    exact ⟨_, (pd_build_reply_rmac_i ops pd data_off s max_len hid hroom).1⟩
  · intro hact htag hid hroom
    have htag2 : 20 < s.b1 := by simpa using htag
    have hr : ¬ (max_len - data_off < 2) := by simpa using hroom
    simp only [List.mem_cons, List.mem_singleton, not_or, List.mem_nil_iff, or_false,
      REPLY_ACK, REPLY_PDID, REPLY_PDCAP, REPLY_LSTATR, REPLY_RSTATR, REPLY_COM, REPLY_NAK,
      REPLY_CCRYPT, REPLY_RMAC_I] at hid
    obtain ⟨i1, i2, i3, i4, i5, i6, i7, i8, i9⟩ := hid
    simp [pd_build_reply, pd_build_reply_switch, i1, i2, i3, i4, i5, i6, i7, i8, i9, hr,
      pd_build_reply_smb, htag2, hact]

/-- C22 on a PD context with SC_ACTIVE set and the secure block 02, SCS_17, 00 handed
in by the packet layer. On the CP side POLL is tagged SCS_15 and ID (two bytes)
SCS_17; on the PD side the reply ACK is tagged SCS_16 and the reply NAK with its
reason byte SCS_18. But a POLL command with a byte too many, for which the decoder
selects no reply, is answered with 41 09 under the tag SCS_16, although a data byte
follows the reply id. -/
theorem C22_secure_block_tag_examples :
    (cp_build_command sc_ops_null { pd_example_sc with cmd_id := CMD_POLL } 0
      (some { b0 := 2, b1 := SCS_17 }) 256).smb = some { b0 := 2, b1 := SCS_15 } ∧
    (cp_build_command sc_ops_null { pd_example_sc with cmd_id := CMD_ID } 0
      (some { b0 := 2, b1 := SCS_17 }) 256).smb = some { b0 := 2, b1 := SCS_17 } ∧
    (pd_build_reply sc_ops_null { pd_example_sc with reply_id := REPLY_ACK } 0
      (some { b0 := 2, b1 := SCS_17 }) 256).smb = some { b0 := 2, b1 := SCS_16 } ∧
    (pd_build_reply sc_ops_null { pd_example_sc with reply_id := REPLY_NAK } 0
      (some { b0 := 2, b1 := SCS_17 }) 256).smb = some { b0 := 2, b1 := SCS_18 } ∧
    (∃ d, pd_decode_command sc_ops_null pd_example_sc [0x60, 0x01] 2 = some d ∧
      d.pd.flags.SC_ACTIVE = true ∧
      (pd_build_reply sc_ops_null d.pd 0 (some { b0 := 2, b1 := SCS_17 }) 256).out =
        [0x41, 0x09] ∧
      (pd_build_reply sc_ops_null d.pd 0 (some { b0 := 2, b1 := SCS_17 }) 256).smb =
        some { b0 := 2, b1 := SCS_16 }) := by
  have h1 := (C22_secure_block_tag sc_ops_null { pd_example_sc with cmd_id := CMD_POLL } 0
    { b0 := 2, b1 := SCS_17 } 256).1 rfl (by decide) (by decide) (by decide) (by decide)
  have h2 := (C22_secure_block_tag sc_ops_null { pd_example_sc with cmd_id := CMD_ID } 0
    { b0 := 2, b1 := SCS_17 } 256).1 rfl (by decide) (by decide) (by decide) (by decide)
  have h3 := (C22_secure_block_tag sc_ops_null { pd_example_sc with reply_id := REPLY_ACK } 0
    { b0 := 2, b1 := SCS_17 } 256).2.2.2.1 rfl (by decide) (by decide) (by decide)
    ⟨_, rfl, rfl⟩
  have h4 := (C22_secure_block_tag sc_ops_null { pd_example_sc with reply_id := REPLY_NAK } 0
    { b0 := 2, b1 := SCS_17 } 256).2.2.2.1 rfl (by decide) (by decide) (by decide)
    ⟨_, rfl, rfl⟩
  have h5 := (C22_secure_block_tag sc_ops_null { pd_example_sc with cmd_id := 0x60 } 0
    { b0 := 2, b1 := SCS_17 } 256).2.2.2.2.2.2 rfl (by decide) (by decide) (by decide)
  exact ⟨h1, h2, h3, h4, _, rfl, rfl, h5.1, h5.2⟩

/-! ### C23: the fallback to SCBK-D -/

/-- The case CHLNG of `cp_build_command` with a secure block and room for the command:
the command id and the 8 bytes of `cp_random`, under the secure block 03, SCS_11 and
a third byte that is 0 with SC_USE_SCBKD set and 1 otherwise. -/
theorem cp_build_command_chlng (ops : osdp_sc_ops) (p : osdp_pd) (data_off : Int)
    (s : osdp_smb) (max_len : Int) (hid : p.cmd_id = CMD_CHLNG)
    (hroom : CMD_CHLNG_LEN ≤ max_len - data_off) :
    cp_build_command ops p data_off (some s) max_len =
      { ret := 9,
        out := CMD_CHLNG :: (rd_n (ops.osdp_fill_random 8) 0 8).map u8,
        smb := some { b0 := 3, b1 := SCS_11, b2 := if p.flags.SC_USE_SCBKD then 0 else 1 },
        pd := { p with sc := { p.sc with cp_random := ops.osdp_fill_random 8 } } } := by
  have hid2 : p.cmd_id = 118 := by simpa using hid
  have hr : ¬ (max_len - data_off < 9) := by simpa using hroom
  have hu : u8 118 = 118 := rfl
  simp [cp_build_command, cp_build_command_switch, hid2, hr, cp_build_command_smb, hu, rd_n]

/-- In session state SC_CHLNG with the CHLNG command completed by a phy error and
SC_SCBKD_DONE clear, the tick sets SC_USE_SCBKD and SC_SCBKD_DONE, returns the session
to SC_INIT and the phy to IDLE, and does not call `cp_set_offline`. -/
theorem state_update_sc_chlng_error (cfg : osdp_kconfig) (env : osdp_env) (cp : osdp_cp)
    (pd : osdp_pd)
    (hst : pd.state = OSDP_CP_STATE_SC_CHLNG)
    (hawait : pd.flags.AWAIT_RESP = true)
    (hdone : pd.flags.SC_SCBKD_DONE = false)
    (herr : (cp_phy_state_update env cp pd).ret = OSDP_CP_ERR_GENERIC) :
    (state_update cfg env cp pd).pd =
      { (cp_phy_state_update env cp pd).pd with
        flags := { (cp_phy_state_update env cp pd).pd.flags with
          SC_USE_SCBKD := true, SC_SCBKD_DONE := true, AWAIT_RESP := false },
        state := OSDP_CP_STATE_SC_INIT,
        phy_state := OSDP_CP_PHY_STATE_IDLE } := by
  have hs := cp_phy_state_update_session env cp pd
  simp only [session_fields, Prod.mk.injEq] at hs
  obtain ⟨h1, h2, _, h4, _, _, _⟩ := hs
  rw [hst] at h1
  rw [hawait] at h2
  rw [hdone] at h4
  unfold state_update
  generalize cp_phy_state_update env cp pd = r at *
  simp only [OSDP_CP_STATE_SC_CHLNG] at h1
  simp only [OSDP_CP_ERR_GENERIC] at herr
  simp [state_update_session, herr, h1, h2, h4, state_update_switch, state_update_sc_chlng,
    cp_cmd_dispatcher, cp_set_state]

/-- With a packet layer that gives a header, a secure block, room for the command and a
frame, `cp_send_command` with CHLNG staged sends the frame the packet layer makes of
the command id and the 8 bytes of `cp_random` under the secure block 03, SCS_11 and a
third byte that is 0 with SC_USE_SCBKD set and 1 otherwise. -/
theorem cp_send_command_chlng (env : osdp_env) (p : osdp_pd) (s : osdp_smb)
    (frame : List Nat) (hid : p.cmd_id = CMD_CHLNG)
    (hinit : 0 ≤ env.osdp_phy_packet_init p)
    (hs : env.osdp_phy_packet_get_smb p = some s)
    (hroom : CMD_CHLNG_LEN ≤ OSDP_PACKET_BUF_SIZE - env.osdp_phy_packet_get_data_offset p)
    (hf : env.osdp_phy_packet_finalize
        { p with sc := { p.sc with cp_random := env.sc_ops.osdp_fill_random 8 } }
        (some { b0 := 3, b1 := SCS_11, b2 := if p.flags.SC_USE_SCBKD then 0 else 1 })
        (CMD_CHLNG :: (rd_n (env.sc_ops.osdp_fill_random 8) 0 8).map u8) = some frame) :
    (cp_send_command env p).sent = [frame] := by
  have hb := cp_build_command_chlng env.sc_ops p (env.osdp_phy_packet_get_data_offset p) s
    OSDP_PACKET_BUF_SIZE hid hroom
  have h1 : ¬ (env.osdp_phy_packet_init p < 0) := not_lt.mpr hinit
  have h9 : ¬ ((9 : Int) < 0) := by decide
  simp only [cp_send_command, if_neg h1, hs, hb, if_neg h9, hf]
  split_ifs <;> rfl

/-- A tick with the phy in IDLE, the one command CHLNG queued and SC_USE_SCBKD set,
over a packet layer that gives a header, a secure block, room for the command and a
frame: the tick sends the frame the packet layer makes of the command id and the 8
bytes of `cp_random` under the secure block 03, SCS_11, 00. -/
theorem state_update_sends_chlng (cfg : osdp_kconfig) (env : osdp_env) (cp : osdp_cp)
    (q : osdp_pd)
    (hphy : q.phy_state = OSDP_CP_PHY_STATE_IDLE)
    (hq : q.cmd_queue = [{ id := CMD_CHLNG }])
    (hflag : q.flags.SC_USE_SCBKD = true)
    (hinit : ∀ p, 0 ≤ env.osdp_phy_packet_init p)
    (hsmb : ∀ p, ∃ s, env.osdp_phy_packet_get_smb p = some s)
    (hroom : ∀ p, CMD_CHLNG_LEN ≤ OSDP_PACKET_BUF_SIZE - env.osdp_phy_packet_get_data_offset p)
    (hfin : ∀ p smb out, ∃ frame, env.osdp_phy_packet_finalize p smb out = some frame) :
    ∃ p frame, (state_update cfg env cp q).sent = [frame] ∧
      env.osdp_phy_packet_finalize p (some { b0 := 3, b1 := SCS_11, b2 := 0 })
        (CMD_CHLNG :: (rd_n (env.sc_ops.osdp_fill_random 8) 0 8).map u8) = some frame := by
  have key : ∀ p : osdp_pd, p.cmd_id = CMD_CHLNG → p.flags.SC_USE_SCBKD = true →
      ∃ p2 frame, (cp_send_command env p).sent = [frame] ∧
        env.osdp_phy_packet_finalize p2 (some { b0 := 3, b1 := SCS_11, b2 := 0 })
          (CMD_CHLNG :: (rd_n (env.sc_ops.osdp_fill_random 8) 0 8).map u8) = some frame := by
    intro p hid hfl
    obtain ⟨s, hs⟩ := hsmb p
    obtain ⟨frame, hf⟩ := hfin
      { p with sc := { p.sc with cp_random := env.sc_ops.osdp_fill_random 8 } }
      (some { b0 := 3, b1 := SCS_11, b2 := 0 })
      (CMD_CHLNG :: (rd_n (env.sc_ops.osdp_fill_random 8) 0 8).map u8)
    refine ⟨_, frame, ?_, hf⟩
    refine cp_send_command_chlng env p s frame hid (hinit p) hs (hroom p) ?_
    rw [hfl]
    exact hf
  rw [state_update_sent, cp_phy_state_update_idle_sent env cp q { id := CMD_CHLNG } [] hphy hq]
  exact key _ rfl hflag

/-- C23: the CHLNG command that `cp_build_command` writes is the command id followed
by the 8 bytes of `cp_random`, under the secure block 03, SCS_11 and a third byte
that is 1 with SC_USE_SCBKD clear and 0 with it set. When a PD context in SC_CHLNG
with both SCBK-D flags clear has its CHLNG command end in a phy error (the phy is in
ERR), the tick that observes it sets SC_USE_SCBKD and SC_SCBKD_DONE, returns the
session to SC_INIT and the phy to IDLE, and sends nothing; the next tick enters
SC_CHLNG and enqueues one CHLNG command; and the tick after that hands the packet
layer that command under the secure block 03, SCS_11, 00. -/
theorem C23_scbkd_fallback (cfg : osdp_kconfig) (env1 env2 env3 : osdp_env) (cp : osdp_cp)
    (pd : osdp_pd)
    (hst : pd.state = OSDP_CP_STATE_SC_CHLNG)
    (hphy : pd.phy_state = OSDP_CP_PHY_STATE_ERR)
    (hawait : pd.flags.AWAIT_RESP = true)
    (hflags : pd.flags.SC_USE_SCBKD = false ∧ pd.flags.SC_SCBKD_DONE = false)
    (hfree : 0 < pd.cmd_slab_free + pd.cmd_queue.length)
    (hinit : ∀ p, 0 ≤ env3.osdp_phy_packet_init p)
    (hsmb : ∀ p, ∃ s, env3.osdp_phy_packet_get_smb p = some s)
    (hroom : ∀ p, CMD_CHLNG_LEN ≤ OSDP_PACKET_BUF_SIZE - env3.osdp_phy_packet_get_data_offset p)
    (hfin : ∀ p smb out, ∃ frame, env3.osdp_phy_packet_finalize p smb out = some frame) :
    (∀ (ops : osdp_sc_ops) (p : osdp_pd) (data_off : Int) (s : osdp_smb) (max_len : Int),
      p.cmd_id = CMD_CHLNG → CMD_CHLNG_LEN ≤ max_len - data_off →
      (cp_build_command ops p data_off (some s) max_len).out =
        CMD_CHLNG :: (rd_n (ops.osdp_fill_random 8) 0 8).map u8 ∧
      (cp_build_command ops p data_off (some s) max_len).smb =
        some { b0 := 3, b1 := SCS_11, b2 := if p.flags.SC_USE_SCBKD then 0 else 1 }) ∧
    ((state_update cfg env1 cp pd).pd.flags.SC_USE_SCBKD = true ∧
      (state_update cfg env1 cp pd).pd.flags.SC_SCBKD_DONE = true ∧
      (state_update cfg env1 cp pd).pd.state = OSDP_CP_STATE_SC_INIT ∧
      (state_update cfg env1 cp pd).pd.phy_state = OSDP_CP_PHY_STATE_IDLE ∧
      (state_update cfg env1 cp pd).sent = []) ∧
    ((state_update cfg env2 cp (state_update cfg env1 cp pd).pd).pd.state =
        OSDP_CP_STATE_SC_CHLNG ∧
      (state_update cfg env2 cp (state_update cfg env1 cp pd).pd).pd.cmd_queue =
        [{ id := CMD_CHLNG }] ∧
      (state_update cfg env2 cp (state_update cfg env1 cp pd).pd).sent = []) ∧
    (∃ p frame,
      (state_update cfg env3 cp
        (state_update cfg env2 cp (state_update cfg env1 cp pd).pd).pd).sent = [frame] ∧
      env3.osdp_phy_packet_finalize p (some { b0 := 3, b1 := SCS_11, b2 := 0 })
        (CMD_CHLNG :: (rd_n (env3.sc_ops.osdp_fill_random 8) 0 8).map u8) = some frame) := by
  obtain ⟨hf1, hf2⟩ := hflags
  -- the phy step of the first tick
  have hr1 : cp_phy_state_update env1 cp pd =
      { ret := OSDP_CP_ERR_GENERIC,
        pd := { pd with rx_buf_len := 0, cmd_queue := [],
                        cmd_slab_free := pd.cmd_slab_free + pd.cmd_queue.length,
                        phy_state := OSDP_CP_PHY_STATE_ERR_WAIT },
        flushes := channel_flush env1 } := by
    simp only [OSDP_CP_PHY_STATE_ERR] at hphy
    simp [cp_phy_state_update, hphy, cp_reset_channel, cp_flush_command_queue]
  have ht1 := state_update_sc_chlng_error cfg env1 cp pd hst hawait hf2 (by rw [hr1])
  rw [hr1] at ht1
  have hs1 : (state_update cfg env1 cp pd).sent = [] := by
    simp [state_update, hr1, state_update_session]
  simp only [] at ht1
  -- the second tick
  have hne : ¬ (pd.cmd_slab_free + pd.cmd_queue.length = 0) := by omega
  have hq2 := cp_phy_state_update_quiet env2 cp (state_update cfg env1 cp pd).pd
    (by rw [ht1]) (by rw [ht1])
  have ht2 : state_update cfg env2 cp (state_update cfg env1 cp pd).pd =
      { ret := 0,
        pd := { (state_update cfg env1 cp pd).pd with
          sc := env2.sc_ops.osdp_sc_init (state_update cfg env1 cp pd).pd,
          state := OSDP_CP_STATE_SC_CHLNG,
          cmd_queue := [{ id := CMD_CHLNG }],
          cmd_slab_free := pd.cmd_slab_free + pd.cmd_queue.length - 1,
          flags := { (state_update cfg env1 cp pd).pd.flags with AWAIT_RESP := true } } } := by
    unfold state_update at hq2 ⊢
    rw [hq2]
    unfold state_update at ht1
    rw [ht1]
    simp [state_update_session, state_update_switch, state_update_sc_chlng, cp_set_state,
      cp_cmd_dispatcher, cp_cmd_alloc, hne, cp_cmd_enqueue]
  refine ⟨?_, ?_, ?_, ?_⟩
  · intro ops p data_off s max_len hid hroom2
    rw [cp_build_command_chlng ops p data_off s max_len hid hroom2]
    exact ⟨rfl, rfl⟩
  · rw [ht1]
    exact ⟨rfl, rfl, rfl, rfl, hs1⟩
  · rw [ht2]
    exact ⟨rfl, rfl, rfl⟩
  · refine state_update_sends_chlng cfg env3 cp _ ?_ ?_ ?_ hinit hsmb hroom hfin
    · rw [ht2]
      dsimp only
      rw [ht1]
    · rw [ht2]
    · rw [ht2]
      dsimp only
      rw [ht1]

/-- C23 on the PD context `pd_cp_chlng_failed` over a packet layer that puts the
secure block in front of the data: the tick that observes the phy error sets both
SCBK-D flags, returns the session to SC_INIT and the phy to IDLE and sends nothing;
the next tick enters SC_CHLNG with one CHLNG queued; the third tick sends the frame
03 11 00 76 followed by the 8 bytes of `cp_random`. A CHLNG built with the flags
clear has the secure block 03 11 01. -/
theorem C23_scbkd_fallback_example :
    ((state_update kconfig_example (env_secure [] 5000) {} pd_cp_chlng_failed).pd.flags.SC_USE_SCBKD
        = true ∧
      (state_update kconfig_example (env_secure [] 5000) {} pd_cp_chlng_failed).pd.flags.SC_SCBKD_DONE
        = true ∧
      (state_update kconfig_example (env_secure [] 5000) {} pd_cp_chlng_failed).pd.state
        = OSDP_CP_STATE_SC_INIT ∧
      (state_update kconfig_example (env_secure [] 5000) {} pd_cp_chlng_failed).pd.phy_state
        = OSDP_CP_PHY_STATE_IDLE ∧
      (state_update kconfig_example (env_secure [] 5000) {} pd_cp_chlng_failed).sent = []) ∧
    (state_update kconfig_example (env_secure [] 5002) {}
      (state_update kconfig_example (env_secure [] 5001) {}
        (state_update kconfig_example (env_secure [] 5000) {} pd_cp_chlng_failed).pd).pd).sent
      = [[3, 0x11, 0, 0x76, 0, 0, 0, 0, 0, 0, 0, 0]] ∧
    (cp_build_command sc_ops_null { pd_cp_chlng_failed with cmd_id := CMD_CHLNG } 0
      (some {}) OSDP_PACKET_BUF_SIZE).smb = some { b0 := 3, b1 := 0x11, b2 := 1 } := by
  have h := C23_scbkd_fallback kconfig_example (env_secure [] 5000) (env_secure [] 5001)
    (env_secure [] 5002) {} pd_cp_chlng_failed rfl rfl rfl ⟨rfl, rfl⟩ (by decide)
    (fun _ => le_refl _)
    (fun _ => ⟨{}, rfl⟩)
    (fun _ => (by decide : CMD_CHLNG_LEN ≤ OSDP_PACKET_BUF_SIZE - 0))
    (fun _ smb out => by
      cases smb with
      | none => exact ⟨out, rfl⟩
      | some s => exact ⟨[s.b0, s.b1, s.b2] ++ out, rfl⟩)
  exact ⟨h.2.1, by decide, by decide⟩

/-! ### C24: the address list -/

/-- On a run of decimal digits `strtoul_digits` consumes every character. -/
theorem strtoul_digits_all (tok : List Char) (h : tok.all Char.isDigit = true) :
    ∀ acc, strtoul_digits tok acc =
      (tok.foldl (fun a c => a * 10 + (c.toNat - '0'.toNat)) acc, []) := by
  induction tok with
  | nil => intro acc; rfl
  | cons c cs ih =>
    intro acc
    simp only [List.all_cons, Bool.and_eq_true] at h
    simp [strtoul_digits, h.1, ih h.2]

/-- A decimal digit is neither white space nor a sign. -/
theorem isDigit_facts (c : Char) (h : c.isDigit = true) :
    ¬ (c = ' ' ∨ ('\t' ≤ c ∧ c ≤ '\r')) ∧ c ≠ '-' ∧ c ≠ '+' := by
  have h1 : 48 ≤ c.toNat ∧ c.toNat ≤ 57 := by
    simpa [Char.isDigit, Char.toNat, UInt32.le_def, Fin.le_def] using h
  refine ⟨?_, ?_, ?_⟩
  · intro hc
    rcases hc with hc | hc
    · rw [hc] at h1
      exact absurd h1.1 (by decide)
    · have : c.toNat ≤ 13 := by
        have := hc.2
        simpa [Char.le_def, Char.lt_def, Char.toNat, UInt32.le_def, Fin.le_def] using this
      omega
  · intro hc
    rw [hc] at h1
    exact absurd h1.1 (by decide)
  · intro hc
    rw [hc] at h1
    exact absurd h1.1 (by decide)

/-- On a decimal number below 2^31 `strtoul` returns its value and consumes the whole
token, and the value survives the conversion to `int`. -/
theorem strtoul_decimal (tok : List Char) (hdec : is_decimal tok = true)
    (hval : decimal_value tok < 2 ^ 31) :
    (strtoul tok).2 = [] ∧ ulong_to_int (strtoul tok).1 = decimal_value tok := by
  simp only [is_decimal, ne_eq, Bool.decide_and, Bool.and_eq_true, decide_eq_true_eq,
    decide_not, Bool.not_eq_true', decide_eq_false_iff_not] at hdec
  obtain ⟨hne, hall⟩ := hdec
  cases tok with
  | nil => exact absurd rfl hne
  | cons c cs =>
    have hc : c.isDigit = true := by
      simp only [List.all_cons, Bool.and_eq_true] at hall
      exact hall.1
    obtain ⟨f1, f2, f3⟩ := isDigit_facts c hc
    have hd := strtoul_digits_all (c :: cs) hall 0
    have hv : List.foldl (fun a c => a * 10 + (c.toNat - '0'.toNat)) 0 (c :: cs) < 2 ^ 31 := hval
    have hu : ¬ (List.foldl (fun a c => a * 10 + (c.toNat - '0'.toNat)) 0 (c :: cs) > ULONG_MAX) := by
      simp only [ULONG_MAX]
      omega
    have hdrop : List.dropWhile (fun c => decide (c = ' ' ∨ ('\t' ≤ c ∧ c ≤ '\r'))) (c :: cs)
        = c :: cs := by
      simp [List.dropWhile, f1]
    simp only [strtoul, hdrop, List.head?_cons, Option.some.injEq, f2, f3, or_self, if_false,
      hc, if_true, hd, if_neg hu, decide_False, Bool.false_eq_true, ulong_to_int, decimal_value,
      if_pos hv, and_self]

/-- The loop of `osdp_extract_address` stops with 0 as soon as it has written as many
entries as there are PDs, whatever tokens are left. -/
theorem osdp_extract_address_loop_accept (num : Nat) (rest : List (List Char)) :
    ∀ (good : List (List Char)) (address : List Int),
      address.length + good.length = num → (∀ t ∈ good, (strtoul t).2 = []) →
      osdp_extract_address_loop num (good ++ rest) address =
        (0, address ++ good.map (fun t => ulong_to_int (strtoul t).1))
  | [], address, hlen, _ => by
    have h : address.length = num := by simpa using hlen
    cases rest with
    | nil => simp [osdp_extract_address_loop, h]
    | cons t ts => simp [osdp_extract_address_loop, h]
  | t :: good, address, hlen, hall => by
    have hlt : address.length < num := by
      simp only [List.length_cons] at hlen
      omega
    have ht : (strtoul t).2 = [] := hall t (List.mem_cons_self _ _)
    have ih := osdp_extract_address_loop_accept num rest good
      (address ++ [ulong_to_int (strtoul t).1])
      (by simp only [List.length_append, List.length_cons, List.length_nil] at hlen ⊢; omega)
      (fun u hu => hall u (List.mem_cons_of_mem _ hu))
    simp [osdp_extract_address_loop, hlt, ht, ih]

/-- The loop of `osdp_extract_address` returns -1 when the tokens run out before it
has written as many entries as there are PDs, and when a token among them is not
consumed whole by `strtoul`. -/
theorem osdp_extract_address_loop_reject (num : Nat) :
    ∀ (toks : List (List Char)) (address : List Int),
      (address.length + toks.length < num ∨
        ∃ good bad rest, toks = good ++ bad :: rest ∧ address.length + good.length < num ∧
          (strtoul bad).2 ≠ []) →
      (osdp_extract_address_loop num toks address).1 = -1
  | [], address, h => by
    have hne : ¬ address.length = num := by
      rcases h with h | ⟨good, bad, rest, h1, _, _⟩
      · simp only [List.length_nil] at h
        omega
      · cases good <;> cases h1
    simp [osdp_extract_address_loop, hne]
  | t :: toks, address, h => by
    by_cases hlt : address.length < num
    · by_cases ht : (strtoul t).2 = []
      · have ih := osdp_extract_address_loop_reject num toks
          (address ++ [ulong_to_int (strtoul t).1]) (by
            rcases h with h | ⟨good, bad, rest, h1, h2, h3⟩
            · left
              simp only [List.length_cons, List.length_append, List.length_nil] at h ⊢
              omega
            · cases good with
              | nil =>
                simp only [List.nil_append, List.cons.injEq] at h1
                rw [h1.1] at ht
                exact absurd ht h3
              | cons g gs =>
                simp only [List.cons_append, List.cons.injEq] at h1
                right
                refine ⟨gs, bad, rest, h1.2, ?_, h3⟩
                simp only [List.length_cons, List.length_append, List.length_nil] at h2 ⊢
                omega)
        simp [osdp_extract_address_loop, hlt, ht, ih]
      · simp [osdp_extract_address_loop, hlt, ht]
    · exfalso
      rcases h with h | ⟨good, bad, rest, _, h2, _⟩
      · omega
      · omega

/-- C24, as the code has it. Let the tokens be the runs of characters other than comma
and blank of the address list (cut to the size of the buffer). `osdp_extract_address`
returns 0 as soon as the first `CONFIG_OSDP_NUM_CONNECTED_PD` tokens are consumed
whole by `strtoul`, and `address[i]` is then the value of the i-th token, whatever
follows them: tokens beyond the number of PDs are not looked at, where the claim has
-1 for a list with more numbers. It returns -1 when there are fewer tokens than PDs
and when one of the first tokens is not consumed whole. A decimal number below 2^31
is consumed whole and yields its value. -/
theorem C24_extract_address (cfg : osdp_kconfig) (good rest : List (List Char))
    (htok : strtok_r_tokens
      (cfg.CONFIG_OSDP_PD_ADDRESS_LIST.take (32 * cfg.CONFIG_OSDP_NUM_CONNECTED_PD - 1)) [] =
        good ++ rest) :
    (good.length = cfg.CONFIG_OSDP_NUM_CONNECTED_PD → (∀ t ∈ good, (strtoul t).2 = []) →
      osdp_extract_address cfg = (0, good.map (fun t => ulong_to_int (strtoul t).1))) ∧
    (good.length = cfg.CONFIG_OSDP_NUM_CONNECTED_PD →
      (∀ t ∈ good, is_decimal t = true ∧ decimal_value t < 2 ^ 31) →
      osdp_extract_address cfg = (0, good.map (fun t => (decimal_value t : Int)))) ∧
    (good.length + rest.length < cfg.CONFIG_OSDP_NUM_CONNECTED_PD →
      (osdp_extract_address cfg).1 = -1) ∧
    (good.length < cfg.CONFIG_OSDP_NUM_CONNECTED_PD →
      (∃ bad rest2, rest = bad :: rest2 ∧ (strtoul bad).2 ≠ []) →
      (osdp_extract_address cfg).1 = -1) := by
  have hacc : good.length = cfg.CONFIG_OSDP_NUM_CONNECTED_PD →
      (∀ t ∈ good, (strtoul t).2 = []) →
      osdp_extract_address cfg = (0, good.map (fun t => ulong_to_int (strtoul t).1)) := by
    intro hlen hall
    have h := osdp_extract_address_loop_accept cfg.CONFIG_OSDP_NUM_CONNECTED_PD rest good []
      (by simpa using hlen) hall
    simp only [osdp_extract_address, htok, h, List.nil_append]
  refine ⟨hacc, ?_, ?_, ?_⟩
  · intro hlen hdec
    rw [hacc hlen (fun t ht => (strtoul_decimal t (hdec t ht).1 (hdec t ht).2).1)]
    congr 1
    apply List.map_congr_left
    intro t ht
    exact (strtoul_decimal t (hdec t ht).1 (hdec t ht).2).2
  · intro hlen
    simp only [osdp_extract_address, htok]
    exact osdp_extract_address_loop_reject _ _ _
      (Or.inl (by simp only [List.length_nil, List.length_append]; omega))
  · intro hlen hbad
    obtain ⟨bad, rest2, hr, hb⟩ := hbad
    simp only [osdp_extract_address, htok, hr]
    exact osdp_extract_address_loop_reject _ _ _
      (Or.inr ⟨good, bad, rest2, rfl, by simpa using hlen, hb⟩)

/-- C24 on concrete lists. For one PD the list "101" gives 0 and the address 101, and
so does the list "101,102", which has one number more than there are PDs, and even
"101,x". For two PDs "101 102" gives 0 with the addresses 101 and 102, "101" alone
gives -1, and "101,x" gives -1. -/
theorem C24_extract_address_examples :
    osdp_extract_address kconfig_example = (0, [101]) ∧
    osdp_extract_address { kconfig_example with CONFIG_OSDP_PD_ADDRESS_LIST := "101,102".toList }
      = (0, [101]) ∧
    osdp_extract_address { kconfig_example with CONFIG_OSDP_PD_ADDRESS_LIST := "101,x".toList }
      = (0, [101]) ∧
    osdp_extract_address { kconfig_example with
      CONFIG_OSDP_NUM_CONNECTED_PD := 2,
      CONFIG_OSDP_PD_ADDRESS_LIST := "101 102".toList } = (0, [101, 102]) ∧
    (osdp_extract_address { kconfig_example with
      CONFIG_OSDP_NUM_CONNECTED_PD := 2,
      CONFIG_OSDP_PD_ADDRESS_LIST := "101".toList }).1 = -1 ∧
    (osdp_extract_address { kconfig_example with
      CONFIG_OSDP_NUM_CONNECTED_PD := 2,
      CONFIG_OSDP_PD_ADDRESS_LIST := "101,x".toList }).1 = -1 := by
  have h1 := (C24_extract_address kconfig_example ["101".toList] [] (by decide)).2.1 rfl
    (by decide)
  have h2 := (C24_extract_address
    { kconfig_example with CONFIG_OSDP_PD_ADDRESS_LIST := "101,102".toList }
    ["101".toList] ["102".toList] (by decide)).2.1 rfl (by decide)
  have h3 := (C24_extract_address
    { kconfig_example with CONFIG_OSDP_PD_ADDRESS_LIST := "101,x".toList }
    ["101".toList] ["x".toList] (by decide)).1 rfl (by decide)
  have h4 := (C24_extract_address
    { kconfig_example with
      CONFIG_OSDP_NUM_CONNECTED_PD := 2,
      CONFIG_OSDP_PD_ADDRESS_LIST := "101 102".toList }
    ["101".toList, "102".toList] [] (by decide)).2.1 rfl (by decide)
  have h5 := (C24_extract_address
    { kconfig_example with
      CONFIG_OSDP_NUM_CONNECTED_PD := 2,
      CONFIG_OSDP_PD_ADDRESS_LIST := "101".toList }
    ["101".toList] [] (by decide)).2.2.1 (by decide)
  have h6 := (C24_extract_address
    { kconfig_example with
      CONFIG_OSDP_NUM_CONNECTED_PD := 2,
      CONFIG_OSDP_PD_ADDRESS_LIST := "101,x".toList }
    ["101".toList] ["x".toList] (by decide)).2.2.2 (by decide) ⟨_, _, rfl, by decide⟩
  exact ⟨h1, h2, h3, h4, h5, h6⟩

/-! ### C25: session progression without secure channel -/

/-- A PDID reply of twelve payload bytes is accepted: the decoder returns 0 and
changes the reply id and the identity only. -/
theorem cp_decode_response_pdid_accepts (ops : osdp_sc_ops) (cp : osdp_cp) (pd : osdp_pd)
    (data : List Nat) (hlen : data.length = 12) :
    (cp_decode_response ops cp pd (REPLY_PDID :: data) ((REPLY_PDID :: data).length : Nat)).ret = 0 ∧
    (cp_decode_response ops cp pd (REPLY_PDID :: data) ((REPLY_PDID :: data).length : Nat)).pd =
      { pd with
        reply_id := REPLY_PDID,
        id := (cp_decode_response ops cp pd (REPLY_PDID :: data)
          ((REPLY_PDID :: data).length : Nat)).pd.id } := by
  simp [cp_decode_response, cp_decode_response_switch, rd, hlen]

/-- A PDCAP reply whose payload is the triples `ts`, every function code below the
sentinel, is accepted: the decoder returns 0 and changes the reply id, the capability
map and SC_CAPABLE only; SC_CAPABLE is bit 0 of the compliance level recorded for the
communication-security capability. -/
theorem cp_decode_response_pdcap_accepts (ops : osdp_sc_ops) (cp : osdp_cp) (pd : osdp_pd)
    (ts : List (Nat × Nat × Nat)) (hfc : ∀ t ∈ ts, t.1 < OSDP_PD_CAP_SENTINEL) :
    (cp_decode_response ops cp pd (REPLY_PDCAP :: pdcap_payload ts)
      ((REPLY_PDCAP :: pdcap_payload ts).length : Nat)).ret = 0 ∧
    (cp_decode_response ops cp pd (REPLY_PDCAP :: pdcap_payload ts)
      ((REPLY_PDCAP :: pdcap_payload ts).length : Nat)).pd =
      { pd with
        reply_id := REPLY_PDCAP,
        cap := record_caps pd.cap ts,
        flags := { pd.flags with
          SC_CAPABLE := decide ((record_caps pd.cap ts
            OSDP_PD_CAP_COMMUNICATION_SECURITY).compliance_level &&& 0x01 ≠ 0) } } := by
  have hl : ∀ us : List (Nat × Nat × Nat), (pdcap_payload us).length = 3 * us.length := by
    intro us
    induction us with
    | nil => rfl
    | cons u us ih => simp [pdcap_payload, ih]; omega
  have hloop := cp_decode_pdcap_records ts [REPLY_PDCAP] pd.cap (3 * ts.length)
    (by omega) (fun t ht => Nat.le_of_lt (hfc t ht))
  have hmod : (3 * (ts.length : Int)) % 3 = 0 := by omega
  have e : (3 * (ts.length : Int)).toNat = 3 * ts.length := by omega
  simp only [cp_decode_response, cp_decode_response_switch, rd, REPLY_PDCAP] at hloop ⊢
  simp at hloop
  simp [hl, hmod, e, hloop]

/-- A tick with the phy idle and the queue empty is the `switch (pd->state)` alone. -/
theorem state_update_quiet (cfg : osdp_kconfig) (env : osdp_env) (cp : osdp_cp) (pd : osdp_pd)
    (hphy : pd.phy_state = OSDP_CP_PHY_STATE_IDLE) (hq : pd.cmd_queue = []) :
    state_update cfg env cp pd = { ret := 0, pd := state_update_switch cfg env 0 pd } := by
  unfold state_update
  rw [cp_phy_state_update_quiet env cp pd hphy hq]
  simp [state_update_session]

/-- The tick in INIT with a free block: the session enters IDREQ and one ID command is
queued; nothing is sent. -/
theorem state_update_init (cfg : osdp_kconfig) (env : osdp_env) (cp : osdp_cp) (pd : osdp_pd)
    (hst : pd.state = OSDP_CP_STATE_INIT)
    (hphy : pd.phy_state = OSDP_CP_PHY_STATE_IDLE) (hq : pd.cmd_queue = [])
    (hfree : 0 < pd.cmd_slab_free) :
    state_update cfg env cp pd =
      { ret := 0,
        pd := { pd with
          state := OSDP_CP_STATE_IDREQ,
          flags := { pd.flags with AWAIT_RESP := true },
          cmd_queue := [{ id := CMD_ID }],
          cmd_slab_free := pd.cmd_slab_free - 1 } } := by
  rw [state_update_quiet cfg env cp pd hphy hq]
  have hf : ¬ pd.cmd_slab_free = 0 := by omega
  simp only [OSDP_CP_STATE_INIT] at hst
  simp [state_update_switch, hst, state_update_idreq, cp_set_state, cp_cmd_dispatcher,
    cp_cmd_alloc, hf, cp_cmd_enqueue, hq]

/-- The tick in IDREQ with the ID command completed by a PDID reply and a free block:
the session enters CAPDET and one CAP command is queued; nothing is sent. -/
theorem state_update_idreq_done (cfg : osdp_kconfig) (env : osdp_env) (cp : osdp_cp)
    (pd : osdp_pd)
    (hst : pd.state = OSDP_CP_STATE_IDREQ)
    (hphy : pd.phy_state = OSDP_CP_PHY_STATE_IDLE) (hq : pd.cmd_queue = [])
    (hawait : pd.flags.AWAIT_RESP = true) (hid : pd.reply_id = REPLY_PDID)
    (hfree : 0 < pd.cmd_slab_free) :
    state_update cfg env cp pd =
      { ret := 0,
        pd := { pd with
          state := OSDP_CP_STATE_CAPDET,
          flags := { pd.flags with AWAIT_RESP := true },
          cmd_queue := [{ id := CMD_CAP }],
          cmd_slab_free := pd.cmd_slab_free - 1 } } := by
  rw [state_update_quiet cfg env cp pd hphy hq]
  have hf : ¬ pd.cmd_slab_free = 0 := by omega
  simp only [OSDP_CP_STATE_IDREQ] at hst
  simp only [REPLY_PDID] at hid
  simp [state_update_switch, hst, state_update_idreq, state_update_capdet, cp_set_state,
    cp_cmd_dispatcher, hawait, hid, cp_cmd_alloc, hf, cp_cmd_enqueue, hq]

/-- The tick in CAPDET with the CAP command completed by a PDCAP reply and
SC_CAPABLE clear: the session goes ONLINE; nothing is queued or sent. -/
theorem state_update_capdet_done (cfg : osdp_kconfig) (env : osdp_env) (cp : osdp_cp)
    (pd : osdp_pd)
    (hst : pd.state = OSDP_CP_STATE_CAPDET)
    (hphy : pd.phy_state = OSDP_CP_PHY_STATE_IDLE) (hq : pd.cmd_queue = [])
    (hawait : pd.flags.AWAIT_RESP = true) (hid : pd.reply_id = REPLY_PDCAP)
    (hsc : pd.flags.SC_CAPABLE = false) :
    state_update cfg env cp pd =
      { ret := 0,
        pd := { pd with
          state := OSDP_CP_STATE_ONLINE,
          flags := { pd.flags with AWAIT_RESP := false } } } := by
  rw [state_update_quiet cfg env cp pd hphy hq]
  simp only [OSDP_CP_STATE_CAPDET] at hst
  simp only [REPLY_PDCAP] at hid
  simp [state_update_switch, hst, state_update_capdet, cp_set_state,
    cp_cmd_dispatcher, hawait, hid, hsc]

/-- The tick with the phy in CLEANUP returns the phy to IDLE and does nothing else. -/
theorem state_update_cleanup (cfg : osdp_kconfig) (env : osdp_env) (cp : osdp_cp)
    (pd : osdp_pd) (hphy : pd.phy_state = OSDP_CP_PHY_STATE_CLEANUP) :
    state_update cfg env cp pd =
      { ret := OSDP_CP_ERR_GENERIC, pd := { pd with phy_state := OSDP_CP_PHY_STATE_IDLE } } := by
  simp only [OSDP_CP_PHY_STATE_CLEANUP] at hphy
  simp [state_update, cp_phy_state_update, hphy, state_update_session]

/-- The commands ID and CAP are built as the command id and a zero byte, and building
them leaves the PD context as it was. -/
theorem cp_build_command_id_cap (ops : osdp_sc_ops) (p : osdp_pd) (data_off : Int)
    (smb : Option osdp_smb) (max_len : Int) (hid : p.cmd_id = CMD_ID ∨ p.cmd_id = CMD_CAP)
    (hroom : CMD_ID_LEN ≤ max_len - data_off) :
    (cp_build_command ops p data_off smb max_len).ret = 2 ∧
    (cp_build_command ops p data_off smb max_len).out = [p.cmd_id, 0] ∧
    (cp_build_command ops p data_off smb max_len).pd = p := by
  have hr : ¬ (max_len - data_off < 2) := by simpa using hroom
  rcases hid with h | h
  · have h2 : p.cmd_id = 97 := by simpa using h
    simp [cp_build_command, cp_build_command_switch, h2, hr, u8]
  · have h2 : p.cmd_id = 98 := by simpa using h
    simp [cp_build_command, cp_build_command_switch, h2, hr, u8]

/-- The tick with the phy idle and one ID or CAP command queued, over a channel that
takes every command: the command id and a zero byte are framed and the frame is sent;
the phy waits for the reply with an empty receive buffer, the queue is empty and the
block is back in the pool. -/
theorem state_update_sends (cfg : osdp_kconfig) (env : osdp_env) (cp : osdp_cp) (pd : osdp_pd)
    (i : Nat) (hi : i = CMD_ID ∨ i = CMD_CAP)
    (hphy : pd.phy_state = OSDP_CP_PHY_STATE_IDLE) (hq : pd.cmd_queue = [{ id := i }])
    (htakes : channel_takes_commands env) :
    ∃ p smb frame, env.osdp_phy_packet_finalize p smb [i, 0] = some frame ∧
      (state_update cfg env cp pd).sent = [frame] ∧
      (state_update cfg env cp pd).pd =
        { pd with
          cmd_queue := [], cmd_id := i, cmd_data := { id := i },
          cmd_slab_free := pd.cmd_slab_free + 1,
          rx_buf := frame, rx_buf_len := 0,
          phy_state := OSDP_CP_PHY_STATE_REPLY_WAIT,
          phy_tstamp := env.millis_now } := by
  obtain ⟨hinit, hroom, hfin⟩ := htakes
  have key : ∀ p : osdp_pd, p.cmd_id = i →
      ∃ q smb frame, env.osdp_phy_packet_finalize q smb [i, 0] = some frame ∧
        cp_send_command env p =
          { ret := 0, pd := { p with rx_buf := frame }, sent := [frame],
            flushes := channel_flush env } := by
    intro p hid
    have hb := cp_build_command_id_cap env.sc_ops p (env.osdp_phy_packet_get_data_offset p)
      (env.osdp_phy_packet_get_smb p) OSDP_PACKET_BUF_SIZE (by rw [hid]; exact hi) (hroom p)
    obtain ⟨hb1, hb2, hb3⟩ := hb
    rw [hid] at hb2
    obtain ⟨frame, hf, hs⟩ := hfin p
      (cp_build_command env.sc_ops p (env.osdp_phy_packet_get_data_offset p)
        (env.osdp_phy_packet_get_smb p) OSDP_PACKET_BUF_SIZE).smb [i, 0]
    refine ⟨p, _, frame, hf, ?_⟩
    have h1 : ¬ (env.osdp_phy_packet_init p < 0) := not_lt.mpr (hinit p)
    have h2 : ¬ ((2 : Int) < 0) := by decide
    simp only [cp_send_command, if_neg h1, hb1, if_neg h2, hb2, hb3, hf]
    simp [hs]
  obtain ⟨q, smb, frame, hf, hsend⟩ := key
    { pd with cmd_queue := [], cmd_id := i, cmd_data := { id := i },
              cmd_slab_free := pd.cmd_slab_free + 1, rx_buf_len := 0 } rfl
  have h1 : ¬ pd.phy_state = OSDP_CP_PHY_STATE_ERR_WAIT := by
    rw [hphy]
    decide
  have hstep : cp_phy_state_update env cp pd =
      cp_phy_send_cmd env
        { pd with cmd_queue := [], cmd_id := i, cmd_data := { id := i },
                  cmd_slab_free := pd.cmd_slab_free + 1, rx_buf_len := 0 }
        (channel_flush env) := by
    unfold cp_phy_state_update
    rw [if_neg h1, if_pos hphy]
    simp only [cp_cmd_dequeue, hq]
    rfl
  refine ⟨q, smb, frame, hf, ?_, ?_⟩
  · rw [state_update, hstep, cp_phy_send_cmd, hsend]
    simp [state_update_session]
  · rw [state_update, hstep, cp_phy_send_cmd, hsend]
    simp [state_update_session]

/-- The tick with the phy waiting for a reply and an empty receive buffer, when the
channel delivers a frame whose payload the decoder accepts: the PD context is what
`cp_decode_response` leaves, with the phy in CLEANUP; nothing is sent. -/
theorem state_update_receives (cfg : osdp_kconfig) (env : osdp_env) (cp : osdp_cp)
    (pd : osdp_pd) (payload : List Nat)
    (hphy : pd.phy_state = OSDP_CP_PHY_STATE_REPLY_WAIT) (hlen : pd.rx_buf_len = 0)
    (hdel : channel_delivers env payload)
    (hok : ∀ q, (cp_decode_response env.sc_ops cp q payload (payload.length : Nat)).ret = 0) :
    (state_update cfg env cp pd).sent = [] ∧
    (state_update cfg env cp pd).pd =
      { (cp_decode_response env.sc_ops cp
          { pd with rx_buf := payload, rx_buf_len := payload.length }
          payload (payload.length : Nat)).pd with
        phy_state := OSDP_CP_PHY_STATE_CLEANUP } := by
  obtain ⟨hne, hdec⟩ := hdel
  have hd := hdec
    { pd with
      rx_buf := pd.rx_buf.take pd.rx_buf_len ++ env.recv.take OSDP_PACKET_BUF_SIZE.toNat,
      rx_buf_len := pd.rx_buf_len + (env.recv.take OSDP_PACKET_BUF_SIZE.toNat).length }
    (by simp [hlen]) (by simp [hlen])
  have hp : cp_process_reply env cp pd =
      { ret := 0,
        pd := (cp_decode_response env.sc_ops cp
          { pd with rx_buf := payload, rx_buf_len := payload.length }
          payload (payload.length : Nat)).pd,
        notified := (cp_decode_response env.sc_ops cp
          { pd with rx_buf := payload, rx_buf_len := payload.length }
          payload (payload.length : Nat)).notified } := by
    have hne2 : ¬ ((env.recv.take OSDP_PACKET_BUF_SIZE.toNat).length = 0) := by
      intro h
      exact hne (List.length_eq_zero.mp h)
    have h0 := hok { pd with rx_buf := payload, rx_buf_len := payload.length }
    unfold cp_process_reply
    dsimp only
    rw [hlen]
    rw [hlen] at hd
    simp only [Int.sub_zero, CharP.cast_eq_zero, sub_zero] at hd ⊢
    rw [if_neg hne2, hd]
    dsimp only
    rw [h0]
  simp only [OSDP_CP_PHY_STATE_REPLY_WAIT] at hphy
  constructor <;>
    simp [state_update, cp_phy_state_update, hphy, hp, state_update_session]

/-- C25: a PD context in session state INIT with the phy idle, an empty queue and a
free block in the pool is ticked nine times over a channel that takes every command.
The PD answers the first command, on the tick after it was sent, with a PDID reply
of twelve payload bytes, and the second, on the tick after it was sent, with a PDCAP
reply of capability triples with function codes below the sentinel, in which the
last triple for the communication-security capability has bit 0 of the compliance
level clear. Then the frames sent over the nine ticks are exactly two: the frame of
the command ID (61 00) on the second tick and the frame of the command CAP (62 00)
on the sixth; the session state is IDREQ after ticks 1 to 4, CAPDET after ticks 5 to
8 and ONLINE after tick 9. Tick 7 receives and decodes the PDCAP reply in the phy,
tick 8 returns the phy to IDLE, and tick 9 is the first on which the session machine
sees the completed command: it checks the reply id and goes ONLINE. -/
theorem C25_session_progression (cfg : osdp_kconfig) (cp : osdp_cp)
    (e1 e2 e3 e4 e5 e6 e7 e8 e9 : osdp_env) (pd : osdp_pd) (data : List Nat)
    (ts pre post : List (Nat × Nat × Nat)) (c n : Nat)
    (hst : pd.state = OSDP_CP_STATE_INIT)
    (hphy : pd.phy_state = OSDP_CP_PHY_STATE_IDLE)
    (hq : pd.cmd_queue = [])
    (hfree : 0 < pd.cmd_slab_free)
    (hsend2 : channel_takes_commands e2)
    (hpdid : channel_delivers e3 (REPLY_PDID :: data))
    (hdata : data.length = 12)
    (hsend6 : channel_takes_commands e6)
    (hpdcap : channel_delivers e7 (REPLY_PDCAP :: pdcap_payload ts))
    (hfc : ∀ t ∈ ts, t.1 < OSDP_PD_CAP_SENTINEL)
    (hts : ts = pre ++ (OSDP_PD_CAP_COMMUNICATION_SECURITY, c, n) :: post)
    (hpost : ∀ t ∈ post, t.1 ≠ OSDP_PD_CAP_COMMUNICATION_SECURITY)
    (hc : c % 2 = 0) :
    ∃ p1 s1 f1 p2 s2 f2,
      e2.osdp_phy_packet_finalize p1 s1 [CMD_ID, 0] = some f1 ∧
      e6.osdp_phy_packet_finalize p2 s2 [CMD_CAP, 0] = some f2 ∧
      (state_update_run cfg cp [e1, e2, e3, e4, e5, e6, e7, e8, e9] pd).map
        (fun r => r.sent) = [[], [f1], [], [], [], [f2], [], [], []] ∧
      (state_update_run cfg cp [e1, e2, e3, e4, e5, e6, e7, e8, e9] pd).map
        (fun r => r.pd.state) =
        [OSDP_CP_STATE_IDREQ, OSDP_CP_STATE_IDREQ, OSDP_CP_STATE_IDREQ, OSDP_CP_STATE_IDREQ,
         OSDP_CP_STATE_CAPDET, OSDP_CP_STATE_CAPDET, OSDP_CP_STATE_CAPDET,
         OSDP_CP_STATE_CAPDET, OSDP_CP_STATE_ONLINE] := by
  simp only [state_update_run, List.map_cons, List.map_nil]
  -- tick 1: INIT, the ID command is queued
  have t1 := state_update_init cfg e1 cp pd hst hphy hq hfree
  generalize state_update cfg e1 cp pd = r1 at t1 ⊢
  have a1 : r1.sent = [] ∧ r1.pd.state = OSDP_CP_STATE_IDREQ ∧
      r1.pd.phy_state = OSDP_CP_PHY_STATE_IDLE ∧ r1.pd.cmd_queue = [{ id := CMD_ID }] ∧
      r1.pd.flags.AWAIT_RESP = true ∧ r1.pd.cmd_slab_free = pd.cmd_slab_free - 1 := by
    rw [t1]
    exact ⟨rfl, rfl, hphy, rfl, rfl, rfl⟩
  clear t1
  obtain ⟨b1, s1, y1, q1, w1, f1⟩ := a1
  -- tick 2: the ID command is sent
  obtain ⟨p2, m2, frame2, hfin2, b2, t2⟩ :=
    state_update_sends cfg e2 cp r1.pd CMD_ID (Or.inl rfl) y1 q1 hsend2
  generalize state_update cfg e2 cp r1.pd = r2 at t2 b2 ⊢
  have a2 : r2.pd.state = OSDP_CP_STATE_IDREQ ∧
      r2.pd.phy_state = OSDP_CP_PHY_STATE_REPLY_WAIT ∧ r2.pd.cmd_queue = [] ∧
      r2.pd.flags.AWAIT_RESP = true ∧ r2.pd.cmd_slab_free = pd.cmd_slab_free ∧
      r2.pd.rx_buf_len = 0 := by
    rw [t2]
    refine ⟨s1, rfl, rfl, w1, ?_, rfl⟩
    show r1.pd.cmd_slab_free + 1 = pd.cmd_slab_free
    omega
  clear t2
  obtain ⟨s2, y2, q2, w2, f2, l2⟩ := a2
  -- tick 3: the PDID reply is received and decoded
  obtain ⟨b3, t3⟩ := state_update_receives cfg e3 cp r2.pd (REPLY_PDID :: data) y2 l2 hpdid
    (fun q => (cp_decode_response_pdid_accepts e3.sc_ops cp q data hdata).1)
  rw [(cp_decode_response_pdid_accepts e3.sc_ops cp _ data hdata).2] at t3
  generalize state_update cfg e3 cp r2.pd = r3 at t3 b3 ⊢
  have a3 : r3.pd.state = OSDP_CP_STATE_IDREQ ∧
      r3.pd.phy_state = OSDP_CP_PHY_STATE_CLEANUP ∧ r3.pd.cmd_queue = [] ∧
      r3.pd.flags.AWAIT_RESP = true ∧ r3.pd.cmd_slab_free = pd.cmd_slab_free ∧
      r3.pd.reply_id = REPLY_PDID := by
    rw [t3]
    exact ⟨s2, rfl, q2, w2, f2, rfl⟩
  clear t3
  obtain ⟨s3, y3, q3, w3, f3, i3⟩ := a3
  -- tick 4: the phy returns to IDLE
  have t4 := state_update_cleanup cfg e4 cp r3.pd y3
  generalize state_update cfg e4 cp r3.pd = r4 at t4 ⊢
  have a4 : r4.sent = [] ∧ r4.pd.state = OSDP_CP_STATE_IDREQ ∧
      r4.pd.phy_state = OSDP_CP_PHY_STATE_IDLE ∧ r4.pd.cmd_queue = [] ∧
      r4.pd.flags.AWAIT_RESP = true ∧ r4.pd.cmd_slab_free = pd.cmd_slab_free ∧
      r4.pd.reply_id = REPLY_PDID := by
    rw [t4]
    exact ⟨rfl, s3, rfl, q3, w3, f3, i3⟩
  clear t4
  obtain ⟨b4, s4, y4, q4, w4, f4, i4⟩ := a4
  -- tick 5: IDREQ has completed, the CAP command is queued
  have t5 := state_update_idreq_done cfg e5 cp r4.pd s4 y4 q4 w4 i4 (by rw [f4]; exact hfree)
  generalize state_update cfg e5 cp r4.pd = r5 at t5 ⊢
  have a5 : r5.sent = [] ∧ r5.pd.state = OSDP_CP_STATE_CAPDET ∧
      r5.pd.phy_state = OSDP_CP_PHY_STATE_IDLE ∧ r5.pd.cmd_queue = [{ id := CMD_CAP }] ∧
      r5.pd.flags.AWAIT_RESP = true := by
    rw [t5]
    exact ⟨rfl, rfl, y4, rfl, rfl⟩
  clear t5
  obtain ⟨b5, s5, y5, q5, w5⟩ := a5
  -- tick 6: the CAP command is sent
  obtain ⟨p6, m6, frame6, hfin6, b6, t6⟩ :=
    state_update_sends cfg e6 cp r5.pd CMD_CAP (Or.inr rfl) y5 q5 hsend6
  generalize state_update cfg e6 cp r5.pd = r6 at t6 b6 ⊢
  have a6 : r6.pd.state = OSDP_CP_STATE_CAPDET ∧
      r6.pd.phy_state = OSDP_CP_PHY_STATE_REPLY_WAIT ∧ r6.pd.cmd_queue = [] ∧
      r6.pd.flags.AWAIT_RESP = true ∧ r6.pd.rx_buf_len = 0 := by
    rw [t6]
    exact ⟨s5, rfl, rfl, w5, rfl⟩
  clear t6
  obtain ⟨s6, y6, q6, w6, l6⟩ := a6
  -- tick 7: the PDCAP reply is received and decoded
  obtain ⟨b7, t7⟩ := state_update_receives cfg e7 cp r6.pd (REPLY_PDCAP :: pdcap_payload ts)
    y6 l6 hpdcap (fun q => (cp_decode_response_pdcap_accepts e7.sc_ops cp q ts hfc).1)
  rw [(cp_decode_response_pdcap_accepts e7.sc_ops cp _ ts hfc).2] at t7
  generalize state_update cfg e7 cp r6.pd = r7 at t7 b7 ⊢
  have hbit : (record_caps r6.pd.cap ts OSDP_PD_CAP_COMMUNICATION_SECURITY).compliance_level
      = c := by
    rw [hts, record_caps_of_last pre post _ c n r6.pd.cap hpost]
  have hland : c &&& 0x01 = 0 := by
    rw [Nat.and_one_is_mod]
    exact hc
  have a7 : r7.pd.state = OSDP_CP_STATE_CAPDET ∧
      r7.pd.phy_state = OSDP_CP_PHY_STATE_CLEANUP ∧ r7.pd.cmd_queue = [] ∧
      r7.pd.flags.AWAIT_RESP = true ∧ r7.pd.reply_id = REPLY_PDCAP ∧
      r7.pd.flags.SC_CAPABLE = false := by
    rw [t7]
    refine ⟨s6, rfl, q6, w6, rfl, ?_⟩
    show decide ((record_caps r6.pd.cap ts
      OSDP_PD_CAP_COMMUNICATION_SECURITY).compliance_level &&& 0x01 ≠ 0) = false
    rw [hbit, hland]
    rfl
  clear t7
  obtain ⟨s7, y7, q7, w7, i7, c7⟩ := a7
  -- tick 8: the phy returns to IDLE
  have t8 := state_update_cleanup cfg e8 cp r7.pd y7
  generalize state_update cfg e8 cp r7.pd = r8 at t8 ⊢
  have a8 : r8.sent = [] ∧ r8.pd.state = OSDP_CP_STATE_CAPDET ∧
      r8.pd.phy_state = OSDP_CP_PHY_STATE_IDLE ∧ r8.pd.cmd_queue = [] ∧
      r8.pd.flags.AWAIT_RESP = true ∧ r8.pd.reply_id = REPLY_PDCAP ∧
      r8.pd.flags.SC_CAPABLE = false := by
    rw [t8]
    exact ⟨rfl, s7, rfl, q7, w7, i7, c7⟩
  clear t8
  obtain ⟨b8, s8, y8, q8, w8, i8, c8⟩ := a8
  -- tick 9: CAPDET has completed, the session is ONLINE
  have t9 := state_update_capdet_done cfg e9 cp r8.pd s8 y8 q8 w8 i8 c8
  generalize state_update cfg e9 cp r8.pd = r9 at t9 ⊢
  have a9 : r9.sent = [] ∧ r9.pd.state = OSDP_CP_STATE_ONLINE := by
    rw [t9]
    exact ⟨rfl, rfl⟩
  obtain ⟨b9, s9⟩ := a9
  refine ⟨p2, m2, frame2, p6, m6, frame6, hfin2, hfin6, ?_, ?_⟩
  · rw [b1, b2, b3, b4, b5, b6, b7, b8, b9]
  · rw [s1, s2, s3, s4, s5, s6, s7, s8, s9]

/-- C25 on the PD context `pd_cp_init` ticked nine times over a packet layer without
framing, with the PDID reply delivered on the third tick and a PDCAP reply with the
triples (4, 1, 2) and (9, 0, 1) on the seventh: the frames sent are 61 00 on the
second tick and 62 00 on the sixth, and the session is in IDREQ after ticks 1 to 4, in
CAPDET after ticks 5 to 8 and ONLINE after tick 9. -/
theorem C25_session_progression_example :
    (state_update_run kconfig_example {} session_ticks_example pd_cp_init).map
        (fun r => r.sent) = [[], [[0x61, 0]], [], [], [], [[0x62, 0]], [], [], []] ∧
    (state_update_run kconfig_example {} session_ticks_example pd_cp_init).map
        (fun r => r.pd.state) = [1, 1, 1, 1, 2, 2, 2, 2, 7] := by
  have htakes : ∀ now, channel_takes_commands (env_plain [] now) := fun now =>
    ⟨fun _ => le_refl _, fun _ => (by decide : CMD_ID_LEN ≤ OSDP_PACKET_BUF_SIZE - 0),
     fun _ _ out => ⟨out, rfl, rfl⟩⟩
  have hdel : ∀ (recv : List Nat) now, recv ≠ [] → recv.length ≤ 256 →
      channel_delivers (env_plain recv now) recv := by
    intro recv now hne hlen
    have ht : (env_plain recv now).recv.take OSDP_PACKET_BUF_SIZE.toNat = recv :=
      List.take_of_length_le hlen
    refine ⟨by rw [ht]; exact hne, ?_⟩
    intro p h1 h2
    rw [ht] at h1 h2
    show phy_decoded.payload (p.rx_buf.take p.rx_buf_len) = phy_decoded.payload recv
    rw [h1, h2, List.take_length]
  obtain ⟨p1, s1, f1, p2, s2, f2, h1, h2, hsent, hstate⟩ :=
    C25_session_progression kconfig_example {}
      (env_plain [] 0) (env_plain [] 50) (env_plain pdid_reply_example 100) (env_plain [] 150)
      (env_plain [] 200) (env_plain [] 250) (env_plain pdcap_reply_example 300)
      (env_plain [] 350) (env_plain [] 400) pd_cp_init
      [0xC3, 0xB2, 0xA1, 0x04, 0x05, 0x44, 0x33, 0x22, 0x11, 0x01, 0x02, 0x03]
      [(4, 1, 2), (OSDP_PD_CAP_COMMUNICATION_SECURITY, 0, 1)] [(4, 1, 2)] [] 0 1
      rfl rfl rfl (by decide) (htakes 50)
      (hdel pdid_reply_example 100 (by decide) (by decide)) rfl (htakes 250)
      (hdel pdcap_reply_example 300 (by decide) (by decide)) (by decide) rfl
      (by intro t ht; cases ht) rfl
  have e1 : f1 = [0x61, 0] := (Option.some.inj h1).symm
  have e2 : f2 = [0x62, 0] := (Option.some.inj h2).symm
  rw [e1, e2] at hsent
  exact ⟨hsent, hstate⟩

/-! ### C26: the session state SC_CHLNG -/

/-- C26: in session state SC_CHLNG with the CHLNG command completed (AWAIT_RESP set
and the phy neither in progress nor yielding), the tick of `state_update` does the
following. If the phy reported an error and SC_SCBKD_DONE is set, the session state
becomes ONLINE and `sc_tstamp` the current time. If the phy reported no error and
the reply id is not CCRYPT, likewise. If the phy reported no error and the reply id
is CCRYPT, the session state becomes SC_SCRYPT and, with a free block in the pool,
exactly one SCRYPT command is appended to the queue. -/
theorem C26_sc_chlng_outcomes (cfg : osdp_kconfig) (env : osdp_env) (cp : osdp_cp)
    (pd : osdp_pd)
    (hst : pd.state = OSDP_CP_STATE_SC_CHLNG)
    (hawait : pd.flags.AWAIT_RESP = true)
    (hdone : (cp_phy_state_update env cp pd).ret ≠ OSDP_CP_ERR_INPROG ∧
      (cp_phy_state_update env cp pd).ret ≠ OSDP_CP_ERR_CAN_YIELD) :
    ((cp_phy_state_update env cp pd).ret < 0 → pd.flags.SC_SCBKD_DONE = true →
      (state_update cfg env cp pd).pd.state = OSDP_CP_STATE_ONLINE ∧
      (state_update cfg env cp pd).pd.sc_tstamp = env.millis_now ∧
      (state_update cfg env cp pd).pd.cmd_queue = (cp_phy_state_update env cp pd).pd.cmd_queue) ∧
    (¬ (cp_phy_state_update env cp pd).ret < 0 →
      (cp_phy_state_update env cp pd).pd.reply_id ≠ REPLY_CCRYPT →
      (state_update cfg env cp pd).pd.state = OSDP_CP_STATE_ONLINE ∧
      (state_update cfg env cp pd).pd.sc_tstamp = env.millis_now ∧
      (state_update cfg env cp pd).pd.cmd_queue = (cp_phy_state_update env cp pd).pd.cmd_queue) ∧
    (¬ (cp_phy_state_update env cp pd).ret < 0 →
      (cp_phy_state_update env cp pd).pd.reply_id = REPLY_CCRYPT →
      0 < (cp_phy_state_update env cp pd).pd.cmd_slab_free →
      (state_update cfg env cp pd).pd.state = OSDP_CP_STATE_SC_SCRYPT ∧
      (state_update cfg env cp pd).pd.cmd_queue =
        (cp_phy_state_update env cp pd).pd.cmd_queue ++ [{ id := CMD_SCRYPT }]) := by
  have hs := cp_phy_state_update_session env cp pd
  simp only [session_fields, Prod.mk.injEq] at hs
  obtain ⟨h1, h2, _, h4, _, _, _⟩ := hs
  rw [hst] at h1
  rw [hawait] at h2
  rw [h4.symm]
  unfold state_update
  generalize cp_phy_state_update env cp pd = r at *
  obtain ⟨hd1, hd2⟩ := hdone
  simp only [OSDP_CP_STATE_SC_CHLNG] at h1
  have hnot : ¬ (r.ret = 4 ∨ r.ret = 3) := by
    simp only [OSDP_CP_ERR_INPROG, OSDP_CP_ERR_CAN_YIELD, ne_eq] at hd1 hd2
    exact not_or.mpr ⟨hd1, hd2⟩
  refine ⟨?_, ?_, ?_⟩
  · intro herr hdone2
    simp [state_update_session, hnot, h1, h2, state_update_switch, state_update_sc_chlng,
      cp_cmd_dispatcher, herr, hdone2, cp_set_state]
  · intro herr hid
    have hid2 : ¬ r.pd.reply_id = 118 := by simpa using hid
    simp [state_update_session, hnot, h1, h2, state_update_switch, state_update_sc_chlng,
      cp_cmd_dispatcher, herr, hid2, cp_set_state]
  · intro herr hid hfree
    have hid2 : r.pd.reply_id = 118 := by simpa using hid
    have hf : ¬ r.pd.cmd_slab_free = 0 := by omega
    simp [state_update_session, hnot, h1, h2, state_update_switch, state_update_sc_chlng,
      cp_cmd_dispatcher, herr, hid2, cp_set_state, state_update_sc_scrypt, cp_cmd_alloc, hf,
      cp_cmd_enqueue]

/-- C26 on three PD contexts in SC_CHLNG at time 5000: with the phy in ERR_WAIT and
SC_SCBKD_DONE set the tick ends ONLINE with `sc_tstamp` 5000; with the reply NAK it
ends ONLINE with `sc_tstamp` 5000; with the reply CCRYPT it ends in SC_SCRYPT with one
SCRYPT command queued. -/
theorem C26_sc_chlng_outcomes_examples :
    ((state_update kconfig_example (env_plain [] 5000) {}
        { pd_cp_completed OSDP_CP_STATE_SC_CHLNG REPLY_CCRYPT with
          phy_state := OSDP_CP_PHY_STATE_ERR_WAIT,
          flags := { AWAIT_RESP := true, SC_USE_SCBKD := true, SC_SCBKD_DONE := true } }).pd.state
        = OSDP_CP_STATE_ONLINE ∧
      (state_update kconfig_example (env_plain [] 5000) {}
        { pd_cp_completed OSDP_CP_STATE_SC_CHLNG REPLY_CCRYPT with
          phy_state := OSDP_CP_PHY_STATE_ERR_WAIT,
          flags := { AWAIT_RESP := true, SC_USE_SCBKD := true, SC_SCBKD_DONE := true }
            }).pd.sc_tstamp = 5000) ∧
    ((state_update kconfig_example (env_plain [] 5000) {}
        (pd_cp_completed OSDP_CP_STATE_SC_CHLNG REPLY_NAK)).pd.state = OSDP_CP_STATE_ONLINE ∧
      (state_update kconfig_example (env_plain [] 5000) {}
        (pd_cp_completed OSDP_CP_STATE_SC_CHLNG REPLY_NAK)).pd.sc_tstamp = 5000) ∧
    ((state_update kconfig_example (env_plain [] 5000) {}
        (pd_cp_completed OSDP_CP_STATE_SC_CHLNG REPLY_CCRYPT)).pd.state
        = OSDP_CP_STATE_SC_SCRYPT ∧
      (state_update kconfig_example (env_plain [] 5000) {}
        (pd_cp_completed OSDP_CP_STATE_SC_CHLNG REPLY_CCRYPT)).pd.cmd_queue
        = [{ id := CMD_SCRYPT }]) := by
  have h1 := (C26_sc_chlng_outcomes kconfig_example (env_plain [] 5000) {}
    { pd_cp_completed OSDP_CP_STATE_SC_CHLNG REPLY_CCRYPT with
      phy_state := OSDP_CP_PHY_STATE_ERR_WAIT,
      flags := { AWAIT_RESP := true, SC_USE_SCBKD := true, SC_SCBKD_DONE := true } }
    rfl rfl (by decide)).1 (by decide) rfl
  have h2 := (C26_sc_chlng_outcomes kconfig_example (env_plain [] 5000) {}
    (pd_cp_completed OSDP_CP_STATE_SC_CHLNG REPLY_NAK) rfl rfl (by decide)).2.1
    (by decide) (by decide)
  have h3 := (C26_sc_chlng_outcomes kconfig_example (env_plain [] 5000) {}
    (pd_cp_completed OSDP_CP_STATE_SC_CHLNG REPLY_CCRYPT) rfl rfl (by decide)).2.2
    (by decide) rfl (by decide)
  exact ⟨⟨h1.1, h1.2.1⟩, ⟨h2.1, h2.2.1⟩, h3⟩

/-! ### C27: the session state SC_SCRYPT -/

/-- C27: in session state SC_SCRYPT with the SCRYPT command completed (AWAIT_RESP set,
the phy neither in progress nor yielding and without error), the tick of
`state_update` does the following. With the reply id RMAC_I and SC_USE_SCBKD set the
session state becomes SET_SCBK. With the reply id RMAC_I and SC_USE_SCBKD clear the
session state becomes ONLINE, `sc_tstamp` the current time, and SC_ACTIVE stays as
the decoder left it, which is set: `cp_decode_response` on an RMAC_I reply of 16 data
bytes sets SC_ACTIVE. With any other reply id the session state becomes ONLINE and
SC_ACTIVE stays as it was, and the decoder of such a reply does not touch SC_ACTIVE:
it is clear whenever it was clear when the SCRYPT command was sent. -/
theorem C27_sc_scrypt_outcomes (cfg : osdp_kconfig) (env : osdp_env) (cp : osdp_cp)
    (pd : osdp_pd)
    (hst : pd.state = OSDP_CP_STATE_SC_SCRYPT)
    (hawait : pd.flags.AWAIT_RESP = true)
    (hdone : (cp_phy_state_update env cp pd).ret ≠ OSDP_CP_ERR_INPROG ∧
      (cp_phy_state_update env cp pd).ret ≠ OSDP_CP_ERR_CAN_YIELD ∧
      (cp_phy_state_update env cp pd).ret ≠ OSDP_CP_ERR_GENERIC) :
    ((cp_phy_state_update env cp pd).pd.reply_id = REPLY_RMAC_I →
      pd.flags.SC_USE_SCBKD = true →
      (state_update cfg env cp pd).pd.state = OSDP_CP_STATE_SET_SCBK) ∧
    ((cp_phy_state_update env cp pd).pd.reply_id = REPLY_RMAC_I →
      pd.flags.SC_USE_SCBKD = false →
      (state_update cfg env cp pd).pd.state = OSDP_CP_STATE_ONLINE ∧
      (state_update cfg env cp pd).pd.sc_tstamp = env.millis_now ∧
      (state_update cfg env cp pd).pd.flags.SC_ACTIVE =
        (cp_phy_state_update env cp pd).pd.flags.SC_ACTIVE) ∧
    ((cp_phy_state_update env cp pd).pd.reply_id ≠ REPLY_RMAC_I →
      (state_update cfg env cp pd).pd.state = OSDP_CP_STATE_ONLINE ∧
      (state_update cfg env cp pd).pd.flags.SC_ACTIVE =
        (cp_phy_state_update env cp pd).pd.flags.SC_ACTIVE) ∧
    (∀ (ops : osdp_sc_ops) (c : osdp_cp) (p : osdp_pd) (buf : List Nat),
      rd buf 0 = REPLY_RMAC_I →
      (cp_decode_response ops c p buf 17).ret = OSDP_CP_ERR_NONE ∧
      (cp_decode_response ops c p buf 17).pd.reply_id = REPLY_RMAC_I ∧
      (cp_decode_response ops c p buf 17).pd.flags.SC_ACTIVE = true) ∧
    (∀ (ops : osdp_sc_ops) (c : osdp_cp) (p : osdp_pd) (buf : List Nat) (len : Int),
      rd buf 0 ≠ REPLY_RMAC_I →
      (cp_decode_response ops c p buf len).pd.flags.SC_ACTIVE = p.flags.SC_ACTIVE) := by
  have hs := cp_phy_state_update_session env cp pd
  simp only [session_fields, Prod.mk.injEq] at hs
  obtain ⟨h1, h2, h3, _, _, _, _⟩ := hs
  rw [hst] at h1
  rw [hawait] at h2
  rw [state_update_completed cfg env cp pd hdone]
  rw [h3.symm]
  generalize cp_phy_state_update env cp pd = r at *
  simp only [OSDP_CP_STATE_SC_SCRYPT] at h1
  refine ⟨?_, ?_, ?_, ?_, ?_⟩
  · intro hid hscbkd
    have hid2 : r.pd.reply_id = 120 := by simpa using hid
    simp [state_update_switch, h1, state_update_sc_scrypt, cp_cmd_dispatcher, h2, hid2, hscbkd,
      cp_set_state]
  · intro hid hscbkd
    have hid2 : r.pd.reply_id = 120 := by simpa using hid
    simp [state_update_switch, h1, state_update_sc_scrypt, cp_cmd_dispatcher, h2, hid2, hscbkd,
      cp_set_state]
  · intro hid
    have hid2 : ¬ r.pd.reply_id = 120 := by simpa using hid
    simp [state_update_switch, h1, state_update_sc_scrypt, cp_cmd_dispatcher, h2, hid2,
      cp_set_state]
  · intro ops c p buf hid
    have hid2 : rd buf 0 = 120 := by simpa using hid
    simp [cp_decode_response, cp_decode_response_switch, hid2]
  · intro ops c p buf len hid
    exact cp_decode_response_sc_active ops c p buf len hid

/-- C27 on three PD contexts in SC_SCRYPT at time 5000: with the reply RMAC_I and
SC_USE_SCBKD set the tick ends in SET_SCBK; with the reply RMAC_I, SC_USE_SCBKD clear
and SC_ACTIVE set by the decoder it ends ONLINE with `sc_tstamp` 5000 and SC_ACTIVE
set; with the reply NAK and SC_ACTIVE clear it ends ONLINE with SC_ACTIVE clear. -/
theorem C27_sc_scrypt_outcomes_examples :
    (state_update kconfig_example (env_plain [] 5000) {}
        { pd_cp_completed OSDP_CP_STATE_SC_SCRYPT REPLY_RMAC_I with
          flags := { AWAIT_RESP := true, SC_USE_SCBKD := true, SC_ACTIVE := true } }).pd.state
        = OSDP_CP_STATE_SET_SCBK ∧
    ((state_update kconfig_example (env_plain [] 5000) {}
        { pd_cp_completed OSDP_CP_STATE_SC_SCRYPT REPLY_RMAC_I with
          flags := { AWAIT_RESP := true, SC_ACTIVE := true } }).pd.state
        = OSDP_CP_STATE_ONLINE ∧
      (state_update kconfig_example (env_plain [] 5000) {}
        { pd_cp_completed OSDP_CP_STATE_SC_SCRYPT REPLY_RMAC_I with
          flags := { AWAIT_RESP := true, SC_ACTIVE := true } }).pd.sc_tstamp = 5000 ∧
      (state_update kconfig_example (env_plain [] 5000) {}
        { pd_cp_completed OSDP_CP_STATE_SC_SCRYPT REPLY_RMAC_I with
          flags := { AWAIT_RESP := true, SC_ACTIVE := true } }).pd.flags.SC_ACTIVE = true) ∧
    ((state_update kconfig_example (env_plain [] 5000) {}
        (pd_cp_completed OSDP_CP_STATE_SC_SCRYPT REPLY_NAK)).pd.state = OSDP_CP_STATE_ONLINE ∧
      (state_update kconfig_example (env_plain [] 5000) {}
        (pd_cp_completed OSDP_CP_STATE_SC_SCRYPT REPLY_NAK)).pd.flags.SC_ACTIVE = false) := by
  have h1 := (C27_sc_scrypt_outcomes kconfig_example (env_plain [] 5000) {}
    { pd_cp_completed OSDP_CP_STATE_SC_SCRYPT REPLY_RMAC_I with
      flags := { AWAIT_RESP := true, SC_USE_SCBKD := true, SC_ACTIVE := true } }
    rfl rfl (by decide)).1 rfl rfl
  have h2 := (C27_sc_scrypt_outcomes kconfig_example (env_plain [] 5000) {}
    { pd_cp_completed OSDP_CP_STATE_SC_SCRYPT REPLY_RMAC_I with
      flags := { AWAIT_RESP := true, SC_ACTIVE := true } }
    rfl rfl (by decide)).2.1 rfl rfl
  have h3 := (C27_sc_scrypt_outcomes kconfig_example (env_plain [] 5000) {}
    (pd_cp_completed OSDP_CP_STATE_SC_SCRYPT REPLY_NAK) rfl rfl (by decide)).2.2.1 (by decide)
  exact ⟨h1, h2, h3⟩

/-! ### C28: the session state SET_SCBK -/

/-- C28: in session state SET_SCBK with the KEYSET command completed (AWAIT_RESP set,
the phy neither in progress nor yielding and without error), the tick of
`state_update` moves the session to ONLINE and leaves SC_USE_SCBKD as it was when the
reply id is NAK; when the reply id is ACK (indeed any id but NAK) it clears
SC_USE_SCBKD and SC_ACTIVE, sets the sequence number to -1 and moves the session to
SC_INIT. The command of this state is KEYSET: with nothing awaited, the phy quiet and
a free block, the tick enqueues one command with the id CMD_KEYSET, and
`cp_build_command` for it, with SC_ACTIVE set and room for 19 bytes, writes the
command id, key type 1, key length 16 and the 16 bytes of `osdp_compute_scbk`. -/
theorem C28_set_scbk_outcomes (cfg : osdp_kconfig) (env : osdp_env) (cp : osdp_cp)
    (pd : osdp_pd)
    (hst : pd.state = OSDP_CP_STATE_SET_SCBK) :
    (pd.flags.AWAIT_RESP = true →
      ((cp_phy_state_update env cp pd).ret ≠ OSDP_CP_ERR_INPROG ∧
        (cp_phy_state_update env cp pd).ret ≠ OSDP_CP_ERR_CAN_YIELD ∧
        (cp_phy_state_update env cp pd).ret ≠ OSDP_CP_ERR_GENERIC) →
      ((cp_phy_state_update env cp pd).pd.reply_id = REPLY_NAK →
        (state_update cfg env cp pd).pd.state = OSDP_CP_STATE_ONLINE ∧
        (state_update cfg env cp pd).pd.flags.SC_USE_SCBKD = pd.flags.SC_USE_SCBKD) ∧
      ((cp_phy_state_update env cp pd).pd.reply_id ≠ REPLY_NAK →
        (state_update cfg env cp pd).pd.state = OSDP_CP_STATE_SC_INIT ∧
        (state_update cfg env cp pd).pd.flags.SC_USE_SCBKD = false ∧
        (state_update cfg env cp pd).pd.flags.SC_ACTIVE = false ∧
        (state_update cfg env cp pd).pd.seq_number = -1)) ∧
    (pd.flags.AWAIT_RESP = false → pd.phy_state = OSDP_CP_PHY_STATE_IDLE → pd.cmd_queue = [] →
      0 < pd.cmd_slab_free →
      (state_update cfg env cp pd).pd.state = OSDP_CP_STATE_SET_SCBK ∧
      (state_update cfg env cp pd).pd.cmd_queue = [{ id := CMD_KEYSET }] ∧
      (state_update cfg env cp pd).pd.flags.AWAIT_RESP = true) ∧
    (∀ (ops : osdp_sc_ops) (p : osdp_pd) (data_off : Int) (smb : Option osdp_smb)
        (max_len : Int),
      p.cmd_id = CMD_KEYSET → p.flags.SC_ACTIVE = true → CMD_KEYSET_LEN ≤ max_len - data_off →
      (cp_build_command ops p data_off smb max_len).ret = 19 ∧
      (cp_build_command ops p data_off smb max_len).out =
        [CMD_KEYSET, 1, 16] ++ (rd_n (ops.osdp_compute_scbk p) 0 16).map u8) := by
  refine ⟨?_, ?_, ?_⟩
  · intro hawait hdone
    have hs := cp_phy_state_update_session env cp pd
    simp only [session_fields, Prod.mk.injEq] at hs
    obtain ⟨h1, h2, h3, _, _, _, _⟩ := hs
    rw [hst] at h1
    rw [hawait] at h2
    rw [state_update_completed cfg env cp pd hdone]
    rw [h3.symm]
    generalize cp_phy_state_update env cp pd = r at *
    simp only [OSDP_CP_STATE_SET_SCBK] at h1
    refine ⟨?_, ?_⟩
    · intro hid
      have hid2 : r.pd.reply_id = 65 := by simpa using hid
      simp [state_update_switch, h1, state_update_set_scbk, cp_cmd_dispatcher, h2, hid2,
        cp_set_state]
    · intro hid
      have hid2 : ¬ r.pd.reply_id = 65 := by simpa using hid
      simp [state_update_switch, h1, state_update_set_scbk, cp_cmd_dispatcher, h2, hid2,
        cp_set_state]
  · intro hawait hphy hq hfree
    have hf : ¬ pd.cmd_slab_free = 0 := by omega
    simp only [OSDP_CP_STATE_SET_SCBK] at hst
    simp [state_update, cp_phy_state_update_quiet env cp pd hphy hq, state_update_session,
      state_update_switch, hst, state_update_set_scbk, cp_cmd_dispatcher, hawait, cp_cmd_alloc,
      hf, cp_cmd_enqueue, hq]
  · intro ops p data_off smb max_len hid hact hroom
    have hid2 : p.cmd_id = 117 := by simpa using hid
    have hr : ¬ (max_len - data_off < 19) := by simpa using hroom
    have hu : u8 117 = 117 := rfl
    simp [cp_build_command, cp_build_command_switch, hid2, hact, hr, hu, rd_n]

/-- C28 on PD contexts in SET_SCBK with SC_USE_SCBKD and SC_ACTIVE set: with the reply
NAK the tick ends ONLINE with SC_USE_SCBKD still set; with the reply ACK it ends in
SC_INIT with both flags clear and the sequence number -1; and with nothing awaited it
enqueues the one command KEYSET, which the packet layer without framing sends as
75 01 10 followed by the 16 bytes of the SCBK (here zeros). -/
theorem C28_set_scbk_outcomes_examples :
    ((state_update kconfig_example (env_plain [] 5000) {}
        { pd_cp_completed OSDP_CP_STATE_SET_SCBK REPLY_NAK with
          flags := { AWAIT_RESP := true, SC_USE_SCBKD := true, SC_ACTIVE := true } }).pd.state
        = OSDP_CP_STATE_ONLINE ∧
      (state_update kconfig_example (env_plain [] 5000) {}
        { pd_cp_completed OSDP_CP_STATE_SET_SCBK REPLY_NAK with
          flags := { AWAIT_RESP := true, SC_USE_SCBKD := true, SC_ACTIVE := true }
            }).pd.flags.SC_USE_SCBKD = true) ∧
    ((state_update kconfig_example (env_plain [] 5000) {}
        { pd_cp_completed OSDP_CP_STATE_SET_SCBK REPLY_ACK with
          flags := { AWAIT_RESP := true, SC_USE_SCBKD := true, SC_ACTIVE := true } }).pd.state
        = OSDP_CP_STATE_SC_INIT ∧
      (state_update kconfig_example (env_plain [] 5000) {}
        { pd_cp_completed OSDP_CP_STATE_SET_SCBK REPLY_ACK with
          flags := { AWAIT_RESP := true, SC_USE_SCBKD := true, SC_ACTIVE := true }
            }).pd.flags.SC_USE_SCBKD = false ∧
      (state_update kconfig_example (env_plain [] 5000) {}
        { pd_cp_completed OSDP_CP_STATE_SET_SCBK REPLY_ACK with
          flags := { AWAIT_RESP := true, SC_USE_SCBKD := true, SC_ACTIVE := true }
            }).pd.flags.SC_ACTIVE = false ∧
      (state_update kconfig_example (env_plain [] 5000) {}
        { pd_cp_completed OSDP_CP_STATE_SET_SCBK REPLY_ACK with
          flags := { AWAIT_RESP := true, SC_USE_SCBKD := true, SC_ACTIVE := true }
            }).pd.seq_number = -1) ∧
    (state_update kconfig_example (env_plain [] 5001) {}
      (state_update kconfig_example (env_plain [] 5000) {}
        { pd_cp_completed OSDP_CP_STATE_SET_SCBK REPLY_RMAC_I with
          flags := { SC_USE_SCBKD := true, SC_ACTIVE := true } }).pd).sent =
      [[0x75, 1, 16, 0, 0, 0, 0, 0, 0, 0, 0, 0, 0, 0, 0, 0, 0, 0, 0]] := by
  have h1 := ((C28_set_scbk_outcomes kconfig_example (env_plain [] 5000) {}
    { pd_cp_completed OSDP_CP_STATE_SET_SCBK REPLY_NAK with
      flags := { AWAIT_RESP := true, SC_USE_SCBKD := true, SC_ACTIVE := true } } rfl).1 rfl
      (by decide)).1 rfl
  have h2 := ((C28_set_scbk_outcomes kconfig_example (env_plain [] 5000) {}
    { pd_cp_completed OSDP_CP_STATE_SET_SCBK REPLY_ACK with
      flags := { AWAIT_RESP := true, SC_USE_SCBKD := true, SC_ACTIVE := true } } rfl).1 rfl
      (by decide)).2 (by decide)
  exact ⟨h1, h2, by decide⟩

/-! ### C29: the session state ONLINE -/

/-- C29, counterexample: a PD context that is ONLINE with the phy idle, the queue
empty, nothing awaited and `tstamp` 1000 is ticked at time 5000, long after the poll
timeout of 50 ms. The tick enqueues exactly one POLL command, but `tstamp` is still
1000, not the current time 5000. -/
theorem C29_poll_enqueued_tstamp_kept :
    OSDP_PD_POLL_TIMEOUT_MS kconfig_example = 50 ∧
    (state_update kconfig_example (env_plain [] 5000) {} pd_cp_online).pd.cmd_queue =
      [{ id := CMD_POLL }] ∧
    (state_update kconfig_example (env_plain [] 5000) {} pd_cp_online).pd.tstamp = 1000 ∧
    (state_update kconfig_example (env_plain [] 5000) {} pd_cp_online).pd.tstamp ≠
      (env_plain [] 5000).millis_now := by
  decide

/-- C29, amended: in session state ONLINE with the phy idle and the queue empty, the
tick of `state_update` does the following. If the PD is SC-capable, SC_ACTIVE is
clear and more than `OSDP_PD_SC_RETRY_MS` has elapsed since `sc_tstamp`, the session
state becomes SC_INIT and nothing is enqueued. Otherwise, if less than
`OSDP_PD_POLL_TIMEOUT_MS` has elapsed since `tstamp`, the PD context is unchanged.
Otherwise, with nothing awaited and a free block in the pool, exactly one POLL
command is enqueued, AWAIT_RESP is set, and the state and `tstamp` are unchanged;
with a reply awaited (the POLL has completed) nothing is enqueued, AWAIT_RESP is
cleared and `tstamp` becomes the current time. -/
theorem C29_online_tick (cfg : osdp_kconfig) (env : osdp_env) (cp : osdp_cp) (pd : osdp_pd)
    (hst : pd.state = OSDP_CP_STATE_ONLINE)
    (hphy : pd.phy_state = OSDP_CP_PHY_STATE_IDLE)
    (hq : pd.cmd_queue = []) :
    ((pd.flags.SC_ACTIVE = false ∧ pd.flags.SC_CAPABLE = true ∧
        osdp_millis_since env pd.sc_tstamp > OSDP_PD_SC_RETRY_MS cfg) →
      (state_update cfg env cp pd).pd.state = OSDP_CP_STATE_SC_INIT ∧
      (state_update cfg env cp pd).pd.cmd_queue = [] ∧
      (state_update cfg env cp pd).pd.tstamp = pd.tstamp) ∧
    (¬ (pd.flags.SC_ACTIVE = false ∧ pd.flags.SC_CAPABLE = true ∧
        osdp_millis_since env pd.sc_tstamp > OSDP_PD_SC_RETRY_MS cfg) →
      osdp_millis_since env pd.tstamp < OSDP_PD_POLL_TIMEOUT_MS cfg →
      (state_update cfg env cp pd).pd = pd) ∧
    (¬ (pd.flags.SC_ACTIVE = false ∧ pd.flags.SC_CAPABLE = true ∧
        osdp_millis_since env pd.sc_tstamp > OSDP_PD_SC_RETRY_MS cfg) →
      OSDP_PD_POLL_TIMEOUT_MS cfg ≤ osdp_millis_since env pd.tstamp →
      pd.flags.AWAIT_RESP = false → 0 < pd.cmd_slab_free →
      (state_update cfg env cp pd).pd.cmd_queue = [{ id := CMD_POLL }] ∧
      (state_update cfg env cp pd).pd.flags.AWAIT_RESP = true ∧
      (state_update cfg env cp pd).pd.state = OSDP_CP_STATE_ONLINE ∧
      (state_update cfg env cp pd).pd.tstamp = pd.tstamp) ∧
    (¬ (pd.flags.SC_ACTIVE = false ∧ pd.flags.SC_CAPABLE = true ∧
        osdp_millis_since env pd.sc_tstamp > OSDP_PD_SC_RETRY_MS cfg) →
      OSDP_PD_POLL_TIMEOUT_MS cfg ≤ osdp_millis_since env pd.tstamp →
      pd.flags.AWAIT_RESP = true →
      (state_update cfg env cp pd).pd.cmd_queue = [] ∧
      (state_update cfg env cp pd).pd.flags.AWAIT_RESP = false ∧
      (state_update cfg env cp pd).pd.state = OSDP_CP_STATE_ONLINE ∧
      (state_update cfg env cp pd).pd.tstamp = env.millis_now) := by
  have hsw : (state_update cfg env cp pd).pd = state_update_online cfg env pd := by
    simp only [OSDP_CP_STATE_ONLINE] at hst
    simp [state_update, cp_phy_state_update_quiet env cp pd hphy hq, state_update_session,
      state_update_switch, hst]
  rw [hsw]
  simp only [OSDP_CP_STATE_ONLINE] at hst
  refine ⟨?_, ?_, ?_, ?_⟩
  · intro hsc
    simp only [state_update_online, if_pos hsc]
    exact ⟨rfl, hq, rfl⟩
  · intro hsc hpoll
    simp only [state_update_online, if_neg hsc, if_pos hpoll]
  · intro hsc hpoll hawait hfree
    have hp : ¬ (osdp_millis_since env pd.tstamp < OSDP_PD_POLL_TIMEOUT_MS cfg) := by omega
    have hf : ¬ pd.cmd_slab_free = 0 := by omega
    simp only [state_update_online, if_neg hsc, if_neg hp]
    simp [cp_cmd_dispatcher, hawait, cp_cmd_alloc, hf, cp_cmd_enqueue, hq, hst]
  · intro hsc hpoll hawait
    have hp : ¬ (osdp_millis_since env pd.tstamp < OSDP_PD_POLL_TIMEOUT_MS cfg) := by omega
    simp only [state_update_online, if_neg hsc, if_neg hp]
    simp [cp_cmd_dispatcher, hawait, hq, hst]

/-- C29, amended, on the PD context `pd_cp_online` (`tstamp` 1000, poll timeout 50 ms):
ticked at time 1020 it is unchanged; ticked at time 5000 it has one POLL command
queued and `tstamp` 1000; ticked at time 5000 with the reply awaited it has nothing
queued and `tstamp` 5000; and when it is SC-capable without an active secure channel
and `sc_tstamp` is more than 10 s old, the tick ends in SC_INIT with nothing
queued. -/
theorem C29_online_tick_examples :
    (state_update kconfig_example (env_plain [] 1020) {} pd_cp_online).pd = pd_cp_online ∧
    ((state_update kconfig_example (env_plain [] 5000) {} pd_cp_online).pd.cmd_queue =
        [{ id := CMD_POLL }] ∧
      (state_update kconfig_example (env_plain [] 5000) {} pd_cp_online).pd.flags.AWAIT_RESP =
        true ∧
      (state_update kconfig_example (env_plain [] 5000) {} pd_cp_online).pd.state =
        OSDP_CP_STATE_ONLINE ∧
      (state_update kconfig_example (env_plain [] 5000) {} pd_cp_online).pd.tstamp = 1000) ∧
    ((state_update kconfig_example (env_plain [] 5000) {}
        { pd_cp_online with flags := { AWAIT_RESP := true } }).pd.cmd_queue = [] ∧
      (state_update kconfig_example (env_plain [] 5000) {}
        { pd_cp_online with flags := { AWAIT_RESP := true } }).pd.flags.AWAIT_RESP = false ∧
      (state_update kconfig_example (env_plain [] 5000) {}
        { pd_cp_online with flags := { AWAIT_RESP := true } }).pd.state = OSDP_CP_STATE_ONLINE ∧
      (state_update kconfig_example (env_plain [] 5000) {}
        { pd_cp_online with flags := { AWAIT_RESP := true } }).pd.tstamp = 5000) ∧
    ((state_update kconfig_example (env_plain [] 20000) {}
        { pd_cp_online with flags := { SC_CAPABLE := true } }).pd.state = OSDP_CP_STATE_SC_INIT ∧
      (state_update kconfig_example (env_plain [] 20000) {}
        { pd_cp_online with flags := { SC_CAPABLE := true } }).pd.cmd_queue = [] ∧
      (state_update kconfig_example (env_plain [] 20000) {}
        { pd_cp_online with flags := { SC_CAPABLE := true } }).pd.tstamp = 1000) := by
  have h2 := (C29_online_tick kconfig_example (env_plain [] 1020) {} pd_cp_online rfl rfl
    rfl).2.1 (by decide) (by decide)
  have h3 := (C29_online_tick kconfig_example (env_plain [] 5000) {} pd_cp_online rfl rfl
    rfl).2.2.1 (by decide) (by decide) rfl (by decide)
  have h4 := (C29_online_tick kconfig_example (env_plain [] 5000) {}
    { pd_cp_online with flags := { AWAIT_RESP := true } } rfl rfl rfl).2.2.2 (by decide)
    (by decide) rfl
  have h1 := (C29_online_tick kconfig_example (env_plain [] 20000) {}
    { pd_cp_online with flags := { SC_CAPABLE := true } } rfl rfl rfl).1 (by decide)
  exact ⟨h2, h3, h4, h1⟩

/-! ### C30: a response timeout takes the PD offline -/

/-- C30: a PD context whose phy is in REPLY_WAIT and whose session state is neither
SC_CHLNG nor OFFLINE is ticked when `cp_process_reply` has no complete packet (it
returns `OSDP_CP_ERR_NO_DATA`) and more than `OSDP_RESP_TOUT_MS` has elapsed since
`phy_tstamp`: the tick moves the phy to ERR and leaves the session state. The
following tick empties the command queue, moves the phy to ERR_WAIT, sets the
session state to OFFLINE, clears SC_ACTIVE and sets `tstamp` to its current time. -/
theorem C30_response_timeout_offline (cfg : osdp_kconfig) (env1 env2 : osdp_env)
    (cp : osdp_cp) (pd : osdp_pd)
    (hphy : pd.phy_state = OSDP_CP_PHY_STATE_REPLY_WAIT)
    (hst : pd.state ≠ OSDP_CP_STATE_SC_CHLNG ∧ pd.state ≠ OSDP_CP_STATE_OFFLINE)
    (hnodata : (cp_process_reply env1 cp pd).ret = OSDP_CP_ERR_NO_DATA)
    (htime : osdp_millis_since env1 pd.phy_tstamp > OSDP_RESP_TOUT_MS) :
    (state_update cfg env1 cp pd).pd.phy_state = OSDP_CP_PHY_STATE_ERR ∧
    (state_update cfg env1 cp pd).pd.state = pd.state ∧
    (state_update cfg env2 cp (state_update cfg env1 cp pd).pd).pd.cmd_queue = [] ∧
    (state_update cfg env2 cp (state_update cfg env1 cp pd).pd).pd.phy_state =
      OSDP_CP_PHY_STATE_ERR_WAIT ∧
    (state_update cfg env2 cp (state_update cfg env1 cp pd).pd).pd.state =
      OSDP_CP_STATE_OFFLINE ∧
    (state_update cfg env2 cp (state_update cfg env1 cp pd).pd).pd.flags.SC_ACTIVE = false ∧
    (state_update cfg env2 cp (state_update cfg env1 cp pd).pd).pd.tstamp = env2.millis_now := by
  have hs := cp_process_reply_session env1 cp pd
  have hp := cp_process_reply_phy env1 cp pd
  simp only [session_fields, phy_fields, Prod.mk.injEq] at hs hp
  obtain ⟨hs1, _⟩ := hs
  obtain ⟨_, hp2, _⟩ := hp
  have ht : osdp_millis_since env1 (cp_process_reply env1 cp pd).pd.phy_tstamp > 200 := by
    rw [hp2]
    simpa using htime
  -- the first tick: the phy goes to ERR and the tick returns early
  have h1 : (state_update cfg env1 cp pd).pd =
      { (cp_process_reply env1 cp pd).pd with phy_state := OSDP_CP_PHY_STATE_ERR } := by
    simp only [OSDP_CP_PHY_STATE_REPLY_WAIT] at hphy
    simp only [OSDP_CP_ERR_NO_DATA] at hnodata
    simp [state_update, cp_phy_state_update, hphy, hnodata, ht, state_update_session]
  rw [h1]
  generalize cp_process_reply env1 cp pd = pr at *
  obtain ⟨hst1, hst2⟩ := hst
  rw [← hs1] at hst1 hst2
  simp only [OSDP_CP_STATE_SC_CHLNG, OSDP_CP_STATE_OFFLINE, ne_eq] at hst1 hst2
  refine ⟨rfl, hs1, ?_, ?_, ?_, ?_, ?_⟩ <;>
    simp [state_update, cp_phy_state_update, cp_reset_channel, cp_flush_command_queue,
      state_update_session, hst1, hst2, cp_set_offline, state_update_switch,
      state_update_offline, osdp_millis_since]

/-- C30 on a PD context that is ONLINE with SC_ACTIVE set and waits for the reply to a
command sent at time 1000, with a buzzer command still queued: ticked at time 1300
without any byte received the phy is in ERR, and the tick at time 1310 leaves the
queue empty, the phy in ERR_WAIT, the session OFFLINE, SC_ACTIVE clear and `tstamp`
1310. -/
theorem C30_response_timeout_offline_example :
    (state_update kconfig_example (env_plain [] 1300) {}
      { pd_cp_waiting [cmd_buz_example] with flags := { SC_ACTIVE := true } }).pd.phy_state =
      OSDP_CP_PHY_STATE_ERR ∧
    (state_update kconfig_example (env_plain [] 1310) {}
      (state_update kconfig_example (env_plain [] 1300) {}
        { pd_cp_waiting [cmd_buz_example] with flags := { SC_ACTIVE := true } }).pd).pd.cmd_queue
      = [] ∧
    (state_update kconfig_example (env_plain [] 1310) {}
      (state_update kconfig_example (env_plain [] 1300) {}
        { pd_cp_waiting [cmd_buz_example] with flags := { SC_ACTIVE := true } }).pd).pd.phy_state
      = OSDP_CP_PHY_STATE_ERR_WAIT ∧
    (state_update kconfig_example (env_plain [] 1310) {}
      (state_update kconfig_example (env_plain [] 1300) {}
        { pd_cp_waiting [cmd_buz_example] with flags := { SC_ACTIVE := true } }).pd).pd.state
      = OSDP_CP_STATE_OFFLINE ∧
    (state_update kconfig_example (env_plain [] 1310) {}
      (state_update kconfig_example (env_plain [] 1300) {}
        { pd_cp_waiting [cmd_buz_example] with flags := { SC_ACTIVE := true }
          }).pd).pd.flags.SC_ACTIVE = false ∧
    (state_update kconfig_example (env_plain [] 1310) {}
      (state_update kconfig_example (env_plain [] 1300) {}
        { pd_cp_waiting [cmd_buz_example] with flags := { SC_ACTIVE := true } }).pd).pd.tstamp
      = 1310 := by
  have h := C30_response_timeout_offline kconfig_example (env_plain [] 1300)
    (env_plain [] 1310) {}
    { pd_cp_waiting [cmd_buz_example] with flags := { SC_ACTIVE := true } } rfl (by decide)
    (by decide) (by decide)
  exact ⟨h.1, h.2.2.1, h.2.2.2.1, h.2.2.2.2.1, h.2.2.2.2.2.1, h.2.2.2.2.2.2⟩

/-! ### Ticks with the phy in ERR_WAIT or ERR -/

/-- A step of the phy in ERR_WAIT reports the error and leaves the PD context as it
is. -/
theorem cp_phy_state_update_err_wait (env : osdp_env) (cp : osdp_cp) (pd : osdp_pd)
    (hphy : pd.phy_state = OSDP_CP_PHY_STATE_ERR_WAIT) :
    cp_phy_state_update env cp pd = { ret := OSDP_CP_ERR_GENERIC, pd := pd } := by
  simp only [OSDP_CP_PHY_STATE_ERR_WAIT] at hphy
  simp [cp_phy_state_update, hphy]

/-- A step of the phy in ERR resets the channel, flushes the command queue, moves to
ERR_WAIT and reports the error. -/
theorem cp_phy_state_update_err (env : osdp_env) (cp : osdp_cp) (pd : osdp_pd)
    (hphy : pd.phy_state = OSDP_CP_PHY_STATE_ERR) :
    cp_phy_state_update env cp pd =
      { ret := OSDP_CP_ERR_GENERIC,
        pd := { pd with
          rx_buf_len := 0, cmd_queue := [],
          cmd_slab_free := pd.cmd_slab_free + pd.cmd_queue.length,
          phy_state := OSDP_CP_PHY_STATE_ERR_WAIT },
        flushes := channel_flush env } := by
  simp only [OSDP_CP_PHY_STATE_ERR] at hphy
  simp [cp_phy_state_update, hphy, cp_reset_channel, cp_flush_command_queue]

/-! ### C31: recovery from OFFLINE -/

/-- The tick of a PD context that is OFFLINE with the phy in ERR_WAIT is the case
OFFLINE of the `switch` alone. -/
theorem state_update_offline_tick (cfg : osdp_kconfig) (env : osdp_env) (cp : osdp_cp)
    (pd : osdp_pd)
    (hst : pd.state = OSDP_CP_STATE_OFFLINE)
    (hphy : pd.phy_state = OSDP_CP_PHY_STATE_ERR_WAIT) :
    state_update cfg env cp pd = { ret := 0, pd := state_update_offline cfg env pd } := by
  rw [state_update, cp_phy_state_update_err_wait env cp pd hphy]
  have hst2 : pd.state = 8 := by simpa using hst
  simp [state_update_session, hst2, state_update_switch]

/-- Ticks of an OFFLINE PD context with the phy in ERR_WAIT, none of them later than
`OSDP_CMD_RETRY_WAIT_MS` after `tstamp`, leave the PD context as it is. -/
theorem state_update_run_offline (cfg : osdp_kconfig) (cp : osdp_cp) (pd : osdp_pd)
    (hst : pd.state = OSDP_CP_STATE_OFFLINE)
    (hphy : pd.phy_state = OSDP_CP_PHY_STATE_ERR_WAIT) :
    ∀ envs : List osdp_env,
      (∀ e ∈ envs, osdp_millis_since e pd.tstamp ≤ OSDP_CMD_RETRY_WAIT_MS cfg) →
      ∀ r ∈ state_update_run cfg cp envs pd, r.pd = pd ∧ r.sent = [] := by
  intro envs
  induction envs with
  | nil =>
    intro _ r hr
    simp [state_update_run] at hr
  | cons e rest ih =>
    intro hall r hr
    have he : ¬ (osdp_millis_since e pd.tstamp > OSDP_CMD_RETRY_WAIT_MS cfg) :=
      not_lt.mpr (hall e (List.mem_cons_self _ _))
    have ht : state_update cfg e cp pd = { ret := 0, pd := pd } := by
      rw [state_update_offline_tick cfg e cp pd hst hphy]
      simp only [state_update_offline, if_neg he]
    simp only [state_update_run, ht, List.mem_cons] at hr
    rcases hr with hr | hr
    · rw [hr]
      exact ⟨rfl, rfl⟩
    · exact ih (fun e2 h2 => hall e2 (List.mem_cons_of_mem _ h2)) r hr

/-- C31: a PD context that is OFFLINE with the phy in ERR_WAIT (where the phy error
that took it offline has left it). While at most `OSDP_CMD_RETRY_WAIT_MS` has elapsed
since `tstamp`, every tick leaves the PD context, so the session state OFFLINE and
the command queue, as it is and sends nothing. A tick at which more has elapsed sets
the session state to INIT and calls `osdp_phy_state_reset`. When that reset returns
the phy to IDLE, the queue is empty and the pool has a free block, the tick after
that moves the session to IDREQ and enqueues exactly one ID command. -/
theorem C31_offline_recovery (cfg : osdp_kconfig) (cp : osdp_cp) (pd : osdp_pd)
    (hst : pd.state = OSDP_CP_STATE_OFFLINE)
    (hphy : pd.phy_state = OSDP_CP_PHY_STATE_ERR_WAIT) :
    (∀ envs : List osdp_env,
      (∀ e ∈ envs, osdp_millis_since e pd.tstamp ≤ OSDP_CMD_RETRY_WAIT_MS cfg) →
      ∀ r ∈ state_update_run cfg cp envs pd,
        r.pd.state = OSDP_CP_STATE_OFFLINE ∧ r.pd.cmd_queue = pd.cmd_queue ∧ r.pd = pd ∧
        r.sent = []) ∧
    (∀ env : osdp_env, osdp_millis_since env pd.tstamp > OSDP_CMD_RETRY_WAIT_MS cfg →
      (state_update cfg env cp pd).pd =
        env.osdp_phy_state_reset { pd with state := OSDP_CP_STATE_INIT } ∧
      (state_update cfg env cp pd).sent = []) ∧
    (∀ env env2 : osdp_env, osdp_millis_since env pd.tstamp > OSDP_CMD_RETRY_WAIT_MS cfg →
      phy_reset_returns_to_idle env → pd.cmd_queue = [] → 0 < pd.cmd_slab_free →
      (state_update cfg env cp pd).pd.state = OSDP_CP_STATE_INIT ∧
      (state_update cfg env cp pd).pd.phy_state = OSDP_CP_PHY_STATE_IDLE ∧
      (state_update cfg env cp pd).pd.cmd_queue = [] ∧
      (state_update cfg env2 cp (state_update cfg env cp pd).pd).pd.state =
        OSDP_CP_STATE_IDREQ ∧
      (state_update cfg env2 cp (state_update cfg env cp pd).pd).pd.cmd_queue =
        [{ id := CMD_ID }] ∧
      (state_update cfg env2 cp (state_update cfg env cp pd).pd).sent = []) := by
  have hreset : ∀ env : osdp_env,
      osdp_millis_since env pd.tstamp > OSDP_CMD_RETRY_WAIT_MS cfg →
      state_update cfg env cp pd =
        { ret := 0, pd := env.osdp_phy_state_reset { pd with state := OSDP_CP_STATE_INIT } } := by
    intro env hlate
    rw [state_update_offline_tick cfg env cp pd hst hphy]
    simp only [state_update_offline, if_pos hlate, cp_reset_state]
  refine ⟨?_, ?_, ?_⟩
  · intro envs hall r hr
    obtain ⟨h1, h2⟩ := state_update_run_offline cfg cp pd hst hphy envs hall r hr
    rw [h1]
    exact ⟨hst, rfl, rfl, h2⟩
  · intro env hlate
    rw [hreset env hlate]
    exact ⟨rfl, rfl⟩
  · intro env env2 hlate hres hq hfree
    obtain ⟨r1, r2, r3, r4⟩ := hres { pd with state := OSDP_CP_STATE_INIT }
    rw [hreset env hlate]
    dsimp only
    have hq2 : (env.osdp_phy_state_reset { pd with state := OSDP_CP_STATE_INIT }).cmd_queue
        = [] := r3.trans hq
    have hf2 : 0 < (env.osdp_phy_state_reset
        { pd with state := OSDP_CP_STATE_INIT }).cmd_slab_free := by
      rw [r4]
      exact hfree
    rw [state_update_init cfg env2 cp _ r2 r1 hq2 hf2]
    exact ⟨r2, r1, hq2, rfl, rfl, rfl⟩

/-- C31 on the PD context `pd_cp_offline` (offline since time 1000, retry wait 1000
ms): the ticks at times 1500 and 2000 leave it OFFLINE with an empty queue; the tick
at time 2001 leaves it in INIT with the phy idle; and the tick at time 2051 leaves it
in IDREQ with one ID command queued. -/
theorem C31_offline_recovery_example :
    OSDP_CMD_RETRY_WAIT_MS kconfig_example = 1000 ∧
    (state_update kconfig_example (env_plain [] 2000) {} pd_cp_offline).pd = pd_cp_offline ∧
    ((state_update kconfig_example (env_plain [] 2001) {} pd_cp_offline).pd.state =
        OSDP_CP_STATE_INIT ∧
      (state_update kconfig_example (env_plain [] 2001) {} pd_cp_offline).pd.phy_state =
        OSDP_CP_PHY_STATE_IDLE) ∧
    ((state_update kconfig_example (env_plain [] 2051) {}
        (state_update kconfig_example (env_plain [] 2001) {} pd_cp_offline).pd).pd.state =
        OSDP_CP_STATE_IDREQ ∧
      (state_update kconfig_example (env_plain [] 2051) {}
        (state_update kconfig_example (env_plain [] 2001) {} pd_cp_offline).pd).pd.cmd_queue =
        [{ id := CMD_ID }]) ∧
    (state_update_run kconfig_example {}
      [env_plain [] 1500, env_plain [] 2000, env_plain [] 2001, env_plain [] 2051]
      pd_cp_offline).map (fun r => (r.pd.state, r.pd.phy_state, r.pd.cmd_queue.length)) =
      [(8, 5, 0), (8, 5, 0), (0, 0, 0), (1, 0, 1)] := by
  obtain ⟨h1, _, h3⟩ := C31_offline_recovery kconfig_example {} pd_cp_offline rfl rfl
  have hle : osdp_millis_since (env_plain [] 2000) pd_cp_offline.tstamp ≤
      OSDP_CMD_RETRY_WAIT_MS kconfig_example := by decide
  have ha := (h1 [env_plain [] 2000]
    (fun e he => by rw [List.mem_singleton.mp he]; exact hle)
    (state_update kconfig_example (env_plain [] 2000) {} pd_cp_offline)
    (List.mem_cons_self _ _)).2.2.1
  have hb := h3 (env_plain [] 2001) (env_plain [] 2051) (by decide)
    (fun _ => ⟨rfl, rfl, rfl, rfl⟩) rfl (by decide)
  exact ⟨by decide, ha, ⟨hb.1, hb.2.1⟩, ⟨hb.2.2.2.1, hb.2.2.2.2.1⟩, by decide⟩

/-! ### C32: the TEXT command is read twice -/

/-- The reads of a copy loop that starts past a prefix are reads of what follows the
prefix. -/
theorem rd_n_past (pre l : List Nat) (k n : Nat) :
    rd_n (pre ++ l) (pre.length + k) n = rd_n l k n := by
  simp only [rd_n]
  apply List.map_congr_left
  intro i _
  rw [Nat.add_assoc, rd_append]

/-- The reads of a copy loop over the bytes between a prefix and a suffix give those
bytes. -/
theorem rd_n_middle (pre data post : List Nat) :
    rd_n (pre ++ (data ++ post)) pre.length data.length = data := by
  have h := rd_n_past pre (data ++ post) 0 data.length
  rw [Nat.add_zero] at h
  rw [h]
  apply List.ext_getElem
  · simp [rd_n]
  · intro i h1 h3
    simp [rd_n, rd, List.getD_eq_getElem?_getD, List.getElem?_append_left, h3]

/-- C32, as the code has it: a TEXT command with N data bytes (N at most 32) arrives
with the received length 7 + N, followed in the receive buffer by the bytes `extra`
that do not belong to it; the PD has the text capability and the callback accepts
the command. The command handed to the callback carries the header fields and the N
data bytes of the wire. But after the callback has returned the decoder copies N
bytes a second time: the cursor ends at 7 + 2N, N positions past the received
length, and the command it enqueues carries, as its data, the N bytes read at the
positions 7 + N and up, which are the bytes of `extra` (zero where the model has no
byte), not the data of the wire. -/
theorem C32_text_data_read_twice (ops : osdp_sc_ops) (pd : osdp_pd) (cb : osdp_cmd → Int)
    (reader control_code temp_time row col : Nat) (data extra : List Nat)
    (hcb : pd.command_callback = some cb)
    (hacc : cb (text_cmd reader control_code temp_time row col data.length data) = 0)
    (hcap : (pd.cap OSDP_PD_CAP_READER_TEXT_OUTPUT).num_items ≠ 0 ∧
      (pd.cap OSDP_PD_CAP_READER_TEXT_OUTPUT).compliance_level ≠ 0)
    (hlen : data.length ≤ OSDP_CMD_TEXT_MAX_LEN) :
    ∃ d, pd_decode_command ops pd
        (text_wire reader control_code temp_time row col data ++ extra)
        (text_wire reader control_code temp_time row col data).length = some d ∧
      d.ret = OSDP_PD_ERR_NONE ∧
      d.pd.reply_id = REPLY_ACK ∧
      d.pd.cb_log =
        pd.cb_log ++ [text_cmd reader control_code temp_time row col data.length data] ∧
      d.pos = 7 + 2 * data.length ∧
      d.pd.cmd_queue = pd.cmd_queue ++
        [text_cmd reader control_code temp_time row col data.length
          (rd_n extra 0 data.length)] := by
  obtain ⟨hc1, hc2⟩ := hcap
  have hc3 : ¬ ((pd.cap 6).num_items = 0 ∨ (pd.cap 6).compliance_level = 0) := by
    simp only [OSDP_PD_CAP_READER_TEXT_OUTPUT] at hc1 hc2
    exact not_or.mpr ⟨hc1, hc2⟩
  have hbuf : text_wire reader control_code temp_time row col data ++ extra =
      [CMD_TEXT, reader, control_code, temp_time, row, col, data.length] ++ (data ++ extra) := by
    simp [text_wire]
  have hk1 : rd_n (text_wire reader control_code temp_time row col data ++ extra) 7
      data.length = data := by
    rw [hbuf]
    exact rd_n_middle [CMD_TEXT, reader, control_code, temp_time, row, col, data.length]
      data extra
  have hk2 : rd_n (text_wire reader control_code temp_time row col data ++ extra)
      (7 + data.length) data.length = rd_n extra 0 data.length := by
    rw [hbuf]
    have h1 := rd_n_past [CMD_TEXT, reader, control_code, temp_time, row, col, data.length]
      (data ++ extra) data.length data.length
    have h2 := rd_n_past data extra 0 data.length
    rw [Nat.add_zero] at h2
    exact h1.trans h2
  have hr : ∀ i, i < 7 →
      rd (text_wire reader control_code temp_time row col data ++ extra) i =
        rd [CMD_TEXT, reader, control_code, temp_time, row, col, data.length] i := by
    intro i hi
    rw [hbuf]
    interval_cases i <;> rfl
  have hlenw : (((text_wire reader control_code temp_time row col data).length : Nat) : Int)
      = 7 + (data.length : Int) := by
    simp [text_wire]
    omega
  have hl1 : ¬ ((7 : Int) + (data.length : Int) - 1 < 6) := by omega
  have hl2 : ¬ (data.length > 32 ∨ (7 : Int) + (data.length : Int) - 1 - 6 < (data.length : Int) ∨
      data.length > 32) := by
    simp only [OSDP_CMD_TEXT_MAX_LEN] at hlen
    omega
  have hacc2 := hacc
  simp only [text_cmd, OSDP_CMD_TEXT] at hacc2
  refine ⟨{ ret := OSDP_PD_ERR_NONE,
            pd := { pd with
              cmd_id := CMD_TEXT,
              cb_log := pd.cb_log ++
                [text_cmd reader control_code temp_time row col data.length data],
              cmd_queue := pd.cmd_queue ++
                [text_cmd reader control_code temp_time row col data.length
                  (rd_n extra 0 data.length)],
              reply_id := REPLY_ACK },
            pos := 7 + 2 * data.length }, ?_, rfl, rfl, rfl, rfl, rfl⟩
  unfold pd_decode_command
  simp only [pd_decode_command_switch, pd_decode_command_switch_tail, Nat.reduceAdd, hlenw,
    hr 0 (by decide), hr 1 (by decide), hr 2 (by decide), hr 3 (by decide), hr 4 (by decide),
    hr 5 (by decide), hr 6 (by decide)]
  simp only [rd, List.getD_cons_zero, List.getD_cons_succ,
    CMD_TEXT, CMD_POLL, CMD_LSTAT, CMD_ISTAT, CMD_OSTAT, CMD_RSTAT, CMD_ID, CMD_CAP, CMD_OUT,
    CMD_LED, CMD_BUZ, Nat.reduceEqDiff, if_false, if_true, CMD_TEXT_DATA_LEN,
    OSDP_CMD_TEXT_MAX_LEN, if_neg hl1, if_neg hl2, hk1, hk2]
  simp [pd_cmd_cap_ok, hc3, pd_command_callback, hcb, hacc2, osdp_cmd_enqueue, text_cmd]
  omega

/-- C32 on the PD `pd_example`, whose callback accepts every command: the TEXT command
6B 00 01 00 01 01 02 48 69 (two data bytes, received length 9) is followed in the
receive buffer by the bytes AA BB of an earlier frame. The callback is handed the
data 48 69; the cursor ends at 11, past the received length 9; and the command
enqueued carries the data AA BB. -/
theorem C32_text_data_read_twice_example :
    text_wire 0 1 0 1 1 [0x48, 0x69] = [0x6B, 0, 1, 0, 1, 1, 2, 0x48, 0x69] ∧
    ∃ d, pd_decode_command sc_ops_null pd_example
        ([0x6B, 0, 1, 0, 1, 1, 2, 0x48, 0x69] ++ [0xAA, 0xBB]) 9 = some d ∧
      d.pd.cb_log.map (fun c => c.text.data) = [[0x48, 0x69]] ∧
      d.pos = 11 ∧
      d.pd.cmd_queue.map (fun c => c.text.data) = [[0xAA, 0xBB]] := by
  obtain ⟨d, h1, _, _, h4, h5, h6⟩ := C32_text_data_read_twice sc_ops_null pd_example
    (fun _ => 0) 0 1 0 1 1 [0x48, 0x69] [0xAA, 0xBB] rfl rfl (by decide) (by decide)
  refine ⟨rfl, d, h1, ?_, h5, ?_⟩
  · rw [h4]
    rfl
  · rw [h6]
    rfl

/-! ### C33: an unexpected reply to ID or CAP -/

/-- C33, as the code has it: the tick that sees the ID command completed (the phy
idle, the queue empty, AWAIT_RESP set) with a reply other than PDID calls
`cp_set_offline` (SC_ACTIVE cleared, `tstamp` stamped) and then goes on: the session
state it leaves is CAPDET, not OFFLINE, and with a free block in the pool one CAP
command is queued. The tick that sees the CAP command completed with a reply other
than PDCAP likewise leaves the session in SC_INIT when SC_CAPABLE is set and ONLINE
when it is clear, never OFFLINE. -/
theorem C33_unexpected_reply_goes_on (cfg : osdp_kconfig) (env : osdp_env) (cp : osdp_cp)
    (pd : osdp_pd)
    (hphy : pd.phy_state = OSDP_CP_PHY_STATE_IDLE)
    (hq : pd.cmd_queue = [])
    (hawait : pd.flags.AWAIT_RESP = true) :
    (pd.state = OSDP_CP_STATE_IDREQ → pd.reply_id ≠ REPLY_PDID →
      (state_update cfg env cp pd).pd.state = OSDP_CP_STATE_CAPDET ∧
      (state_update cfg env cp pd).pd.tstamp = env.millis_now ∧
      (state_update cfg env cp pd).pd.flags.SC_ACTIVE = false ∧
      (0 < pd.cmd_slab_free →
        (state_update cfg env cp pd).pd.cmd_queue = [{ id := CMD_CAP }])) ∧
    (pd.state = OSDP_CP_STATE_CAPDET → pd.reply_id ≠ REPLY_PDCAP →
      (state_update cfg env cp pd).pd.state =
        (if pd.flags.SC_CAPABLE = true then OSDP_CP_STATE_SC_INIT else OSDP_CP_STATE_ONLINE) ∧
      (state_update cfg env cp pd).pd.state ≠ OSDP_CP_STATE_OFFLINE ∧
      (state_update cfg env cp pd).pd.tstamp = env.millis_now ∧
      (state_update cfg env cp pd).pd.flags.SC_ACTIVE = false ∧
      (state_update cfg env cp pd).pd.cmd_queue = []) := by
  rw [state_update_quiet cfg env cp pd hphy hq]
  refine ⟨?_, ?_⟩
  · intro hst hid
    have hst2 : pd.state = 1 := by simpa using hst
    have hid2 : ¬ pd.reply_id = 69 := by simpa using hid
    refine ⟨?_, ?_, ?_, ?_⟩
    · by_cases hf : pd.cmd_slab_free = 0 <;>
        simp [state_update_switch, hst2, state_update_idreq, state_update_capdet, cp_set_state,
          cp_cmd_dispatcher, hawait, hid2, cp_set_offline, cp_cmd_alloc, hf, cp_cmd_enqueue]
    · by_cases hf : pd.cmd_slab_free = 0 <;>
        simp [state_update_switch, hst2, state_update_idreq, state_update_capdet, cp_set_state,
          cp_cmd_dispatcher, hawait, hid2, cp_set_offline, cp_cmd_alloc, hf, cp_cmd_enqueue]
    · by_cases hf : pd.cmd_slab_free = 0 <;>
        simp [state_update_switch, hst2, state_update_idreq, state_update_capdet, cp_set_state,
          cp_cmd_dispatcher, hawait, hid2, cp_set_offline, cp_cmd_alloc, hf, cp_cmd_enqueue]
    · intro hfree
      have hf : ¬ pd.cmd_slab_free = 0 := by omega
      simp [state_update_switch, hst2, state_update_idreq, state_update_capdet, cp_set_state,
        cp_cmd_dispatcher, hawait, hid2, cp_set_offline, cp_cmd_alloc, hf, cp_cmd_enqueue, hq]
  · intro hst hid
    have hst2 : pd.state = 2 := by simpa using hst
    have hid2 : ¬ pd.reply_id = 70 := by simpa using hid
    by_cases hsc : pd.flags.SC_CAPABLE = true
    · simp [state_update_switch, hst2, state_update_capdet, cp_set_state,
        cp_cmd_dispatcher, hawait, hid2, cp_set_offline, hsc, hq]
    · have hsc2 : pd.flags.SC_CAPABLE = false := by simpa using hsc
      simp [state_update_switch, hst2, state_update_capdet, cp_set_state,
        cp_cmd_dispatcher, hawait, hid2, cp_set_offline, hsc2, hq]

/-- C33 on PD contexts whose command was answered with NAK, ticked at time 5000: in
IDREQ the tick ends in CAPDET with one CAP command queued; in CAPDET with SC_CAPABLE
set it ends in SC_INIT, and with SC_CAPABLE clear it ends ONLINE. And the PD context
`pd_cp_init` ticked five times over a packet layer without framing, with the reply
41 03 (NAK) to the ID command delivered on the third tick: the session is in CAPDET
after the fifth tick, with the CAP command queued. -/
theorem C33_unexpected_reply_goes_on_examples :
    ((state_update kconfig_example (env_plain [] 5000) {}
        (pd_cp_completed OSDP_CP_STATE_IDREQ REPLY_NAK)).pd.state = OSDP_CP_STATE_CAPDET ∧
      (state_update kconfig_example (env_plain [] 5000) {}
        (pd_cp_completed OSDP_CP_STATE_IDREQ REPLY_NAK)).pd.cmd_queue = [{ id := CMD_CAP }]) ∧
    (state_update kconfig_example (env_plain [] 5000) {}
      (pd_cp_completed OSDP_CP_STATE_CAPDET REPLY_NAK)).pd.state = OSDP_CP_STATE_SC_INIT ∧
    (state_update kconfig_example (env_plain [] 5000) {}
      { pd_cp_completed OSDP_CP_STATE_CAPDET REPLY_NAK with
        flags := { AWAIT_RESP := true } }).pd.state = OSDP_CP_STATE_ONLINE ∧
    (state_update_run kconfig_example {}
      [env_plain [] 0, env_plain [] 50, env_plain [0x41, 0x03] 100, env_plain [] 150,
       env_plain [] 200] pd_cp_init).map
        (fun r => (r.pd.state, r.pd.reply_id, r.pd.cmd_queue.map (fun c => c.id))) =
      [(1, 0, [0x61]), (1, 0, []), (1, 0x41, []), (1, 0x41, []), (2, 0x41, [0x62])] := by
  have h1 := (C33_unexpected_reply_goes_on kconfig_example (env_plain [] 5000) {}
    (pd_cp_completed OSDP_CP_STATE_IDREQ REPLY_NAK) rfl rfl rfl).1 rfl (by decide)
  have h2 := (C33_unexpected_reply_goes_on kconfig_example (env_plain [] 5000) {}
    (pd_cp_completed OSDP_CP_STATE_CAPDET REPLY_NAK) rfl rfl rfl).2 rfl (by decide)
  have h3 := (C33_unexpected_reply_goes_on kconfig_example (env_plain [] 5000) {}
    { pd_cp_completed OSDP_CP_STATE_CAPDET REPLY_NAK with flags := { AWAIT_RESP := true } }
    rfl rfl rfl).2 rfl (by decide)
  exact ⟨⟨h1.1, h1.2.2.2 (by decide)⟩, h2.1, h3.1, by decide⟩

/-! ### C34: ONLINE with the phy in ERR_WAIT -/

/-- C34, as the code has it: a PD context in SC_CHLNG whose CHLNG command has ended in
a phy error (the phy is in ERR or ERR_WAIT, AWAIT_RESP is set) after SCBK-D has been
tried (SC_SCBKD_DONE set) is set ONLINE by the tick with the phy left in ERR_WAIT:
the phy state is reset only on the branch that retries with SCBK-D. The very next
tick, whatever its time and received bytes, finds the phy error with the session
ONLINE, calls `cp_set_offline` and ends OFFLINE. -/
theorem C34_online_with_phy_in_err_wait (cfg : osdp_kconfig) (env1 env2 : osdp_env)
    (cp : osdp_cp) (pd : osdp_pd)
    (hst : pd.state = OSDP_CP_STATE_SC_CHLNG)
    (hphy : pd.phy_state = OSDP_CP_PHY_STATE_ERR ∨ pd.phy_state = OSDP_CP_PHY_STATE_ERR_WAIT)
    (hawait : pd.flags.AWAIT_RESP = true)
    (hdone : pd.flags.SC_SCBKD_DONE = true) :
    (state_update cfg env1 cp pd).pd.state = OSDP_CP_STATE_ONLINE ∧
    (state_update cfg env1 cp pd).pd.phy_state = OSDP_CP_PHY_STATE_ERR_WAIT ∧
    (state_update cfg env2 cp (state_update cfg env1 cp pd).pd).pd.state =
      OSDP_CP_STATE_OFFLINE ∧
    (state_update cfg env2 cp (state_update cfg env1 cp pd).pd).pd.tstamp = env2.millis_now := by
  have hst2 : pd.state = 4 := by simpa using hst
  have h1 : (state_update cfg env1 cp pd).pd.state = OSDP_CP_STATE_ONLINE ∧
      (state_update cfg env1 cp pd).pd.phy_state = OSDP_CP_PHY_STATE_ERR_WAIT := by
    rcases hphy with h | h
    · rw [state_update, cp_phy_state_update_err env1 cp pd h]
      simp [state_update_session, hst2, state_update_switch, state_update_sc_chlng,
        cp_cmd_dispatcher, hawait, hdone, cp_set_state]
    · rw [state_update, cp_phy_state_update_err_wait env1 cp pd h]
      have h2 : pd.phy_state = 5 := by simpa using h
      simp [state_update_session, hst2, state_update_switch, state_update_sc_chlng,
        cp_cmd_dispatcher, hawait, hdone, cp_set_state, h2]
  obtain ⟨hs, hp⟩ := h1
  refine ⟨hs, hp, ?_⟩
  rw [state_update, cp_phy_state_update_err_wait env2 cp _ hp]
  have hs2 : (state_update cfg env1 cp pd).pd.state = 7 := by simpa using hs
  generalize (state_update cfg env1 cp pd).pd = q at hs2
  simp [state_update_session, hs2, cp_set_offline, state_update_switch, state_update_offline,
    osdp_millis_since]

/-- C34 on a PD context in SC_CHLNG with the phy in ERR, AWAIT_RESP and both SCBK-D
flags set: the tick at time 5000 ends ONLINE with the phy in ERR_WAIT, and the tick
at time 5050 ends OFFLINE. -/
theorem C34_online_with_phy_in_err_wait_example :
    (state_update kconfig_example (env_plain [] 5000) {}
      { pd_cp_chlng_failed with
        flags := { AWAIT_RESP := true, SC_CAPABLE := true, SC_USE_SCBKD := true,
                   SC_SCBKD_DONE := true } }).pd.state = OSDP_CP_STATE_ONLINE ∧
    (state_update kconfig_example (env_plain [] 5000) {}
      { pd_cp_chlng_failed with
        flags := { AWAIT_RESP := true, SC_CAPABLE := true, SC_USE_SCBKD := true,
                   SC_SCBKD_DONE := true } }).pd.phy_state = OSDP_CP_PHY_STATE_ERR_WAIT ∧
    (state_update kconfig_example (env_plain [] 5050) {}
      (state_update kconfig_example (env_plain [] 5000) {}
        { pd_cp_chlng_failed with
          flags := { AWAIT_RESP := true, SC_CAPABLE := true, SC_USE_SCBKD := true,
                     SC_SCBKD_DONE := true } }).pd).pd.state = OSDP_CP_STATE_OFFLINE := by
  have h := C34_online_with_phy_in_err_wait kconfig_example (env_plain [] 5000)
    (env_plain [] 5050) {}
    { pd_cp_chlng_failed with
      flags := { AWAIT_RESP := true, SC_CAPABLE := true, SC_USE_SCBKD := true,
                 SC_SCBKD_DONE := true } }
    rfl (Or.inl rfl) rfl rfl
  exact ⟨h.1, h.2.1, h.2.2.1⟩

/-! ### C35: the KEYSET broadcast that fails part-way -/

/-- The loop of `osdp_cp_send_command_keyset` over PDs of which the first with an
empty pool is `p`: it returns -1, and every PD before `p` has its KEYSET command
queued. -/
theorem osdp_cp_send_command_keyset_loop_stops (ptr_image : osdp_cmd_keyset) (p : osdp_pd)
    (post : List osdp_pd) (hp : p.cmd_slab_free = 0) :
    ∀ pre : List osdp_pd, (∀ q ∈ pre, 0 < q.cmd_slab_free) →
      osdp_cp_send_command_keyset_loop ptr_image (pre ++ p :: post) =
        (-1, pre.map (fun q =>
          cp_cmd_enqueue { q with cmd_slab_free := q.cmd_slab_free - 1 }
            { id := CMD_KEYSET, keyset := ptr_image }) ++ p :: post)
  | [], _ => by
    simp [osdp_cp_send_command_keyset_loop, cp_cmd_alloc, hp]
  | q :: pre, h => by
    have hq : q.cmd_slab_free ≠ 0 := by
      have := h q (List.mem_cons_self _ _)
      omega
    have ih := osdp_cp_send_command_keyset_loop_stops ptr_image p post hp pre
      (fun r hr => h r (List.mem_cons_of_mem _ hr))
    simp [osdp_cp_send_command_keyset_loop, cp_cmd_alloc, hq, ih]

/-- C35, as the code has it: `osdp_cp_send_command` with a KEYSET command for a valid,
ONLINE PD. When not every PD is ONLINE with SC_ACTIVE it returns 1 and leaves the
context as it was. When every PD is, and `p` is the first PD whose pool is empty, it
returns -1, the queues of `p` and of the PDs after it are unchanged, but every PD
before `p` has one KEYSET command more in its queue: the commands queued before the
allocation failed are not taken back. -/
theorem C35_keyset_broadcast_not_undone (ctx : osdp) (ptr_image : osdp_cmd_keyset) (pd : Int)
    (cmd : osdp_cmd) (hpd : 0 ≤ pd ∧ pd < (ctx.pd.length : Int))
    (hid : cmd.id = OSDP_CMD_KEYSET)
    (hst : ∀ target, ctx.pd.get? pd.toNat = some target →
      target.state = OSDP_CP_STATE_ONLINE) :
    (sc_status_is_pd_mask ctx = false →
      osdp_cp_send_command ctx ptr_image pd cmd = (1, ctx)) ∧
    (sc_status_is_pd_mask ctx = true →
      ∀ (pre : List osdp_pd) (p : osdp_pd) (post : List osdp_pd),
        ctx.pd = pre ++ p :: post → (∀ q ∈ pre, 0 < q.cmd_slab_free) → p.cmd_slab_free = 0 →
        (osdp_cp_send_command ctx ptr_image pd cmd).1 = -1 ∧
        (osdp_cp_send_command ctx ptr_image pd cmd).2.pd.map (fun q => q.cmd_queue) =
          pre.map (fun q => q.cmd_queue ++ [{ id := CMD_KEYSET, keyset := ptr_image }]) ++
            (p :: post).map (fun q => q.cmd_queue)) := by
  have hlt : pd.toNat < ctx.pd.length := by omega
  have h0 : ¬ (pd < 0 ∨ pd ≥ (ctx.pd.length : Int)) := by omega
  have hget : ctx.pd.get? pd.toNat = some (ctx.pd.get ⟨pd.toNat, hlt⟩) := List.get?_eq_get hlt
  have hst1 := hst _ hget
  have hst2 : ctx.pd[pd.toNat].state = 7 := hst1
  have hc : cmd.id = 5 := by simpa using hid
  have key : osdp_cp_send_command ctx ptr_image pd cmd =
      osdp_cp_send_command_keyset ctx ptr_image := by
    simp only [osdp_cp_send_command, if_neg h0, hget]
    simp [hst2, hc]
  rw [key]
  refine ⟨?_, ?_⟩
  · intro hmask
    simp [osdp_cp_send_command_keyset, hmask]
  · intro hmask pre p post hctx hpre hp
    have hloop := osdp_cp_send_command_keyset_loop_stops ptr_image p post hp pre hpre
    simp only [osdp_cp_send_command_keyset, hmask, hctx, hloop]
    simp [cp_cmd_enqueue, Function.comp_def]

/-- C35 on a CP with two PDs that are ONLINE with SC_ACTIVE, the first with four free
blocks and the second with none: the KEYSET command is refused with -1, and the first
PD has a KEYSET command in its queue all the same. With a second PD that is not
SC_ACTIVE the call returns 1 and no queue is changed. -/
theorem C35_keyset_broadcast_not_undone_example :
    (osdp_cp_send_command
      { pd := [pd_cp_sc_online, { pd_cp_sc_online with cmd_slab_free := 0 }] } {} 0
      cmd_keyset_example).1 = -1 ∧
    (osdp_cp_send_command
      { pd := [pd_cp_sc_online, { pd_cp_sc_online with cmd_slab_free := 0 }] } {} 0
      cmd_keyset_example).2.pd.map (fun q => q.cmd_queue.map (fun c => c.id)) =
      [[CMD_KEYSET], []] ∧
    [pd_cp_sc_online, { pd_cp_sc_online with cmd_slab_free := 0 }].map
      (fun q => q.cmd_queue.map (fun c => c.id)) = [[], []] ∧
    osdp_cp_send_command
      { pd := [pd_cp_sc_online, { pd_cp_sc_online with flags := {} }] } {} 0
      cmd_keyset_example =
      (1, { pd := [pd_cp_sc_online, { pd_cp_sc_online with flags := {} }] }) := by
  have h := (C35_keyset_broadcast_not_undone
    { pd := [pd_cp_sc_online, { pd_cp_sc_online with cmd_slab_free := 0 }] } {} 0
    cmd_keyset_example (by decide) rfl
    (fun target ht => by
      have e : target = pd_cp_sc_online := (Option.some.inj ht).symm
      rw [e]
      rfl)).2 (by decide) [pd_cp_sc_online] { pd_cp_sc_online with cmd_slab_free := 0 } []
    rfl (by decide) rfl
  have h2 := (C35_keyset_broadcast_not_undone
    { pd := [pd_cp_sc_online, { pd_cp_sc_online with flags := {} }] } {} 0
    cmd_keyset_example (by decide) rfl
    (fun target ht => by
      have e : target = pd_cp_sc_online := (Option.some.inj ht).symm
      rw [e]
      rfl)).1 (by decide)
  refine ⟨h.1, ?_, by decide, h2⟩
  have h3 := congrArg (List.map (fun q : List osdp_cmd => q.map (fun c => c.id))) h.2
  simpa [pd_cp_sc_online, pd_example_sc, Function.comp_def] using h3

/-! ### C36: the function codes that the PDCAP decoder stores -/

/-- The loop of the PDCAP case never writes an entry above the sentinel. -/
theorem cp_decode_pdcap_above (buf : List Nat) (len : Int) (fc : Nat)
    (hfc : OSDP_PD_CAP_SENTINEL < fc) :
    ∀ (fuel pos : Nat) (cap : Nat → osdp_pd_cap),
      cp_decode_pdcap buf len fuel pos cap fc = cap fc := by
  intro fuel
  induction fuel with
  | zero =>
    intro pos cap
    rfl
  | succ f ih =>
    intro pos cap
    rw [cp_decode_pdcap]
    by_cases h1 : (pos : Int) < len
    · rw [if_pos h1]
      by_cases h2 : rd buf pos > OSDP_PD_CAP_SENTINEL
      · rw [if_pos h2]
      · rw [if_neg h2, ih]
        have hne : ¬ fc = rd buf pos := by
          intro h
          rw [← h] at h2
          exact h2 hfc
        simp only [if_neg hne]
    · rw [if_neg h1]

/-- A PDCAP reply whose payload is the triples `ts`, every function code at most the
sentinel, is accepted and all its triples are recorded. -/
theorem cp_decode_response_pdcap_records (ops : osdp_sc_ops) (cp : osdp_cp) (pd : osdp_pd)
    (ts : List (Nat × Nat × Nat)) (hfc : ∀ t ∈ ts, t.1 ≤ OSDP_PD_CAP_SENTINEL) :
    (cp_decode_response ops cp pd (REPLY_PDCAP :: pdcap_payload ts) (1 + 3 * ts.length)).ret
      = 0 ∧
    (cp_decode_response ops cp pd (REPLY_PDCAP :: pdcap_payload ts)
      (1 + 3 * ts.length)).pd.cap = record_caps pd.cap ts := by
  have hloop := cp_decode_pdcap_records ts [REPLY_PDCAP] pd.cap (3 * ts.length)
    (by omega) hfc
  have hmod : ((1 : Int) + 3 * (ts.length : Int) - 1) % 3 = 0 := by omega
  have htn : ((1 : Int) + 3 * (ts.length : Int) - 1).toNat = 3 * ts.length := by omega
  have e : (3 * (ts.length : Int)).toNat = 3 * ts.length := by omega
  simp only [cp_decode_response, cp_decode_response_switch, rd, REPLY_PDCAP] at hloop ⊢
  simp at hloop
  simp [hmod, htn, e, hloop]

/-- C36, as the code has it: the loop of the PDCAP case of `cp_decode_response` leaves
at a function code above `OSDP_PD_CAP_SENTINEL` (its test is `t1 >
OSDP_PD_CAP_SENTINEL`), so an entry above the sentinel is never written, whatever the
reply; but a triple whose function code equals the sentinel is stored, at
`cap[OSDP_PD_CAP_SENTINEL]`: for every PDCAP reply of triples with function codes up
to the sentinel the decoder returns 0, and the entry of the sentinel is the last
triple that names it. -/
theorem C36_pdcap_sentinel_is_stored (ops : osdp_sc_ops) (cp : osdp_cp) (pd : osdp_pd) :
    (∀ (buf : List Nat) (len : Int) (fc : Nat), rd buf 0 = REPLY_PDCAP →
      OSDP_PD_CAP_SENTINEL < fc →
      (cp_decode_response ops cp pd buf len).pd.cap fc = pd.cap fc) ∧
    (∀ (ts pre post : List (Nat × Nat × Nat)) (c n : Nat),
      (∀ t ∈ ts, t.1 ≤ OSDP_PD_CAP_SENTINEL) →
      ts = pre ++ (OSDP_PD_CAP_SENTINEL, c, n) :: post →
      (∀ t ∈ post, t.1 ≠ OSDP_PD_CAP_SENTINEL) →
      (cp_decode_response ops cp pd (REPLY_PDCAP :: pdcap_payload ts)
        (1 + 3 * ts.length)).ret = OSDP_CP_ERR_NONE ∧
      (cp_decode_response ops cp pd (REPLY_PDCAP :: pdcap_payload ts)
        (1 + 3 * ts.length)).pd.cap OSDP_PD_CAP_SENTINEL =
        { function_code := OSDP_PD_CAP_SENTINEL, compliance_level := c, num_items := n }) := by
  refine ⟨?_, ?_⟩
  · intro buf len fc hid hfc
    have hid2 : rd buf 0 = 70 := by simpa using hid
    have hloop : ∀ fuel, cp_decode_pdcap buf (len - 1) fuel 1 pd.cap fc = pd.cap fc :=
      fun fuel => cp_decode_pdcap_above buf (len - 1) fc hfc fuel 1 pd.cap
    simp only [cp_decode_response, cp_decode_response_switch, hid2]
    simp only [REPLY_ACK, REPLY_NAK, REPLY_PDID, REPLY_PDCAP, Nat.reduceEqDiff, if_false,
      if_true]
    split_ifs <;> simp [hloop]
  · intro ts pre post c n hle hts hpost
    obtain ⟨h1, h2⟩ := cp_decode_response_pdcap_records ops cp pd ts hle
    refine ⟨h1, ?_⟩
    rw [h2, hts]
    exact record_caps_of_last pre post OSDP_PD_CAP_SENTINEL c n pd.cap hpost

/-- C36 on the PDCAP reply 46 0F 01 02, one triple with the function code 15, which is
the sentinel: the decoder returns 0 and the entry 15 of the capability map holds the
triple. A triple with the function code 16 is not stored. -/
theorem C36_pdcap_sentinel_is_stored_example :
    OSDP_PD_CAP_SENTINEL = 15 ∧
    (cp_decode_response sc_ops_null {} {} [0x46, 15, 1, 2] 4).ret = 0 ∧
    (cp_decode_response sc_ops_null {} {} [0x46, 15, 1, 2] 4).pd.cap 15 =
      { function_code := 15, compliance_level := 1, num_items := 2 } ∧
    (cp_decode_response sc_ops_null {} {} [0x46, 16, 1, 2] 4).pd.cap 16 = {} := by
  have h := C36_pdcap_sentinel_is_stored sc_ops_null {} {}
  have h1 := h.2 [(15, 1, 2)] [] [] 1 2 (by decide) rfl (by intro t ht; cases ht)
  have h2 := h.1 [0x46, 16, 1, 2] 4 16 rfl (by decide)
  exact ⟨rfl, h1.1, h1.2, h2⟩

/-! ### C37: a fixed-length command with a wrong length -/

/-- The reply built for a PD context in which no reply was selected (`reply_id` 0),
with room for two bytes: NAK with the reason RECORD. -/
theorem pd_build_reply_no_reply (ops : osdp_sc_ops) (pd : osdp_pd) (data_off : Int)
    (smb : Option osdp_smb) (max_len : Int) (hid : pd.reply_id = 0)
    (hroom : REPLY_NAK_LEN ≤ max_len - data_off) :
    (pd_build_reply ops pd data_off smb max_len).out = [REPLY_NAK, OSDP_PD_NAK_RECORD] := by
  have hr : ¬ (max_len - data_off < 2) := by simpa using hroom
  simp [pd_build_reply, pd_build_reply_switch, hid, hr]

/-- C37, as the code has it: for every command id with a fixed payload length (POLL,
LSTAT, RSTAT, ID, CAP, OUT, LED, BUZ, COMSET) received with another payload length,
`pd_decode_command` returns -1 from `ASSERT_LENGTH` without calling the application
callback and without selecting a reply (`reply_id` stays 0, `cmd_data[0]` is
untouched); the reply that `pd_build_reply` then builds is the two bytes NAK, RECORD
(41 09), not NAK, CMD_LEN (41 02). -/
theorem C37_wrong_length_reply (ops : osdp_sc_ops) (pd : osdp_pd) (buf : List Nat)
    (len : Int) (exp : Int) (data_off : Int) (smb : Option osdp_smb) (max_len : Int)
    (hid : (rd buf 0, exp) ∈ cmd_fixed_data_len)
    (hlen : len - 1 ≠ exp)
    (hroom : REPLY_NAK_LEN ≤ max_len - data_off) :
    ∃ d, pd_decode_command ops pd buf len = some d ∧
      d.ret = OSDP_PD_ERR_GENERIC ∧
      d.pd.cb_log = pd.cb_log ∧
      d.pd.reply_id = 0 ∧
      d.pd.cmd_data_0 = pd.cmd_data_0 ∧
      (pd_build_reply ops d.pd data_off smb max_len).out = [REPLY_NAK, OSDP_PD_NAK_RECORD] ∧
      (pd_build_reply ops d.pd data_off smb max_len).out ≠ [REPLY_NAK, OSDP_PD_NAK_CMD_LEN] := by
  have hd : pd_decode_command ops pd buf len =
      some { ret := OSDP_PD_ERR_GENERIC, pd := { pd with reply_id := 0, cmd_id := rd buf 0 },
             pos := 1 } := by
    simp only [cmd_fixed_data_len, List.mem_cons, List.mem_singleton, Prod.mk.injEq,
      List.mem_nil_iff, or_false] at hid
    rcases hid with h | h | h | h | h | h | h | h | h <;>
      obtain ⟨h1, h2⟩ := h <;>
      rw [h2] at hlen <;>
      simp only [CMD_POLL, CMD_LSTAT, CMD_RSTAT, CMD_ID, CMD_CAP, CMD_OUT, CMD_LED, CMD_BUZ,
        CMD_COMSET] at h1 <;>
      simp only [CMD_POLL_DATA_LEN, CMD_LSTAT_DATA_LEN, CMD_RSTAT_DATA_LEN, CMD_ID_DATA_LEN,
        CMD_CAP_DATA_LEN, CMD_OUT_DATA_LEN, CMD_LED_DATA_LEN, CMD_BUZ_DATA_LEN,
        CMD_COMSET_DATA_LEN, ne_eq] at hlen <;>
      simp [pd_decode_command, pd_decode_command_switch, pd_decode_command_switch_tail, h1, hlen]
  have hb := pd_build_reply_no_reply ops { pd with reply_id := 0, cmd_id := rd buf 0 }
    data_off smb max_len rfl hroom
  refine ⟨_, hd, rfl, rfl, rfl, rfl, hb, ?_⟩
  rw [hb]
  decide

/-- C37 on the PD `pd_example`: a POLL with one byte too many (60 01), an ID command
without its byte (61) and a buzzer command with four payload bytes instead of five
are each answered with 41 09, and the callback log stays empty; through `osdp_update`
over a packet layer without framing the frame sent for the POLL is 41 09. -/
theorem C37_wrong_length_reply_examples :
    (∃ d, pd_decode_command sc_ops_null pd_example [0x60, 1] 2 = some d ∧
      d.pd.cb_log = [] ∧
      (pd_build_reply sc_ops_null d.pd 0 none 256).out = [0x41, 0x09]) ∧
    (∃ d, pd_decode_command sc_ops_null pd_example [0x61] 1 = some d ∧
      d.pd.cb_log = [] ∧
      (pd_build_reply sc_ops_null d.pd 0 none 256).out = [0x41, 0x09]) ∧
    (∃ d, pd_decode_command sc_ops_null pd_example [0x6A, 0, 2, 1, 1] 5 = some d ∧
      d.pd.cb_log = [] ∧
      (pd_build_reply sc_ops_null d.pd 0 none 256).out = [0x41, 0x09]) ∧
    (osdp_update (env_plain [0x60, 1] 0) pd_example).map (fun r => r.sent) =
      some [[0x41, 0x09]] := by
  obtain ⟨d1, a1, _, a3, _, _, a6, _⟩ := C37_wrong_length_reply sc_ops_null pd_example
    [0x60, 1] 2 0 0 none 256 (by decide) (by decide) (by decide)
  obtain ⟨d2, b1, _, b3, _, _, b6, _⟩ := C37_wrong_length_reply sc_ops_null pd_example
    [0x61] 1 1 0 none 256 (by decide) (by decide) (by decide)
  obtain ⟨d3, c1, _, c3, _, _, c6, _⟩ := C37_wrong_length_reply sc_ops_null pd_example
    [0x6A, 0, 2, 1, 1] 5 5 0 none 256 (by decide) (by decide) (by decide)
  exact ⟨⟨d1, a1, a3, a6⟩, ⟨d2, b1, b3, b6⟩, ⟨d3, c1, c3, c6⟩, by decide⟩

end Osdp
